import Mathlib

/-!
# ExchangePolygonicaBridge: tessellation decoder, solid builder, traversal and teardown

A shallow embedding of `include/ExchangePolygonicaBridge.h`.

Conventions of the embedding.

* A C pointer to 32-bit words (`A3DUns32*`) is a map `Nat → Nat` from the word
  offset to the word stored there; every read reduces the word modulo `2^32`.
  The declared element counts are separate fields, exactly as in the C structs.
* The cursor `puiTriangulatedIndexes` is kept as a word offset from
  `sTessData.m_puiTriangulatedIndexes`.
* `unsigned` / `A3DUns32` arithmetic is reduced modulo `2^32`, `A3DUns16`
  modulo `2^16`.
* `std::vector<unsigned>` is `List Nat`, `std::vector<PTInt32>` is `List Int`
  (an unsigned word stored into it is reinterpreted as a signed 32-bit value).
* `double` and `float` values are elements of a ring of exact scalars: the matrices are
  over any ring `R`, the colour channels are rationals.
* The CAD SDK and the geometry engine are not part of the repository. The values of
  their constants are parameters, and what their functions answer is carried by the
  nodes of the model the bridge traverses; the calls made to the engine are logged in
  the state.
* A function that may call through a `nullptr` logger, or read through a `NULL` pointer,
  returns an `Option`: `none` means that the call does not return.
* Where it matters which cells a call writes, the same source lines are also read as
  assignments to a memory of doubles (`MultiplyMatrixAt`, `stTransformAt`).
-/

namespace ExchangePolygonicaBridge

/-! ## Machine words -/

/-- Reduction of a natural number to an `A3DUns32` / `unsigned` value. -/
def u32 (x : Nat) : Nat := x % 4294967296

/-- Reduction of a natural number to an `A3DUns16` value. -/
def u16 (x : Nat) : Nat := x % 65536

/-- Unsigned 32-bit subtraction `a - b` of two `A3DUns32` values, with wrap-around. -/
def u32sub (a b : Nat) : Nat := (u32 a + 4294967296 - u32 b) % 4294967296

/-- Read of the word at offset `i` through an `A3DUns32*`. -/
def rd (p : Nat → Nat) (i : Nat) : Nat := u32 (p i)

/-- Conversion of an unsigned 32-bit word to `PTInt32` (two's complement). -/
def toInt32 (w : Nat) : Int :=
  if u32 w < 2147483648 then (u32 w : Int) else (u32 w : Int) - 4294967296

/-! ## Data model -/

/-- Status codes returned by the decoder. -/
inductive A3DStatus
  | A3D_SUCCESS
  | A3D_ERROR
  deriving DecidableEq, Repr

/-- The `kA3DTessFaceData...` constants tested by the decoder. They are declared
in the CAD SDK headers, which are not part of the repository, so the decoder is
parameterised by their values. -/
structure TessFlagValues where
  kA3DTessFaceDataTriangle : Nat
  kA3DTessFaceDataTriangleFan : Nat
  kA3DTessFaceDataTriangleStripe : Nat
  kA3DTessFaceDataTriangleOneNormal : Nat
  kA3DTessFaceDataTriangleFanOneNormal : Nat
  kA3DTessFaceDataTriangleStripeOneNormal : Nat
  kA3DTessFaceDataTriangleTextured : Nat
  kA3DTessFaceDataTriangleFanTextured : Nat
  kA3DTessFaceDataTriangleStripeTextured : Nat
  kA3DTessFaceDataTriangleOneNormalTextured : Nat
  kA3DTessFaceDataTriangleFanOneNormalTextured : Nat
  kA3DTessFaceDataTriangleStripeOneNormalTextured : Nat
  kA3DTessFaceDataNormalMask : Nat
  kA3DTessFaceDataNormalSingle : Nat

/-- The fields of `A3DTessFaceData` read by the decoder. -/
structure A3DTessFaceData where
  m_usUsedEntitiesFlags : Nat
  m_uiSizesTriangulatedSize : Nat
  m_puiSizesTriangulated : Nat → Nat
  m_uiStartTriangulated : Nat
  m_uiTextureCoordIndexesSize : Nat

/-- The fields of `A3DTess3DData` read by the decoder. -/
structure A3DTess3DData where
  m_psFaceTessData : Nat → A3DTessFaceData
  m_uiFaceTessSize : Nat
  m_puiTriangulatedIndexes : Nat → Nat
  m_uiTriangulatedIndexSize : Nat

/-- The local variables of `IndicesPerFaceAsTriangles` together with the two
containers it receives by reference. -/
@[ext] structure DecodeState where
  puiTriangulatedIndexes : Nat
  uiCurrentSize : Nat
  unprocessed_flags : Nat
  auIndices : List Nat
  normal_indices : List Int

/-! ## Building blocks -/

/-- The macro `COPY_(dest, src, size_)`: when `size_` is non-zero, the `size_`
words starting at `src` are appended to `dest` (converted to its element type). -/
def COPY_ {α : Type} (conv : Nat → α) (dest : List α) (mem : Nat → Nat) (src size_ : Nat) :
    List α :=
  if size_ ≠ 0 then dest ++ (List.range size_).map (fun k => conv (rd mem (src + k))) else dest

/-- A counted loop `for (u = i; u < i + n; u++) body(u)`. -/
def forLoop {σ : Type} (body : Nat → σ → σ) : Nat → Nat → σ → σ
  | _, 0, s => s
  | i, n + 1, s => forLoop body (i + 1) n (body i s)

/-- The test `flags & k` of a C `if`. -/
def hasFlag (flags k : Nat) : Bool := (flags &&& k) != 0

/-- The update `unprocessed_flags &= ~k` on a 16-bit flag word. -/
def clearFlag (flags k : Nat) : Nat := flags &&& (65535 ^^^ k)

namespace DecodeState

/-- The step `COPY_(normal_indices, base + src, size_)`. -/
def copyNormal (s : DecodeState) (mem : Nat → Nat) (src size_ : Nat) : DecodeState :=
  { s with normal_indices := COPY_ toInt32 s.normal_indices mem src size_ }

/-- The step `COPY_(auIndices, base + src, size_)`. -/
def copyIndex (s : DecodeState) (mem : Nat → Nat) (src size_ : Nat) : DecodeState :=
  { s with auIndices := COPY_ id s.auIndices mem src size_ }

/-- The step `puiTriangulatedIndexes += n`. -/
def advance (s : DecodeState) (n : Nat) : DecodeState :=
  { s with puiTriangulatedIndexes := s.puiTriangulatedIndexes + n }

/-- The step `unprocessed_flags &= ~k`. -/
def strip (s : DecodeState) (k : Nat) : DecodeState :=
  { s with unprocessed_flags := clearFlag s.unprocessed_flags k }

/-- The step `uiCurrentSize++`. -/
def nextSize (s : DecodeState) : DecodeState :=
  { s with uiCurrentSize := u32 (s.uiCurrentSize + 1) }

end DecodeState

/-! ## The seven decoding blocks of `IndicesPerFaceAsTriangles` -/

/-- One corner of a plain triangle (body of `for (int i = 0; i < 3; i++)`,
lines 276-279): the normal word, then the vertex word. -/
def triangleCorner (buf : Nat → Nat) (s : DecodeState) : DecodeState :=
  let s := s.copyNormal buf s.puiTriangulatedIndexes 1
  let s := s.advance 1
  let s := s.copyIndex buf s.puiTriangulatedIndexes 1
  s.advance 1

/-- One plain triangle (body of the loop over `uNbTriangles`, lines 274-280). -/
def triangleBody (buf : Nat → Nat) (s : DecodeState) : DecodeState :=
  forLoop (fun _ s => triangleCorner buf s) 0 3 s

/-- The block guarded by `kA3DTessFaceDataTriangle` (lines 267-282). -/
def triangleBlock (K : TessFlagValues) (f : A3DTessFaceData) (buf : Nat → Nat)
    (s : DecodeState) : DecodeState :=
  if hasFlag (u16 f.m_usUsedEntitiesFlags) K.kA3DTessFaceDataTriangle then
    let s := s.strip K.kA3DTessFaceDataTriangle
    let uNbTriangles := rd f.m_puiSizesTriangulated s.uiCurrentSize
    let s := s.nextSize
    forLoop (fun _ s => triangleBody buf s) 0 uNbTriangles s
  else s

/-- One triangle of a fan (body of the loop over `uIPoint`, lines 301-307). -/
def fanInner (buf : Nat → Nat) (pFanPointNormalIndice pFanPointIndice : Nat)
    (s : DecodeState) : DecodeState :=
  let s := s.copyNormal buf pFanPointNormalIndice 1
  let s := s.copyIndex buf pFanPointIndice 1
  let s := s.copyNormal buf (s.puiTriangulatedIndexes - 1) 1
  let s := s.copyIndex buf s.puiTriangulatedIndexes 1
  let s := s.copyNormal buf (s.puiTriangulatedIndexes + 1) 1
  let s := s.copyIndex buf (s.puiTriangulatedIndexes + 2) 1
  s.advance 2

/-- One fan (body of the loop over `uiFan`, lines 291-309). -/
def fanBody (f : A3DTessFaceData) (buf : Nat → Nat) (s : DecodeState) : DecodeState :=
  let uiNbPoint := rd f.m_puiSizesTriangulated s.uiCurrentSize
  let s := s.nextSize
  let pFanPointNormalIndice := s.puiTriangulatedIndexes
  let s := s.advance 1
  let pFanPointIndice := s.puiTriangulatedIndexes
  let s := s.advance 2
  let s := forLoop (fun _ s => fanInner buf pFanPointNormalIndice pFanPointIndice s)
    1 (u32sub uiNbPoint 1 - 1) s
  s.advance 1

/-- The block guarded by `kA3DTessFaceDataTriangleFan` (lines 284-311). -/
def fanBlock (K : TessFlagValues) (f : A3DTessFaceData) (buf : Nat → Nat)
    (s : DecodeState) : DecodeState :=
  if hasFlag (u16 f.m_usUsedEntitiesFlags) K.kA3DTessFaceDataTriangleFan then
    let s := s.strip K.kA3DTessFaceDataTriangleFan
    let uiNbFan := rd f.m_puiSizesTriangulated s.uiCurrentSize
    let s := s.nextSize
    forLoop (fun _ s => fanBody f buf s) 0 uiNbFan s
  else s

/-- One triangle of a strip (body of the loop over `uIPoint`, lines 326-342). -/
def stripeInner (buf : Nat → Nat) (uIPoint : Nat) (s : DecodeState) : DecodeState :=
  let s := s.copyNormal buf (s.puiTriangulatedIndexes - 1) 1
  let s := s.copyIndex buf s.puiTriangulatedIndexes 1
  let s :=
    if uIPoint % 2 ≠ 0 then
      let s := s.copyNormal buf (s.puiTriangulatedIndexes - 3) 1
      let s := s.copyIndex buf (s.puiTriangulatedIndexes - 2) 1
      let s := s.copyNormal buf (s.puiTriangulatedIndexes + 1) 1
      s.copyIndex buf (s.puiTriangulatedIndexes + 2) 1
    else
      let s := s.copyNormal buf (s.puiTriangulatedIndexes + 1) 1
      let s := s.copyIndex buf (s.puiTriangulatedIndexes + 2) 1
      let s := s.copyNormal buf (s.puiTriangulatedIndexes - 3) 1
      s.copyIndex buf (s.puiTriangulatedIndexes - 2) 1
  s.advance 2

/-- One strip (body of the loop over `uiStripe`, lines 321-344). -/
def stripeBody (f : A3DTessFaceData) (buf : Nat → Nat) (s : DecodeState) : DecodeState :=
  let uiNbPoint := rd f.m_puiSizesTriangulated s.uiCurrentSize
  let s := s.nextSize
  let s := s.advance 3
  let s := forLoop (fun uIPoint s => stripeInner buf uIPoint s) 0 (u32sub uiNbPoint 2) s
  s.advance 1

/-- The block guarded by `kA3DTessFaceDataTriangleStripe` (lines 313-346). -/
def stripeBlock (K : TessFlagValues) (f : A3DTessFaceData) (buf : Nat → Nat)
    (s : DecodeState) : DecodeState :=
  if hasFlag (u16 f.m_usUsedEntitiesFlags) K.kA3DTessFaceDataTriangleStripe then
    let s := s.strip K.kA3DTessFaceDataTriangleStripe
    let uiNbStripe := rd f.m_puiSizesTriangulated s.uiCurrentSize
    let s := s.nextSize
    forLoop (fun _ s => stripeBody f buf s) 0 uiNbStripe s
  else s

/-- One one-normal triangle (body of the loop over `uNbTriangles`, lines 355-360):
the shared normal word three times, then three vertex words. -/
def triangleOneNormalBody (buf : Nat → Nat) (s : DecodeState) : DecodeState :=
  let s := s.copyNormal buf s.puiTriangulatedIndexes 1
  let s := s.copyNormal buf s.puiTriangulatedIndexes 1
  let s := s.copyNormal buf s.puiTriangulatedIndexes 1
  let s := s.advance 1
  let s := s.copyIndex buf s.puiTriangulatedIndexes 3
  s.advance 3

/-- The block guarded by `kA3DTessFaceDataTriangleOneNormal` (lines 348-362). -/
def triangleOneNormalBlock (K : TessFlagValues) (f : A3DTessFaceData) (buf : Nat → Nat)
    (s : DecodeState) : DecodeState :=
  if hasFlag (u16 f.m_usUsedEntitiesFlags) K.kA3DTessFaceDataTriangleOneNormal then
    let s := s.strip K.kA3DTessFaceDataTriangleOneNormal
    let uNbTriangles := rd f.m_puiSizesTriangulated s.uiCurrentSize
    let s := s.nextSize
    forLoop (fun _ s => triangleOneNormalBody buf s) 0 uNbTriangles s
  else s

/-- One triangle of a one-normal fan (body of the loop over `uIPoint`, lines 378-384). -/
def fanOneNormalInner (buf : Nat → Nat) (pFanPointIndice : Nat) (s : DecodeState) :
    DecodeState :=
  let s := s.copyNormal buf (pFanPointIndice - 1) 1
  let s := s.copyIndex buf pFanPointIndice 1
  let s := s.copyNormal buf (pFanPointIndice - 1) 1
  let s := s.copyIndex buf s.puiTriangulatedIndexes 1
  let s := s.copyNormal buf (pFanPointIndice - 1) 1
  let s := s.copyIndex buf (s.puiTriangulatedIndexes + 1) 1
  s.advance 1

/-- One one-normal fan (body of the loop over `uiFan`, lines 371-386). -/
def fanOneNormalBody (K : TessFlagValues) (f : A3DTessFaceData) (buf : Nat → Nat)
    (s : DecodeState) : DecodeState :=
  let uiNbPoint := rd f.m_puiSizesTriangulated s.uiCurrentSize &&& K.kA3DTessFaceDataNormalMask
  let s := s.nextSize
  let s := s.advance 1
  let pFanPointIndice := s.puiTriangulatedIndexes
  let s := s.advance 1
  let s := forLoop (fun _ s => fanOneNormalInner buf pFanPointIndice s)
    1 (u32sub uiNbPoint 1 - 1) s
  s.advance 1

/-- The block guarded by `kA3DTessFaceDataTriangleFanOneNormal` (lines 364-388). -/
def fanOneNormalBlock (K : TessFlagValues) (f : A3DTessFaceData) (buf : Nat → Nat)
    (s : DecodeState) : DecodeState :=
  if hasFlag (u16 f.m_usUsedEntitiesFlags) K.kA3DTessFaceDataTriangleFanOneNormal then
    let s := s.strip K.kA3DTessFaceDataTriangleFanOneNormal
    let uiNbFan := rd f.m_puiSizesTriangulated s.uiCurrentSize
    let s := s.nextSize
    forLoop (fun _ s => fanOneNormalBody K f buf s) 0 uiNbFan s
  else s

/-- One triangle of a one-normal strip (body of the loop over `uIPoint`,
lines 406-422). -/
def stripeOneNormalInner (buf : Nat → Nat) (uiNormal uIPoint : Nat) (s : DecodeState) :
    DecodeState :=
  let s := s.copyNormal buf uiNormal 1
  let s := s.copyIndex buf s.puiTriangulatedIndexes 1
  let s :=
    if uIPoint % 2 ≠ 0 then
      let s := s.copyNormal buf uiNormal 1
      let s := s.copyIndex buf (s.puiTriangulatedIndexes - 1) 1
      let s := s.copyNormal buf uiNormal 1
      s.copyIndex buf (s.puiTriangulatedIndexes + 1) 1
    else
      let s := s.copyNormal buf uiNormal 1
      let s := s.copyIndex buf (s.puiTriangulatedIndexes + 1) 1
      let s := s.copyNormal buf uiNormal 1
      s.copyIndex buf (s.puiTriangulatedIndexes - 1) 1
  s.advance 1

/-- One one-normal strip (body of the loop over `uiStripe`, lines 398-424). The
local `has_vertex_normals` of line 398 is computed by the source and never used. -/
def stripeOneNormalBody (K : TessFlagValues) (f : A3DTessFaceData) (buf : Nat → Nat)
    (s : DecodeState) : DecodeState :=
  let uiNbPoint := rd f.m_puiSizesTriangulated s.uiCurrentSize &&& K.kA3DTessFaceDataNormalMask
  let s := s.nextSize
  let s := s.advance 2
  let uiNormal := s.puiTriangulatedIndexes - 2
  let s := forLoop (fun uIPoint s => stripeOneNormalInner buf uiNormal uIPoint s)
    0 (u32sub uiNbPoint 2) s
  s.advance 1

/-- The block guarded by `kA3DTessFaceDataTriangleStripeOneNormal` (lines 390-426). -/
def stripeOneNormalBlock (K : TessFlagValues) (f : A3DTessFaceData) (buf : Nat → Nat)
    (s : DecodeState) : DecodeState :=
  if hasFlag (u16 f.m_usUsedEntitiesFlags) K.kA3DTessFaceDataTriangleStripeOneNormal then
    let s := s.strip K.kA3DTessFaceDataTriangleStripeOneNormal
    let uiNbStripe := rd f.m_puiSizesTriangulated s.uiCurrentSize
    let s := s.nextSize
    forLoop (fun _ s => stripeOneNormalBody K f buf s) 0 uiNbStripe s
  else s

/-- One corner of a textured triangle (body of `for (int i = 0; i < 3; i++)`,
lines 440-446): the normal word, the texture words (skipped), the vertex word. -/
def triangleTexturedCorner (f : A3DTessFaceData) (buf : Nat → Nat) (s : DecodeState) :
    DecodeState :=
  let s := s.copyNormal buf s.puiTriangulatedIndexes 1
  let s := s.advance 1
  let s := s.advance (u32 f.m_uiTextureCoordIndexesSize)
  let s := s.copyIndex buf s.puiTriangulatedIndexes 1
  s.advance 1

/-- One textured triangle (body of the loop over `uNbTriangles`, lines 438-447). -/
def triangleTexturedBody (f : A3DTessFaceData) (buf : Nat → Nat) (s : DecodeState) :
    DecodeState :=
  forLoop (fun _ s => triangleTexturedCorner f buf s) 0 3 s

/-- The block guarded by `kA3DTessFaceDataTriangleTextured` (lines 430-449). -/
def triangleTexturedBlock (K : TessFlagValues) (f : A3DTessFaceData) (buf : Nat → Nat)
    (s : DecodeState) : DecodeState :=
  if hasFlag (u16 f.m_usUsedEntitiesFlags) K.kA3DTessFaceDataTriangleTextured then
    let s := s.strip K.kA3DTessFaceDataTriangleTextured
    let uNbTriangles := rd f.m_puiSizesTriangulated s.uiCurrentSize
    let s := s.nextSize
    forLoop (fun _ s => triangleTexturedBody f buf s) 0 uNbTriangles s
  else s

/-! ## `IndicesPerFaceAsTriangles` -/

/-- The locals at line 265, before the first block: the cursor at the face's
start offset, no size word read, every flag still unprocessed. -/
def initialState (f : A3DTessFaceData) (auIndices : List Nat) (normal_indices : List Int) :
    DecodeState :=
  { puiTriangulatedIndexes := u32 f.m_uiStartTriangulated
    uiCurrentSize := 0
    unprocessed_flags := u16 f.m_usUsedEntitiesFlags
    auIndices := auIndices
    normal_indices := normal_indices }

/-- The seven blocks of lines 267-449, in source order. -/
def decodeBlocks (K : TessFlagValues) (f : A3DTessFaceData) (buf : Nat → Nat)
    (s : DecodeState) : DecodeState :=
  let s := triangleBlock K f buf s
  let s := fanBlock K f buf s
  let s := stripeBlock K f buf s
  let s := triangleOneNormalBlock K f buf s
  let s := fanOneNormalBlock K f buf s
  let s := stripeOneNormalBlock K f buf s
  triangleTexturedBlock K f buf s

/-- The five tests of lines 451-483: a textured fan, strip, one-normal triangle,
one-normal fan or one-normal strip is present. -/
def rejectedTextured (K : TessFlagValues) (flags : Nat) : Bool :=
  hasFlag flags K.kA3DTessFaceDataTriangleFanTextured
  || hasFlag flags K.kA3DTessFaceDataTriangleStripeTextured
  || hasFlag flags K.kA3DTessFaceDataTriangleOneNormalTextured
  || hasFlag flags K.kA3DTessFaceDataTriangleFanOneNormalTextured
  || hasFlag flags K.kA3DTessFaceDataTriangleStripeOneNormalTextured

/-- The function `IndicesPerFaceAsTriangles` (lines 248-504). The result is the
returned status together with the final locals; its `auIndices` and
`normal_indices` are the contents of the two by-reference containers on return,
and its `puiTriangulatedIndexes` is the cursor as a word offset into the shared
index buffer. -/
def IndicesPerFaceAsTriangles (K : TessFlagValues) (sTessData : A3DTess3DData)
    (uFaceIndice : Nat) (auIndices : List Nat) (normal_indices : List Int) :
    A3DStatus × DecodeState :=
  let pFaceTessData := sTessData.m_psFaceTessData (u32 uFaceIndice)
  let s := initialState pFaceTessData auIndices normal_indices
  if u32 pFaceTessData.m_uiSizesTriangulatedSize = 0 then
    (A3DStatus.A3D_SUCCESS, s)
  else
    let s := decodeBlocks K pFaceTessData sTessData.m_puiTriangulatedIndexes s
    if rejectedTextured K (u16 pFaceTessData.m_usUsedEntitiesFlags) then
      (A3DStatus.A3D_ERROR, s)
    else if s.unprocessed_flags ≠ 0 then
      (A3DStatus.A3D_ERROR, s)
    else if u32 uFaceIndice = u32sub sTessData.m_uiFaceTessSize 1 then
      if s.puiTriangulatedIndexes ≠ u32 sTessData.m_uiTriangulatedIndexSize then
        (A3DStatus.A3D_ERROR, s)
      else
        (A3DStatus.A3D_SUCCESS, s)
    else
      (A3DStatus.A3D_SUCCESS, s)

/-! ## Concrete inputs -/

/-- A buffer holding the listed words, followed by zeros. -/
def bufOf (l : List Nat) : Nat → Nat := fun i => l.getD i 0

/-- The flag values of the CAD SDK's tessellation header, as a concrete instance. -/
def sdkFlags : TessFlagValues :=
  { kA3DTessFaceDataTriangle := 0x0001
    kA3DTessFaceDataTriangleFan := 0x0002
    kA3DTessFaceDataTriangleStripe := 0x0004
    kA3DTessFaceDataTriangleOneNormal := 0x0010
    kA3DTessFaceDataTriangleFanOneNormal := 0x0020
    kA3DTessFaceDataTriangleStripeOneNormal := 0x0040
    kA3DTessFaceDataTriangleTextured := 0x0100
    kA3DTessFaceDataTriangleFanTextured := 0x0200
    kA3DTessFaceDataTriangleStripeTextured := 0x0400
    kA3DTessFaceDataTriangleOneNormalTextured := 0x1000
    kA3DTessFaceDataTriangleFanOneNormalTextured := 0x2000
    kA3DTessFaceDataTriangleStripeOneNormalTextured := 0x4000
    kA3DTessFaceDataNormalMask := 0x3FFFFFFF
    kA3DTessFaceDataNormalSingle := 0x40000000 }

/-- A face record with the given flags, size words and start offset. -/
def faceOf (flags : Nat) (sizes : List Nat) (start : Nat) : A3DTessFaceData :=
  { m_usUsedEntitiesFlags := flags
    m_uiSizesTriangulatedSize := sizes.length
    m_puiSizesTriangulated := bufOf sizes
    m_uiStartTriangulated := start
    m_uiTextureCoordIndexesSize := 0 }

/-- A tessellation record with a single face and the given index words. -/
def recordOf (face : A3DTessFaceData) (indexes : List Nat) : A3DTess3DData :=
  { m_psFaceTessData := fun _ => face
    m_uiFaceTessSize := 1
    m_puiTriangulatedIndexes := bufOf indexes
    m_uiTriangulatedIndexSize := indexes.length }

/-! ## Reference descriptions of the emitted triangles

The lists below describe, in the words of the specification, the corners a
block contributes; `pt k` is the datum (vertex index or normal index) of the
`k`-th point of the block. -/

/-- Corners of `cnt` independent triangles: triangle `j` is `(3j, 3j+1, 3j+2)`. -/
def plainTriangles {α : Type} (pt : Nat → α) (cnt : Nat) : List α :=
  (List.range cnt).flatMap fun j => [pt (3 * j), pt (3 * j + 1), pt (3 * j + 2)]

/-- Corners of the first `cnt` triangles of a fan: `(first, previous, current)`. -/
def fanTriangles {α : Type} (pt : Nat → α) (cnt : Nat) : List α :=
  (List.range cnt).flatMap fun j => [pt 0, pt (j + 1), pt (j + 2)]

/-- Corners of the first `cnt` triangles of a strip, as the decoder orders them:
triangle `j` is `(j+1, j+2, j)` when `j` is even and `(j+1, j, j+2)` when `j` is odd. -/
def stripeTriangles {α : Type} (pt : Nat → α) (cnt : Nat) : List α :=
  (List.range cnt).flatMap fun j =>
    if j % 2 ≠ 0 then [pt (j + 1), pt j, pt (j + 2)] else [pt (j + 1), pt (j + 2), pt j]

/-- Vertex index of point `k` of an interleaved (normal, vertex) run starting at `c`. -/
def vtx (buf : Nat → Nat) (c k : Nat) : Nat := rd buf (c + 2 * k + 1)

/-- Normal index of point `k` of an interleaved (normal, vertex) run starting at `c`. -/
def nrm (buf : Nat → Nat) (c k : Nat) : Int := toInt32 (rd buf (c + 2 * k))

/-- Vertex index of point `k` of a one-normal fan or strip starting at `c`
(one normal word, then one vertex word per point). -/
def vtx1 (buf : Nat → Nat) (c k : Nat) : Nat := rd buf (c + 1 + k)

/-- The shared normal index of a one-normal fan or strip starting at `c`. -/
def nrm1 (buf : Nat → Nat) (c : Nat) : Int := toInt32 (rd buf c)

/-- Vertex index of point `k` of a run of one-normal triangles starting at `c`
(per triangle: one normal word, then three vertex words). -/
def vtxT1 (buf : Nat → Nat) (c k : Nat) : Nat := rd buf (c + 4 * (k / 3) + k % 3 + 1)

/-- Normal index of point `k` of a run of one-normal triangles starting at `c`:
the normal word of the triangle the point belongs to. -/
def nrmT1 (buf : Nat → Nat) (c k : Nat) : Int := toInt32 (rd buf (c + 4 * (k / 3)))

/-- Number of iterations of `for (uIPoint = 1; uIPoint < uiNbPoint - 1; uIPoint++)`. -/
def fanCount (uiNbPoint : Nat) : Nat := u32sub uiNbPoint 1 - 1

/-- Number of iterations of `for (uIPoint = 0; uIPoint < uiNbPoint - 2; uIPoint++)`. -/
def stripeCount (uiNbPoint : Nat) : Nat := u32sub uiNbPoint 2

/-! ## Auxiliary notions for the decoder -/

/-- The containers of `s'` are those of `s` with equally many entries appended to each. -/
def DecodeState.Grows (s s' : DecodeState) : Prop :=
  ∃ (a : List Nat) (n : List Int),
    s'.auIndices = s.auIndices ++ a ∧ s'.normal_indices = s.normal_indices ++ n
      ∧ a.length = n.length

/-- The twelve variant flags the decoder tests, in the order of its tests. -/
def TessFlagValues.variantFlags (K : TessFlagValues) : List Nat :=
  [K.kA3DTessFaceDataTriangle, K.kA3DTessFaceDataTriangleFan,
    K.kA3DTessFaceDataTriangleStripe, K.kA3DTessFaceDataTriangleOneNormal,
    K.kA3DTessFaceDataTriangleFanOneNormal, K.kA3DTessFaceDataTriangleStripeOneNormal,
    K.kA3DTessFaceDataTriangleTextured, K.kA3DTessFaceDataTriangleFanTextured,
    K.kA3DTessFaceDataTriangleStripeTextured, K.kA3DTessFaceDataTriangleOneNormalTextured,
    K.kA3DTessFaceDataTriangleFanOneNormalTextured,
    K.kA3DTessFaceDataTriangleStripeOneNormalTextured]

/-- The twelve variant flags are non-zero and pairwise share no bit. -/
def TessFlagValues.Separate (K : TessFlagValues) : Prop :=
  K.variantFlags.Pairwise (fun a b => a &&& b = 0) ∧ ∀ k ∈ K.variantFlags, k ≠ 0

/-- The effect on `unprocessed_flags` of a block guarded by the flag `k`: the
flag is cleared when the face's flag word `flags` has it. -/
def stripIf (flags k unprocessed : Nat) : Nat :=
  if hasFlag flags k then clearFlag unprocessed k else unprocessed

/-- What is left of the 16-bit flag word `flags` in `unprocessed_flags` once the seven
decoding blocks have run. -/
def remainingFlags (K : TessFlagValues) (flags unprocessed : Nat) : Nat :=
  stripIf flags K.kA3DTessFaceDataTriangleTextured <|
  stripIf flags K.kA3DTessFaceDataTriangleStripeOneNormal <|
  stripIf flags K.kA3DTessFaceDataTriangleFanOneNormal <|
  stripIf flags K.kA3DTessFaceDataTriangleOneNormal <|
  stripIf flags K.kA3DTessFaceDataTriangleStripe <|
  stripIf flags K.kA3DTessFaceDataTriangleFan <|
  stripIf flags K.kA3DTessFaceDataTriangle unprocessed

/-! ## Layout of a face with non-textured variants -/

/-- The size blocks of a face, variant by variant; `none` means that the variant
is absent from the face. For `triangles` and `trianglesOneNormal` the value is the
number of triangles; for the other four it is the list of the size words of the
fans or strips (for the one-normal variants a size word may carry high bits
outside `kA3DTessFaceDataNormalMask`). -/
structure FaceLayout where
  triangles : Option Nat
  fans : Option (List Nat)
  stripes : Option (List Nat)
  trianglesOneNormal : Option Nat
  fansOneNormal : Option (List Nat)
  stripesOneNormal : Option (List Nat)

/-- Size words of a triangle block: its triangle count. -/
def countWords : Option Nat → List Nat
  | none => []
  | some T => [T]

/-- Size words of a fan or strip block: the number of runs, then one word per run. -/
def runWords : Option (List Nat) → List Nat
  | none => []
  | some ns => ns.length :: ns

/-- The size words of a face, in the fixed order triangle, fan, strip, one-normal
triangle, one-normal fan, one-normal strip. -/
def FaceLayout.sizeWords (L : FaceLayout) : List Nat :=
  countWords L.triangles ++ (runWords L.fans ++ (runWords L.stripes ++
    (countWords L.trianglesOneNormal ++ (runWords L.fansOneNormal
      ++ runWords L.stripesOneNormal))))

/-- The flag `k` when the variant is present, no bit otherwise. -/
def flagIf (present : Bool) (k : Nat) : Nat := if present then k else 0

/-- The flag word of a face: the flags of the variants that are present. -/
def FaceLayout.flagWord (K : TessFlagValues) (L : FaceLayout) : Nat :=
  flagIf L.triangles.isSome K.kA3DTessFaceDataTriangle
  ||| (flagIf L.fans.isSome K.kA3DTessFaceDataTriangleFan
  ||| (flagIf L.stripes.isSome K.kA3DTessFaceDataTriangleStripe
  ||| (flagIf L.trianglesOneNormal.isSome K.kA3DTessFaceDataTriangleOneNormal
  ||| (flagIf L.fansOneNormal.isSome K.kA3DTessFaceDataTriangleFanOneNormal
  ||| flagIf L.stripesOneNormal.isSome K.kA3DTessFaceDataTriangleStripeOneNormal))))

/-- Index words of a triangle block at `perTriangle` words per triangle. -/
def wordsOfCount (perTriangle : Nat) : Option Nat → Nat
  | none => 0
  | some T => perTriangle * T

/-- Index words of a fan or strip block at `perRun w` words for a run of size word `w`. -/
def wordsOfRuns (perRun : Nat → Nat) : Option (List Nat) → Nat
  | none => 0
  | some ns => (ns.map perRun).sum

/-- The index words the specification assigns to a face: 6 per plain triangle, `2 N`
per fan or strip of `N` points, 4 per one-normal triangle, `N + 1` per one-normal
fan or strip of `N` points (`N` being the size word under `kA3DTessFaceDataNormalMask`). -/
def FaceLayout.indexWords (K : TessFlagValues) (L : FaceLayout) : Nat :=
  wordsOfCount 6 L.triangles
  + (wordsOfRuns (fun N => 2 * N) L.fans
  + (wordsOfRuns (fun N => 2 * N) L.stripes
  + (wordsOfCount 4 L.trianglesOneNormal
  + (wordsOfRuns (fun w => (w &&& K.kA3DTessFaceDataNormalMask) + 1) L.fansOneNormal
  + wordsOfRuns (fun w => (w &&& K.kA3DTessFaceDataNormalMask) + 1) L.stripesOneNormal))))

/-- Every fan and strip of the face declares at least 2 points. -/
def FaceLayout.AtLeastTwoPoints (K : TessFlagValues) (L : FaceLayout) : Prop :=
  (∀ N ∈ L.fans.getD [], 2 ≤ N) ∧ (∀ N ∈ L.stripes.getD [], 2 ≤ N)
  ∧ (∀ w ∈ L.fansOneNormal.getD [], 2 ≤ w &&& K.kA3DTessFaceDataNormalMask)
  ∧ (∀ w ∈ L.stripesOneNormal.getD [], 2 ≤ w &&& K.kA3DTessFaceDataNormalMask)

/-- The size words of `f` from index `c` on are the words `l`. -/
def SizesAt (f : A3DTessFaceData) (c : Nat) (l : List Nat) : Prop :=
  ∀ j, j < l.length → rd f.m_puiSizesTriangulated (c + j) = l.getD j 0

/-! ## Transform composition -/

/-- An array of 16 doubles (`PTTransformMatrix` viewed through `double*`, or the
local `double m[16]`), over a scalar type `R`; `dk` is the element at index `k`. -/
@[ext] structure PTTransformMatrix (R : Type) where
  d0 : R
  d1 : R
  d2 : R
  d3 : R
  d4 : R
  d5 : R
  d6 : R
  d7 : R
  d8 : R
  d9 : R
  d10 : R
  d11 : R
  d12 : R
  d13 : R
  d14 : R
  d15 : R
  deriving DecidableEq

/-- The function `MultiplyMatrix` (lines 726-748): the sixteen assignments to
`pdResult`, which is a buffer distinct from both inputs. -/
def MultiplyMatrix {R : Type} [Add R] [Mul R] (padFather pdThisMatrix : PTTransformMatrix R) :
    PTTransformMatrix R :=
  {
    d0 := padFather.d0 * pdThisMatrix.d0 + padFather.d4 * pdThisMatrix.d1
      + padFather.d8 * pdThisMatrix.d2 + padFather.d12 * pdThisMatrix.d3
    d1 := padFather.d1 * pdThisMatrix.d0 + padFather.d5 * pdThisMatrix.d1
      + padFather.d9 * pdThisMatrix.d2 + padFather.d13 * pdThisMatrix.d3
    d2 := padFather.d2 * pdThisMatrix.d0 + padFather.d6 * pdThisMatrix.d1
      + padFather.d10 * pdThisMatrix.d2 + padFather.d14 * pdThisMatrix.d3
    d3 := padFather.d3 * pdThisMatrix.d0 + padFather.d7 * pdThisMatrix.d1
      + padFather.d11 * pdThisMatrix.d2 + padFather.d15 * pdThisMatrix.d3
    d4 := padFather.d0 * pdThisMatrix.d4 + padFather.d4 * pdThisMatrix.d5
      + padFather.d8 * pdThisMatrix.d6 + padFather.d12 * pdThisMatrix.d7
    d5 := padFather.d1 * pdThisMatrix.d4 + padFather.d5 * pdThisMatrix.d5
      + padFather.d9 * pdThisMatrix.d6 + padFather.d13 * pdThisMatrix.d7
    d6 := padFather.d2 * pdThisMatrix.d4 + padFather.d6 * pdThisMatrix.d5
      + padFather.d10 * pdThisMatrix.d6 + padFather.d14 * pdThisMatrix.d7
    d7 := padFather.d3 * pdThisMatrix.d4 + padFather.d7 * pdThisMatrix.d5
      + padFather.d11 * pdThisMatrix.d6 + padFather.d15 * pdThisMatrix.d7
    d8 := padFather.d0 * pdThisMatrix.d8 + padFather.d4 * pdThisMatrix.d9
      + padFather.d8 * pdThisMatrix.d10 + padFather.d12 * pdThisMatrix.d11
    d9 := padFather.d1 * pdThisMatrix.d8 + padFather.d5 * pdThisMatrix.d9
      + padFather.d9 * pdThisMatrix.d10 + padFather.d13 * pdThisMatrix.d11
    d10 := padFather.d2 * pdThisMatrix.d8 + padFather.d6 * pdThisMatrix.d9
      + padFather.d10 * pdThisMatrix.d10 + padFather.d14 * pdThisMatrix.d11
    d11 := padFather.d3 * pdThisMatrix.d8 + padFather.d7 * pdThisMatrix.d9
      + padFather.d11 * pdThisMatrix.d10 + padFather.d15 * pdThisMatrix.d11
    d12 := padFather.d0 * pdThisMatrix.d12 + padFather.d4 * pdThisMatrix.d13
      + padFather.d8 * pdThisMatrix.d14 + padFather.d12 * pdThisMatrix.d15
    d13 := padFather.d1 * pdThisMatrix.d12 + padFather.d5 * pdThisMatrix.d13
      + padFather.d9 * pdThisMatrix.d14 + padFather.d13 * pdThisMatrix.d15
    d14 := padFather.d2 * pdThisMatrix.d12 + padFather.d6 * pdThisMatrix.d13
      + padFather.d10 * pdThisMatrix.d14 + padFather.d14 * pdThisMatrix.d15
    d15 := padFather.d3 * pdThisMatrix.d12 + padFather.d7 * pdThisMatrix.d13
      + padFather.d11 * pdThisMatrix.d14 + padFather.d15 * pdThisMatrix.d15 }

/-! ## Status codes and SDK constants of the bridge -/

/-- An `A3DStatus` / `int` return code of the bridge and of the CAD SDK getters.
`failure code` stands for any other non-success code a collaborator may return. -/
inductive Status
  | A3D_SUCCESS
  | A3D_NOT_IMPLEMENTED
  | A3D_LOAD_INVALID_FILE_FORMAT
  | A3D_PG_NOT_INITIALIZED
  | A3D_PG_INVALID_RI
  | A3D_PG_ERROR
  | failure (code : Nat)
  deriving DecidableEq, Repr

/-- A `PTStatus` of the geometry engine: `PV_STATUS_OK` or an error code. -/
inductive PTStatus
  | PV_STATUS_OK
  | error (code : Nat)
  deriving DecidableEq, Repr

/-- The SDK constants the bridge uses: the tessellation flags and the mirror bit of
`m_ucBehaviour`. They are declared in the CAD SDK headers, which are not part of
the repository, so the bridge is parameterised by their values. -/
structure SdkConstants where
  tess : TessFlagValues
  kA3DTransformationMirror : Nat

/-! ## Local transforms (`CrossProduct`, `stTransform`) -/

/-- The struct `A3DVector3dData` over a scalar type `R`. -/
structure A3DVector3dData (R : Type) where
  m_dX : R
  m_dY : R
  m_dZ : R

/-- The fields of `A3DMiscCartesianTransformationData` read by `stTransform`. -/
structure A3DMiscCartesianTransformationData (R : Type) where
  m_sOrigin : A3DVector3dData R
  m_sXVector : A3DVector3dData R
  m_sYVector : A3DVector3dData R
  m_sScale : A3DVector3dData R
  m_ucBehaviour : Nat

/-- What `A3DMiscCartesianTransformationGet` answers for a transformation entity:
its status and the data it fills in. -/
structure Transformation (R : Type) where
  getStatus : Status
  data : A3DMiscCartesianTransformationData R

/-- The function `CrossProduct` (lines 751-758). -/
def CrossProduct {R : Type} [Mul R] [Sub R] (X Y : A3DVector3dData R) : A3DVector3dData R :=
  { m_dX := X.m_dY * Y.m_dZ - X.m_dZ * Y.m_dY
    m_dY := X.m_dZ * Y.m_dX - X.m_dX * Y.m_dZ
    m_dZ := X.m_dX * Y.m_dY - X.m_dY * Y.m_dX }

/-- The local `double m[16]` of `stTransform` (lines 774-796) once it is filled:
zeroed, then origin, scaled X and Y axes, scaled and possibly mirrored Z axis, and
`m[15] = 1`. -/
def localMatrix {R : Type} [Ring R] (kA3DTransformationMirror : Nat)
    (sTransformData : A3DMiscCartesianTransformationData R) : PTTransformMatrix R :=
  let dMirror : R :=
    if hasFlag (sTransformData.m_ucBehaviour % 256) kA3DTransformationMirror then -1 else 1
  let sZVector := CrossProduct sTransformData.m_sXVector sTransformData.m_sYVector
  { d0 := sTransformData.m_sXVector.m_dX * sTransformData.m_sScale.m_dX
    d1 := sTransformData.m_sXVector.m_dY * sTransformData.m_sScale.m_dX
    d2 := sTransformData.m_sXVector.m_dZ * sTransformData.m_sScale.m_dX
    d3 := 0
    d4 := sTransformData.m_sYVector.m_dX * sTransformData.m_sScale.m_dY
    d5 := sTransformData.m_sYVector.m_dY * sTransformData.m_sScale.m_dY
    d6 := sTransformData.m_sYVector.m_dZ * sTransformData.m_sScale.m_dY
    d7 := 0
    d8 := dMirror * sZVector.m_dX * sTransformData.m_sScale.m_dZ
    d9 := dMirror * sZVector.m_dY * sTransformData.m_sScale.m_dZ
    d10 := dMirror * sZVector.m_dZ * sTransformData.m_sScale.m_dZ
    d11 := 0
    d12 := sTransformData.m_sOrigin.m_dX
    d13 := sTransformData.m_sOrigin.m_dY
    d14 := sTransformData.m_sOrigin.m_dZ
    d15 := 1 }

/-- The function `stTransform` (lines 761-804): the returned status and the content of
`localTransform` on return. `transform` is the caller's array, which the function only
reads: its single use is as the first argument of `MultiplyMatrix`. -/
def stTransform {R : Type} [Ring R] (kA3DTransformationMirror : Nat)
    (pTransformation : Transformation R) (transform localTransform : PTTransformMatrix R) :
    Status × PTTransformMatrix R :=
  let iRet := pTransformation.getStatus
  if iRet = Status.A3D_SUCCESS then
    (iRet, MultiplyMatrix transform (localMatrix kA3DTransformationMirror pTransformation.data))
  else
    (iRet, localTransform)

/-- The 16 elements read as a 4x4 matrix in row-major layout: the entry of row `r`,
column `c` is the element at index `4 r + c`. -/
def rowMajor {R : Type} (m : PTTransformMatrix R) : Matrix (Fin 4) (Fin 4) R :=
  !![m.d0, m.d1, m.d2, m.d3; m.d4, m.d5, m.d6, m.d7; m.d8, m.d9, m.d10, m.d11;
     m.d12, m.d13, m.d14, m.d15]

/-- The 16 elements read as a 4x4 matrix in column-major layout: the entry of row `r`,
column `c` is the element at index `4 c + r`. -/
def columnMajor {R : Type} (m : PTTransformMatrix R) : Matrix (Fin 4) (Fin 4) R :=
  !![m.d0, m.d4, m.d8, m.d12; m.d1, m.d5, m.d9, m.d13; m.d2, m.d6, m.d10, m.d14;
     m.d3, m.d7, m.d11, m.d15]

/-! ## Concrete matrices and scenes -/

/-- The SDK constants as a concrete instance (`kA3DTransformationMirror` is `0x04`). -/
def sdkConstants : SdkConstants := { tess := sdkFlags, kA3DTransformationMirror := 0x04 }

/-- The identity matrix over the integers. -/
def identityMatrix : PTTransformMatrix ℤ :=
  { d0 := 1, d1 := 0, d2 := 0, d3 := 0, d4 := 0, d5 := 1, d6 := 0, d7 := 0,
    d8 := 0, d9 := 0, d10 := 1, d11 := 0, d12 := 0, d13 := 0, d14 := 0, d15 := 1 }

/-- The identity matrix with element 1 set to one. -/
def shearAt1 : PTTransformMatrix ℤ := { identityMatrix with d1 := 1 }

/-- The identity matrix with element 4 set to one. -/
def shearAt4 : PTTransformMatrix ℤ := { identityMatrix with d4 := 1 }

/-! ## The result aggregate and the geometry engine -/

/-- An opaque handle or pointer: a solid, world entity, render style, entity group or
face of the geometry engine, or the address of a node of the CAD model. -/
abbrev Handle := Nat

/-- An argument of type `A3D_log_func`: `nullptr` or a callback. The text of the
messages is not modelled. -/
inductive A3D_log_func
  | nullptr
  | callback
  deriving DecidableEq, Repr

/-- The struct `A3DPolygonicaOptions` (lines 83-100). A `std::map` or
`std::unordered_map` is kept as the list of its pairs in insertion order, a `NULL`
group vector as `none`; `m_iTopoFaceCount` is a `long` and is kept as an integer. -/
structure A3DPolygonicaOptions where
  m_Environment : Handle
  m_World : Handle
  m_parts : List (Handle × Handle)
  m_entities : List Handle
  m_style_palette : List (Nat × Handle)
  m_surface_groups : List (Handle × Option (List Handle))
  m_paths : List (Handle × List Handle)
  m_iTopoFaceCount : Int
  deriving DecidableEq

/-- The member `insert` of `std::unordered_map`: the pair is added unless the key is
already present. -/
def mapInsert {ν : Type} (m : List (Nat × ν)) (key : Nat) (value : ν) : List (Nat × ν) :=
  if (m.lookup key).isSome then m else m ++ [(key, value)]

/-- A call the bridge makes to the geometry engine, with the arguments that matter and
the values the engine answers (`status`, and the handle written through the last
pointer argument). -/
inductive EngineCall (R : Type)
  | PFSolidCreateFromMesh (nTriangles : Nat) (indices : List Nat) (normal_indices : List Int)
      (app_surfaces : List Int) (status : PTStatus) (solid : Handle)
  | PFEntityGroupCreate (group : Handle)
  | PFEntityGroupDestroy (group : Handle)
  | PFEntityGroupAddEntity (group face : Handle)
  | PFWorldAddEntity (solid : Handle) (status : PTStatus) (worldEntity : Handle)
  | PFWorldEntitySetTransform (worldEntity : Handle) (localTransform : PTTransformMatrix R)
  | PFRenderStyleCreate (newStyle : Handle)
  | PFEntitySetEntityProperty (worldEntity poly_style : Handle)
  | PFSolidDestroy (solid : Handle)
  | PFWorldRemoveEntity (worldEntity : Handle)
  | PFRenderStyleDestroy (style : Handle)
  deriving DecidableEq

/-- The state the bridge works on: the result aggregate and the calls made to the
geometry engine so far, oldest first. -/
structure BridgeState (R : Type) where
  pgOpts : A3DPolygonicaOptions
  engineCalls : List (EngineCall R)
  deriving DecidableEq

/-- The state after one more engine call. -/
def BridgeState.call {R : Type} (s : BridgeState R) (c : EngineCall R) : BridgeState R :=
  { s with engineCalls := s.engineCalls ++ [c] }

/-- The state after several more engine calls. -/
def BridgeState.calls {R : Type} (s : BridgeState R) (cs : List (EngineCall R)) :
    BridgeState R :=
  { s with engineCalls := s.engineCalls ++ cs }

/-- A fresh aggregate for the given environment and world, with no engine call made. -/
def BridgeState.fresh (R : Type) (m_Environment m_World : Handle) : BridgeState R :=
  { pgOpts :=
      { m_Environment := m_Environment, m_World := m_World, m_parts := [], m_entities := [],
        m_style_palette := [], m_surface_groups := [], m_paths := [], m_iTopoFaceCount := 0 }
    engineCalls := [] }

/-! ## `LookupRenderStyleByColor` -/

/-- The lambda `nearest255` (line 692), `(unsigned int)(clrInt * 255.0 + 0.5)`, on a
channel given as an exact rational: the conversion truncates, which for a non-negative
value is the floor; a value in `(-1, 0)` converts to `0`. The conversion is defined in C
for values in `(-1, 2^32)` only, which covers every channel in `[0, 1]`; outside this
range the embedding clamps below and wraps above. -/
def nearest255 (clrInt : ℚ) : Nat := u32 (⌊clrInt * 255 + 1 / 2⌋.toNat)

/-- The palette key of line 697, `lR + (lG << 8) + (lB << 16)`, in `unsigned long`: the
three terms are below `2^32`, `2^40` and `2^48`, so a 64-bit sum does not wrap, and for
channels in `[0, 1]` it is below `2^24`. -/
def paletteIndex (r g b : ℚ) : Nat :=
  let lR := nearest255 r
  let lG := nearest255 g
  let lB := nearest255 b
  lR + (lG <<< 8) + (lB <<< 16)

/-- The function `LookupRenderStyleByColor` (lines 686-723). `newStyle` is the handle
`PFRenderStyleCreate` writes when it is called; the result is the returned style and
the state on return. -/
def LookupRenderStyleByColor {R : Type} (r g b : ℚ) (pgOpts : BridgeState R)
    (newStyle : Handle) : Handle × BridgeState R :=
  let index := paletteIndex r g b
  match pgOpts.pgOpts.m_style_palette.lookup index with
  | none =>
    let pgOpts := pgOpts.call (EngineCall.PFRenderStyleCreate newStyle)
    (newStyle,
      { pgOpts with
        pgOpts := { pgOpts.pgOpts with
          m_style_palette := pgOpts.pgOpts.m_style_palette ++ [(index, newStyle)] } })
  | some style => (style, pgOpts)

/-! ## Sequences of style lookups -/

/-- A request to `LookupRenderStyleByColor`: the three channels, and the handle
`PFRenderStyleCreate` writes if the lookup calls it. -/
structure StyleRequest where
  r : ℚ
  g : ℚ
  b : ℚ
  newStyle : Handle

/-- The palette key of a request. -/
def StyleRequest.index (q : StyleRequest) : Nat := paletteIndex q.r q.g q.b

/-- The state after the lookups of `requests`, made one after the other on one result
aggregate. -/
def lookupAll {R : Type} (requests : List StyleRequest) (pgOpts : BridgeState R) :
    BridgeState R :=
  requests.foldl (fun s q => (LookupRenderStyleByColor q.r q.g q.b s q.newStyle).2) pgOpts

/-- The styles returned by a lookup of `p` followed by a lookup of `q` on one result
aggregate. -/
def lookupTwice {R : Type} (p q : StyleRequest) (pgOpts : BridgeState R) : Handle × Handle :=
  let first := LookupRenderStyleByColor p.r p.g p.b pgOpts p.newStyle
  let second := LookupRenderStyleByColor q.r q.g q.b first.2 q.newStyle
  (first.1, second.1)

/-- The keys of a map kept as a list of pairs. -/
def keys {ν : Type} (m : List (Nat × ν)) : List Nat := m.map Prod.fst

/-- The values of a map kept as a list of pairs. -/
def values {ν : Type} (m : List (Nat × ν)) : List ν := m.map Prod.snd

/-! ## The CAD model as the bridge reads it

Every node carries what the CAD SDK getters and the geometry engine answer when the
bridge reaches it. A node referenced from several places appears once per reference,
with the same address. -/

/-- The answers of the geometry engine while a solid is built from a leaf item:
the status of `PFSolidCreateFromMesh` and the value of `*solid` after it, the handle
written by the `k`-th `PFEntityGroupCreate`, and the faces of the entity list, each
with its `PV_FACE_PROP_APP_SURFACE` pointer property. -/
structure MeshAnswers where
  status : PTStatus
  solid : Handle
  group : Nat → Handle
  faces : List (Handle × Int)

/-- The answers of the geometry engine while a leaf item is placed: the status of
`PFWorldAddEntity` and the world entity it writes, and the style
`PFRenderStyleCreate` writes if it is called. -/
structure PlacementAnswers where
  status : PTStatus
  worldEntity : Handle
  newStyle : Handle

/-- A coordinate system of a representation item: the status of
`A3DRiCoordinateSystemGet` and the transformation it points to. -/
structure CoordinateSystem (R : Type) where
  getStatus : Status
  m_pTransformation : Transformation R

/-- A representation item of type `kA3DTypeRiBrepModel` or `kA3DTypeRiPolyBrepModel`:
the status of `A3DRiRepresentationItemGet`, its coordinate system (`none` for `NULL`),
the colour `stExtractColorFromGraphicData` leaves in `r`, `g`, `b` (exact rationals for
the `float` values), the tessellation `A3DTess3DGet` fills in, and the answers of the
engine. -/
structure Leaf (R : Type) where
  getStatus : Status
  m_pCoordinateSystem : Option (CoordinateSystem R)
  r : ℚ
  g : ℚ
  b : ℚ
  sTessData : A3DTess3DData
  mesh : MeshAnswers
  placement : PlacementAnswers

mutual
/-- A representation item with its address `pRepItem`, by the type `A3DEntityGetType`
answers: a set (with the status of `A3DRiSetGet` and its items), a B-rep model or
(`poly`) a poly B-rep model, or an item of another type. -/
inductive RepItem (R : Type)
  | set (pRepItem : Handle) (getStatus : Status) (m_ppRepItems : RepItems R)
  | brep (pRepItem : Handle) (poly : Bool) (leaf : Leaf R)
  | other (pRepItem : Handle) (eType : Nat)
/-- An array `m_ppRepItems` of representation items. -/
inductive RepItems (R : Type)
  | nil
  | cons (head : RepItem R) (tail : RepItems R)
end

/-- A part definition: its address, the status of `A3DAsmPartDefinitionGet` and its
representation items. -/
structure PartDefinition (R : Type) where
  pPart : Handle
  getStatus : Status
  m_ppRepItems : RepItems R

/-- The location `m_pLocation` of a product occurrence, by the type
`A3DEntityGetType` answers for it, with the status of that call. -/
inductive Location (R : Type)
  | kA3DTypeMiscCartesianTransformation (typeStatus : Status) (t : Transformation R)
  | kA3DTypeMiscGeneralTransformation (typeStatus : Status)
  | unknown (typeStatus : Status) (eType : Nat)

mutual
/-- A product occurrence: its address, the status of `A3DAsmProductOccurrenceGet`,
and the fields of `A3DAsmProductOccurrenceData` the bridge reads (`none` and `null`
for `NULL`). -/
inductive Occurrence (R : Type)
  | mk (pOccurrence : Handle) (getStatus : Status) (m_pLocation : Option (Location R))
      (m_pPrototype : OccurrenceRef R) (m_pExternalData : OccurrenceRef R)
      (m_ppPOccurrences : Occurrences R) (m_pPart : Option (PartDefinition R))
/-- A pointer to a product occurrence that may be `NULL`. -/
inductive OccurrenceRef (R : Type)
  | null
  | ptr (pOccurrence : Occurrence R)
/-- An array `m_ppPOccurrences` of product occurrences. -/
inductive Occurrences (R : Type)
  | nil
  | cons (head : Occurrence R) (tail : Occurrences R)
end

/-- A model file: the status of `A3DAsmModelFileGet` and its root occurrences. -/
structure ModelFile (R : Type) where
  getStatus : Status
  m_ppPOccurrences : Occurrences R

/-! ## `A3DRiRepresentationItemCreatePTSolid` -/

/-- The three vectors filled by the loop of lines 558-565. -/
structure MeshBuffers where
  auIndices : List Nat
  faceAppSurface : List Int
  normal_indices : List Int

/-- The body of the loop of lines 559-565 for the face `uTopoFace`: the decoder appends to
`auIndices` and `normal_indices` and its status is discarded; `faceAppSurface` is then
padded up to one entry per decoded triangle with the tag `m_iTopoFaceCount + uTopoFace`.
The decoder only appends, so the count `auIndices.size() / 3 - faceAppSurface.size()` is
never negative. -/
def decodeFace (K : TessFlagValues) (sTessData : A3DTess3DData) (m_iTopoFaceCount : Int)
    (uTopoFace : Nat) (v : MeshBuffers) : MeshBuffers :=
  let decoded := (IndicesPerFaceAsTriangles K sTessData uTopoFace v.auIndices v.normal_indices).2
  { auIndices := decoded.auIndices
    faceAppSurface := v.faceAppSurface ++
      List.replicate (decoded.auIndices.length / 3 - v.faceAppSurface.length)
        (m_iTopoFaceCount + (uTopoFace : Int))
    normal_indices := decoded.normal_indices }

/-- The loop of lines 612-637 over the faces of the built solid; `intFaceSize` is the
value of `(int)uFaceSize`, the bound of the loop of lines 623-626. The result is `none`
when line 620 calls a `nullptr` logger; otherwise it is the value of `iRet`, the value
of `groups` (`none` for `NULL`) and the state after the loop. -/
def groupFaces {R : Type} (m_iTopoFaceCount : Int) (intFaceSize : Nat) (groups : List Handle)
    (logging_function : A3D_log_func) :
    List (Handle × Int) → BridgeState R → Option (Status × Option (List Handle) × BridgeState R)
  | [], opts => some (Status.A3D_SUCCESS, some groups, opts)
  | (face, app_surface_index) :: faces, opts =>
    let uFaceTopoFace := app_surface_index - m_iTopoFaceCount
    let max_groups : Int := groups.length
    if uFaceTopoFace < 0 ∨ uFaceTopoFace ≥ max_groups then
      match logging_function with
      | A3D_log_func.nullptr => none
      | A3D_log_func.callback =>
        some (Status.A3D_LOAD_INVALID_FILE_FORMAT, none,
          opts.calls ((List.range intFaceSize).map fun topoFace =>
            EngineCall.PFEntityGroupDestroy (groups.getD topoFace 0)))
    else
      groupFaces m_iTopoFaceCount intFaceSize groups logging_function faces
        (opts.call (EngineCall.PFEntityGroupAddEntity (groups.getD uFaceTopoFace.toNat 0) face))

/-- The function `A3DRiRepresentationItemCreatePTSolid` (lines 528-650). `solid` is the
value of `*solid` at entry. The result is `none` when the call does not return (a call
through the `nullptr` logger); otherwise it is the returned status, the value of `*solid`
and the state on return. `(int)uFaceSize` is the number of groups, zero when `uFaceSize`
does not fit a positive `int`. -/
def A3DRiRepresentationItemCreatePTSolid {R : Type} (K : TessFlagValues) (ri : RepItem R)
    (solid : Handle) (opts : BridgeState R) (logging_function : A3D_log_func) :
    Option (Status × Handle × BridgeState R) :=
  match ri with
  | RepItem.brep _ _ leaf =>
    let sTessData := leaf.sTessData
    let uFaceSize := u32 sTessData.m_uiFaceTessSize
    let v := forLoop (decodeFace K sTessData opts.pgOpts.m_iTopoFaceCount) 0 uFaceSize
      { auIndices := [], faceAppSurface := [], normal_indices := [] }
    let auIndices := v.auIndices.map fun i => i / 3
    let normal_indices := v.normal_indices.map fun i => Int.tdiv i 3
    let status := leaf.mesh.status
    let solid := leaf.mesh.solid
    let opts := opts.call (EngineCall.PFSolidCreateFromMesh (u32 (auIndices.length / 3))
      auIndices normal_indices v.faceAppSurface status solid)
    if status = PTStatus.PV_STATUS_OK then
      let intFaceSize := if uFaceSize < 2147483648 then uFaceSize else 0
      let groups := (List.range intFaceSize).map leaf.mesh.group
      let opts := opts.calls (groups.map EngineCall.PFEntityGroupCreate)
      match groupFaces opts.pgOpts.m_iTopoFaceCount intFaceSize groups logging_function
          leaf.mesh.faces opts with
      | none => none
      | some (iRet, groups, opts) =>
        some (iRet, solid,
          { opts with
            pgOpts := { opts.pgOpts with
              m_surface_groups := mapInsert opts.pgOpts.m_surface_groups solid groups
              m_iTopoFaceCount := opts.pgOpts.m_iTopoFaceCount + (uFaceSize : Int) } })
    else
      some (Status.A3D_SUCCESS, solid, opts)
  | _ => some (Status.A3D_PG_INVALID_RI, solid, opts)

/-! ## The traversal -/

/-- Lines 873-891 of `traverseRepItem`: the solid is added to the world and, when the
engine accepts it, the world entity gets its transform and style and is recorded with
its path. -/
def placeSolid {R : Type} (leaf : Leaf R) (assemblyPath : List Handle)
    (localTransform : PTTransformMatrix R) (solid : Handle) (pgOpts : BridgeState R) :
    BridgeState R :=
  let status := leaf.placement.status
  let worldEntity := leaf.placement.worldEntity
  let pgOpts := pgOpts.call (EngineCall.PFWorldAddEntity solid status worldEntity)
  if status = PTStatus.PV_STATUS_OK then
    let pgOpts := pgOpts.call (EngineCall.PFWorldEntitySetTransform worldEntity localTransform)
    let styled := LookupRenderStyleByColor leaf.r leaf.g leaf.b pgOpts leaf.placement.newStyle
    let pgOpts := styled.2.call (EngineCall.PFEntitySetEntityProperty worldEntity styled.1)
    { pgOpts with
      pgOpts := { pgOpts.pgOpts with
        m_paths := mapInsert pgOpts.pgOpts.m_paths worldEntity assemblyPath
        m_entities := pgOpts.pgOpts.m_entities ++ [worldEntity] } }
  else
    pgOpts

/-- The case `kA3DTypeRiBrepModel` / `kA3DTypeRiPolyBrepModel` of `traverseRepItem`
(lines 838-893): the returned `iRet` and the state, or `none` when the solid builder does
not return. The builder is called without a logger (line 865), so with its default
`nullptr`; the local `solid` is uninitialised before that call and always written by it. -/
def traverseLeaf {R : Type} [Ring R] (C : SdkConstants) (pRepItem : Handle) (poly : Bool)
    (leaf : Leaf R) (assemblyPath : List Handle) (transform : PTTransformMatrix R)
    (pgOpts : BridgeState R) : Option (Status × BridgeState R) :=
  let iRet := leaf.getStatus
  let located : Status × PTTransformMatrix R :=
    match leaf.m_pCoordinateSystem with
    | some sCoordSysData =>
      stTransform C.kA3DTransformationMirror sCoordSysData.m_pTransformation transform transform
    | none => (iRet, transform)
  match pgOpts.pgOpts.m_parts.lookup pRepItem with
  | none =>
    match A3DRiRepresentationItemCreatePTSolid C.tess (RepItem.brep pRepItem poly leaf) 0 pgOpts
        A3D_log_func.nullptr with
    | none => none
    | some (iRet, solid, pgOpts) =>
      some (iRet,
        placeSolid leaf assemblyPath located.2 solid
          { pgOpts with
            pgOpts := { pgOpts.pgOpts with
              m_parts := mapInsert pgOpts.pgOpts.m_parts pRepItem solid } })
  | some solid => some (located.1, placeSolid leaf assemblyPath located.2 solid pgOpts)

mutual
/-- The function `traverseRepItem` (lines 807-902), with the body of `traverseSet`
(lines 667-682) in place of its call at line 835. The result is `none` when the call does
not return; otherwise it is the returned status, the state and the content of the
function's own `assemblyPath` on return. -/
def traverseRepItem {R : Type} [Ring R] (C : SdkConstants) :
    RepItem R → List Handle → PTTransformMatrix R → BridgeState R →
    Option (Status × BridgeState R × List Handle)
  | RepItem.set _ getStatus m_ppRepItems, assemblyPath, transform, pgOpts =>
    if getStatus = Status.A3D_SUCCESS then
      match traverseSetItems C m_ppRepItems assemblyPath transform getStatus pgOpts with
      | none => none
      | some (iRet, pgOpts) => some (iRet, pgOpts, assemblyPath)
    else
      some (getStatus, pgOpts, assemblyPath)
  | RepItem.brep pRepItem poly leaf, assemblyPath, transform, pgOpts =>
    match traverseLeaf C pRepItem poly leaf assemblyPath transform pgOpts with
    | none => none
    | some (iRet, pgOpts) => some (iRet, pgOpts, assemblyPath)
  | RepItem.other _ _, assemblyPath, _, pgOpts =>
    some (Status.A3D_NOT_IMPLEMENTED, pgOpts, assemblyPath)
/-- The loop of `traverseSet` (lines 674-677) from the item `ui` on: `iRet` is overwritten
by every call. -/
def traverseSetItems {R : Type} [Ring R] (C : SdkConstants) :
    RepItems R → List Handle → PTTransformMatrix R → Status → BridgeState R →
    Option (Status × BridgeState R)
  | RepItems.nil, _, _, iRet, pgOpts => some (iRet, pgOpts)
  | RepItems.cons head tail, assemblyPath, transform, _, pgOpts =>
    match traverseRepItem C head assemblyPath transform pgOpts with
    | none => none
    | some (iRet, pgOpts, _) => traverseSetItems C tail assemblyPath transform iRet pgOpts
end

/-- The function `traverseSet` (lines 660-683) on a set with the given status of
`A3DRiSetGet` and items. -/
def traverseSet {R : Type} [Ring R] (C : SdkConstants) (getStatus : Status)
    (m_ppRepItems : RepItems R) (assemblyPath : List Handle) (transform : PTTransformMatrix R)
    (pgOpts : BridgeState R) : Option (Status × BridgeState R × List Handle) :=
  if getStatus = Status.A3D_SUCCESS then
    match traverseSetItems C m_ppRepItems assemblyPath transform getStatus pgOpts with
    | none => none
    | some (iRet, pgOpts) => some (iRet, pgOpts, assemblyPath)
  else
    some (getStatus, pgOpts, assemblyPath)

/-- The loop of `stTraversePartDef` (lines 930-933): the statuses are discarded. -/
def traversePartItems {R : Type} [Ring R] (C : SdkConstants) :
    RepItems R → List Handle → PTTransformMatrix R → BridgeState R → Option (BridgeState R)
  | RepItems.nil, _, _, pgOpts => some pgOpts
  | RepItems.cons head tail, assemblyPath, transform, pgOpts =>
    match traverseRepItem C head assemblyPath transform pgOpts with
    | none => none
    | some (_, pgOpts, _) => traversePartItems C tail assemblyPath transform pgOpts

/-- The function `stTraversePartDef` (lines 905-941). -/
def stTraversePartDef {R : Type} [Ring R] (C : SdkConstants) (pPart : PartDefinition R)
    (assemblyPath : List Handle) (transform : PTTransformMatrix R) (pgOpts : BridgeState R) :
    Option (Status × BridgeState R × List Handle) :=
  let assemblyPath := assemblyPath ++ [pPart.pPart]
  let iRet := pPart.getStatus
  if iRet = Status.A3D_SUCCESS then
    match traversePartItems C pPart.m_ppRepItems assemblyPath transform pgOpts with
    | none => none
    | some pgOpts => some (iRet, pgOpts, assemblyPath.dropLast)
  else
    some (iRet, pgOpts, assemblyPath.dropLast)

/-- Lines 971-987 of `stTraversePOccurrence`: the values of `iRet` and `localTransform`
after the location is handled. -/
def locate {R : Type} [Ring R] (C : SdkConstants) (iRet : Status)
    (m_pLocation : Option (Location R)) (transform : PTTransformMatrix R) :
    Status × PTTransformMatrix R :=
  match m_pLocation with
  | none => (iRet, transform)
  | some (Location.kA3DTypeMiscCartesianTransformation _ t) =>
    stTransform C.kA3DTransformationMirror t transform transform
  | some (Location.kA3DTypeMiscGeneralTransformation typeStatus) => (typeStatus, transform)
  | some (Location.unknown typeStatus _) => (typeStatus, transform)

mutual
/-- The function `stTraversePOccurrence` (lines 944-1023). The statuses of the nested
calls are discarded. -/
def stTraversePOccurrence {R : Type} [Ring R] (C : SdkConstants) :
    Occurrence R → List Handle → PTTransformMatrix R → Bool → BridgeState R →
    Option (Status × BridgeState R × List Handle)
  | Occurrence.mk pOccurrence getStatus m_pLocation m_pPrototype m_pExternalData
      m_ppPOccurrences m_pPart, assemblyPath, transform, isPrototype, pgOpts =>
    if getStatus = Status.A3D_SUCCESS then
      let located := locate C getStatus m_pLocation transform
      let assemblyPath := if !isPrototype then assemblyPath ++ [pOccurrence] else assemblyPath
      let nested : Option (BridgeState R) :=
        match m_pPrototype with
        | OccurrenceRef.ptr prototype =>
          (stTraversePOccurrence C prototype assemblyPath located.2 true pgOpts).map fun r => r.2.1
        | OccurrenceRef.null =>
          match m_pExternalData with
          | OccurrenceRef.ptr externalData =>
            (stTraversePOccurrence C externalData assemblyPath located.2 true pgOpts).map
              fun r => r.2.1
          | OccurrenceRef.null =>
            traverseOccurrences C m_ppPOccurrences assemblyPath located.2 pgOpts
      match nested with
      | none => none
      | some pgOpts =>
        let part : Option (BridgeState R) :=
          match m_pPart with
          | some pPart =>
            (stTraversePartDef C pPart assemblyPath located.2 pgOpts).map fun r => r.2.1
          | none => some pgOpts
        match part with
        | none => none
        | some pgOpts =>
          some (located.1, pgOpts,
            if !isPrototype then assemblyPath.dropLast else assemblyPath)
    else
      some (getStatus, pgOpts, assemblyPath)
/-- The loop of lines 1004-1007 over the child occurrences, and the loop of lines
1057-1060 over the root occurrences: each is traversed with `isPrototype = false`. -/
def traverseOccurrences {R : Type} [Ring R] (C : SdkConstants) :
    Occurrences R → List Handle → PTTransformMatrix R → BridgeState R →
    Option (BridgeState R)
  | Occurrences.nil, _, _, pgOpts => some pgOpts
  | Occurrences.cons head tail, assemblyPath, transform, pgOpts =>
    match stTraversePOccurrence C head assemblyPath transform false pgOpts with
    | none => none
    | some (_, pgOpts, _) => traverseOccurrences C tail assemblyPath transform pgOpts
end

/-- The function `A3DModelCreatePGWorld` (lines 1035-1065). `transform` is the matrix
`PMInitTransformMatrix` writes. -/
def A3DModelCreatePGWorld {R : Type} [Ring R] (C : SdkConstants) (pModelFile : ModelFile R)
    (transform : PTTransformMatrix R) (pgOpts : BridgeState R) :
    Option (Status × BridgeState R × List Handle) :=
  let assemblyPath : List Handle := []
  let iRet := pModelFile.getStatus
  if iRet = Status.A3D_SUCCESS then
    match traverseOccurrences C pModelFile.m_ppPOccurrences assemblyPath transform pgOpts with
    | none => none
    | some pgOpts => some (iRet, pgOpts, assemblyPath)
  else
    some (iRet, pgOpts, assemblyPath)

/-! ## Leaf visits: the description the traversal is compared with

The specification describes the traversal by the leaf items it reaches and the way each
is reached. A route lists the nodes passed from the starting node down to a leaf; the
assembly path and the transform of the leaf are functions of the route. -/

/-- A node passed on the way to a leaf: a product occurrence entered as a root or child
occurrence, a product occurrence entered through a prototype or external-data link, a
part definition, or a set. An occurrence comes with its location. -/
inductive Hop (R : Type)
  | occurrence (pOccurrence : Handle) (m_pLocation : Option (Location R))
  | link (pOccurrence : Handle) (m_pLocation : Option (Location R))
  | part (pPart : Handle)
  | set (pRepItem : Handle)

/-- What a node adds to the assembly path, in the words of the specification: an
occurrence entered as a non-prototype occurrence and a part definition add themselves;
an occurrence reached through a link adds nothing and a set adds nothing. -/
def Hop.chain {R : Type} : Hop R → List Handle
  | Hop.occurrence pOccurrence _ => [pOccurrence]
  | Hop.link _ _ => []
  | Hop.part pPart => [pPart]
  | Hop.set _ => []

/-- The assembly path of a route: what its nodes add, in order. -/
def chainOf {R : Type} (route : List (Hop R)) : List Handle :=
  route.flatMap Hop.chain

/-- The transform below a node, given the transform above it: an occurrence of either
kind applies its location (lines 971-987), a part definition or set changes nothing. -/
def Hop.transform {R : Type} [Ring R] (C : SdkConstants) (transform : PTTransformMatrix R) :
    Hop R → PTTransformMatrix R
  | Hop.occurrence _ m_pLocation => (locate C Status.A3D_SUCCESS m_pLocation transform).2
  | Hop.link _ m_pLocation => (locate C Status.A3D_SUCCESS m_pLocation transform).2
  | Hop.part _ => transform
  | Hop.set _ => transform

/-- The transform at the end of a route that starts with `transform`. -/
def transformAlong {R : Type} [Ring R] (C : SdkConstants) (route : List (Hop R))
    (transform : PTTransformMatrix R) : PTTransformMatrix R :=
  route.foldl (Hop.transform C) transform

/-- One visit of a leaf item: the route to it, its address and type, and its data. -/
structure LeafVisit (R : Type) where
  route : List (Hop R)
  pRepItem : Handle
  poly : Bool
  leaf : Leaf R

/-- The visit with one more node in front of its route. -/
def LeafVisit.under {R : Type} (hop : Hop R) (v : LeafVisit R) : LeafVisit R :=
  { v with route := hop :: v.route }

/-- The visit places a world instance: `PFWorldAddEntity` answers `PV_STATUS_OK`. -/
def LeafVisit.placed {R : Type} (v : LeafVisit R) : Bool :=
  decide (v.leaf.placement.status = PTStatus.PV_STATUS_OK)

mutual
/-- The leaf visits below a representation item, in order: a set whose data can be read
passes on the visits of its items, a B-rep item is one visit, other items give none. -/
def RepItem.visits {R : Type} : RepItem R → List (LeafVisit R)
  | RepItem.set pRepItem getStatus m_ppRepItems =>
    if getStatus = Status.A3D_SUCCESS then
      (RepItems.visits m_ppRepItems).map (LeafVisit.under (Hop.set pRepItem))
    else []
  | RepItem.brep pRepItem poly leaf => [{ route := [], pRepItem := pRepItem, poly := poly, leaf := leaf }]
  | RepItem.other _ _ => []
/-- The leaf visits below the items of an array, in order. -/
def RepItems.visits {R : Type} : RepItems R → List (LeafVisit R)
  | RepItems.nil => []
  | RepItems.cons head tail => RepItem.visits head ++ RepItems.visits tail
end

/-- The leaf visits below a part definition whose data can be read. -/
def PartDefinition.visits {R : Type} (pPart : PartDefinition R) : List (LeafVisit R) :=
  if pPart.getStatus = Status.A3D_SUCCESS then
    (RepItems.visits pPart.m_ppRepItems).map (LeafVisit.under (Hop.part pPart.pPart))
  else []

mutual
/-- The leaf visits below a product occurrence whose data can be read: those of its
prototype if it has one, else of its external data if it has some, else of its child
occurrences, followed by those of its part definition. -/
def Occurrence.visits {R : Type} : Occurrence R → Bool → List (LeafVisit R)
  | Occurrence.mk pOccurrence getStatus m_pLocation m_pPrototype m_pExternalData
      m_ppPOccurrences m_pPart, isPrototype =>
    if getStatus = Status.A3D_SUCCESS then
      ((match m_pPrototype with
        | OccurrenceRef.ptr prototype => Occurrence.visits prototype true
        | OccurrenceRef.null =>
          match m_pExternalData with
          | OccurrenceRef.ptr externalData => Occurrence.visits externalData true
          | OccurrenceRef.null => Occurrences.visits m_ppPOccurrences)
        ++ (match m_pPart with
          | some pPart => PartDefinition.visits pPart
          | none => [])).map
        (LeafVisit.under
          (if isPrototype then Hop.link pOccurrence m_pLocation
           else Hop.occurrence pOccurrence m_pLocation))
    else []
/-- The leaf visits below the occurrences of an array, each entered as a non-prototype
occurrence. -/
def Occurrences.visits {R : Type} : Occurrences R → List (LeafVisit R)
  | Occurrences.nil => []
  | Occurrences.cons head tail => Occurrence.visits head false ++ Occurrences.visits tail
end

/-- The leaf visits of a model file whose data can be read. -/
def ModelFile.visits {R : Type} (pModelFile : ModelFile R) : List (LeafVisit R) :=
  if pModelFile.getStatus = Status.A3D_SUCCESS then Occurrences.visits pModelFile.m_ppPOccurrences
  else []

/-- The leaf visits made one after the other: each is the leaf case of `traverseRepItem`
with the assembly path and the transform of its route. -/
def runVisits {R : Type} [Ring R] (C : SdkConstants) (assemblyPath : List Handle)
    (transform : PTTransformMatrix R) : List (LeafVisit R) → BridgeState R →
    Option (BridgeState R)
  | [], pgOpts => some pgOpts
  | v :: vs, pgOpts =>
    match traverseLeaf C v.pRepItem v.poly v.leaf (assemblyPath ++ chainOf v.route)
        (transformAlong C v.route transform) pgOpts with
    | none => none
    | some (_, pgOpts) => runVisits C assemblyPath transform vs pgOpts

/-! ## Counting engine calls -/

/-- The call is a `PFSolidCreateFromMesh`. -/
def EngineCall.isSolidCreate {R : Type} : EngineCall R → Bool
  | EngineCall.PFSolidCreateFromMesh _ _ _ _ _ _ => true
  | _ => false

/-- The call is a `PFWorldAddEntity`. -/
def EngineCall.isWorldAdd {R : Type} : EngineCall R → Bool
  | EngineCall.PFWorldAddEntity _ _ _ => true
  | _ => false

/-- The number of runs of the mesh builder `PFSolidCreateFromMesh` so far. -/
def BridgeState.solidsBuilt {R : Type} (s : BridgeState R) : Nat :=
  s.engineCalls.countP EngineCall.isSolidCreate

/-- The number of calls of `PFWorldAddEntity` so far. -/
def BridgeState.placements {R : Type} (s : BridgeState R) : Nat :=
  s.engineCalls.countP EngineCall.isWorldAdd

/-- The meshes handed to `PFSolidCreateFromMesh` so far: the triangle count, the vertex
indices, the normal indices and the tags. -/
def BridgeState.meshes {R : Type} (s : BridgeState R) :
    List (Nat × List Nat × List Int × List Int) :=
  s.engineCalls.filterMap fun c =>
    match c with
    | EngineCall.PFSolidCreateFromMesh nTriangles indices normal_indices app_surfaces _ _ =>
      some (nTriangles, indices, normal_indices, app_surfaces)
    | _ => none

/-- The groups handed to `PFEntityGroupDestroy` so far. -/
def BridgeState.groupsDestroyed {R : Type} (s : BridgeState R) : List Handle :=
  s.engineCalls.filterMap fun c =>
    match c with
    | EngineCall.PFEntityGroupDestroy group => some group
    | _ => none

/-- The groups written by `PFEntityGroupCreate` so far. -/
def BridgeState.groupsCreated {R : Type} (s : BridgeState R) : List Handle :=
  s.engineCalls.filterMap fun c =>
    match c with
    | EngineCall.PFEntityGroupCreate group => some group
    | _ => none

/-! ## What a sequence of leaf visits records -/

/-- The map after the pairs of `entries` are handed to `insert` one after the other. -/
def insertAll {ν : Type} (m : List (Nat × ν)) (entries : List (Nat × ν)) : List (Nat × ν) :=
  entries.foldl (fun m e => mapInsert m e.1 e.2) m

/-- The visits that place a world instance, in order. -/
def placedVisits {R : Type} (vs : List (LeafVisit R)) : List (LeafVisit R) :=
  vs.filter LeafVisit.placed

/-- The world entities of the visits that place a world instance, in order. -/
def placedEntities {R : Type} (vs : List (LeafVisit R)) : List Handle :=
  (placedVisits vs).map fun v => v.leaf.placement.worldEntity

/-- The identities of the visited leaf items, in order. -/
def visitedItems {R : Type} (vs : List (LeafVisit R)) : List Handle :=
  vs.map fun v => v.pRepItem

/-- The pairs the visits hand to the identity-to-solid map: the item and the solid the
engine writes for it. -/
def partEntries {R : Type} (vs : List (LeafVisit R)) : List (Nat × Handle) :=
  vs.map fun v => (v.pRepItem, v.leaf.mesh.solid)

/-- The pairs the placing visits hand to the path map: the world entity and the assembly
path of the route, after the path the traversal started with. -/
def pathEntries {R : Type} (assemblyPath : List Handle) (vs : List (LeafVisit R)) :
    List (Nat × List Handle) :=
  (placedVisits vs).map fun v => (v.leaf.placement.worldEntity, assemblyPath ++ chainOf v.route)

/-- The pairs the placing visits hand to the style palette: the colour key and the style
the engine writes if one is created. -/
def styleEntries {R : Type} (vs : List (LeafVisit R)) : List (Nat × Handle) :=
  (placedVisits vs).map fun v =>
    (paletteIndex v.leaf.r v.leaf.g v.leaf.b, v.leaf.placement.newStyle)

/-! ## Scenes -/

/-- A product occurrence whose data can be read, with no location, prototype, external
data or child, and with a part definition whose data can be read and which holds the
given representation items. -/
def partOccurrence {R : Type} (pOccurrence pPart : Handle) (m_ppRepItems : RepItems R) :
    Occurrence R :=
  Occurrence.mk pOccurrence Status.A3D_SUCCESS none OccurrenceRef.null OccurrenceRef.null
    Occurrences.nil
    (some { pPart := pPart, getStatus := Status.A3D_SUCCESS, m_ppRepItems := m_ppRepItems })

/-- A model with two root occurrences whose part definitions both reference the leaf
item at the address `pRepItem`; `first` and `second` hold what the SDK and the engine
answer on the first and on the second visit. -/
def sharedLeafModel {R : Type} (pOccurrence1 pPart1 pOccurrence2 pPart2 pRepItem : Handle)
    (poly : Bool) (first second : Leaf R) : ModelFile R :=
  { getStatus := Status.A3D_SUCCESS
    m_ppPOccurrences :=
      Occurrences.cons
        (partOccurrence pOccurrence1 pPart1
          (RepItems.cons (RepItem.brep pRepItem poly first) RepItems.nil))
        (Occurrences.cons
          (partOccurrence pOccurrence2 pPart2
            (RepItems.cons (RepItem.brep pRepItem poly second) RepItems.nil))
          Occurrences.nil) }

/-- A set whose data can be read and which holds two poly B-rep items. -/
def setOfTwo {R : Type} (pSet pRepItem1 pRepItem2 : Handle) (leaf1 leaf2 : Leaf R) :
    RepItem R :=
  RepItem.set pSet Status.A3D_SUCCESS
    (RepItems.cons (RepItem.brep pRepItem1 true leaf1)
      (RepItems.cons (RepItem.brep pRepItem2 true leaf2) RepItems.nil))

/-- A part definition whose data can be read and which holds one representation item. -/
def partOf {R : Type} (pPart : Handle) (item : RepItem R) : PartDefinition R :=
  { pPart := pPart, getStatus := Status.A3D_SUCCESS
    m_ppRepItems := RepItems.cons item RepItems.nil }

/-- A tessellation with one face made of the single triangle `(0, 1, 2)`: each corner
is a normal word followed by a vertex word (three times the point index). -/
def triangleTess : A3DTess3DData := recordOf (faceOf 0x0001 [1] 0) [9, 0, 9, 3, 9, 6]

/-- The tessellation `triangleTess` with the unknown flag bit `0x0008` set on its face. -/
def unknownFlagTess : A3DTess3DData := recordOf (faceOf 0x0009 [1] 0) [9, 0, 9, 3, 9, 6]

/-- A leaf item over the integers with the given tessellation and colour, without a
coordinate system, for which every SDK call succeeds and the engine answers with the
given solid, faces, world entity and style; the `k`-th group of the solid is
`solid + 100 + k`. -/
def leafOf (sTessData : A3DTess3DData) (r g b : ℚ) (solid : Handle)
    (faces : List (Handle × Int)) (worldEntity newStyle : Handle) : Leaf ℤ :=
  { getStatus := Status.A3D_SUCCESS, m_pCoordinateSystem := none, r := r, g := g, b := b
    sTessData := sTessData
    mesh := { status := PTStatus.PV_STATUS_OK, solid := solid, group := fun k => solid + 100 + k,
              faces := faces }
    placement := { status := PTStatus.PV_STATUS_OK, worldEntity := worldEntity,
                   newStyle := newStyle } }

/-- The value a run that does not return is given when its result is named. -/
def noResult : Status × BridgeState ℤ × List Handle :=
  (Status.A3D_PG_ERROR, BridgeState.fresh ℤ 0 0, [])

/-- Two root occurrences `1` and `2`, with parts `10` and `20`, both referencing the
red triangle item `100`. -/
def sharedTriangleModel : ModelFile ℤ :=
  sharedLeafModel 1 10 2 20 100 true
    (leafOf triangleTess 1 0 0 500 [(700, 0)] 801 901)
    (leafOf triangleTess 1 0 0 500 [(700, 0)] 802 902)

/-- The result of `A3DModelCreatePGWorld` on `sharedTriangleModel` and a fresh aggregate. -/
def sharedTriangleResult : Status × BridgeState ℤ × List Handle :=
  (A3DModelCreatePGWorld sdkConstants sharedTriangleModel identityMatrix
    (BridgeState.fresh ℤ 1 2)).getD noResult

/-- A set `50` of two poly B-rep items `100` and `101` with the same tessellation, the
first red and the second blue. -/
def twoColourSet : RepItem ℤ :=
  setOfTwo 50 100 101
    (leafOf triangleTess 1 0 0 500 [(700, 0)] 801 901)
    (leafOf triangleTess 0 0 1 501 [(701, 1)] 802 902)

/-- The counts the end-to-end scenario is about: cached solids, world instances, style
entries, and the lengths of the recorded paths. -/
def BridgeState.summary {R : Type} (s : BridgeState R) : Nat × Nat × Nat × List Nat :=
  (s.pgOpts.m_parts.length, s.pgOpts.m_entities.length, s.pgOpts.m_style_palette.length,
    s.pgOpts.m_paths.map fun e => e.2.length)

/-! ## Scenes for the solid builder -/

/-- The item `100` with the tessellation `unknownFlagTess`, for which the engine
succeeds. -/
def unknownFlagItem : RepItem ℤ :=
  RepItem.brep 100 true (leafOf unknownFlagTess 1 0 0 500 [(700, 0)] 801 901)

/-- A first item `100`, whose built solid has one face tagged `0`. -/
def taggedItem : RepItem ℤ :=
  RepItem.brep 100 true (leafOf triangleTess 1 0 0 500 [(700, 0)] 801 901)

/-- A second item `101`, whose built solid `501` has one face whose app-surface property
is `0`, as for a face that took no tag from the mesh. -/
def untaggedItem : RepItem ℤ :=
  RepItem.brep 101 true (leafOf triangleTess 1 0 0 501 [(701, 0)] 802 902)

/-- The solid of `taggedItem` is built on a fresh aggregate and then the solid of
`untaggedItem` on the same aggregate, whose running face count is then 1. -/
def buildTaggedThenUntagged (logging_function : A3D_log_func) :
    Option (Status × Handle × BridgeState ℤ) :=
  (A3DRiRepresentationItemCreatePTSolid sdkFlags taggedItem 0 (BridgeState.fresh ℤ 1 2)
    logging_function).bind fun built =>
      A3DRiRepresentationItemCreatePTSolid sdkFlags untaggedItem 0 built.2.2 logging_function

/-- The part `10` holding `taggedItem` and then `untaggedItem`. -/
def taggedThenUntaggedPart : PartDefinition ℤ :=
  { pPart := 10, getStatus := Status.A3D_SUCCESS
    m_ppRepItems := RepItems.cons taggedItem (RepItems.cons untaggedItem RepItems.nil) }

/-! ## The shape of routes -/

/-- The node is a product occurrence, entered either way. -/
def Hop.isOccurrence {R : Type} : Hop R → Bool
  | Hop.occurrence _ _ => true
  | Hop.link _ _ => true
  | _ => false

/-- The node is a set. -/
def Hop.isSet {R : Type} : Hop R → Bool
  | Hop.set _ => true
  | _ => false

/-- The occurrence, when the node is an occurrence entered as a non-prototype
occurrence. -/
def Hop.entered {R : Type} : Hop R → Option Handle
  | Hop.occurrence pOccurrence _ => some pOccurrence
  | _ => none

/-- A route is a run of occurrences, then one part definition, then a run of sets. -/
def RouteShape {R : Type} (route : List (Hop R)) : Prop :=
  ∃ (os : List (Hop R)) (pPart : Handle) (sets : List (Hop R)),
    route = os ++ Hop.part pPart :: sets
    ∧ (∀ h ∈ os, h.isOccurrence = true) ∧ (∀ h ∈ sets, h.isSet = true)

/-! ## A set under one root occurrence -/

/-- A model with the single root occurrence `pOccurrence`, whose part definition `pPart`
holds the one representation item `item`; all data can be read. -/
def singlePartModel {R : Type} (pOccurrence pPart : Handle) (item : RepItem R) : ModelFile R :=
  { getStatus := Status.A3D_SUCCESS
    m_ppPOccurrences :=
      Occurrences.cons (partOccurrence pOccurrence pPart (RepItems.cons item RepItems.nil))
        Occurrences.nil }

/-- The result of `A3DModelCreatePGWorld` on the model with the root occurrence `1`, whose
part `10` holds `twoColourSet`, and a fresh aggregate. -/
def twoColourModelResult : Status × BridgeState ℤ × List Handle :=
  (A3DModelCreatePGWorld sdkConstants (singlePartModel 1 10 twoColourSet) identityMatrix
    (BridgeState.fresh ℤ 1 2)).getD noResult

/-! ## The corners of a strip, as described -/

/-- The corner order the description gives for the `k`-th triangle of a strip:
`(k, k+1, k+2)` when `k` is even and `(k+1, k, k+2)` when `k` is odd. The decoder's
order is described as a cyclic rotation of it. -/
def stripeCornersDescribed {α : Type} (pt : Nat → α) (k : Nat) : List α :=
  if k % 2 = 0 then [pt k, pt (k + 1), pt (k + 2)] else [pt (k + 1), pt k, pt (k + 2)]

/-- The triple `tri` is the `k`-th triangle of a strip over the points `pt`: it is the
triple the decoder writes, `(k+1, k+2, k)` for even `k` and `(k+1, k, k+2)` for odd `k`;
it is a cyclic rotation of the described corner order; and its corners are exactly
the points `k`, `k+1`, `k+2`. -/
def StripeTriangleAt {α : Type} (pt : Nat → α) (k : Nat) (tri : List α) : Prop :=
  tri = (if k % 2 = 0 then [pt (k + 1), pt (k + 2), pt k] else [pt (k + 1), pt k, pt (k + 2)])
  ∧ List.IsRotated tri (stripeCornersDescribed pt k)
  ∧ List.Perm tri [pt k, pt (k + 1), pt (k + 2)]

/-! ## The matrices in memory

The functions of the section on transform composition take and return matrices as
values. Here the same source lines are read as assignments to a memory of doubles,
a map from the address of a double (counted in doubles) to its value, so that it can be
stated which cells a call writes. -/

/-- The sixteen doubles stored from the address `p` on. -/
def matrixAt {R : Type} (mem : Nat → R) (p : Nat) : PTTransformMatrix R :=
  { d0 := mem (p + 0), d1 := mem (p + 1), d2 := mem (p + 2), d3 := mem (p + 3),
    d4 := mem (p + 4), d5 := mem (p + 5), d6 := mem (p + 6), d7 := mem (p + 7),
    d8 := mem (p + 8), d9 := mem (p + 9), d10 := mem (p + 10), d11 := mem (p + 11),
    d12 := mem (p + 12), d13 := mem (p + 13), d14 := mem (p + 14), d15 := mem (p + 15) }

/-- The sixteen assignments `pdResult[i] = ...` of `MultiplyMatrix` (lines 731-746) in
source order, each as the cell written and the value as a function of the memory it
reads. The three arguments are the addresses the pointers hold. -/
def MultiplyMatrix.assignments {R : Type} [Add R] [Mul R]
    (padFather pdThisMatrix pdResult : Nat) : List (Nat × ((Nat → R) → R)) :=
  [ (pdResult + 0, fun mem =>
      mem (padFather + 0) * mem (pdThisMatrix + 0)
        + mem (padFather + 4) * mem (pdThisMatrix + 1)
        + mem (padFather + 8) * mem (pdThisMatrix + 2)
        + mem (padFather + 12) * mem (pdThisMatrix + 3)),
    (pdResult + 1, fun mem =>
      mem (padFather + 1) * mem (pdThisMatrix + 0)
        + mem (padFather + 5) * mem (pdThisMatrix + 1)
        + mem (padFather + 9) * mem (pdThisMatrix + 2)
        + mem (padFather + 13) * mem (pdThisMatrix + 3)),
    (pdResult + 2, fun mem =>
      mem (padFather + 2) * mem (pdThisMatrix + 0)
        + mem (padFather + 6) * mem (pdThisMatrix + 1)
        + mem (padFather + 10) * mem (pdThisMatrix + 2)
        + mem (padFather + 14) * mem (pdThisMatrix + 3)),
    (pdResult + 3, fun mem =>
      mem (padFather + 3) * mem (pdThisMatrix + 0)
        + mem (padFather + 7) * mem (pdThisMatrix + 1)
        + mem (padFather + 11) * mem (pdThisMatrix + 2)
        + mem (padFather + 15) * mem (pdThisMatrix + 3)),
    (pdResult + 4, fun mem =>
      mem (padFather + 0) * mem (pdThisMatrix + 4)
        + mem (padFather + 4) * mem (pdThisMatrix + 5)
        + mem (padFather + 8) * mem (pdThisMatrix + 6)
        + mem (padFather + 12) * mem (pdThisMatrix + 7)),
    (pdResult + 5, fun mem =>
      mem (padFather + 1) * mem (pdThisMatrix + 4)
        + mem (padFather + 5) * mem (pdThisMatrix + 5)
        + mem (padFather + 9) * mem (pdThisMatrix + 6)
        + mem (padFather + 13) * mem (pdThisMatrix + 7)),
    (pdResult + 6, fun mem =>
      mem (padFather + 2) * mem (pdThisMatrix + 4)
        + mem (padFather + 6) * mem (pdThisMatrix + 5)
        + mem (padFather + 10) * mem (pdThisMatrix + 6)
        + mem (padFather + 14) * mem (pdThisMatrix + 7)),
    (pdResult + 7, fun mem =>
      mem (padFather + 3) * mem (pdThisMatrix + 4)
        + mem (padFather + 7) * mem (pdThisMatrix + 5)
        + mem (padFather + 11) * mem (pdThisMatrix + 6)
        + mem (padFather + 15) * mem (pdThisMatrix + 7)),
    (pdResult + 8, fun mem =>
      mem (padFather + 0) * mem (pdThisMatrix + 8)
        + mem (padFather + 4) * mem (pdThisMatrix + 9)
        + mem (padFather + 8) * mem (pdThisMatrix + 10)
        + mem (padFather + 12) * mem (pdThisMatrix + 11)),
    (pdResult + 9, fun mem =>
      mem (padFather + 1) * mem (pdThisMatrix + 8)
        + mem (padFather + 5) * mem (pdThisMatrix + 9)
        + mem (padFather + 9) * mem (pdThisMatrix + 10)
        + mem (padFather + 13) * mem (pdThisMatrix + 11)),
    (pdResult + 10, fun mem =>
      mem (padFather + 2) * mem (pdThisMatrix + 8)
        + mem (padFather + 6) * mem (pdThisMatrix + 9)
        + mem (padFather + 10) * mem (pdThisMatrix + 10)
        + mem (padFather + 14) * mem (pdThisMatrix + 11)),
    (pdResult + 11, fun mem =>
      mem (padFather + 3) * mem (pdThisMatrix + 8)
        + mem (padFather + 7) * mem (pdThisMatrix + 9)
        + mem (padFather + 11) * mem (pdThisMatrix + 10)
        + mem (padFather + 15) * mem (pdThisMatrix + 11)),
    (pdResult + 12, fun mem =>
      mem (padFather + 0) * mem (pdThisMatrix + 12)
        + mem (padFather + 4) * mem (pdThisMatrix + 13)
        + mem (padFather + 8) * mem (pdThisMatrix + 14)
        + mem (padFather + 12) * mem (pdThisMatrix + 15)),
    (pdResult + 13, fun mem =>
      mem (padFather + 1) * mem (pdThisMatrix + 12)
        + mem (padFather + 5) * mem (pdThisMatrix + 13)
        + mem (padFather + 9) * mem (pdThisMatrix + 14)
        + mem (padFather + 13) * mem (pdThisMatrix + 15)),
    (pdResult + 14, fun mem =>
      mem (padFather + 2) * mem (pdThisMatrix + 12)
        + mem (padFather + 6) * mem (pdThisMatrix + 13)
        + mem (padFather + 10) * mem (pdThisMatrix + 14)
        + mem (padFather + 14) * mem (pdThisMatrix + 15)),
    (pdResult + 15, fun mem =>
      mem (padFather + 3) * mem (pdThisMatrix + 12)
        + mem (padFather + 7) * mem (pdThisMatrix + 13)
        + mem (padFather + 11) * mem (pdThisMatrix + 14)
        + mem (padFather + 15) * mem (pdThisMatrix + 15))]

/-- The function `MultiplyMatrix` (lines 726-748) on a memory of doubles: its sixteen
assignments are carried out one after the other, each reading the memory as the
assignments before it left it. -/
def MultiplyMatrixAt {R : Type} [Add R] [Mul R] (mem : Nat → R)
    (padFather pdThisMatrix pdResult : Nat) : Nat → R :=
  (MultiplyMatrix.assignments padFather pdThisMatrix pdResult).foldl
    (fun mem w => Function.update mem w.1 (w.2 mem)) mem

/-- The call `memset(m, 0, 16 * sizeof(double))` of line 777 on a memory of doubles. -/
def memsetZero16 {R : Type} [Zero R] (mem : Nat → R) (m : Nat) : Nat → R :=
  fun a => if m ≤ a ∧ a < m + 16 then 0 else mem a

/-- The function `stTransform` (lines 761-804) on a memory of doubles: the returned
status and the memory on return. `transform` and `localTransform` are the addresses of
the caller's two arrays and `m` is the address of the local array `double m[16]`. -/
def stTransformAt {R : Type} [Ring R] (kA3DTransformationMirror : Nat)
    (pTransformation : Transformation R) (mem : Nat → R) (transform localTransform m : Nat) :
    Status × (Nat → R) :=
  let iRet := pTransformation.getStatus
  let sTransformData := pTransformation.data
  if iRet = Status.A3D_SUCCESS then
    let dMirror : R :=
      if hasFlag (sTransformData.m_ucBehaviour % 256) kA3DTransformationMirror then -1 else 1
    let mem := memsetZero16 mem m
    let sZVector := CrossProduct sTransformData.m_sXVector sTransformData.m_sYVector
    let mem := Function.update mem (m + 12) sTransformData.m_sOrigin.m_dX
    let mem := Function.update mem (m + 13) sTransformData.m_sOrigin.m_dY
    let mem := Function.update mem (m + 14) sTransformData.m_sOrigin.m_dZ
    let mem := Function.update mem (m + 0)
      (sTransformData.m_sXVector.m_dX * sTransformData.m_sScale.m_dX)
    let mem := Function.update mem (m + 1)
      (sTransformData.m_sXVector.m_dY * sTransformData.m_sScale.m_dX)
    let mem := Function.update mem (m + 2)
      (sTransformData.m_sXVector.m_dZ * sTransformData.m_sScale.m_dX)
    let mem := Function.update mem (m + 4)
      (sTransformData.m_sYVector.m_dX * sTransformData.m_sScale.m_dY)
    let mem := Function.update mem (m + 5)
      (sTransformData.m_sYVector.m_dY * sTransformData.m_sScale.m_dY)
    let mem := Function.update mem (m + 6)
      (sTransformData.m_sYVector.m_dZ * sTransformData.m_sScale.m_dY)
    let mem := Function.update mem (m + 8)
      (dMirror * sZVector.m_dX * sTransformData.m_sScale.m_dZ)
    let mem := Function.update mem (m + 9)
      (dMirror * sZVector.m_dY * sTransformData.m_sScale.m_dZ)
    let mem := Function.update mem (m + 10)
      (dMirror * sZVector.m_dZ * sTransformData.m_sScale.m_dZ)
    let mem := Function.update mem (m + 15) 1
    (iRet, MultiplyMatrixAt mem transform m localTransform)
  else
    (iRet, mem)

/-- Two arrays of sixteen doubles at the addresses `p` and `q` share no cell. -/
def Apart (p q : Nat) : Prop := p + 16 ≤ q ∨ q + 16 ≤ p

instance Apart.decidable (p q : Nat) : Decidable (Apart p q) :=
  inferInstanceAs (Decidable (p + 16 ≤ q ∨ q + 16 ≤ p))

/-- A memory holding the listed doubles from address 0 on, and zero elsewhere. -/
def memOf {R : Type} [Zero R] (l : List R) : Nat → R := fun a => l.getD a 0

/-- A cartesian transformation over the integers whose data can be read: origin
`(1, 2, 3)`, axes `X = (1, 0, 0)` and `Y = (0, 1, 0)`, scale `(2, 3, 4)`, and the
behaviour byte `m_ucBehaviour`. -/
def scaledPlacement (m_ucBehaviour : Nat) : Transformation ℤ :=
  { getStatus := Status.A3D_SUCCESS
    data :=
      { m_sOrigin := { m_dX := 1, m_dY := 2, m_dZ := 3 }
        m_sXVector := { m_dX := 1, m_dY := 0, m_dZ := 0 }
        m_sYVector := { m_dX := 0, m_dY := 1, m_dZ := 0 }
        m_sScale := { m_dX := 2, m_dY := 3, m_dZ := 4 }
        m_ucBehaviour := m_ucBehaviour } }

/-- A memory of integers holding the matrix `shearAt4` in the cells 0..15 and zeros
elsewhere. -/
def shearMemory : Nat → ℤ := memOf [1, 0, 0, 0, 1, 1, 0, 0, 0, 0, 1, 0, 0, 0, 0, 1]

/-! ## The transform of a route, as described -/

/-- The identity matrix over any scalars. -/
def PTTransformMatrix.identity (R : Type) [Zero R] [One R] : PTTransformMatrix R :=
  { d0 := 1, d1 := 0, d2 := 0, d3 := 0, d4 := 0, d5 := 1, d6 := 0, d7 := 0,
    d8 := 0, d9 := 0, d10 := 1, d11 := 0, d12 := 0, d13 := 0, d14 := 0, d15 := 1 }

/-- What the location of a product occurrence contributes to the transform, in the words
of the specification: the local matrix of a cartesian location, and the identity when
there is no location or the location is not cartesian. A cartesian location whose data
cannot be read has no local matrix and counts as the identity as well. -/
def contributionOf {R : Type} [Ring R] (C : SdkConstants) :
    Option (Location R) → PTTransformMatrix R
  | some (Location.kA3DTypeMiscCartesianTransformation _ t) =>
    if t.getStatus = Status.A3D_SUCCESS then localMatrix C.kA3DTransformationMirror t.data
    else PTTransformMatrix.identity R
  | _ => PTTransformMatrix.identity R

/-- The matrices a node of a route contributes: an occurrence, entered either way, the
contribution of its location; a part definition or a set nothing. -/
def Hop.contributions {R : Type} [Ring R] (C : SdkConstants) : Hop R → List (PTTransformMatrix R)
  | Hop.occurrence _ m_pLocation => [contributionOf C m_pLocation]
  | Hop.link _ m_pLocation => [contributionOf C m_pLocation]
  | Hop.part _ => []
  | Hop.set _ => []

/-- The matrix a leaf item contributes: the local matrix of its coordinate system when it
has one whose transformation can be read. -/
def Leaf.contributions {R : Type} [Ring R] (C : SdkConstants) (leaf : Leaf R) :
    List (PTTransformMatrix R) :=
  match leaf.m_pCoordinateSystem with
  | some sCoordSysData =>
    if sCoordSysData.m_pTransformation.getStatus = Status.A3D_SUCCESS then
      [localMatrix C.kA3DTransformationMirror sCoordSysData.m_pTransformation.data]
    else []
  | none => []

/-- The ordered product of a list of matrices, first matrix first, by `MultiplyMatrix`,
after the matrix `transform` the traversal starts with. -/
def orderedProduct {R : Type} [Add R] [Mul R] (transform : PTTransformMatrix R)
    (ms : List (PTTransformMatrix R)) : PTTransformMatrix R :=
  ms.foldl MultiplyMatrix transform

/-- The transform of a leaf visit as described: the ordered product of the contributions
of the occurrences of its route, root first, times the contribution of the leaf. -/
def LeafVisit.describedTransform {R : Type} [Ring R] (C : SdkConstants)
    (transform : PTTransformMatrix R) (v : LeafVisit R) : PTTransformMatrix R :=
  orderedProduct transform (v.route.flatMap (Hop.contributions C) ++ v.leaf.contributions C)

/-! ## Kinds of engine calls -/

/-- The call creates, fills or destroys an entity group. -/
def EngineCall.isGroupCall {R : Type} : EngineCall R → Bool
  | EngineCall.PFEntityGroupCreate _ => true
  | EngineCall.PFEntityGroupDestroy _ => true
  | EngineCall.PFEntityGroupAddEntity _ _ => true
  | _ => false

/-- The world entity and the matrix of a `PFWorldEntitySetTransform` call. -/
def EngineCall.transformSet {R : Type} : EngineCall R → Option (Handle × PTTransformMatrix R)
  | EngineCall.PFWorldEntitySetTransform worldEntity localTransform =>
    some (worldEntity, localTransform)
  | _ => none

/-- The transforms set on world entities so far, oldest first. -/
def BridgeState.transformsSet {R : Type} (s : BridgeState R) :
    List (Handle × PTTransformMatrix R) :=
  s.engineCalls.filterMap EngineCall.transformSet

/-- The calls of the placement step (lines 873-891) for a leaf, in order: the world
entity is added and, when the engine accepts it, it gets its transform, a style is
created unless the palette (`m_style_palette`) has one for the colour, and the style is
set. -/
def placementCalls {R : Type} (leaf : Leaf R) (localTransform : PTTransformMatrix R)
    (solid : Handle) (m_style_palette : List (Nat × Handle)) : List (EngineCall R) :=
  EngineCall.PFWorldAddEntity solid leaf.placement.status leaf.placement.worldEntity ::
    (if leaf.placement.status = PTStatus.PV_STATUS_OK then
      EngineCall.PFWorldEntitySetTransform leaf.placement.worldEntity localTransform ::
        (match m_style_palette.lookup (paletteIndex leaf.r leaf.g leaf.b) with
          | some style =>
            [EngineCall.PFEntitySetEntityProperty leaf.placement.worldEntity style]
          | none =>
            [EngineCall.PFRenderStyleCreate leaf.placement.newStyle,
              EngineCall.PFEntitySetEntityProperty leaf.placement.worldEntity
                leaf.placement.newStyle])
    else [])

/-- The mesh the solid builder hands to `PFSolidCreateFromMesh` for a tessellation when the
running face count is `m_iTopoFaceCount` (lines 558-592): the three vectors after the loop
over the faces, before the divisions by three. -/
def meshBuffers (K : TessFlagValues) (sTessData : A3DTess3DData) (m_iTopoFaceCount : Int) :
    MeshBuffers :=
  forLoop (decodeFace K sTessData m_iTopoFaceCount) 0 (u32 sTessData.m_uiFaceTessSize)
    { auIndices := [], faceAppSurface := [], normal_indices := [] }

/-- The `PFSolidCreateFromMesh` call of the solid builder for a leaf when the running face
count is `m_iTopoFaceCount` (lines 567-592). -/
def meshCall {R : Type} (K : TessFlagValues) (leaf : Leaf R) (m_iTopoFaceCount : Int) :
    EngineCall R :=
  EngineCall.PFSolidCreateFromMesh
    (u32 (((meshBuffers K leaf.sTessData m_iTopoFaceCount).auIndices.map fun i => i / 3).length
      / 3))
    ((meshBuffers K leaf.sTessData m_iTopoFaceCount).auIndices.map fun i => i / 3)
    ((meshBuffers K leaf.sTessData m_iTopoFaceCount).normal_indices.map fun i => Int.tdiv i 3)
    (meshBuffers K leaf.sTessData m_iTopoFaceCount).faceAppSurface
    leaf.mesh.status leaf.mesh.solid

/-! ## A scene with located occurrences -/

/-- The red triangle item with a coordinate system whose transformation is
`scaledPlacement 4` (mirror bit set). -/
def mirroredLeaf : Leaf ℤ :=
  { leafOf triangleTess 1 0 0 500 [(700, 0)] 801 901 with
    m_pCoordinateSystem :=
      some { getStatus := Status.A3D_SUCCESS, m_pTransformation := scaledPlacement 4 } }

/-- A root occurrence `1` with the cartesian location `scaledPlacement 0`, whose prototype
`3` has a general location and the part `10` holding the item `100` with `mirroredLeaf`. -/
def locatedModel : ModelFile ℤ :=
  { getStatus := Status.A3D_SUCCESS
    m_ppPOccurrences :=
      Occurrences.cons
        (Occurrence.mk 1 Status.A3D_SUCCESS
          (some (Location.kA3DTypeMiscCartesianTransformation Status.A3D_SUCCESS
            (scaledPlacement 0)))
          (OccurrenceRef.ptr
            (Occurrence.mk 3 Status.A3D_SUCCESS
              (some (Location.kA3DTypeMiscGeneralTransformation Status.A3D_SUCCESS))
              OccurrenceRef.null OccurrenceRef.null Occurrences.nil
              (some (partOf 10 (RepItem.brep 100 true mirroredLeaf)))))
          OccurrenceRef.null Occurrences.nil none)
        Occurrences.nil }

/-- The result of `A3DModelCreatePGWorld` on `locatedModel` and a fresh aggregate. -/
def locatedModelResult : Status × BridgeState ℤ × List Handle :=
  (A3DModelCreatePGWorld sdkConstants locatedModel (PTTransformMatrix.identity ℤ)
    (BridgeState.fresh ℤ 1 2)).getD noResult

/-! ## The logger -/

/-- The call `logging_function(message, level)` through the pointer: it does not return
(`none`) when the pointer is `nullptr`; otherwise one message is delivered. -/
def A3D_log_func.invoke : A3D_log_func → Option Nat
  | A3D_log_func.nullptr => none
  | A3D_log_func.callback => some 1

/-- The function `CHECK_A3DSTATUS` (lines 124-131): the number of messages it delivers, or
`none` if it does not return. -/
def CHECK_A3DSTATUS (status : Status) (logger : A3D_log_func) : Option Nat :=
  if logger = A3D_log_func.nullptr ∨ status = Status.A3D_SUCCESS then some 0
  else logger.invoke

/-- The function `CHECK_PTSTATUS` (lines 134-140). -/
def CHECK_PTSTATUS (status : PTStatus) (logger : A3D_log_func) : Option Nat :=
  if logger = A3D_log_func.nullptr ∨ status = PTStatus.PV_STATUS_OK then some 0
  else logger.invoke

/-- The function `log` (lines 143-151). -/
def log (logging_function : A3D_log_func) : Option Nat :=
  if logging_function = A3D_log_func.nullptr then some 0
  else logging_function.invoke

/-! ## Scenes with failures -/

/-- A model whose single part holds an item of the unsupported type `77`. -/
def unsupportedItemModel : ModelFile ℤ := singlePartModel 1 10 (RepItem.other 100 77)

/-- The red triangle item for which `PFSolidCreateFromMesh` answers the error `7`. -/
def failedMeshLeaf : Leaf ℤ :=
  { leafOf triangleTess 1 0 0 500 [(700, 0)] 801 901 with
    mesh := { status := PTStatus.error 7, solid := 500, group := fun k => 600 + k,
              faces := [(700, 0)] } }

/-- A model whose single part holds the item `100` with `failedMeshLeaf`. -/
def failedMeshModel : ModelFile ℤ := singlePartModel 1 10 (RepItem.brep 100 true failedMeshLeaf)

/-- The red triangle item for which `PFWorldAddEntity` answers the error `9`. -/
def failedPlacementLeaf : Leaf ℤ :=
  { leafOf triangleTess 1 0 0 500 [(700, 0)] 801 901 with
    placement := { status := PTStatus.error 9, worldEntity := 801, newStyle := 901 } }

/-- A model whose single part holds the item `100` with `failedPlacementLeaf`. -/
def failedPlacementModel : ModelFile ℤ :=
  singlePartModel 1 10 (RepItem.brep 100 true failedPlacementLeaf)

/-- A model whose root occurrence `1` has the part `taggedThenUntaggedPart`. -/
def taggedThenUntaggedModel : ModelFile ℤ :=
  { getStatus := Status.A3D_SUCCESS
    m_ppPOccurrences :=
      Occurrences.cons
        (Occurrence.mk 1 Status.A3D_SUCCESS none OccurrenceRef.null OccurrenceRef.null
          Occurrences.nil (some taggedThenUntaggedPart))
        Occurrences.nil }

/-! ## The provenance tags of a mesh -/

/-- The three vectors of the solid builder after the first `n` faces are decoded (the loop
of lines 559-565 stopped after `n` iterations). -/
def facesDecoded (K : TessFlagValues) (sTessData : A3DTess3DData) (m_iTopoFaceCount : Int)
    (n : Nat) : MeshBuffers :=
  forLoop (decodeFace K sTessData m_iTopoFaceCount) 0 n
    { auIndices := [], faceAppSurface := [], normal_indices := [] }

/-- A tessellation with two faces, each holding one triangle: the decoder reads the face
record by its index, the first at offset 0 and the second at offset 6 of the indexes. -/
def twoFaceTess : A3DTess3DData :=
  { m_psFaceTessData := fun i => if i = 0 then faceOf 0x0001 [1] 0 else faceOf 0x0001 [1] 6
    m_uiFaceTessSize := 2
    m_puiTriangulatedIndexes := bufOf [9, 0, 9, 3, 9, 6, 9, 9, 9, 12, 9, 15]
    m_uiTriangulatedIndexSize := 12 }

/-- An item `100` with the two faces of `twoFaceTess`, whose built solid `500` has the faces
`700` and `701` tagged `5` and `6`. -/
def twoFaceItem : RepItem ℤ :=
  RepItem.brep 100 true (leafOf twoFaceTess 1 0 0 500 [(700, 5), (701, 6)] 801 901)

/-- A fresh aggregate whose running face count is `5`. -/
def countFive : BridgeState ℤ :=
  { BridgeState.fresh ℤ 1 2 with
    pgOpts := { (BridgeState.fresh ℤ 1 2).pgOpts with m_iTopoFaceCount := 5 } }

/-- The value a solid builder that does not return is given when its result is named. -/
def noSolid : Status × Handle × BridgeState ℤ := (Status.A3D_PG_ERROR, 0, BridgeState.fresh ℤ 0 0)

/-- The result of the solid builder on `twoFaceItem` and `countFive`. -/
def twoFaceBuilt : Status × Handle × BridgeState ℤ :=
  (A3DRiRepresentationItemCreatePTSolid sdkFlags twoFaceItem 0 countFive
    A3D_log_func.nullptr).getD noSolid

/-! ## Teardown -/

/-- The function `A3DDestroyBridgeSolids` (lines 1068-1077): `PFSolidDestroy` is called for
every solid of `m_parts`. The order of iteration of the map is the order of the list. -/
def A3DDestroyBridgeSolids {R : Type} (bridge_data : BridgeState R) : Status × BridgeState R :=
  (Status.A3D_SUCCESS,
    bridge_data.calls (bridge_data.pgOpts.m_parts.map fun i => EngineCall.PFSolidDestroy i.2))

/-- The function `A3DDestroyBridgeWorldEntities` (lines 1080-1089): `PFWorldRemoveEntity` is
called for every entity of `m_entities`. -/
def A3DDestroyBridgeWorldEntities {R : Type} (bridge_data : BridgeState R) :
    Status × BridgeState R :=
  (Status.A3D_SUCCESS,
    bridge_data.calls (bridge_data.pgOpts.m_entities.map EngineCall.PFWorldRemoveEntity))

/-- The function `A3DDestroyBridgePartsData` (lines 1092-1100). -/
def A3DDestroyBridgePartsData {R : Type} (bridge_data : BridgeState R) :
    Status × BridgeState R :=
  (Status.A3D_SUCCESS, { bridge_data with pgOpts := { bridge_data.pgOpts with m_parts := [] } })

/-- The function `A3DDestroyBridgeEntitiesData` (lines 1103-1111). -/
def A3DDestroyBridgeEntitiesData {R : Type} (bridge_data : BridgeState R) :
    Status × BridgeState R :=
  (Status.A3D_SUCCESS,
    { bridge_data with pgOpts := { bridge_data.pgOpts with m_entities := [] } })

/-- The function `A3DDestroyBridgeStylesData` (lines 1114-1126): `PFRenderStyleDestroy` is
called for every style of the palette, which is then cleared. -/
def A3DDestroyBridgeStylesData {R : Type} (bridge_data : BridgeState R) :
    Status × BridgeState R :=
  let bridge_data := bridge_data.calls
    (bridge_data.pgOpts.m_style_palette.map fun i => EngineCall.PFRenderStyleDestroy i.2)
  (Status.A3D_SUCCESS,
    { bridge_data with pgOpts := { bridge_data.pgOpts with m_style_palette := [] } })

/-- The loop of lines 1132-1141 over the entries of `m_surface_groups`: for each entry the
groups of the vector are destroyed and the vector is deleted. `groups->size()` on a `NULL`
vector is a read through a null pointer, from which the call does not return (`none`). -/
def destroySurfaceGroups {R : Type} :
    List (Handle × Option (List Handle)) → BridgeState R → Option (BridgeState R)
  | [], bridge_data => some bridge_data
  | (_, none) :: _, _ => none
  | (_, some groups) :: entries, bridge_data =>
    destroySurfaceGroups entries (bridge_data.calls (groups.map EngineCall.PFEntityGroupDestroy))

/-- The function `A3DDestroyBridgeSurfaceGroupsData` (lines 1129-1146). -/
def A3DDestroyBridgeSurfaceGroupsData {R : Type} (bridge_data : BridgeState R) :
    Option (Status × BridgeState R) :=
  match destroySurfaceGroups bridge_data.pgOpts.m_surface_groups bridge_data with
  | none => none
  | some bridge_data =>
    some (Status.A3D_SUCCESS,
      { bridge_data with pgOpts := { bridge_data.pgOpts with m_surface_groups := [] } })

/-- The function `A3DDestroyBridgePathsData` (lines 1149-1162): every path vector is deleted
and the map is cleared. The paths are kept by value in the map, so that clearing the map
is all that is left of it. -/
def A3DDestroyBridgePathsData {R : Type} (bridge_data : BridgeState R) :
    Status × BridgeState R :=
  (Status.A3D_SUCCESS, { bridge_data with pgOpts := { bridge_data.pgOpts with m_paths := [] } })

/-- The function `A3DDestroyBridgeData` (lines 1165-1178): the five data functions in
source order, their statuses discarded. The result is `none` when the call does not
return. -/
def A3DDestroyBridgeData {R : Type} (bridge_data : BridgeState R) :
    Option (Status × BridgeState R) :=
  let bridge_data := (A3DDestroyBridgePartsData bridge_data).2
  let bridge_data := (A3DDestroyBridgeEntitiesData bridge_data).2
  let bridge_data := (A3DDestroyBridgeStylesData bridge_data).2
  match A3DDestroyBridgeSurfaceGroupsData bridge_data with
  | none => none
  | some (_, bridge_data) =>
    let bridge_data := (A3DDestroyBridgePathsData bridge_data).2
    some (Status.A3D_SUCCESS, bridge_data)

/-- One of the three teardown operations a caller can combine: `A3DDestroyBridgeSolids`,
`A3DDestroyBridgeWorldEntities` or `A3DDestroyBridgeData`. -/
inductive TeardownOp
  | solids
  | worldEntities
  | data
  deriving DecidableEq, Repr

/-- The state after one teardown operation, or `none` when it does not return. -/
def TeardownOp.run {R : Type} (op : TeardownOp) (bridge_data : BridgeState R) :
    Option (BridgeState R) :=
  match op with
  | TeardownOp.solids => some (A3DDestroyBridgeSolids bridge_data).2
  | TeardownOp.worldEntities => some (A3DDestroyBridgeWorldEntities bridge_data).2
  | TeardownOp.data => (A3DDestroyBridgeData bridge_data).map Prod.snd

/-- The state after the teardown operations are called one after the other. -/
def runTeardown {R : Type} : List TeardownOp → BridgeState R → Option (BridgeState R)
  | [], bridge_data => some bridge_data
  | op :: ops, bridge_data =>
    match op.run bridge_data with
    | none => none
    | some bridge_data => runTeardown ops bridge_data

/-- The teardown calls `calls` release everything the aggregate `pgOpts` holds: every solid
of the identity map is destroyed, every world instance of the instance list is removed,
every style of the palette is destroyed and every group of every group list is
destroyed. -/
def ReleaseAll {R : Type} (pgOpts : A3DPolygonicaOptions) (calls : List (EngineCall R)) : Prop :=
  (∀ i ∈ pgOpts.m_parts, EngineCall.PFSolidDestroy i.2 ∈ calls)
  ∧ (∀ e ∈ pgOpts.m_entities, EngineCall.PFWorldRemoveEntity e ∈ calls)
  ∧ (∀ i ∈ pgOpts.m_style_palette, EngineCall.PFRenderStyleDestroy i.2 ∈ calls)
  ∧ (∀ i ∈ pgOpts.m_surface_groups, ∀ groups, i.2 = some groups →
      ∀ group ∈ groups, EngineCall.PFEntityGroupDestroy group ∈ calls)

/-- The five containers of the aggregate are empty. -/
def A3DPolygonicaOptions.Emptied (pgOpts : A3DPolygonicaOptions) : Prop :=
  pgOpts.m_parts = [] ∧ pgOpts.m_entities = [] ∧ pgOpts.m_style_palette = []
  ∧ pgOpts.m_surface_groups = [] ∧ pgOpts.m_paths = []

/-- The teardown operations `ops`, called in this order on `bridge_data`, all return, make
calls that release everything the aggregate held, and leave its five containers empty. -/
def TearsDown {R : Type} (ops : List TeardownOp) (bridge_data : BridgeState R) : Prop :=
  ∃ (r : BridgeState R) (calls : List (EngineCall R)),
    runTeardown ops bridge_data = some r
    ∧ r.engineCalls = bridge_data.engineCalls ++ calls
    ∧ ReleaseAll bridge_data.pgOpts calls
    ∧ r.pgOpts.Emptied

/-- The solids handed to `PFSolidDestroy` so far. -/
def BridgeState.solidsDestroyed {R : Type} (s : BridgeState R) : List Handle :=
  s.engineCalls.filterMap fun c =>
    match c with
    | EngineCall.PFSolidDestroy solid => some solid
    | _ => none

/-- The world entities handed to `PFWorldRemoveEntity` so far. -/
def BridgeState.entitiesRemoved {R : Type} (s : BridgeState R) : List Handle :=
  s.engineCalls.filterMap fun c =>
    match c with
    | EngineCall.PFWorldRemoveEntity worldEntity => some worldEntity
    | _ => none

/-- The styles handed to `PFRenderStyleDestroy` so far. -/
def BridgeState.stylesDestroyed {R : Type} (s : BridgeState R) : List Handle :=
  s.engineCalls.filterMap fun c =>
    match c with
    | EngineCall.PFRenderStyleDestroy style => some style
    | _ => none

/-- The aggregate after the solid of `taggedItem` and then that of `untaggedItem` are built
with a logger: the second solid is entered with a `NULL` group list. -/
def discardedGroupsData : BridgeState ℤ :=
  ((buildTaggedThenUntagged A3D_log_func.callback).getD noSolid).2.2

/-- The populated aggregate `A3DModelCreatePGWorld` leaves for `sharedTriangleModel`. -/
def sharedTriangleData : BridgeState ℤ := sharedTriangleResult.2.1

/-- The state after `A3DDestroyBridgeData`, `A3DDestroyBridgeSolids` and
`A3DDestroyBridgeWorldEntities` are called in this order on `sharedTriangleData`. -/
def dataFirstTeardown : BridgeState ℤ :=
  (runTeardown [TeardownOp.data, TeardownOp.solids, TeardownOp.worldEntities]
    sharedTriangleData).getD (BridgeState.fresh ℤ 0 0)

/-! ## Two colours with one palette key -/

/-- A set `50` of two poly B-rep items `100` and `101` with the same tessellation, the
first black and the second of the colour `(1/1024, 0, 0)`: the colours differ and have
the same palette key `0`. -/
def nearColourSet : RepItem ℤ :=
  setOfTwo 50 100 101
    (leafOf triangleTess 0 0 0 500 [(700, 0)] 801 901)
    (leafOf triangleTess (1 / 1024) 0 0 501 [(701, 1)] 802 902)

/-- The result of `A3DModelCreatePGWorld` on the model with the root occurrence `1`, whose
part `10` holds `nearColourSet`, and a fresh aggregate. -/
def nearColourModelResult : Status × BridgeState ℤ × List Handle :=
  (A3DModelCreatePGWorld sdkConstants (singlePartModel 1 10 nearColourSet) identityMatrix
    (BridgeState.fresh ℤ 1 2)).getD noResult

/-! ## Lemmas on the building blocks -/

theorem u32_lt (x : Nat) : u32 x < 4294967296 := Nat.mod_lt _ (by decide)

theorem u32_of_lt {x : Nat} (h : x < 4294967296) : u32 x = x := Nat.mod_eq_of_lt h

theorem rd_lt (p : Nat → Nat) (i : Nat) : rd p i < 4294967296 := u32_lt _

theorem fanCount_eq {n : Nat} (h1 : 1 ≤ n) (h2 : n < 4294967296) : fanCount n = n - 2 := by
  unfold fanCount u32sub
  rw [u32_of_lt h2, u32_of_lt (by decide : 1 < 4294967296)]
  omega

theorem stripeCount_eq {n : Nat} (h1 : 2 ≤ n) (h2 : n < 4294967296) :
    stripeCount n = n - 2 := by
  unfold stripeCount u32sub
  rw [u32_of_lt h2, u32_of_lt (by decide : 2 < 4294967296)]
  omega

theorem forLoop_succ_last {σ : Type} (body : Nat → σ → σ) (n : Nat) :
    ∀ (i : Nat) (s : σ), forLoop body i (n + 1) s = body (i + n) (forLoop body i n s) := by
  induction n with
  | zero => intro i s; simp [forLoop]
  | succ n ih =>
    intro i s
    rw [forLoop, ih (i + 1) (body i s)]
    have : i + 1 + n = i + (n + 1) := by omega
    rw [this]
    rfl

@[simp] theorem forLoop_zero {σ : Type} (body : Nat → σ → σ) (i : Nat) (s : σ) :
    forLoop body i 0 s = s := rfl

theorem forLoop_one {σ : Type} (body : Nat → σ → σ) (i : Nat) (s : σ) :
    forLoop body i 1 s = body i s := rfl

/-- A property kept by every iteration is kept by the loop. -/
theorem forLoop_invariant {σ : Type} (P : σ → Prop) (body : Nat → σ → σ)
    (h : ∀ i s, P s → P (body i s)) (n : Nat) :
    ∀ (i : Nat) (s : σ), P s → P (forLoop body i n s) := by
  induction n with
  | zero => intro i s hs; exact hs
  | succ n ih => intro i s hs; exact ih (i + 1) (body i s) (h i s hs)

theorem COPY__one {α : Type} (conv : Nat → α) (dest : List α) (mem : Nat → Nat) (src : Nat) :
    COPY_ conv dest mem src 1 = dest ++ [conv (rd mem src)] := by
  simp [COPY_, List.range_succ]

theorem COPY__three {α : Type} (conv : Nat → α) (dest : List α) (mem : Nat → Nat)
    (src : Nat) :
    COPY_ conv dest mem src 3 =
      dest ++ [conv (rd mem src), conv (rd mem (src + 1)), conv (rd mem (src + 2))] := by
  simp [COPY_, List.range_succ]

theorem length_plainTriangles {α : Type} (pt : Nat → α) (cnt : Nat) :
    (plainTriangles pt cnt).length = 3 * cnt := by
  induction cnt with
  | zero => simp [plainTriangles]
  | succ n ih =>
    simp only [plainTriangles] at ih
    simp [plainTriangles, List.range_succ, ih]
    omega

theorem length_fanTriangles {α : Type} (pt : Nat → α) (cnt : Nat) :
    (fanTriangles pt cnt).length = 3 * cnt := by
  induction cnt with
  | zero => simp [fanTriangles]
  | succ n ih =>
    simp only [fanTriangles] at ih
    simp [fanTriangles, List.range_succ, ih]
    omega

theorem length_stripeTriangles {α : Type} (pt : Nat → α) (cnt : Nat) :
    (stripeTriangles pt cnt).length = 3 * cnt := by
  induction cnt with
  | zero => simp [stripeTriangles]
  | succ n ih =>
    simp only [stripeTriangles] at ih
    simp only [stripeTriangles, List.range_succ, List.flatMap_append, List.length_append, ih,
      List.flatMap_singleton]
    split <;> simp <;> omega

/-! ## Closed forms of the loop bodies -/

theorem triangleBody_eq (buf : Nat → Nat) (s : DecodeState) :
    triangleBody buf s =
      { s with
        puiTriangulatedIndexes := s.puiTriangulatedIndexes + 6
        auIndices := s.auIndices ++ plainTriangles (vtx buf s.puiTriangulatedIndexes) 1
        normal_indices :=
          s.normal_indices ++ plainTriangles (nrm buf s.puiTriangulatedIndexes) 1 } := by
  simp [triangleBody, forLoop, triangleCorner, DecodeState.copyNormal, DecodeState.copyIndex,
    DecodeState.advance, COPY__one, plainTriangles, vtx, nrm, Nat.add_assoc, List.range_succ]

theorem triangleBody_loop (buf : Nat → Nat) (n i : Nat) (s : DecodeState) :
    forLoop (fun _ s => triangleBody buf s) i n s =
      { s with
        puiTriangulatedIndexes := s.puiTriangulatedIndexes + 6 * n
        auIndices := s.auIndices ++ plainTriangles (vtx buf s.puiTriangulatedIndexes) n
        normal_indices :=
          s.normal_indices ++ plainTriangles (nrm buf s.puiTriangulatedIndexes) n } := by
  induction n with
  | zero => simp [plainTriangles]
  | succ n ih =>
    rw [forLoop_succ_last, ih, triangleBody_eq]
    ext1
    · simp; omega
    · simp
    · simp
    · simp only [plainTriangles, vtx, List.range_succ, List.flatMap_append, List.append_assoc]
      refine congrArg (_ ++ ·) (congrArg (_ ++ ·) ?_)
      simp only [List.range_zero, List.nil_append, List.flatMap_singleton, List.cons.injEq,
        and_true, List.flatMap_nil]
      refine ⟨?_, ?_, ?_⟩ <;> refine congrArg (rd buf) ?_ <;> omega
    · simp only [plainTriangles, nrm, List.range_succ, List.flatMap_append, List.append_assoc]
      refine congrArg (_ ++ ·) (congrArg (_ ++ ·) ?_)
      simp only [List.range_zero, List.nil_append, List.flatMap_singleton, List.cons.injEq,
        and_true, List.flatMap_nil]
      refine ⟨?_, ?_, ?_⟩ <;> refine congrArg (fun x => toInt32 (rd buf x)) ?_ <;> omega

theorem fanInner_loop (buf : Nat → Nat) (a b : Nat) (n : Nat) (i : Nat) (s : DecodeState) :
    forLoop (fun _ s => fanInner buf a b s) i n s =
      { s with
        puiTriangulatedIndexes := s.puiTriangulatedIndexes + 2 * n
        auIndices := s.auIndices ++ (List.range n).flatMap fun j =>
          [rd buf b, rd buf (s.puiTriangulatedIndexes + 2 * j),
            rd buf (s.puiTriangulatedIndexes + 2 * j + 2)]
        normal_indices := s.normal_indices ++ (List.range n).flatMap fun j =>
          [toInt32 (rd buf a), toInt32 (rd buf (s.puiTriangulatedIndexes + 2 * j - 1)),
            toInt32 (rd buf (s.puiTriangulatedIndexes + 2 * j + 1))] } := by
  induction n with
  | zero => simp
  | succ n ih =>
    rw [forLoop_succ_last, ih]
    simp [fanInner, DecodeState.copyNormal, DecodeState.copyIndex, DecodeState.advance,
      COPY__one, List.range_succ, Nat.mul_add, Nat.add_assoc]

theorem fanBody_eq (f : A3DTessFaceData) (buf : Nat → Nat) (s : DecodeState) :
    fanBody f buf s =
      { puiTriangulatedIndexes := s.puiTriangulatedIndexes + 4
          + 2 * fanCount (rd f.m_puiSizesTriangulated s.uiCurrentSize)
        uiCurrentSize := u32 (s.uiCurrentSize + 1)
        unprocessed_flags := s.unprocessed_flags
        auIndices := s.auIndices ++ fanTriangles (vtx buf s.puiTriangulatedIndexes)
          (fanCount (rd f.m_puiSizesTriangulated s.uiCurrentSize))
        normal_indices := s.normal_indices ++ fanTriangles (nrm buf s.puiTriangulatedIndexes)
          (fanCount (rd f.m_puiSizesTriangulated s.uiCurrentSize)) } := by
  simp only [fanBody, fanInner_loop, DecodeState.advance, DecodeState.nextSize, fanCount]
  ext1
  · simp; omega
  · simp
  · simp
  · simp only [fanTriangles, vtx]
    refine congrArg (_ ++ ·) ?_
    apply List.flatMap_congr
    intro j _
    simp only [List.cons.injEq, and_true, true_and]
    refine ⟨?_, ?_⟩ <;> refine congrArg (rd buf) ?_ <;> omega
  · simp only [fanTriangles, nrm]
    refine congrArg (_ ++ ·) ?_
    apply List.flatMap_congr
    intro j _
    simp only [List.cons.injEq, and_true, true_and]
    refine ⟨?_, ?_, ?_⟩ <;> refine congrArg (fun x => toInt32 (rd buf x)) ?_ <;> omega

theorem stripeInner_loop (buf : Nat → Nat) (n : Nat) (s : DecodeState) :
    forLoop (fun uIPoint s => stripeInner buf uIPoint s) 0 n s =
      { s with
        puiTriangulatedIndexes := s.puiTriangulatedIndexes + 2 * n
        auIndices := s.auIndices ++ (List.range n).flatMap fun j =>
          if j % 2 ≠ 0 then
            [rd buf (s.puiTriangulatedIndexes + 2 * j),
              rd buf (s.puiTriangulatedIndexes + 2 * j - 2),
              rd buf (s.puiTriangulatedIndexes + 2 * j + 2)]
          else
            [rd buf (s.puiTriangulatedIndexes + 2 * j),
              rd buf (s.puiTriangulatedIndexes + 2 * j + 2),
              rd buf (s.puiTriangulatedIndexes + 2 * j - 2)]
        normal_indices := s.normal_indices ++ (List.range n).flatMap fun j =>
          if j % 2 ≠ 0 then
            [toInt32 (rd buf (s.puiTriangulatedIndexes + 2 * j - 1)),
              toInt32 (rd buf (s.puiTriangulatedIndexes + 2 * j - 3)),
              toInt32 (rd buf (s.puiTriangulatedIndexes + 2 * j + 1))]
          else
            [toInt32 (rd buf (s.puiTriangulatedIndexes + 2 * j - 1)),
              toInt32 (rd buf (s.puiTriangulatedIndexes + 2 * j + 1)),
              toInt32 (rd buf (s.puiTriangulatedIndexes + 2 * j - 3))] } := by
  induction n with
  | zero => simp
  | succ n ih =>
    rw [forLoop_succ_last, ih]
    by_cases hn : n % 2 = 0
    · simp [stripeInner, DecodeState.copyNormal, DecodeState.copyIndex, DecodeState.advance,
        COPY__one, List.range_succ, Nat.mul_add, Nat.add_assoc, hn]
    · have hn1 : n % 2 = 1 := by omega
      simp [stripeInner, DecodeState.copyNormal, DecodeState.copyIndex, DecodeState.advance,
        COPY__one, List.range_succ, Nat.mul_add, Nat.add_assoc, hn1]

theorem stripeBody_eq (f : A3DTessFaceData) (buf : Nat → Nat) (s : DecodeState) :
    stripeBody f buf s =
      { puiTriangulatedIndexes := s.puiTriangulatedIndexes + 4
          + 2 * stripeCount (rd f.m_puiSizesTriangulated s.uiCurrentSize)
        uiCurrentSize := u32 (s.uiCurrentSize + 1)
        unprocessed_flags := s.unprocessed_flags
        auIndices := s.auIndices ++ stripeTriangles (vtx buf s.puiTriangulatedIndexes)
          (stripeCount (rd f.m_puiSizesTriangulated s.uiCurrentSize))
        normal_indices := s.normal_indices ++ stripeTriangles (nrm buf s.puiTriangulatedIndexes)
          (stripeCount (rd f.m_puiSizesTriangulated s.uiCurrentSize)) } := by
  simp only [stripeBody, stripeInner_loop, DecodeState.advance, DecodeState.nextSize,
    stripeCount]
  ext1
  · simp; omega
  · simp
  · simp
  · simp only [stripeTriangles, vtx]
    refine congrArg (_ ++ ·) ?_
    apply List.flatMap_congr
    intro j _
    split
    · simp only [List.cons.injEq, and_true]
      refine ⟨?_, ?_, ?_⟩ <;> refine congrArg (rd buf) ?_ <;> omega
    · simp only [List.cons.injEq, and_true]
      refine ⟨?_, ?_, ?_⟩ <;> refine congrArg (rd buf) ?_ <;> omega
  · simp only [stripeTriangles, nrm]
    refine congrArg (_ ++ ·) ?_
    apply List.flatMap_congr
    intro j _
    split
    · simp only [List.cons.injEq, and_true]
      refine ⟨?_, ?_, ?_⟩ <;> refine congrArg (fun x => toInt32 (rd buf x)) ?_ <;> omega
    · simp only [List.cons.injEq, and_true]
      refine ⟨?_, ?_, ?_⟩ <;> refine congrArg (fun x => toInt32 (rd buf x)) ?_ <;> omega

theorem triangleOneNormalBody_eq (buf : Nat → Nat) (s : DecodeState) :
    triangleOneNormalBody buf s =
      { s with
        puiTriangulatedIndexes := s.puiTriangulatedIndexes + 4
        auIndices := s.auIndices ++ plainTriangles (vtxT1 buf s.puiTriangulatedIndexes) 1
        normal_indices :=
          s.normal_indices ++ plainTriangles (nrmT1 buf s.puiTriangulatedIndexes) 1 } := by
  simp [triangleOneNormalBody, DecodeState.copyNormal, DecodeState.copyIndex,
    DecodeState.advance, COPY__one, COPY__three, plainTriangles, vtxT1, nrmT1, Nat.add_assoc,
    List.range_succ]

theorem triangleOneNormalBody_loop (buf : Nat → Nat) (n i : Nat) (s : DecodeState) :
    forLoop (fun _ s => triangleOneNormalBody buf s) i n s =
      { s with
        puiTriangulatedIndexes := s.puiTriangulatedIndexes + 4 * n
        auIndices := s.auIndices ++ plainTriangles (vtxT1 buf s.puiTriangulatedIndexes) n
        normal_indices :=
          s.normal_indices ++ plainTriangles (nrmT1 buf s.puiTriangulatedIndexes) n } := by
  induction n with
  | zero => simp [plainTriangles]
  | succ n ih =>
    rw [forLoop_succ_last, ih, triangleOneNormalBody_eq]
    ext1
    · simp; omega
    · simp
    · simp
    · simp only [plainTriangles, vtxT1, List.range_succ, List.flatMap_append, List.append_assoc]
      refine congrArg (_ ++ ·) (congrArg (_ ++ ·) ?_)
      simp only [List.range_zero, List.nil_append, List.flatMap_singleton, List.cons.injEq,
        and_true, List.flatMap_nil]
      refine ⟨?_, ?_, ?_⟩ <;> refine congrArg (rd buf) ?_ <;> omega
    · simp only [plainTriangles, nrmT1, List.range_succ, List.flatMap_append, List.append_assoc]
      refine congrArg (_ ++ ·) (congrArg (_ ++ ·) ?_)
      simp only [List.range_zero, List.nil_append, List.flatMap_singleton, List.cons.injEq,
        and_true, List.flatMap_nil]
      refine ⟨?_, ?_, ?_⟩ <;> refine congrArg (fun x => toInt32 (rd buf x)) ?_ <;> omega

theorem fanOneNormalInner_loop (buf : Nat → Nat) (b : Nat) (n : Nat) (i : Nat)
    (s : DecodeState) :
    forLoop (fun _ s => fanOneNormalInner buf b s) i n s =
      { s with
        puiTriangulatedIndexes := s.puiTriangulatedIndexes + n
        auIndices := s.auIndices ++ (List.range n).flatMap fun j =>
          [rd buf b, rd buf (s.puiTriangulatedIndexes + j),
            rd buf (s.puiTriangulatedIndexes + j + 1)]
        normal_indices := s.normal_indices ++ (List.range n).flatMap fun _ =>
          [toInt32 (rd buf (b - 1)), toInt32 (rd buf (b - 1)), toInt32 (rd buf (b - 1))] } := by
  induction n with
  | zero => simp
  | succ n ih =>
    rw [forLoop_succ_last, ih]
    simp [fanOneNormalInner, DecodeState.copyNormal, DecodeState.copyIndex,
      DecodeState.advance, COPY__one, List.range_succ, Nat.add_assoc]

theorem fanOneNormalBody_eq (K : TessFlagValues) (f : A3DTessFaceData) (buf : Nat → Nat)
    (s : DecodeState) :
    fanOneNormalBody K f buf s =
      { puiTriangulatedIndexes := s.puiTriangulatedIndexes + 3
          + fanCount (rd f.m_puiSizesTriangulated s.uiCurrentSize
              &&& K.kA3DTessFaceDataNormalMask)
        uiCurrentSize := u32 (s.uiCurrentSize + 1)
        unprocessed_flags := s.unprocessed_flags
        auIndices := s.auIndices ++ fanTriangles (vtx1 buf s.puiTriangulatedIndexes)
          (fanCount (rd f.m_puiSizesTriangulated s.uiCurrentSize
              &&& K.kA3DTessFaceDataNormalMask))
        normal_indices := s.normal_indices
          ++ fanTriangles (fun _ => nrm1 buf s.puiTriangulatedIndexes)
          (fanCount (rd f.m_puiSizesTriangulated s.uiCurrentSize
              &&& K.kA3DTessFaceDataNormalMask)) } := by
  simp only [fanOneNormalBody, fanOneNormalInner_loop, DecodeState.advance,
    DecodeState.nextSize, fanCount]
  ext1
  · simp; omega
  · simp
  · simp
  · simp only [fanTriangles, vtx1]
    refine congrArg (_ ++ ·) ?_
    apply List.flatMap_congr
    intro j _
    simp only [List.cons.injEq, and_true, true_and]
    refine ⟨?_, ?_⟩ <;> refine congrArg (rd buf) ?_ <;> omega
  · simp only [fanTriangles, nrm1]
    refine congrArg (_ ++ ·) ?_
    apply List.flatMap_congr
    intro j _
    simp only [List.cons.injEq, and_true, true_and, Nat.add_sub_cancel, and_self]

theorem stripeOneNormalInner_loop (buf : Nat → Nat) (a : Nat) (n : Nat) (s : DecodeState) :
    forLoop (fun uIPoint s => stripeOneNormalInner buf a uIPoint s) 0 n s =
      { s with
        puiTriangulatedIndexes := s.puiTriangulatedIndexes + n
        auIndices := s.auIndices ++ (List.range n).flatMap fun j =>
          if j % 2 ≠ 0 then
            [rd buf (s.puiTriangulatedIndexes + j), rd buf (s.puiTriangulatedIndexes + j - 1),
              rd buf (s.puiTriangulatedIndexes + j + 1)]
          else
            [rd buf (s.puiTriangulatedIndexes + j), rd buf (s.puiTriangulatedIndexes + j + 1),
              rd buf (s.puiTriangulatedIndexes + j - 1)]
        normal_indices := s.normal_indices ++ (List.range n).flatMap fun _ =>
          [toInt32 (rd buf a), toInt32 (rd buf a), toInt32 (rd buf a)] } := by
  induction n with
  | zero => simp
  | succ n ih =>
    rw [forLoop_succ_last, ih]
    by_cases hn : n % 2 = 0
    · simp [stripeOneNormalInner, DecodeState.copyNormal, DecodeState.copyIndex,
        DecodeState.advance, COPY__one, List.range_succ, Nat.add_assoc, hn]
    · have hn1 : n % 2 = 1 := by omega
      simp [stripeOneNormalInner, DecodeState.copyNormal, DecodeState.copyIndex,
        DecodeState.advance, COPY__one, List.range_succ, Nat.add_assoc, hn1]

theorem stripeTriangles_const {α : Type} (a : α) (cnt : Nat) :
    stripeTriangles (fun _ => a) cnt = (List.range cnt).flatMap fun _ => [a, a, a] := by
  unfold stripeTriangles
  apply List.flatMap_congr
  intro j _
  split <;> rfl

theorem stripeOneNormalBody_eq (K : TessFlagValues) (f : A3DTessFaceData) (buf : Nat → Nat)
    (s : DecodeState) :
    stripeOneNormalBody K f buf s =
      { puiTriangulatedIndexes := s.puiTriangulatedIndexes + 3
          + stripeCount (rd f.m_puiSizesTriangulated s.uiCurrentSize
              &&& K.kA3DTessFaceDataNormalMask)
        uiCurrentSize := u32 (s.uiCurrentSize + 1)
        unprocessed_flags := s.unprocessed_flags
        auIndices := s.auIndices ++ stripeTriangles (vtx1 buf s.puiTriangulatedIndexes)
          (stripeCount (rd f.m_puiSizesTriangulated s.uiCurrentSize
              &&& K.kA3DTessFaceDataNormalMask))
        normal_indices := s.normal_indices
          ++ stripeTriangles (fun _ => nrm1 buf s.puiTriangulatedIndexes)
          (stripeCount (rd f.m_puiSizesTriangulated s.uiCurrentSize
              &&& K.kA3DTessFaceDataNormalMask)) } := by
  simp only [stripeOneNormalBody, stripeOneNormalInner_loop, DecodeState.advance,
    DecodeState.nextSize, stripeCount, stripeTriangles_const]
  ext1
  · simp; omega
  · simp
  · simp
  · simp only [stripeTriangles, vtx1]
    refine congrArg (_ ++ ·) ?_
    apply List.flatMap_congr
    intro j _
    split
    · simp only [List.cons.injEq, and_true]
      refine ⟨?_, ?_, ?_⟩ <;> refine congrArg (rd buf) ?_ <;> omega
    · simp only [List.cons.injEq, and_true]
      refine ⟨?_, ?_, ?_⟩ <;> refine congrArg (rd buf) ?_ <;> omega
  · simp only [nrm1]
    refine congrArg (_ ++ ·) ?_
    apply List.flatMap_congr
    intro j _
    simp only [List.cons.injEq, and_true, true_and, Nat.add_sub_cancel, and_self]

/-! ## The decoder only appends, and appends to both containers alike -/

theorem DecodeState.Grows.refl (s : DecodeState) : s.Grows s :=
  ⟨[], [], by simp, by simp, rfl⟩

theorem DecodeState.Grows.trans {s t u : DecodeState} (h1 : s.Grows t) (h2 : t.Grows u) :
    s.Grows u := by
  obtain ⟨a, n, ha, hn, hl⟩ := h1
  obtain ⟨b, m, hb, hm, hl2⟩ := h2
  exact ⟨a ++ b, n ++ m, by rw [hb, ha, List.append_assoc], by rw [hm, hn, List.append_assoc],
    by simp [hl, hl2]⟩

theorem forLoop_grows (body : Nat → DecodeState → DecodeState)
    (h : ∀ (i : Nat) (s : DecodeState), s.Grows (body i s)) (n i : Nat) (s : DecodeState) :
    s.Grows (forLoop body i n s) :=
  forLoop_invariant (fun t => s.Grows t) body (fun i t ht => ht.trans (h i t)) n i s
    (DecodeState.Grows.refl s)

theorem strip_nextSize_grows (s : DecodeState) (k : Nat) : s.Grows (s.strip k).nextSize :=
  ⟨[], [], by simp [DecodeState.strip, DecodeState.nextSize],
    by simp [DecodeState.strip, DecodeState.nextSize], rfl⟩

theorem triangleBody_grows (buf : Nat → Nat) (s : DecodeState) :
    s.Grows (triangleBody buf s) := by
  rw [triangleBody_eq]
  exact ⟨_, _, rfl, rfl, by simp [length_plainTriangles]⟩

theorem fanBody_grows (f : A3DTessFaceData) (buf : Nat → Nat) (s : DecodeState) :
    s.Grows (fanBody f buf s) := by
  rw [fanBody_eq]
  exact ⟨_, _, rfl, rfl, by simp [length_fanTriangles]⟩

theorem stripeBody_grows (f : A3DTessFaceData) (buf : Nat → Nat) (s : DecodeState) :
    s.Grows (stripeBody f buf s) := by
  rw [stripeBody_eq]
  exact ⟨_, _, rfl, rfl, by simp [length_stripeTriangles]⟩

theorem triangleOneNormalBody_grows (buf : Nat → Nat) (s : DecodeState) :
    s.Grows (triangleOneNormalBody buf s) := by
  rw [triangleOneNormalBody_eq]
  exact ⟨_, _, rfl, rfl, by simp [length_plainTriangles]⟩

theorem fanOneNormalBody_grows (K : TessFlagValues) (f : A3DTessFaceData) (buf : Nat → Nat)
    (s : DecodeState) : s.Grows (fanOneNormalBody K f buf s) := by
  rw [fanOneNormalBody_eq]
  exact ⟨_, _, rfl, rfl, by simp [length_fanTriangles]⟩

theorem stripeOneNormalBody_grows (K : TessFlagValues) (f : A3DTessFaceData)
    (buf : Nat → Nat) (s : DecodeState) : s.Grows (stripeOneNormalBody K f buf s) := by
  rw [stripeOneNormalBody_eq]
  exact ⟨_, _, rfl, rfl, by simp [length_stripeTriangles]⟩

theorem triangleTexturedCorner_grows (f : A3DTessFaceData) (buf : Nat → Nat)
    (s : DecodeState) : s.Grows (triangleTexturedCorner f buf s) :=
  ⟨[rd buf (s.puiTriangulatedIndexes + 1 + u32 f.m_uiTextureCoordIndexesSize)],
    [toInt32 (rd buf s.puiTriangulatedIndexes)], by simp [triangleTexturedCorner, DecodeState.copyNormal, DecodeState.copyIndex,
      DecodeState.advance, COPY__one],
    by simp [triangleTexturedCorner, DecodeState.copyNormal, DecodeState.copyIndex,
      DecodeState.advance, COPY__one], rfl⟩

theorem triangleTexturedBody_grows (f : A3DTessFaceData) (buf : Nat → Nat)
    (s : DecodeState) : s.Grows (triangleTexturedBody f buf s) :=
  forLoop_grows _ (fun _ t => triangleTexturedCorner_grows f buf t) 3 0 s

theorem triangleBlock_grows (K : TessFlagValues) (f : A3DTessFaceData) (buf : Nat → Nat)
    (s : DecodeState) : s.Grows (triangleBlock K f buf s) := by
  unfold triangleBlock
  split
  · exact (strip_nextSize_grows s _).trans
      (forLoop_grows _ (fun _ t => triangleBody_grows buf t) _ _ _)
  · exact DecodeState.Grows.refl s

theorem fanBlock_grows (K : TessFlagValues) (f : A3DTessFaceData) (buf : Nat → Nat)
    (s : DecodeState) : s.Grows (fanBlock K f buf s) := by
  unfold fanBlock
  split
  · exact (strip_nextSize_grows s _).trans
      (forLoop_grows _ (fun _ t => fanBody_grows f buf t) _ _ _)
  · exact DecodeState.Grows.refl s

theorem stripeBlock_grows (K : TessFlagValues) (f : A3DTessFaceData) (buf : Nat → Nat)
    (s : DecodeState) : s.Grows (stripeBlock K f buf s) := by
  unfold stripeBlock
  split
  · exact (strip_nextSize_grows s _).trans
      (forLoop_grows _ (fun _ t => stripeBody_grows f buf t) _ _ _)
  · exact DecodeState.Grows.refl s

theorem triangleOneNormalBlock_grows (K : TessFlagValues) (f : A3DTessFaceData)
    (buf : Nat → Nat) (s : DecodeState) : s.Grows (triangleOneNormalBlock K f buf s) := by
  unfold triangleOneNormalBlock
  split
  · exact (strip_nextSize_grows s _).trans
      (forLoop_grows _ (fun _ t => triangleOneNormalBody_grows buf t) _ _ _)
  · exact DecodeState.Grows.refl s

theorem fanOneNormalBlock_grows (K : TessFlagValues) (f : A3DTessFaceData)
    (buf : Nat → Nat) (s : DecodeState) : s.Grows (fanOneNormalBlock K f buf s) := by
  unfold fanOneNormalBlock
  split
  · exact (strip_nextSize_grows s _).trans
      (forLoop_grows _ (fun _ t => fanOneNormalBody_grows K f buf t) _ _ _)
  · exact DecodeState.Grows.refl s

theorem stripeOneNormalBlock_grows (K : TessFlagValues) (f : A3DTessFaceData)
    (buf : Nat → Nat) (s : DecodeState) : s.Grows (stripeOneNormalBlock K f buf s) := by
  unfold stripeOneNormalBlock
  split
  · exact (strip_nextSize_grows s _).trans
      (forLoop_grows _ (fun _ t => stripeOneNormalBody_grows K f buf t) _ _ _)
  · exact DecodeState.Grows.refl s

theorem triangleTexturedBlock_grows (K : TessFlagValues) (f : A3DTessFaceData)
    (buf : Nat → Nat) (s : DecodeState) : s.Grows (triangleTexturedBlock K f buf s) := by
  unfold triangleTexturedBlock
  split
  · exact (strip_nextSize_grows s _).trans
      (forLoop_grows _ (fun _ t => triangleTexturedBody_grows f buf t) _ _ _)
  · exact DecodeState.Grows.refl s

theorem decodeBlocks_grows (K : TessFlagValues) (f : A3DTessFaceData) (buf : Nat → Nat)
    (s : DecodeState) : s.Grows (decodeBlocks K f buf s) := by
  unfold decodeBlocks
  exact (triangleBlock_grows K f buf _).trans <| (fanBlock_grows K f buf _).trans <|
    (stripeBlock_grows K f buf _).trans <| (triangleOneNormalBlock_grows K f buf _).trans <|
    (fanOneNormalBlock_grows K f buf _).trans <| (stripeOneNormalBlock_grows K f buf _).trans <|
    triangleTexturedBlock_grows K f buf _

/-- Whatever status is returned, the final locals are those of the early return
(no size block) or those reached after the seven blocks. -/
theorem IndicesPerFaceAsTriangles_snd (K : TessFlagValues) (t : A3DTess3DData) (i : Nat)
    (au : List Nat) (ni : List Int) :
    (IndicesPerFaceAsTriangles K t i au ni).2 =
      if u32 (t.m_psFaceTessData (u32 i)).m_uiSizesTriangulatedSize = 0 then
        initialState (t.m_psFaceTessData (u32 i)) au ni
      else
        decodeBlocks K (t.m_psFaceTessData (u32 i)) t.m_puiTriangulatedIndexes
          (initialState (t.m_psFaceTessData (u32 i)) au ni) := by
  unfold IndicesPerFaceAsTriangles
  simp only
  split_ifs <;> rfl

theorem IndicesPerFaceAsTriangles_grows (K : TessFlagValues) (t : A3DTess3DData) (i : Nat)
    (au : List Nat) (ni : List Int) :
    (initialState (t.m_psFaceTessData (u32 i)) au ni).Grows
      (IndicesPerFaceAsTriangles K t i au ni).2 := by
  rw [IndicesPerFaceAsTriangles_snd]
  split
  · exact DecodeState.Grows.refl _
  · exact decodeBlocks_grows _ _ _ _

/-! ## Flag tests -/

theorem hasFlag_eq_false_iff (a b : Nat) : hasFlag a b = false ↔ a &&& b = 0 := by
  simp [hasFlag]

theorem hasFlag_eq_true_iff (a b : Nat) : hasFlag a b = true ↔ a &&& b ≠ 0 := by
  simp [hasFlag]

theorem hasFlag_self {a : Nat} (h : a ≠ 0) : hasFlag a a = true := by
  simp [hasFlag, h]

theorem hasFlag_comm (a b : Nat) : hasFlag a b = hasFlag b a := by
  simp [hasFlag, Nat.land_comm]

theorem u16_lt (x : Nat) : u16 x < 65536 := Nat.mod_lt _ (by decide)

theorem testBit_clearFlag {u : Nat} (hu : u < 65536) (k b : Nat) :
    (clearFlag u k).testBit b = (u.testBit b && !k.testBit b) := by
  unfold clearFlag
  rw [Nat.testBit_and, Nat.testBit_xor]
  have h65 : (65535 : Nat) = 2 ^ 16 - 1 := by norm_num
  rw [h65, Nat.testBit_two_pow_sub_one]
  by_cases hb : b < 16
  · simp [hb]
  · have : u.testBit b = false := by
      apply Nat.testBit_lt_two_pow
      calc u < 2 ^ 16 := by simpa using hu
        _ ≤ 2 ^ b := Nat.pow_le_pow_right (by decide) (by omega)
    simp [this]

theorem clearFlag_le (u k : Nat) : clearFlag u k ≤ u := Nat.and_le_left

theorem clearFlag_self {k : Nat} (hk : k < 65536) : clearFlag k k = 0 := by
  apply Nat.eq_of_testBit_eq
  intro b
  rw [testBit_clearFlag hk]
  simp

theorem sdkFlags_separate : sdkFlags.Separate := by
  unfold TessFlagValues.Separate TessFlagValues.variantFlags sdkFlags
  decide

/-- Under `Separate`, testing one variant flag against another fails and testing
it against itself succeeds: the outcomes of the twelve tests on the `j`-th flag. -/
theorem TessFlagValues.Separate.tests {K : TessFlagValues} (hK : K.Separate) (j : Nat)
    (hj : j < 12) :
    K.variantFlags.map (hasFlag (K.variantFlags.getD j 0)) =
      (List.range 12).map (fun i => decide (i = j)) := by
  obtain ⟨hp, hnz⟩ := hK
  simp only [TessFlagValues.variantFlags, List.pairwise_cons, List.mem_cons, List.mem_singleton,
    forall_eq_or_imp, forall_eq, List.not_mem_nil, false_implies, implies_true, and_true,
    List.Pairwise.nil] at hp hnz
  have h12 : ∀ j, j < 12 → j = 0 ∨ j = 1 ∨ j = 2 ∨ j = 3 ∨ j = 4 ∨ j = 5 ∨ j = 6 ∨ j = 7
      ∨ j = 8 ∨ j = 9 ∨ j = 10 ∨ j = 11 := by omega
  rcases h12 j hj with h | h | h | h | h | h | h | h | h | h | h | h <;> subst h <;>
    simp [TessFlagValues.variantFlags, hasFlag, Nat.land_comm, hp, hnz, List.range_succ]

theorem decodeBlocks_fanOnly {K : TessFlagValues} (hK : K.Separate) (f : A3DTessFaceData)
    (hf : u16 f.m_usUsedEntitiesFlags = K.kA3DTessFaceDataTriangleFan) (buf : Nat → Nat)
    (s : DecodeState) :
    decodeBlocks K f buf s =
      forLoop (fun _ s => fanBody f buf s) 0 (rd f.m_puiSizesTriangulated s.uiCurrentSize)
        (s.strip K.kA3DTessFaceDataTriangleFan).nextSize := by
  have h := hK.tests 1 (by decide)
  simp [TessFlagValues.variantFlags, List.range_succ] at h
  obtain ⟨h0, h1, h2, h3, h4, h5, h6, -⟩ := h
  simp [decodeBlocks, triangleBlock, fanBlock, stripeBlock, triangleOneNormalBlock,
    fanOneNormalBlock, stripeOneNormalBlock, triangleTexturedBlock, hf, h0, h1, h2, h3, h4, h5,
    h6, DecodeState.strip, DecodeState.nextSize]

theorem decodeBlocks_triangleOnly {K : TessFlagValues} (hK : K.Separate)
    (f : A3DTessFaceData)
    (hf : u16 f.m_usUsedEntitiesFlags = K.kA3DTessFaceDataTriangle) (buf : Nat → Nat)
    (s : DecodeState) :
    decodeBlocks K f buf s =
      forLoop (fun _ s => triangleBody buf s) 0 (rd f.m_puiSizesTriangulated s.uiCurrentSize)
        (s.strip K.kA3DTessFaceDataTriangle).nextSize := by
  have h := hK.tests 0 (by decide)
  simp [TessFlagValues.variantFlags, List.range_succ] at h
  obtain ⟨h0, h1, h2, h3, h4, h5, h6, -⟩ := h
  simp [decodeBlocks, triangleBlock, fanBlock, stripeBlock, triangleOneNormalBlock,
    fanOneNormalBlock, stripeOneNormalBlock, triangleTexturedBlock, hf, h0, h1, h2, h3, h4, h5,
    h6, DecodeState.strip, DecodeState.nextSize]

theorem decodeBlocks_stripeOnly {K : TessFlagValues} (hK : K.Separate) (f : A3DTessFaceData)
    (hf : u16 f.m_usUsedEntitiesFlags = K.kA3DTessFaceDataTriangleStripe) (buf : Nat → Nat)
    (s : DecodeState) :
    decodeBlocks K f buf s =
      forLoop (fun _ s => stripeBody f buf s) 0 (rd f.m_puiSizesTriangulated s.uiCurrentSize)
        (s.strip K.kA3DTessFaceDataTriangleStripe).nextSize := by
  have h := hK.tests 2 (by decide)
  simp [TessFlagValues.variantFlags, List.range_succ] at h
  obtain ⟨h0, h1, h2, h3, h4, h5, h6, -⟩ := h
  simp [decodeBlocks, triangleBlock, fanBlock, stripeBlock, triangleOneNormalBlock,
    fanOneNormalBlock, stripeOneNormalBlock, triangleTexturedBlock, hf, h0, h1, h2, h3, h4, h5,
    h6, DecodeState.strip, DecodeState.nextSize]

/-- A face holding a run of `T` plain triangles and nothing else. -/
theorem IndicesPerFaceAsTriangles_triangles {K : TessFlagValues} (hK : K.Separate)
    (t : A3DTess3DData) (i : Nat) (au : List Nat) (ni : List Int)
    (hsz : u32 (t.m_psFaceTessData (u32 i)).m_uiSizesTriangulatedSize ≠ 0)
    (hf : u16 (t.m_psFaceTessData (u32 i)).m_usUsedEntitiesFlags = K.kA3DTessFaceDataTriangle) :
    (IndicesPerFaceAsTriangles K t i au ni).2.auIndices =
        au ++ plainTriangles
          (vtx t.m_puiTriangulatedIndexes (u32 (t.m_psFaceTessData (u32 i)).m_uiStartTriangulated))
          (rd (t.m_psFaceTessData (u32 i)).m_puiSizesTriangulated 0)
      ∧ (IndicesPerFaceAsTriangles K t i au ni).2.normal_indices =
        ni ++ plainTriangles
          (nrm t.m_puiTriangulatedIndexes (u32 (t.m_psFaceTessData (u32 i)).m_uiStartTriangulated))
          (rd (t.m_psFaceTessData (u32 i)).m_puiSizesTriangulated 0) := by
  rw [IndicesPerFaceAsTriangles_snd, if_neg hsz, decodeBlocks_triangleOnly hK _ hf,
    triangleBody_loop]
  simp [initialState, DecodeState.strip, DecodeState.nextSize]

/-- A face holding one fan and nothing else. -/
theorem IndicesPerFaceAsTriangles_oneFan {K : TessFlagValues} (hK : K.Separate)
    (t : A3DTess3DData) (i : Nat) (au : List Nat) (ni : List Int)
    (hsz : u32 (t.m_psFaceTessData (u32 i)).m_uiSizesTriangulatedSize ≠ 0)
    (hf : u16 (t.m_psFaceTessData (u32 i)).m_usUsedEntitiesFlags
      = K.kA3DTessFaceDataTriangleFan)
    (h1 : rd (t.m_psFaceTessData (u32 i)).m_puiSizesTriangulated 0 = 1) :
    (IndicesPerFaceAsTriangles K t i au ni).2.auIndices =
        au ++ fanTriangles
          (vtx t.m_puiTriangulatedIndexes (u32 (t.m_psFaceTessData (u32 i)).m_uiStartTriangulated))
          (fanCount (rd (t.m_psFaceTessData (u32 i)).m_puiSizesTriangulated 1))
      ∧ (IndicesPerFaceAsTriangles K t i au ni).2.normal_indices =
        ni ++ fanTriangles
          (nrm t.m_puiTriangulatedIndexes (u32 (t.m_psFaceTessData (u32 i)).m_uiStartTriangulated))
          (fanCount (rd (t.m_psFaceTessData (u32 i)).m_puiSizesTriangulated 1)) := by
  rw [IndicesPerFaceAsTriangles_snd, if_neg hsz, decodeBlocks_fanOnly hK _ hf]
  have hc : u32 (0 + 1) = 1 := by decide
  simp [initialState, DecodeState.strip, DecodeState.nextSize, h1, forLoop_one, fanBody_eq, hc]

/-- A face holding one strip and nothing else. -/
theorem IndicesPerFaceAsTriangles_oneStripe {K : TessFlagValues} (hK : K.Separate)
    (t : A3DTess3DData) (i : Nat) (au : List Nat) (ni : List Int)
    (hsz : u32 (t.m_psFaceTessData (u32 i)).m_uiSizesTriangulatedSize ≠ 0)
    (hf : u16 (t.m_psFaceTessData (u32 i)).m_usUsedEntitiesFlags
      = K.kA3DTessFaceDataTriangleStripe)
    (h1 : rd (t.m_psFaceTessData (u32 i)).m_puiSizesTriangulated 0 = 1) :
    (IndicesPerFaceAsTriangles K t i au ni).2.auIndices =
        au ++ stripeTriangles
          (vtx t.m_puiTriangulatedIndexes (u32 (t.m_psFaceTessData (u32 i)).m_uiStartTriangulated))
          (stripeCount (rd (t.m_psFaceTessData (u32 i)).m_puiSizesTriangulated 1))
      ∧ (IndicesPerFaceAsTriangles K t i au ni).2.normal_indices =
        ni ++ stripeTriangles
          (nrm t.m_puiTriangulatedIndexes (u32 (t.m_psFaceTessData (u32 i)).m_uiStartTriangulated))
          (stripeCount (rd (t.m_psFaceTessData (u32 i)).m_puiSizesTriangulated 1)) := by
  rw [IndicesPerFaceAsTriangles_snd, if_neg hsz, decodeBlocks_stripeOnly hK _ hf]
  have hc : u32 (0 + 1) = 1 := by decide
  simp [initialState, DecodeState.strip, DecodeState.nextSize, h1, forLoop_one, stripeBody_eq,
    hc]

/-- In a concatenation of triples, the `j`-th triple is found at offset `3 * j`. -/
theorem flatMap_triple {α : Type} (g : Nat → List α) (hg : ∀ j, (g j).length = 3) (n : Nat) :
    ∀ j, j < n → (((List.range n).flatMap g).drop (3 * j)).take 3 = g j := by
  have hlen : ∀ m, ((List.range m).flatMap g).length = 3 * m := by
    intro m
    induction m with
    | zero => simp
    | succ m ih => simp [List.range_succ, ih, hg]; omega
  induction n with
  | zero => intro j hj; omega
  | succ n ih =>
    intro j hj
    rw [List.range_succ, List.flatMap_append, List.flatMap_singleton]
    by_cases hjn : j < n
    · rw [List.drop_append_of_le_length (by rw [hlen]; omega),
        List.take_append_of_le_length (by rw [List.length_drop, hlen]; omega)]
      exact ih j hjn
    · have hj' : j = n := by omega
      subst hj'
      have : 3 * j = ((List.range j).flatMap g).length := (hlen j).symm
      rw [this, List.drop_left, List.take_of_length_le (by rw [hg])]

/-! ## What remains of the flag word -/

theorem forLoop_flags (body : Nat → DecodeState → DecodeState)
    (h : ∀ (i : Nat) (s : DecodeState), (body i s).unprocessed_flags = s.unprocessed_flags)
    (n i : Nat) (s : DecodeState) :
    (forLoop body i n s).unprocessed_flags = s.unprocessed_flags :=
  forLoop_invariant (fun t => t.unprocessed_flags = s.unprocessed_flags) body
    (fun i t ht => (h i t).trans ht) n i s rfl

theorem triangleTexturedBody_flags (f : A3DTessFaceData) (buf : Nat → Nat) (s : DecodeState) :
    (triangleTexturedBody f buf s).unprocessed_flags = s.unprocessed_flags :=
  forLoop_flags _ (fun _ t => by
    simp [triangleTexturedCorner, DecodeState.copyNormal, DecodeState.copyIndex,
      DecodeState.advance]) 3 0 s

theorem decodeBlocks_flags (K : TessFlagValues) (f : A3DTessFaceData) (buf : Nat → Nat)
    (s : DecodeState) :
    (decodeBlocks K f buf s).unprocessed_flags =
      remainingFlags K (u16 f.m_usUsedEntitiesFlags) s.unprocessed_flags := by
  have e1 : ∀ s, (triangleBlock K f buf s).unprocessed_flags =
      stripIf (u16 f.m_usUsedEntitiesFlags) K.kA3DTessFaceDataTriangle s.unprocessed_flags := by
    intro s
    unfold triangleBlock stripIf
    split
    · rw [forLoop_flags _ (fun _ t => by rw [triangleBody_eq])]; rfl
    · rfl
  have e2 : ∀ s, (fanBlock K f buf s).unprocessed_flags =
      stripIf (u16 f.m_usUsedEntitiesFlags) K.kA3DTessFaceDataTriangleFan
        s.unprocessed_flags := by
    intro s
    unfold fanBlock stripIf
    split
    · rw [forLoop_flags _ (fun _ t => by rw [fanBody_eq])]; rfl
    · rfl
  have e3 : ∀ s, (stripeBlock K f buf s).unprocessed_flags =
      stripIf (u16 f.m_usUsedEntitiesFlags) K.kA3DTessFaceDataTriangleStripe
        s.unprocessed_flags := by
    intro s
    unfold stripeBlock stripIf
    split
    · rw [forLoop_flags _ (fun _ t => by rw [stripeBody_eq])]; rfl
    · rfl
  have e4 : ∀ s, (triangleOneNormalBlock K f buf s).unprocessed_flags =
      stripIf (u16 f.m_usUsedEntitiesFlags) K.kA3DTessFaceDataTriangleOneNormal
        s.unprocessed_flags := by
    intro s
    unfold triangleOneNormalBlock stripIf
    split
    · rw [forLoop_flags _ (fun _ t => by rw [triangleOneNormalBody_eq])]; rfl
    · rfl
  have e5 : ∀ s, (fanOneNormalBlock K f buf s).unprocessed_flags =
      stripIf (u16 f.m_usUsedEntitiesFlags) K.kA3DTessFaceDataTriangleFanOneNormal
        s.unprocessed_flags := by
    intro s
    unfold fanOneNormalBlock stripIf
    split
    · rw [forLoop_flags _ (fun _ t => by rw [fanOneNormalBody_eq])]; rfl
    · rfl
  have e6 : ∀ s, (stripeOneNormalBlock K f buf s).unprocessed_flags =
      stripIf (u16 f.m_usUsedEntitiesFlags) K.kA3DTessFaceDataTriangleStripeOneNormal
        s.unprocessed_flags := by
    intro s
    unfold stripeOneNormalBlock stripIf
    split
    · rw [forLoop_flags _ (fun _ t => by rw [stripeOneNormalBody_eq])]; rfl
    · rfl
  have e7 : ∀ s, (triangleTexturedBlock K f buf s).unprocessed_flags =
      stripIf (u16 f.m_usUsedEntitiesFlags) K.kA3DTessFaceDataTriangleTextured
        s.unprocessed_flags := by
    intro s
    unfold triangleTexturedBlock stripIf
    split
    · rw [forLoop_flags _ (fun _ t => triangleTexturedBody_flags f buf t)]; rfl
    · rfl
  unfold decodeBlocks remainingFlags
  simp only [e1, e2, e3, e4, e5, e6, e7]

theorem stripIf_lt {u : Nat} (hu : u < 65536) (flags k : Nat) : stripIf flags k u < 65536 := by
  unfold stripIf
  split
  · exact lt_of_le_of_lt (clearFlag_le u k) hu
  · exact hu

theorem testBit_stripIf {u : Nat} (hu : u < 65536) (flags k b : Nat)
    (hk : k.testBit b = false) : (stripIf flags k u).testBit b = u.testBit b := by
  unfold stripIf
  split
  · rw [testBit_clearFlag hu, hk]; simp
  · rfl

/-- A bit of the flag word that belongs to none of the seven decodable flags is
still set in `unprocessed_flags` after the seven blocks. -/
theorem testBit_remainingFlags (K : TessFlagValues) {u : Nat} (hu : u < 65536) (flags b : Nat)
    (hk : ∀ k ∈ K.variantFlags, k.testBit b = false) :
    (remainingFlags K flags u).testBit b = u.testBit b := by
  simp only [TessFlagValues.variantFlags, List.mem_cons, List.mem_singleton, forall_eq_or_imp,
    forall_eq, List.not_mem_nil, false_implies, implies_true, and_true] at hk
  obtain ⟨h0, h1, h2, h3, h4, h5, h6, -⟩ := hk
  unfold remainingFlags
  rw [testBit_stripIf (by repeat (first | exact hu | apply stripIf_lt)) _ _ _ h6,
    testBit_stripIf (by repeat (first | exact hu | apply stripIf_lt)) _ _ _ h5,
    testBit_stripIf (by repeat (first | exact hu | apply stripIf_lt)) _ _ _ h4,
    testBit_stripIf (by repeat (first | exact hu | apply stripIf_lt)) _ _ _ h3,
    testBit_stripIf (by repeat (first | exact hu | apply stripIf_lt)) _ _ _ h2,
    testBit_stripIf (by repeat (first | exact hu | apply stripIf_lt)) _ _ _ h1,
    testBit_stripIf hu _ _ _ h0]

/-! ## Status returned by `IndicesPerFaceAsTriangles` -/

/-- With at least one size block, the returned status is `A3D_SUCCESS` exactly when
no rejected textured flag is present, nothing remains of the flag word, and, on
the last face, the cursor stands at the end of the index buffer. -/
theorem IndicesPerFaceAsTriangles_success_iff (K : TessFlagValues) (t : A3DTess3DData)
    (i : Nat) (au : List Nat) (ni : List Int)
    (hsz : u32 (t.m_psFaceTessData (u32 i)).m_uiSizesTriangulatedSize ≠ 0) :
    (IndicesPerFaceAsTriangles K t i au ni).1 = A3DStatus.A3D_SUCCESS ↔
      rejectedTextured K (u16 (t.m_psFaceTessData (u32 i)).m_usUsedEntitiesFlags) = false
      ∧ (IndicesPerFaceAsTriangles K t i au ni).2.unprocessed_flags = 0
      ∧ (u32 i = u32sub t.m_uiFaceTessSize 1 →
          (IndicesPerFaceAsTriangles K t i au ni).2.puiTriangulatedIndexes
            = u32 t.m_uiTriangulatedIndexSize) := by
  rw [IndicesPerFaceAsTriangles_snd, if_neg hsz]
  unfold IndicesPerFaceAsTriangles
  simp only [if_neg hsz]
  split_ifs with h1 h2 h3 h4 <;> simp_all

theorem status_ne_success {r : A3DStatus} (h : r ≠ A3DStatus.A3D_SUCCESS) :
    r = A3DStatus.A3D_ERROR := by
  cases r
  · exact absurd rfl h
  · rfl

/-! ## Faces holding a single one-normal block -/

theorem decodeBlocks_triangleOneNormalOnly {K : TessFlagValues} (hK : K.Separate)
    (f : A3DTessFaceData)
    (hf : u16 f.m_usUsedEntitiesFlags = K.kA3DTessFaceDataTriangleOneNormal) (buf : Nat → Nat)
    (s : DecodeState) :
    decodeBlocks K f buf s =
      forLoop (fun _ s => triangleOneNormalBody buf s) 0
        (rd f.m_puiSizesTriangulated s.uiCurrentSize)
        (s.strip K.kA3DTessFaceDataTriangleOneNormal).nextSize := by
  have h := hK.tests 3 (by decide)
  simp [TessFlagValues.variantFlags, List.range_succ] at h
  obtain ⟨h0, h1, h2, h3, h4, h5, h6, -⟩ := h
  simp [decodeBlocks, triangleBlock, fanBlock, stripeBlock, triangleOneNormalBlock,
    fanOneNormalBlock, stripeOneNormalBlock, triangleTexturedBlock, hf, h0, h1, h2, h3, h4, h5,
    h6, DecodeState.strip, DecodeState.nextSize]

theorem decodeBlocks_fanOneNormalOnly {K : TessFlagValues} (hK : K.Separate)
    (f : A3DTessFaceData)
    (hf : u16 f.m_usUsedEntitiesFlags = K.kA3DTessFaceDataTriangleFanOneNormal)
    (buf : Nat → Nat) (s : DecodeState) :
    decodeBlocks K f buf s =
      forLoop (fun _ s => fanOneNormalBody K f buf s) 0
        (rd f.m_puiSizesTriangulated s.uiCurrentSize)
        (s.strip K.kA3DTessFaceDataTriangleFanOneNormal).nextSize := by
  have h := hK.tests 4 (by decide)
  simp [TessFlagValues.variantFlags, List.range_succ] at h
  obtain ⟨h0, h1, h2, h3, h4, h5, h6, -⟩ := h
  simp [decodeBlocks, triangleBlock, fanBlock, stripeBlock, triangleOneNormalBlock,
    fanOneNormalBlock, stripeOneNormalBlock, triangleTexturedBlock, hf, h0, h1, h2, h3, h4, h5,
    h6, DecodeState.strip, DecodeState.nextSize]

theorem decodeBlocks_stripeOneNormalOnly {K : TessFlagValues} (hK : K.Separate)
    (f : A3DTessFaceData)
    (hf : u16 f.m_usUsedEntitiesFlags = K.kA3DTessFaceDataTriangleStripeOneNormal)
    (buf : Nat → Nat) (s : DecodeState) :
    decodeBlocks K f buf s =
      forLoop (fun _ s => stripeOneNormalBody K f buf s) 0
        (rd f.m_puiSizesTriangulated s.uiCurrentSize)
        (s.strip K.kA3DTessFaceDataTriangleStripeOneNormal).nextSize := by
  have h := hK.tests 5 (by decide)
  simp [TessFlagValues.variantFlags, List.range_succ] at h
  obtain ⟨h0, h1, h2, h3, h4, h5, h6, -⟩ := h
  simp [decodeBlocks, triangleBlock, fanBlock, stripeBlock, triangleOneNormalBlock,
    fanOneNormalBlock, stripeOneNormalBlock, triangleTexturedBlock, hf, h0, h1, h2, h3, h4, h5,
    h6, DecodeState.strip, DecodeState.nextSize]

/-- A face holding a run of `T` one-normal triangles and nothing else. -/
theorem IndicesPerFaceAsTriangles_trianglesOneNormal {K : TessFlagValues} (hK : K.Separate)
    (t : A3DTess3DData) (i : Nat) (au : List Nat) (ni : List Int)
    (hsz : u32 (t.m_psFaceTessData (u32 i)).m_uiSizesTriangulatedSize ≠ 0)
    (hf : u16 (t.m_psFaceTessData (u32 i)).m_usUsedEntitiesFlags
      = K.kA3DTessFaceDataTriangleOneNormal) :
    (IndicesPerFaceAsTriangles K t i au ni).2.auIndices =
        au ++ plainTriangles
          (vtxT1 t.m_puiTriangulatedIndexes
            (u32 (t.m_psFaceTessData (u32 i)).m_uiStartTriangulated))
          (rd (t.m_psFaceTessData (u32 i)).m_puiSizesTriangulated 0)
      ∧ (IndicesPerFaceAsTriangles K t i au ni).2.normal_indices =
        ni ++ plainTriangles
          (nrmT1 t.m_puiTriangulatedIndexes
            (u32 (t.m_psFaceTessData (u32 i)).m_uiStartTriangulated))
          (rd (t.m_psFaceTessData (u32 i)).m_puiSizesTriangulated 0) := by
  rw [IndicesPerFaceAsTriangles_snd, if_neg hsz, decodeBlocks_triangleOneNormalOnly hK _ hf,
    triangleOneNormalBody_loop]
  simp [initialState, DecodeState.strip, DecodeState.nextSize]

/-- A face holding one one-normal fan and nothing else. -/
theorem IndicesPerFaceAsTriangles_oneFanOneNormal {K : TessFlagValues} (hK : K.Separate)
    (t : A3DTess3DData) (i : Nat) (au : List Nat) (ni : List Int)
    (hsz : u32 (t.m_psFaceTessData (u32 i)).m_uiSizesTriangulatedSize ≠ 0)
    (hf : u16 (t.m_psFaceTessData (u32 i)).m_usUsedEntitiesFlags
      = K.kA3DTessFaceDataTriangleFanOneNormal)
    (h1 : rd (t.m_psFaceTessData (u32 i)).m_puiSizesTriangulated 0 = 1) :
    (IndicesPerFaceAsTriangles K t i au ni).2.auIndices =
        au ++ fanTriangles
          (vtx1 t.m_puiTriangulatedIndexes
            (u32 (t.m_psFaceTessData (u32 i)).m_uiStartTriangulated))
          (fanCount (rd (t.m_psFaceTessData (u32 i)).m_puiSizesTriangulated 1
            &&& K.kA3DTessFaceDataNormalMask))
      ∧ (IndicesPerFaceAsTriangles K t i au ni).2.normal_indices =
        ni ++ fanTriangles
          (fun _ => nrm1 t.m_puiTriangulatedIndexes
            (u32 (t.m_psFaceTessData (u32 i)).m_uiStartTriangulated))
          (fanCount (rd (t.m_psFaceTessData (u32 i)).m_puiSizesTriangulated 1
            &&& K.kA3DTessFaceDataNormalMask)) := by
  rw [IndicesPerFaceAsTriangles_snd, if_neg hsz, decodeBlocks_fanOneNormalOnly hK _ hf]
  have hc : u32 (0 + 1) = 1 := by decide
  simp [initialState, DecodeState.strip, DecodeState.nextSize, h1, forLoop_one,
    fanOneNormalBody_eq, hc]

/-- A face holding one one-normal strip and nothing else. -/
theorem IndicesPerFaceAsTriangles_oneStripeOneNormal {K : TessFlagValues} (hK : K.Separate)
    (t : A3DTess3DData) (i : Nat) (au : List Nat) (ni : List Int)
    (hsz : u32 (t.m_psFaceTessData (u32 i)).m_uiSizesTriangulatedSize ≠ 0)
    (hf : u16 (t.m_psFaceTessData (u32 i)).m_usUsedEntitiesFlags
      = K.kA3DTessFaceDataTriangleStripeOneNormal)
    (h1 : rd (t.m_psFaceTessData (u32 i)).m_puiSizesTriangulated 0 = 1) :
    (IndicesPerFaceAsTriangles K t i au ni).2.auIndices =
        au ++ stripeTriangles
          (vtx1 t.m_puiTriangulatedIndexes
            (u32 (t.m_psFaceTessData (u32 i)).m_uiStartTriangulated))
          (stripeCount (rd (t.m_psFaceTessData (u32 i)).m_puiSizesTriangulated 1
            &&& K.kA3DTessFaceDataNormalMask))
      ∧ (IndicesPerFaceAsTriangles K t i au ni).2.normal_indices =
        ni ++ stripeTriangles
          (fun _ => nrm1 t.m_puiTriangulatedIndexes
            (u32 (t.m_psFaceTessData (u32 i)).m_uiStartTriangulated))
          (stripeCount (rd (t.m_psFaceTessData (u32 i)).m_puiSizesTriangulated 1
            &&& K.kA3DTessFaceDataNormalMask)) := by
  rw [IndicesPerFaceAsTriangles_snd, if_neg hsz, decodeBlocks_stripeOneNormalOnly hK _ hf]
  have hc : u32 (0 + 1) = 1 := by decide
  simp [initialState, DecodeState.strip, DecodeState.nextSize, h1, forLoop_one,
    stripeOneNormalBody_eq, hc]

/-! ## Triangle lists depend only on the points they visit -/

theorem plainTriangles_congr {α : Type} (pt pt' : Nat → α) (cnt : Nat)
    (h : ∀ k, k < 3 * cnt → pt k = pt' k) : plainTriangles pt cnt = plainTriangles pt' cnt := by
  unfold plainTriangles
  apply List.flatMap_congr
  intro j hj
  have hj' : j < cnt := List.mem_range.1 hj
  rw [h (3 * j) (by omega), h (3 * j + 1) (by omega), h (3 * j + 2) (by omega)]

theorem fanTriangles_congr {α : Type} (pt pt' : Nat → α) (cnt : Nat)
    (h : ∀ k, k < cnt + 2 → pt k = pt' k) : fanTriangles pt cnt = fanTriangles pt' cnt := by
  unfold fanTriangles
  apply List.flatMap_congr
  intro j hj
  have hj' : j < cnt := List.mem_range.1 hj
  rw [h 0 (by omega), h (j + 1) (by omega), h (j + 2) (by omega)]

theorem stripeTriangles_congr {α : Type} (pt pt' : Nat → α) (cnt : Nat)
    (h : ∀ k, k < cnt + 2 → pt k = pt' k) :
    stripeTriangles pt cnt = stripeTriangles pt' cnt := by
  unfold stripeTriangles
  apply List.flatMap_congr
  intro j hj
  have hj' : j < cnt := List.mem_range.1 hj
  rw [h j (by omega), h (j + 1) (by omega), h (j + 2) (by omega)]

theorem flatMap_const_triple {α : Type} (a : α) (cnt : Nat) :
    ((List.range cnt).flatMap fun _ => [a, a, a]) = List.replicate (3 * cnt) a := by
  induction cnt with
  | zero => simp
  | succ n ih =>
    rw [List.range_succ, List.flatMap_append, ih, List.flatMap_singleton]
    have : 3 * (n + 1) = 3 * n + 3 := by omega
    rw [this, List.replicate_add]
    rfl

theorem fanTriangles_const {α : Type} (a : α) (cnt : Nat) :
    fanTriangles (fun _ => a) cnt = List.replicate (3 * cnt) a :=
  flatMap_const_triple a cnt

theorem stripeTriangles_const_replicate {α : Type} (a : α) (cnt : Nat) :
    stripeTriangles (fun _ => a) cnt = List.replicate (3 * cnt) a := by
  rw [stripeTriangles_const, flatMap_const_triple]

theorem plainTriangles_nrmT1 (buf : Nat → Nat) (c cnt : Nat) :
    plainTriangles (nrmT1 buf c) cnt =
      (List.range cnt).flatMap fun j => List.replicate 3 (toInt32 (rd buf (c + 4 * j))) := by
  unfold plainTriangles
  apply List.flatMap_congr
  intro j _
  have e0 : 3 * j / 3 = j := by omega
  have e1 : (3 * j + 1) / 3 = j := by omega
  have e2 : (3 * j + 2) / 3 = j := by omega
  simp [nrmT1, e0, e1, e2, List.replicate]

/-! ## Flag word of a layout -/

theorem lor_eq_zero {a b : Nat} : a ||| b = 0 ↔ a = 0 ∧ b = 0 := by
  constructor
  · intro h
    have hb : ∀ i, (a.testBit i || b.testBit i) = false := by
      intro i
      rw [← Nat.testBit_or, h, Nat.zero_testBit]
    constructor <;> apply Nat.eq_of_testBit_eq <;> intro i <;> have := hb i <;>
      simp only [Bool.or_eq_false_iff] at this <;> simp [this]
  · rintro ⟨rfl, rfl⟩
    rfl

theorem hasFlag_or (a b k : Nat) : hasFlag (a ||| b) k = (hasFlag a k || hasFlag b k) := by
  have e : (a ||| b) &&& k = (a &&& k) ||| (b &&& k) := by
    rw [Nat.land_comm, Nat.and_or_distrib_left, Nat.land_comm k a, Nat.land_comm k b]
  rw [Bool.eq_iff_iff]
  simp only [hasFlag, e, bne_iff_ne, ne_eq, lor_eq_zero, Bool.or_eq_true, not_and_or]

theorem hasFlag_flagIf (p : Bool) (k' k : Nat) :
    hasFlag (flagIf p k') k = (p && hasFlag k' k) := by
  cases p <;> simp [flagIf, hasFlag]

/-- Under `Separate`, the twelve tests on the flag word of a layout: each of the
six non-textured tests succeeds exactly when its variant is present, and the six
textured tests fail. -/
theorem FaceLayout.layoutTests {K : TessFlagValues} (hK : K.Separate) (L : FaceLayout) :
    K.variantFlags.map (hasFlag (L.flagWord K)) =
      [L.triangles.isSome, L.fans.isSome, L.stripes.isSome, L.trianglesOneNormal.isSome,
        L.fansOneNormal.isSome, L.stripesOneNormal.isSome,
        false, false, false, false, false, false] := by
  have t0 := hK.tests 0 (by decide)
  have t1 := hK.tests 1 (by decide)
  have t2 := hK.tests 2 (by decide)
  have t3 := hK.tests 3 (by decide)
  have t4 := hK.tests 4 (by decide)
  have t5 := hK.tests 5 (by decide)
  simp [TessFlagValues.variantFlags, List.range_succ] at t0 t1 t2 t3 t4 t5
  simp [TessFlagValues.variantFlags, FaceLayout.flagWord, hasFlag_or, hasFlag_flagIf, t0, t1,
    t2, t3, t4, t5]

theorem testBit_stripIf_eq {u : Nat} (hu : u < 65536) (flags k b : Nat) :
    (stripIf flags k u).testBit b = (u.testBit b && !(hasFlag flags k && k.testBit b)) := by
  unfold stripIf
  split
  · rename_i h
    rw [testBit_clearFlag hu, h]; simp
  · rename_i h
    simp [h]

theorem testBit_flagIf (p : Bool) (k b : Nat) : (flagIf p k).testBit b = (p && k.testBit b) := by
  cases p <;> simp [flagIf]

/-- Nothing remains of the flag word of a layout once the seven blocks have run. -/
theorem FaceLayout.remainingFlags_eq_zero {K : TessFlagValues} (hK : K.Separate)
    (L : FaceLayout) (hlt : L.flagWord K < 65536) :
    remainingFlags K (L.flagWord K) (L.flagWord K) = 0 := by
  have ht := L.layoutTests hK
  simp only [TessFlagValues.variantFlags, List.map_cons, List.map_nil, List.cons.injEq,
    and_true] at ht
  obtain ⟨h0, h1, h2, h3, h4, h5, h6, -⟩ := ht
  apply Nat.eq_of_testBit_eq
  intro b
  unfold remainingFlags
  rw [testBit_stripIf_eq (by repeat (first | exact hlt | apply stripIf_lt)),
    testBit_stripIf_eq (by repeat (first | exact hlt | apply stripIf_lt)),
    testBit_stripIf_eq (by repeat (first | exact hlt | apply stripIf_lt)),
    testBit_stripIf_eq (by repeat (first | exact hlt | apply stripIf_lt)),
    testBit_stripIf_eq (by repeat (first | exact hlt | apply stripIf_lt)),
    testBit_stripIf_eq (by repeat (first | exact hlt | apply stripIf_lt)),
    testBit_stripIf_eq hlt, h0, h1, h2, h3, h4, h5, h6]
  simp only [FaceLayout.flagWord, Nat.testBit_or, testBit_flagIf, Nat.zero_testBit]
  generalize (L.triangles.isSome && K.kA3DTessFaceDataTriangle.testBit b) = p0
  generalize (L.fans.isSome && K.kA3DTessFaceDataTriangleFan.testBit b) = p1
  generalize (L.stripes.isSome && K.kA3DTessFaceDataTriangleStripe.testBit b) = p2
  generalize (L.trianglesOneNormal.isSome && K.kA3DTessFaceDataTriangleOneNormal.testBit b) = p3
  generalize (L.fansOneNormal.isSome && K.kA3DTessFaceDataTriangleFanOneNormal.testBit b) = p4
  generalize
    (L.stripesOneNormal.isSome && K.kA3DTessFaceDataTriangleStripeOneNormal.testBit b) = p5
  cases p0 <;> cases p1 <;> cases p2 <;> cases p3 <;> cases p4 <;> cases p5 <;> simp

/-! ## Cursor and size-word position after each block -/

theorem SizesAt.append {f : A3DTessFaceData} {c : Nat} {l1 l2 : List Nat}
    (h : SizesAt f c (l1 ++ l2)) : SizesAt f c l1 ∧ SizesAt f (c + l1.length) l2 := by
  constructor
  · intro j hj
    have := h j (by rw [List.length_append]; omega)
    rw [this, List.getD_append _ _ _ _ hj]
  · intro j hj
    have := h (l1.length + j) (by rw [List.length_append]; omega)
    rw [← Nat.add_assoc] at this
    rw [this, List.getD_append_right _ _ _ _ (by omega)]
    congr 1
    omega

theorem SizesAt.cons {f : A3DTessFaceData} {c x : Nat} {l : List Nat}
    (h : SizesAt f c (x :: l)) :
    rd f.m_puiSizesTriangulated c = x ∧ SizesAt f (c + 1) l := by
  constructor
  · have := h 0 (by simp)
    simpa using this
  · intro j hj
    have := h (j + 1) (by simp; omega)
    have e : c + (j + 1) = c + 1 + j := by omega
    rw [e] at this
    rw [this]
    simp

theorem fanBody_run (f : A3DTessFaceData) (buf : Nat → Nat) (ns : List Nat) :
    ∀ (i0 : Nat) (s : DecodeState), SizesAt f s.uiCurrentSize ns →
      s.uiCurrentSize + ns.length < 4294967296 → (∀ N ∈ ns, 2 ≤ N) →
      (forLoop (fun _ s => fanBody f buf s) i0 ns.length s).puiTriangulatedIndexes
          = s.puiTriangulatedIndexes + (ns.map fun N => 2 * N).sum
      ∧ (forLoop (fun _ s => fanBody f buf s) i0 ns.length s).uiCurrentSize
          = s.uiCurrentSize + ns.length := by
  induction ns with
  | nil => intro i0 s _ _ _; simp
  | cons N rest ih =>
    intro i0 s hs hb h2
    obtain ⟨hN, hrest⟩ := hs.cons
    have hNlt : N < 4294967296 := hN ▸ rd_lt _ _
    have hN2 : 2 ≤ N := h2 N (by simp)
    simp only [List.length_cons] at hb
    have hc : (fanBody f buf s).uiCurrentSize = s.uiCurrentSize + 1 := by
      rw [fanBody_eq]; exact u32_of_lt (by omega)
    have hp : (fanBody f buf s).puiTriangulatedIndexes = s.puiTriangulatedIndexes + 2 * N := by
      rw [fanBody_eq]
      simp only [hN, fanCount_eq (by omega : 1 ≤ N) hNlt]
      omega
    have := ih (i0 + 1) (fanBody f buf s) (hc ▸ hrest) (by rw [hc]; omega)
      (fun M hM => h2 M (by simp [hM]))
    simp only [List.length_cons, forLoop, List.map_cons, List.sum_cons]
    rw [this.1, this.2, hc, hp]
    omega

theorem stripeBody_run (f : A3DTessFaceData) (buf : Nat → Nat) (ns : List Nat) :
    ∀ (i0 : Nat) (s : DecodeState), SizesAt f s.uiCurrentSize ns →
      s.uiCurrentSize + ns.length < 4294967296 → (∀ N ∈ ns, 2 ≤ N) →
      (forLoop (fun _ s => stripeBody f buf s) i0 ns.length s).puiTriangulatedIndexes
          = s.puiTriangulatedIndexes + (ns.map fun N => 2 * N).sum
      ∧ (forLoop (fun _ s => stripeBody f buf s) i0 ns.length s).uiCurrentSize
          = s.uiCurrentSize + ns.length := by
  induction ns with
  | nil => intro i0 s _ _ _; simp
  | cons N rest ih =>
    intro i0 s hs hb h2
    obtain ⟨hN, hrest⟩ := hs.cons
    have hNlt : N < 4294967296 := hN ▸ rd_lt _ _
    have hN2 : 2 ≤ N := h2 N (by simp)
    simp only [List.length_cons] at hb
    have hc : (stripeBody f buf s).uiCurrentSize = s.uiCurrentSize + 1 := by
      rw [stripeBody_eq]; exact u32_of_lt (by omega)
    have hp : (stripeBody f buf s).puiTriangulatedIndexes
        = s.puiTriangulatedIndexes + 2 * N := by
      rw [stripeBody_eq]
      simp only [hN, stripeCount_eq hN2 hNlt]
      omega
    have := ih (i0 + 1) (stripeBody f buf s) (hc ▸ hrest) (by rw [hc]; omega)
      (fun M hM => h2 M (by simp [hM]))
    simp only [List.length_cons, forLoop, List.map_cons, List.sum_cons]
    rw [this.1, this.2, hc, hp]
    omega

theorem fanOneNormalBody_run (K : TessFlagValues) (f : A3DTessFaceData) (buf : Nat → Nat)
    (ns : List Nat) :
    ∀ (i0 : Nat) (s : DecodeState), SizesAt f s.uiCurrentSize ns →
      s.uiCurrentSize + ns.length < 4294967296 →
      (∀ w ∈ ns, 2 ≤ w &&& K.kA3DTessFaceDataNormalMask) →
      (forLoop (fun _ s => fanOneNormalBody K f buf s) i0 ns.length s).puiTriangulatedIndexes
          = s.puiTriangulatedIndexes
            + (ns.map fun w => (w &&& K.kA3DTessFaceDataNormalMask) + 1).sum
      ∧ (forLoop (fun _ s => fanOneNormalBody K f buf s) i0 ns.length s).uiCurrentSize
          = s.uiCurrentSize + ns.length := by
  induction ns with
  | nil => intro i0 s _ _ _; simp
  | cons w rest ih =>
    intro i0 s hs hb h2
    obtain ⟨hN, hrest⟩ := hs.cons
    have hwlt : w < 4294967296 := hN ▸ rd_lt _ _
    have hNlt : w &&& K.kA3DTessFaceDataNormalMask < 4294967296 :=
      lt_of_le_of_lt Nat.and_le_left hwlt
    have hN2 : 2 ≤ w &&& K.kA3DTessFaceDataNormalMask := h2 w (by simp)
    simp only [List.length_cons] at hb
    have hc : (fanOneNormalBody K f buf s).uiCurrentSize = s.uiCurrentSize + 1 := by
      rw [fanOneNormalBody_eq]; exact u32_of_lt (by omega)
    have hp : (fanOneNormalBody K f buf s).puiTriangulatedIndexes
        = s.puiTriangulatedIndexes + ((w &&& K.kA3DTessFaceDataNormalMask) + 1) := by
      rw [fanOneNormalBody_eq]
      simp only [hN, fanCount_eq (by omega : 1 ≤ w &&& K.kA3DTessFaceDataNormalMask) hNlt]
      omega
    have := ih (i0 + 1) (fanOneNormalBody K f buf s) (hc ▸ hrest) (by rw [hc]; omega)
      (fun M hM => h2 M (by simp [hM]))
    simp only [List.length_cons, forLoop, List.map_cons, List.sum_cons]
    rw [this.1, this.2, hc, hp]
    omega

theorem stripeOneNormalBody_run (K : TessFlagValues) (f : A3DTessFaceData) (buf : Nat → Nat)
    (ns : List Nat) :
    ∀ (i0 : Nat) (s : DecodeState), SizesAt f s.uiCurrentSize ns →
      s.uiCurrentSize + ns.length < 4294967296 →
      (∀ w ∈ ns, 2 ≤ w &&& K.kA3DTessFaceDataNormalMask) →
      (forLoop (fun _ s => stripeOneNormalBody K f buf s) i0 ns.length s).puiTriangulatedIndexes
          = s.puiTriangulatedIndexes
            + (ns.map fun w => (w &&& K.kA3DTessFaceDataNormalMask) + 1).sum
      ∧ (forLoop (fun _ s => stripeOneNormalBody K f buf s) i0 ns.length s).uiCurrentSize
          = s.uiCurrentSize + ns.length := by
  induction ns with
  | nil => intro i0 s _ _ _; simp
  | cons w rest ih =>
    intro i0 s hs hb h2
    obtain ⟨hN, hrest⟩ := hs.cons
    have hwlt : w < 4294967296 := hN ▸ rd_lt _ _
    have hNlt : w &&& K.kA3DTessFaceDataNormalMask < 4294967296 :=
      lt_of_le_of_lt Nat.and_le_left hwlt
    have hN2 : 2 ≤ w &&& K.kA3DTessFaceDataNormalMask := h2 w (by simp)
    simp only [List.length_cons] at hb
    have hc : (stripeOneNormalBody K f buf s).uiCurrentSize = s.uiCurrentSize + 1 := by
      rw [stripeOneNormalBody_eq]; exact u32_of_lt (by omega)
    have hp : (stripeOneNormalBody K f buf s).puiTriangulatedIndexes
        = s.puiTriangulatedIndexes + ((w &&& K.kA3DTessFaceDataNormalMask) + 1) := by
      rw [stripeOneNormalBody_eq]
      simp only [hN, stripeCount_eq hN2 hNlt]
      omega
    have := ih (i0 + 1) (stripeOneNormalBody K f buf s) (hc ▸ hrest) (by rw [hc]; omega)
      (fun M hM => h2 M (by simp [hM]))
    simp only [List.length_cons, forLoop, List.map_cons, List.sum_cons]
    rw [this.1, this.2, hc, hp]
    omega

theorem triangleBlock_layout (K : TessFlagValues) (f : A3DTessFaceData) (buf : Nat → Nat)
    (s : DecodeState) (o : Option Nat)
    (hflag : hasFlag (u16 f.m_usUsedEntitiesFlags) K.kA3DTessFaceDataTriangle = o.isSome)
    (hs : SizesAt f s.uiCurrentSize (countWords o))
    (hb : s.uiCurrentSize + (countWords o).length < 4294967296) :
    (triangleBlock K f buf s).puiTriangulatedIndexes
        = s.puiTriangulatedIndexes + wordsOfCount 6 o
    ∧ (triangleBlock K f buf s).uiCurrentSize = s.uiCurrentSize + (countWords o).length := by
  cases o with
  | none => simp [triangleBlock, hflag, wordsOfCount, countWords]
  | some T =>
    simp only [countWords, List.length_singleton] at hb
    have hT := hs.cons.1
    simp only [triangleBlock, hflag, Option.isSome_some, if_true, triangleBody_loop,
      DecodeState.strip, DecodeState.nextSize, hT, wordsOfCount, countWords,
      List.length_singleton, u32_of_lt hb, and_self]

theorem triangleOneNormalBlock_layout (K : TessFlagValues) (f : A3DTessFaceData)
    (buf : Nat → Nat) (s : DecodeState) (o : Option Nat)
    (hflag : hasFlag (u16 f.m_usUsedEntitiesFlags) K.kA3DTessFaceDataTriangleOneNormal
      = o.isSome)
    (hs : SizesAt f s.uiCurrentSize (countWords o))
    (hb : s.uiCurrentSize + (countWords o).length < 4294967296) :
    (triangleOneNormalBlock K f buf s).puiTriangulatedIndexes
        = s.puiTriangulatedIndexes + wordsOfCount 4 o
    ∧ (triangleOneNormalBlock K f buf s).uiCurrentSize
        = s.uiCurrentSize + (countWords o).length := by
  cases o with
  | none => simp [triangleOneNormalBlock, hflag, wordsOfCount, countWords]
  | some T =>
    simp only [countWords, List.length_singleton] at hb
    have hT := hs.cons.1
    simp only [triangleOneNormalBlock, hflag, Option.isSome_some, if_true,
      triangleOneNormalBody_loop, DecodeState.strip, DecodeState.nextSize, hT, wordsOfCount,
      countWords, List.length_singleton, u32_of_lt hb, and_self]

theorem fanBlock_layout (K : TessFlagValues) (f : A3DTessFaceData) (buf : Nat → Nat)
    (s : DecodeState) (o : Option (List Nat))
    (hflag : hasFlag (u16 f.m_usUsedEntitiesFlags) K.kA3DTessFaceDataTriangleFan = o.isSome)
    (hs : SizesAt f s.uiCurrentSize (runWords o))
    (hb : s.uiCurrentSize + (runWords o).length < 4294967296)
    (h2 : ∀ N ∈ o.getD [], 2 ≤ N) :
    (fanBlock K f buf s).puiTriangulatedIndexes
        = s.puiTriangulatedIndexes + wordsOfRuns (fun N => 2 * N) o
    ∧ (fanBlock K f buf s).uiCurrentSize = s.uiCurrentSize + (runWords o).length := by
  cases o with
  | none => simp [fanBlock, hflag, wordsOfRuns, runWords]
  | some ns =>
    simp only [runWords, List.length_cons] at hb
    obtain ⟨hn, hrest⟩ := hs.cons
    have hc : u32 (s.uiCurrentSize + 1) = s.uiCurrentSize + 1 := u32_of_lt (by omega)
    have := fanBody_run f buf ns 0
      (s.strip K.kA3DTessFaceDataTriangleFan).nextSize
      (by simpa [DecodeState.strip, DecodeState.nextSize, hc] using hrest)
      (by simp only [DecodeState.strip, DecodeState.nextSize, hc]; omega)
      (by simpa using h2)
    simp only [fanBlock, hflag, Option.isSome_some, if_true, DecodeState.strip, hn,
      wordsOfRuns, runWords, List.length_cons]
    simp only [DecodeState.strip, DecodeState.nextSize, hc] at this
    simp only [DecodeState.nextSize, hc]
    exact ⟨this.1, by rw [this.2]; omega⟩

theorem stripeBlock_layout (K : TessFlagValues) (f : A3DTessFaceData) (buf : Nat → Nat)
    (s : DecodeState) (o : Option (List Nat))
    (hflag : hasFlag (u16 f.m_usUsedEntitiesFlags) K.kA3DTessFaceDataTriangleStripe
      = o.isSome)
    (hs : SizesAt f s.uiCurrentSize (runWords o))
    (hb : s.uiCurrentSize + (runWords o).length < 4294967296)
    (h2 : ∀ N ∈ o.getD [], 2 ≤ N) :
    (stripeBlock K f buf s).puiTriangulatedIndexes
        = s.puiTriangulatedIndexes + wordsOfRuns (fun N => 2 * N) o
    ∧ (stripeBlock K f buf s).uiCurrentSize = s.uiCurrentSize + (runWords o).length := by
  cases o with
  | none => simp [stripeBlock, hflag, wordsOfRuns, runWords]
  | some ns =>
    simp only [runWords, List.length_cons] at hb
    obtain ⟨hn, hrest⟩ := hs.cons
    have hc : u32 (s.uiCurrentSize + 1) = s.uiCurrentSize + 1 := u32_of_lt (by omega)
    have := stripeBody_run f buf ns 0
      (s.strip K.kA3DTessFaceDataTriangleStripe).nextSize
      (by simpa [DecodeState.strip, DecodeState.nextSize, hc] using hrest)
      (by simp only [DecodeState.strip, DecodeState.nextSize, hc]; omega)
      (by simpa using h2)
    simp only [stripeBlock, hflag, Option.isSome_some, if_true, DecodeState.strip, hn,
      wordsOfRuns, runWords, List.length_cons]
    simp only [DecodeState.strip, DecodeState.nextSize, hc] at this
    simp only [DecodeState.nextSize, hc]
    exact ⟨this.1, by rw [this.2]; omega⟩

theorem fanOneNormalBlock_layout (K : TessFlagValues) (f : A3DTessFaceData)
    (buf : Nat → Nat) (s : DecodeState) (o : Option (List Nat))
    (hflag : hasFlag (u16 f.m_usUsedEntitiesFlags) K.kA3DTessFaceDataTriangleFanOneNormal
      = o.isSome)
    (hs : SizesAt f s.uiCurrentSize (runWords o))
    (hb : s.uiCurrentSize + (runWords o).length < 4294967296)
    (h2 : ∀ w ∈ o.getD [], 2 ≤ w &&& K.kA3DTessFaceDataNormalMask) :
    (fanOneNormalBlock K f buf s).puiTriangulatedIndexes
        = s.puiTriangulatedIndexes
          + wordsOfRuns (fun w => (w &&& K.kA3DTessFaceDataNormalMask) + 1) o
    ∧ (fanOneNormalBlock K f buf s).uiCurrentSize
        = s.uiCurrentSize + (runWords o).length := by
  cases o with
  | none => simp [fanOneNormalBlock, hflag, wordsOfRuns, runWords]
  | some ns =>
    simp only [runWords, List.length_cons] at hb
    obtain ⟨hn, hrest⟩ := hs.cons
    have hc : u32 (s.uiCurrentSize + 1) = s.uiCurrentSize + 1 := u32_of_lt (by omega)
    have := fanOneNormalBody_run K f buf ns 0
      (s.strip K.kA3DTessFaceDataTriangleFanOneNormal).nextSize
      (by simpa [DecodeState.strip, DecodeState.nextSize, hc] using hrest)
      (by simp only [DecodeState.strip, DecodeState.nextSize, hc]; omega)
      (by simpa using h2)
    simp only [fanOneNormalBlock, hflag, Option.isSome_some, if_true, DecodeState.strip, hn,
      wordsOfRuns, runWords, List.length_cons]
    simp only [DecodeState.strip, DecodeState.nextSize, hc] at this
    simp only [DecodeState.nextSize, hc]
    exact ⟨this.1, by rw [this.2]; omega⟩

theorem stripeOneNormalBlock_layout (K : TessFlagValues) (f : A3DTessFaceData)
    (buf : Nat → Nat) (s : DecodeState) (o : Option (List Nat))
    (hflag : hasFlag (u16 f.m_usUsedEntitiesFlags) K.kA3DTessFaceDataTriangleStripeOneNormal
      = o.isSome)
    (hs : SizesAt f s.uiCurrentSize (runWords o))
    (hb : s.uiCurrentSize + (runWords o).length < 4294967296)
    (h2 : ∀ w ∈ o.getD [], 2 ≤ w &&& K.kA3DTessFaceDataNormalMask) :
    (stripeOneNormalBlock K f buf s).puiTriangulatedIndexes
        = s.puiTriangulatedIndexes
          + wordsOfRuns (fun w => (w &&& K.kA3DTessFaceDataNormalMask) + 1) o
    ∧ (stripeOneNormalBlock K f buf s).uiCurrentSize
        = s.uiCurrentSize + (runWords o).length := by
  cases o with
  | none => simp [stripeOneNormalBlock, hflag, wordsOfRuns, runWords]
  | some ns =>
    simp only [runWords, List.length_cons] at hb
    obtain ⟨hn, hrest⟩ := hs.cons
    have hc : u32 (s.uiCurrentSize + 1) = s.uiCurrentSize + 1 := u32_of_lt (by omega)
    have := stripeOneNormalBody_run K f buf ns 0
      (s.strip K.kA3DTessFaceDataTriangleStripeOneNormal).nextSize
      (by simpa [DecodeState.strip, DecodeState.nextSize, hc] using hrest)
      (by simp only [DecodeState.strip, DecodeState.nextSize, hc]; omega)
      (by simpa using h2)
    simp only [stripeOneNormalBlock, hflag, Option.isSome_some, if_true, DecodeState.strip,
      hn, wordsOfRuns, runWords, List.length_cons]
    simp only [DecodeState.strip, DecodeState.nextSize, hc] at this
    simp only [DecodeState.nextSize, hc]
    exact ⟨this.1, by rw [this.2]; omega⟩

/-- The cursor after the seven blocks, for a face laid out as `L`. -/
theorem decodeBlocks_cursor {K : TessFlagValues} (hK : K.Separate) (f : A3DTessFaceData)
    (buf : Nat → Nat) (L : FaceLayout)
    (hflags : u16 f.m_usUsedEntitiesFlags = L.flagWord K)
    (hsizes : SizesAt f 0 L.sizeWords)
    (hlen : L.sizeWords.length < 4294967296)
    (hpts : L.AtLeastTwoPoints K) (s : DecodeState) (hs : s.uiCurrentSize = 0) :
    (decodeBlocks K f buf s).puiTriangulatedIndexes
      = s.puiTriangulatedIndexes + L.indexWords K := by
  have ht := L.layoutTests hK
  simp only [TessFlagValues.variantFlags, List.map_cons, List.map_nil, List.cons.injEq,
    and_true] at ht
  obtain ⟨h0, h1, h2, h3, h4, h5, h6, -⟩ := ht
  rw [← hflags] at h0 h1 h2 h3 h4 h5 h6
  obtain ⟨p1, p2, p3, p4⟩ := hpts
  unfold FaceLayout.sizeWords at hsizes hlen
  simp only [List.length_append] at hlen
  obtain ⟨s1, r1⟩ := hsizes.append
  obtain ⟨s2, r2⟩ := r1.append
  obtain ⟨s3, r3⟩ := r2.append
  obtain ⟨s4, r4⟩ := r3.append
  obtain ⟨s5, s6⟩ := r4.append
  unfold decodeBlocks
  simp only
  have b1 := triangleBlock_layout K f buf s L.triangles h0 (by rw [hs]; exact s1)
    (by rw [hs]; omega)
  have b2 := fanBlock_layout K f buf _ L.fans h1 (by rw [b1.2, hs]; exact s2)
    (by rw [b1.2, hs]; omega) p1
  have b3 := stripeBlock_layout K f buf _ L.stripes h2
    (by rw [b2.2, b1.2, hs]; simpa [Nat.add_assoc] using s3)
    (by rw [b2.2, b1.2, hs]; omega) p2
  have b4 := triangleOneNormalBlock_layout K f buf _ L.trianglesOneNormal h3
    (by rw [b3.2, b2.2, b1.2, hs]; simpa [Nat.add_assoc] using s4)
    (by rw [b3.2, b2.2, b1.2, hs]; omega)
  have b5 := fanOneNormalBlock_layout K f buf _ L.fansOneNormal h4
    (by rw [b4.2, b3.2, b2.2, b1.2, hs]; simpa [Nat.add_assoc] using s5)
    (by rw [b4.2, b3.2, b2.2, b1.2, hs]; omega) p3
  have b6 := stripeOneNormalBlock_layout K f buf _ L.stripesOneNormal h5
    (by rw [b5.2, b4.2, b3.2, b2.2, b1.2, hs]; simpa [Nat.add_assoc] using s6)
    (by rw [b5.2, b4.2, b3.2, b2.2, b1.2, hs]; omega) p4
  have b7 : ∀ u, triangleTexturedBlock K f buf u = u := by
    intro u; simp [triangleTexturedBlock, h6]
  rw [b7, b6.1, b5.1, b4.1, b3.1, b2.1, b1.1]
  unfold FaceLayout.indexWords
  omega

/-! ## C1: the consumption check on the last face -/

/-- C1 (as stated) fails: the only face of this record is its last face, it has no
size block, its cursor stays at offset 0 while the index buffer holds 3 words, and
the decoder still returns `A3D_SUCCESS`. -/
theorem lastFace_without_sizes_skips_check :
    u32 0 = u32sub (recordOf (faceOf 0 [] 0) [7, 7, 7]).m_uiFaceTessSize 1
    ∧ (IndicesPerFaceAsTriangles sdkFlags (recordOf (faceOf 0 [] 0) [7, 7, 7]) 0 [] []).2.puiTriangulatedIndexes
        ≠ u32 (recordOf (faceOf 0 [] 0) [7, 7, 7]).m_uiTriangulatedIndexSize
    ∧ (IndicesPerFaceAsTriangles sdkFlags (recordOf (faceOf 0 [] 0) [7, 7, 7]) 0 [] []).1
        = A3DStatus.A3D_SUCCESS := by
  decide

/-- C1 (amended): on the last face of a record (face index = face count - 1 in
unsigned arithmetic), when the face has at least one size block,
`IndicesPerFaceAsTriangles` returns `A3D_SUCCESS` only if the cursor reached after
decoding equals `m_uiTriangulatedIndexSize`, and returns `A3D_ERROR` whenever the
two differ. -/
theorem lastFace_consumption_checked (K : TessFlagValues) (t : A3DTess3DData) (i : Nat)
    (au : List Nat) (ni : List Int)
    (hlast : u32 i = u32sub t.m_uiFaceTessSize 1)
    (hsz : u32 (t.m_psFaceTessData (u32 i)).m_uiSizesTriangulatedSize ≠ 0) :
    ((IndicesPerFaceAsTriangles K t i au ni).1 = A3DStatus.A3D_SUCCESS →
        (IndicesPerFaceAsTriangles K t i au ni).2.puiTriangulatedIndexes
          = u32 t.m_uiTriangulatedIndexSize)
    ∧ ((IndicesPerFaceAsTriangles K t i au ni).2.puiTriangulatedIndexes
          ≠ u32 t.m_uiTriangulatedIndexSize →
        (IndicesPerFaceAsTriangles K t i au ni).1 = A3DStatus.A3D_ERROR) := by
  have h := IndicesPerFaceAsTriangles_success_iff K t i au ni hsz
  refine ⟨fun hs => (h.1 hs).2.2 hlast, fun hne => status_ne_success ?_⟩
  intro hs
  exact hne ((h.1 hs).2.2 hlast)

/-- Witness for C1 (amended): a one-triangle face whose record declares 7 index
words although the triangle consumes 6. -/
theorem lastFace_consumption_checked_witness :
    (u32 0 = u32sub (recordOf (faceOf 1 [1] 0) [9, 0, 9, 1, 9, 2, 5]).m_uiFaceTessSize 1
      ∧ u32 ((recordOf (faceOf 1 [1] 0) [9, 0, 9, 1, 9, 2, 5]).m_psFaceTessData
          (u32 0)).m_uiSizesTriangulatedSize ≠ 0)
    ∧ (((IndicesPerFaceAsTriangles sdkFlags (recordOf (faceOf 1 [1] 0) [9, 0, 9, 1, 9, 2, 5])
          0 [] []).1 = A3DStatus.A3D_SUCCESS →
        (IndicesPerFaceAsTriangles sdkFlags (recordOf (faceOf 1 [1] 0) [9, 0, 9, 1, 9, 2, 5])
          0 [] []).2.puiTriangulatedIndexes
          = u32 (recordOf (faceOf 1 [1] 0) [9, 0, 9, 1, 9, 2, 5]).m_uiTriangulatedIndexSize)
      ∧ ((IndicesPerFaceAsTriangles sdkFlags (recordOf (faceOf 1 [1] 0) [9, 0, 9, 1, 9, 2, 5])
          0 [] []).2.puiTriangulatedIndexes
          ≠ u32 (recordOf (faceOf 1 [1] 0) [9, 0, 9, 1, 9, 2, 5]).m_uiTriangulatedIndexSize →
        (IndicesPerFaceAsTriangles sdkFlags (recordOf (faceOf 1 [1] 0) [9, 0, 9, 1, 9, 2, 5])
          0 [] []).1 = A3DStatus.A3D_ERROR)) :=
  ⟨⟨by decide, by decide⟩,
    lastFace_consumption_checked sdkFlags (recordOf (faceOf 1 [1] 0) [9, 0, 9, 1, 9, 2, 5]) 0 [] []
      (by decide) (by decide)⟩

/-! ## C2: words consumed by a face of non-textured variants -/

theorem countWords_eq_nil {o : Option Nat} (h : countWords o = []) : o = none := by
  cases o with
  | none => rfl
  | some T => simp [countWords] at h

theorem runWords_eq_nil {o : Option (List Nat)} (h : runWords o = []) : o = none := by
  cases o with
  | none => rfl
  | some ns => simp [runWords] at h

theorem FaceLayout.indexWords_of_sizeWords_nil (K : TessFlagValues) (L : FaceLayout)
    (h : L.sizeWords = []) : L.indexWords K = 0 := by
  unfold FaceLayout.sizeWords at h
  simp only [List.append_eq_nil] at h
  obtain ⟨h1, h2, h3, h4, h5, h6⟩ := h
  simp [FaceLayout.indexWords, countWords_eq_nil h1, runWords_eq_nil h2, runWords_eq_nil h3,
    countWords_eq_nil h4, runWords_eq_nil h5, runWords_eq_nil h6, wordsOfCount, wordsOfRuns]

/-- C2: take a face whose flag word holds only flags of the six non-textured
variants, whose size words are laid out in the fixed order triangle, fan, strip,
one-normal triangle, one-normal fan, one-normal strip (layout `L`), and whose fans
and strips each declare at least 2 points. Then `IndicesPerFaceAsTriangles` leaves
the cursor at the face's start offset plus 6 words per plain triangle, `2 N` per
fan or strip of `N` points, 4 per one-normal triangle and `N + 1` per one-normal
fan or strip of `N` points; hence, when the face is the last one of the record
and the index buffer has exactly that length, the call returns `A3D_SUCCESS` with
the cursor at the end of the buffer. -/
theorem layout_cursor_consumption (K : TessFlagValues) (hK : K.Separate) (t : A3DTess3DData)
    (i : Nat) (au : List Nat) (ni : List Int) (L : FaceLayout)
    (hflags : u16 (t.m_psFaceTessData (u32 i)).m_usUsedEntitiesFlags = L.flagWord K)
    (hdecl : u32 (t.m_psFaceTessData (u32 i)).m_uiSizesTriangulatedSize = L.sizeWords.length)
    (hsizes : SizesAt (t.m_psFaceTessData (u32 i)) 0 L.sizeWords)
    (hpts : L.AtLeastTwoPoints K) :
    (IndicesPerFaceAsTriangles K t i au ni).2.puiTriangulatedIndexes
        = u32 (t.m_psFaceTessData (u32 i)).m_uiStartTriangulated + L.indexWords K
    ∧ (u32 i = u32sub t.m_uiFaceTessSize 1 →
        u32 t.m_uiTriangulatedIndexSize
          = u32 (t.m_psFaceTessData (u32 i)).m_uiStartTriangulated + L.indexWords K →
        (IndicesPerFaceAsTriangles K t i au ni).1 = A3DStatus.A3D_SUCCESS
        ∧ (IndicesPerFaceAsTriangles K t i au ni).2.puiTriangulatedIndexes
            = u32 t.m_uiTriangulatedIndexSize) := by
  by_cases hsz : u32 (t.m_psFaceTessData (u32 i)).m_uiSizesTriangulatedSize = 0
  · have hnil : L.sizeWords = [] := List.length_eq_zero.1 (by omega)
    have hw := L.indexWords_of_sizeWords_nil K hnil
    have hcur : (IndicesPerFaceAsTriangles K t i au ni).2.puiTriangulatedIndexes
        = u32 (t.m_psFaceTessData (u32 i)).m_uiStartTriangulated + L.indexWords K := by
      rw [IndicesPerFaceAsTriangles_snd, if_pos hsz, hw]
      rfl
    refine ⟨hcur, fun _ hsize => ⟨?_, by rw [hcur, hsize]⟩⟩
    unfold IndicesPerFaceAsTriangles
    simp only [if_pos hsz]
  · have hlen : L.sizeWords.length < 4294967296 := hdecl ▸ u32_lt _
    have hcur : (IndicesPerFaceAsTriangles K t i au ni).2.puiTriangulatedIndexes
        = u32 (t.m_psFaceTessData (u32 i)).m_uiStartTriangulated + L.indexWords K := by
      rw [IndicesPerFaceAsTriangles_snd, if_neg hsz,
        decodeBlocks_cursor hK _ _ L hflags hsizes hlen hpts _ rfl]
      rfl
    refine ⟨hcur, fun _ hsize => ⟨?_, by rw [hcur, hsize]⟩⟩
    rw [IndicesPerFaceAsTriangles_success_iff K t i au ni hsz]
    have ht := L.layoutTests hK
    simp only [TessFlagValues.variantFlags, List.map_cons, List.map_nil, List.cons.injEq,
      and_true] at ht
    obtain ⟨-, -, -, -, -, -, -, h7, h8, h9, h10, h11⟩ := ht
    refine ⟨?_, ?_, fun _ => by rw [hcur, hsize]⟩
    · simp [rejectedTextured, hflags, h7, h8, h9, h10, h11]
    · rw [IndicesPerFaceAsTriangles_snd, if_neg hsz, decodeBlocks_flags]
      simp only [initialState, hflags]
      exact L.remainingFlags_eq_zero hK (hflags ▸ u16_lt _)

/-- Witness for C2: a last face starting at offset 2 that holds one plain triangle,
fans of 3 and 4 points, one one-normal triangle and a one-normal strip of 4 points
(with the `kA3DTessFaceDataNormalSingle` bit in its size word), in a record whose
index buffer has `2 + 6 + (6 + 8) + 4 + 5 = 31` words. -/
theorem layout_cursor_consumption_witness :
    (IndicesPerFaceAsTriangles sdkFlags
        (recordOf (faceOf 0x0053 [1, 2, 3, 4, 1, 1, 0x40000004] 2) (List.replicate 31 7))
        0 [] []).2.puiTriangulatedIndexes
      = u32 ((recordOf (faceOf 0x0053 [1, 2, 3, 4, 1, 1, 0x40000004] 2)
          (List.replicate 31 7)).m_psFaceTessData (u32 0)).m_uiStartTriangulated
        + FaceLayout.indexWords sdkFlags
          { triangles := some 1, fans := some [3, 4], stripes := none,
            trianglesOneNormal := some 1, fansOneNormal := none,
            stripesOneNormal := some [0x40000004] }
    ∧ (IndicesPerFaceAsTriangles sdkFlags
        (recordOf (faceOf 0x0053 [1, 2, 3, 4, 1, 1, 0x40000004] 2) (List.replicate 31 7))
        0 [] []).1 = A3DStatus.A3D_SUCCESS
    ∧ (IndicesPerFaceAsTriangles sdkFlags
        (recordOf (faceOf 0x0053 [1, 2, 3, 4, 1, 1, 0x40000004] 2) (List.replicate 31 7))
        0 [] []).2.puiTriangulatedIndexes = 31 :=
  have h := layout_cursor_consumption sdkFlags sdkFlags_separate
    (recordOf (faceOf 0x0053 [1, 2, 3, 4, 1, 1, 0x40000004] 2) (List.replicate 31 7)) 0 [] []
    { triangles := some 1, fans := some [3, 4], stripes := none,
      trianglesOneNormal := some 1, fansOneNormal := none,
      stripesOneNormal := some [0x40000004] }
    (by decide) (by decide) (by unfold SizesAt; decide)
    (by unfold FaceLayout.AtLeastTwoPoints; decide)
  ⟨h.1, (h.2 (by decide) (by decide)).1, (h.2 (by decide) (by decide)).2⟩

/-! ## C3: number of emitted triangles -/

/-- C3: a face holding one fan of `N ≥ 3` points, or one strip of `N ≥ 3` points,
makes the decoder append `3 (N - 2)` vertex indices and `3 (N - 2)` normal indices
(`N - 2` triangles); a face holding a block of `T` plain triangles makes it append
`3 T` of each; and for every input the two containers grow by the same amount. -/
theorem emitted_triangle_counts (K : TessFlagValues) (t : A3DTess3DData) (i : Nat)
    (au : List Nat) (ni : List Int) :
    (∀ N, 3 ≤ N → K.Separate →
      u32 (t.m_psFaceTessData (u32 i)).m_uiSizesTriangulatedSize ≠ 0 →
      u16 (t.m_psFaceTessData (u32 i)).m_usUsedEntitiesFlags = K.kA3DTessFaceDataTriangleFan →
      rd (t.m_psFaceTessData (u32 i)).m_puiSizesTriangulated 0 = 1 →
      rd (t.m_psFaceTessData (u32 i)).m_puiSizesTriangulated 1 = N →
      (IndicesPerFaceAsTriangles K t i au ni).2.auIndices.length = au.length + 3 * (N - 2)
      ∧ (IndicesPerFaceAsTriangles K t i au ni).2.normal_indices.length
          = ni.length + 3 * (N - 2))
    ∧ (∀ N, 3 ≤ N → K.Separate →
      u32 (t.m_psFaceTessData (u32 i)).m_uiSizesTriangulatedSize ≠ 0 →
      u16 (t.m_psFaceTessData (u32 i)).m_usUsedEntitiesFlags
        = K.kA3DTessFaceDataTriangleStripe →
      rd (t.m_psFaceTessData (u32 i)).m_puiSizesTriangulated 0 = 1 →
      rd (t.m_psFaceTessData (u32 i)).m_puiSizesTriangulated 1 = N →
      (IndicesPerFaceAsTriangles K t i au ni).2.auIndices.length = au.length + 3 * (N - 2)
      ∧ (IndicesPerFaceAsTriangles K t i au ni).2.normal_indices.length
          = ni.length + 3 * (N - 2))
    ∧ (∀ T, K.Separate →
      u32 (t.m_psFaceTessData (u32 i)).m_uiSizesTriangulatedSize ≠ 0 →
      u16 (t.m_psFaceTessData (u32 i)).m_usUsedEntitiesFlags = K.kA3DTessFaceDataTriangle →
      rd (t.m_psFaceTessData (u32 i)).m_puiSizesTriangulated 0 = T →
      (IndicesPerFaceAsTriangles K t i au ni).2.auIndices.length = au.length + 3 * T
      ∧ (IndicesPerFaceAsTriangles K t i au ni).2.normal_indices.length = ni.length + 3 * T)
    ∧ (∃ (a : List Nat) (n : List Int),
        (IndicesPerFaceAsTriangles K t i au ni).2.auIndices = au ++ a
        ∧ (IndicesPerFaceAsTriangles K t i au ni).2.normal_indices = ni ++ n
        ∧ a.length = n.length) := by
  refine ⟨?_, ?_, ?_, IndicesPerFaceAsTriangles_grows K t i au ni⟩
  · intro N hN hK hsz hf h0 h1
    obtain ⟨ha, hn⟩ := IndicesPerFaceAsTriangles_oneFan hK t i au ni hsz hf h0
    have hlt : N < 4294967296 := h1 ▸ rd_lt _ _
    rw [ha, hn, h1, fanCount_eq (by omega) hlt]
    simp [length_fanTriangles]
  · intro N hN hK hsz hf h0 h1
    obtain ⟨ha, hn⟩ := IndicesPerFaceAsTriangles_oneStripe hK t i au ni hsz hf h0
    have hlt : N < 4294967296 := h1 ▸ rd_lt _ _
    rw [ha, hn, h1, stripeCount_eq (by omega) hlt]
    simp [length_stripeTriangles]
  · intro T hK hsz hf h0
    obtain ⟨ha, hn⟩ := IndicesPerFaceAsTriangles_triangles hK t i au ni hsz hf
    rw [ha, hn, h0]
    simp [length_plainTriangles]

/-- Witness for C3: a fan of 5 points, a strip of 4 points and a block of 2 triangles. -/
theorem emitted_triangle_counts_witness :
    ((IndicesPerFaceAsTriangles sdkFlags
          (recordOf (faceOf 0x0002 [1, 5] 0) [10, 0, 11, 1, 12, 2, 13, 3, 14, 4])
          0 [7] [8]).2.auIndices.length = [7].length + 3 * (5 - 2)
      ∧ (IndicesPerFaceAsTriangles sdkFlags
          (recordOf (faceOf 0x0002 [1, 5] 0) [10, 0, 11, 1, 12, 2, 13, 3, 14, 4])
          0 [7] [8]).2.normal_indices.length = [8].length + 3 * (5 - 2))
    ∧ ((IndicesPerFaceAsTriangles sdkFlags
          (recordOf (faceOf 0x0004 [1, 4] 0) [10, 0, 11, 1, 12, 2, 13, 3])
          0 [] []).2.auIndices.length = ([] : List Nat).length + 3 * (4 - 2)
      ∧ (IndicesPerFaceAsTriangles sdkFlags
          (recordOf (faceOf 0x0004 [1, 4] 0) [10, 0, 11, 1, 12, 2, 13, 3])
          0 [] []).2.normal_indices.length = ([] : List Int).length + 3 * (4 - 2))
    ∧ ((IndicesPerFaceAsTriangles sdkFlags
          (recordOf (faceOf 0x0001 [2] 0) [10, 0, 11, 1, 12, 2, 13, 3, 14, 4, 15, 5])
          0 [] []).2.auIndices.length = ([] : List Nat).length + 3 * 2
      ∧ (IndicesPerFaceAsTriangles sdkFlags
          (recordOf (faceOf 0x0001 [2] 0) [10, 0, 11, 1, 12, 2, 13, 3, 14, 4, 15, 5])
          0 [] []).2.normal_indices.length = ([] : List Int).length + 3 * 2) :=
  ⟨(emitted_triangle_counts sdkFlags
      (recordOf (faceOf 0x0002 [1, 5] 0) [10, 0, 11, 1, 12, 2, 13, 3, 14, 4]) 0 [7] [8]).1
      5 (by decide) sdkFlags_separate (by decide) (by decide) (by decide) (by decide),
    (emitted_triangle_counts sdkFlags
      (recordOf (faceOf 0x0004 [1, 4] 0) [10, 0, 11, 1, 12, 2, 13, 3]) 0 [] []).2.1
      4 (by decide) sdkFlags_separate (by decide) (by decide) (by decide) (by decide),
    (emitted_triangle_counts sdkFlags
      (recordOf (faceOf 0x0001 [2] 0) [10, 0, 11, 1, 12, 2, 13, 3, 14, 4, 15, 5]) 0 [] []).2.2.1
      2 sdkFlags_separate (by decide) (by decide) (by decide)⟩

/-! ## C4: winding of a strip of five points -/

/-- C4 (as stated) fails: for the strip whose five points carry the vertex indices
0..4 the decoder does not append the triples `(0,1,2), (1,2,3), (2,4,3)`; it
appends `(1,2,0), (2,1,3), (3,4,2)`. -/
theorem stripe5_not_in_spec_order :
    (IndicesPerFaceAsTriangles sdkFlags
        (recordOf (faceOf 0x0004 [1, 5] 0) [10, 0, 11, 1, 12, 2, 13, 3, 14, 4])
        0 [] []).2.auIndices ≠ [0, 1, 2, 1, 2, 3, 2, 4, 3]
    ∧ (IndicesPerFaceAsTriangles sdkFlags
        (recordOf (faceOf 0x0004 [1, 5] 0) [10, 0, 11, 1, 12, 2, 13, 3, 14, 4])
        0 [] []).2.auIndices = [1, 2, 0, 2, 1, 3, 3, 4, 2] := by
  decide

/-- C4 (amended): decoding a strip of 5 points `p0..p4` appends three triangles;
the triangle of loop index `k = 0, 1, 2` is `(p(k+1), p(k+2), p(k))` when `k` is even
and `(p(k+1), p(k), p(k+2))` when `k` is odd, that is the ordered vertex-index
triples `(p1,p2,p0), (p2,p1,p3), (p3,p4,p2)`. -/
theorem stripe5_emitted_triples (K : TessFlagValues) (hK : K.Separate) (t : A3DTess3DData)
    (i : Nat) (au : List Nat) (ni : List Int)
    (hsz : u32 (t.m_psFaceTessData (u32 i)).m_uiSizesTriangulatedSize ≠ 0)
    (hf : u16 (t.m_psFaceTessData (u32 i)).m_usUsedEntitiesFlags
      = K.kA3DTessFaceDataTriangleStripe)
    (h0 : rd (t.m_psFaceTessData (u32 i)).m_puiSizesTriangulated 0 = 1)
    (h1 : rd (t.m_psFaceTessData (u32 i)).m_puiSizesTriangulated 1 = 5)
    (p : Nat → Nat)
    (hp : ∀ k, k < 5 → vtx t.m_puiTriangulatedIndexes
      (u32 (t.m_psFaceTessData (u32 i)).m_uiStartTriangulated) k = p k) :
    (IndicesPerFaceAsTriangles K t i au ni).2.auIndices =
      au ++ [p 1, p 2, p 0, p 2, p 1, p 3, p 3, p 4, p 2] := by
  obtain ⟨ha, -⟩ := IndicesPerFaceAsTriangles_oneStripe hK t i au ni hsz hf h0
  have h3 : stripeCount 5 = 3 := by decide
  rw [ha, h1, h3]
  simp [stripeTriangles, List.range_succ, hp]

/-- Witness for C4 (amended): the strip whose points carry the vertex indices 0..4. -/
theorem stripe5_emitted_triples_witness :
    (IndicesPerFaceAsTriangles sdkFlags
        (recordOf (faceOf 0x0004 [1, 5] 0) [10, 0, 11, 1, 12, 2, 13, 3, 14, 4])
        0 [] []).2.auIndices = [] ++ [1, 2, 0, 2, 1, 3, 3, 4, 2] :=
  stripe5_emitted_triples sdkFlags sdkFlags_separate
    (recordOf (faceOf 0x0004 [1, 5] 0) [10, 0, 11, 1, 12, 2, 13, 3, 14, 4]) 0 [] []
    (by decide) (by decide) (by decide) (by decide) (fun k => k)
    (by decide)


/-! ## C5: corners of a fan -/

theorem fanTriangles_triple {α : Type} (pt : Nat → α) (cnt j : Nat) (h1 : 1 ≤ j)
    (h2 : j ≤ cnt) :
    ((fanTriangles pt cnt).drop (3 * (j - 1))).take 3 = [pt 0, pt j, pt (j + 1)] := by
  unfold fanTriangles
  rw [flatMap_triple (fun j => [pt 0, pt (j + 1), pt (j + 2)]) (fun _ => rfl) cnt (j - 1)
    (by omega)]
  have e1 : j - 1 + 1 = j := by omega
  have e2 : j - 1 + 2 = j + 1 := by omega
  rw [e1, e2]

theorem drop_append_add {α : Type} (l x : List α) (k : Nat) :
    (l ++ x).drop (l.length + k) = x.drop k := by
  rw [List.drop_append_eq_append_drop]
  simp

/-- C5: for every fan of `N ≥ 3` points `p0..p(N-1)` in the interleaved buffer, the
`j`-th triangle the decoder appends (`j = 1..N-2`) has the corners
`(p0, pj, p(j+1))`, each with the vertex index and the normal index of its own
point. The first part is for a face holding one fan, through
`IndicesPerFaceAsTriangles`; the second for any fan of any face, through the body
of the loop over the fans, started in any state. -/
theorem fan_triangle_corners (K : TessFlagValues) (N j : Nat) (hN : 3 ≤ N) (hj1 : 1 ≤ j)
    (hj2 : j ≤ N - 2) :
    (∀ (t : A3DTess3DData) (i : Nat) (au : List Nat) (ni : List Int), K.Separate →
      u32 (t.m_psFaceTessData (u32 i)).m_uiSizesTriangulatedSize ≠ 0 →
      u16 (t.m_psFaceTessData (u32 i)).m_usUsedEntitiesFlags = K.kA3DTessFaceDataTriangleFan →
      rd (t.m_psFaceTessData (u32 i)).m_puiSizesTriangulated 0 = 1 →
      rd (t.m_psFaceTessData (u32 i)).m_puiSizesTriangulated 1 = N →
      (((IndicesPerFaceAsTriangles K t i au ni).2.auIndices.drop
          (au.length + 3 * (j - 1))).take 3
        = [vtx t.m_puiTriangulatedIndexes
              (u32 (t.m_psFaceTessData (u32 i)).m_uiStartTriangulated) 0,
            vtx t.m_puiTriangulatedIndexes
              (u32 (t.m_psFaceTessData (u32 i)).m_uiStartTriangulated) j,
            vtx t.m_puiTriangulatedIndexes
              (u32 (t.m_psFaceTessData (u32 i)).m_uiStartTriangulated) (j + 1)])
      ∧ (((IndicesPerFaceAsTriangles K t i au ni).2.normal_indices.drop
          (ni.length + 3 * (j - 1))).take 3
        = [nrm t.m_puiTriangulatedIndexes
              (u32 (t.m_psFaceTessData (u32 i)).m_uiStartTriangulated) 0,
            nrm t.m_puiTriangulatedIndexes
              (u32 (t.m_psFaceTessData (u32 i)).m_uiStartTriangulated) j,
            nrm t.m_puiTriangulatedIndexes
              (u32 (t.m_psFaceTessData (u32 i)).m_uiStartTriangulated) (j + 1)]))
    ∧ (∀ (f : A3DTessFaceData) (buf : Nat → Nat) (s : DecodeState),
      rd f.m_puiSizesTriangulated s.uiCurrentSize = N →
      (((fanBody f buf s).auIndices.drop (s.auIndices.length + 3 * (j - 1))).take 3
        = [vtx buf s.puiTriangulatedIndexes 0, vtx buf s.puiTriangulatedIndexes j,
            vtx buf s.puiTriangulatedIndexes (j + 1)])
      ∧ (((fanBody f buf s).normal_indices.drop (s.normal_indices.length + 3 * (j - 1))).take 3
        = [nrm buf s.puiTriangulatedIndexes 0, nrm buf s.puiTriangulatedIndexes j,
            nrm buf s.puiTriangulatedIndexes (j + 1)])) := by
  constructor
  · intro t i au ni hK hsz hf h0 h1
    obtain ⟨ha, hn⟩ := IndicesPerFaceAsTriangles_oneFan hK t i au ni hsz hf h0
    have hlt : N < 4294967296 := h1 ▸ rd_lt _ _
    rw [ha, hn, h1, fanCount_eq (by omega) hlt, drop_append_add, drop_append_add,
      fanTriangles_triple _ _ _ hj1 hj2, fanTriangles_triple _ _ _ hj1 hj2]
    exact ⟨rfl, rfl⟩
  · intro f buf s h1
    have hlt : N < 4294967296 := h1 ▸ rd_lt _ _
    rw [fanBody_eq, h1, fanCount_eq (by omega) hlt]
    simp only
    rw [drop_append_add, drop_append_add,
      fanTriangles_triple _ _ _ hj1 hj2, fanTriangles_triple _ _ _ hj1 hj2]
    exact ⟨rfl, rfl⟩

/-- Witness for C5: the third triangle of a fan of 5 points is `(p0, p3, p4)`. -/
theorem fan_triangle_corners_witness :
    ((IndicesPerFaceAsTriangles sdkFlags
          (recordOf (faceOf 0x0002 [1, 5] 0) [10, 0, 11, 1, 12, 2, 13, 3, 14, 4])
          0 [7] [8]).2.auIndices.drop ([7].length + 3 * (3 - 1))).take 3 = [0, 3, 4]
    ∧ ((IndicesPerFaceAsTriangles sdkFlags
          (recordOf (faceOf 0x0002 [1, 5] 0) [10, 0, 11, 1, 12, 2, 13, 3, 14, 4])
          0 [7] [8]).2.normal_indices.drop ([8].length + 3 * (3 - 1))).take 3 = [10, 13, 14] :=
  (fan_triangle_corners sdkFlags 5 3 (by decide) (by decide) (by decide)).1
    (recordOf (faceOf 0x0002 [1, 5] 0) [10, 0, 11, 1, 12, 2, 13, 3, 14, 4]) 0 [7] [8]
    sdkFlags_separate (by decide) (by decide) (by decide) (by decide)

/-! ## C6: one-normal variants -/

/-- C6: for each of the three kinds, decoding a face that holds the one-normal
variant appends the same vertex-index sequence as decoding a face that holds the
base variant over the same points, and every normal index it appends is the
shared normal index of the block: the normal word of the triangle for one-normal
triangles, the single normal word of the fan or strip otherwise. `t` holds the
base variant and `t'` the one-normal variant; "the same points" is agreement of
the vertex words of the points the loops visit (for a fan or strip declaring
`2 ≤ N < 2^32` points these are exactly its `N` points, see `fanCount_eq` and
`stripeCount_eq`). -/
theorem oneNormal_same_vertices (K : TessFlagValues) (hK : K.Separate)
    (t t' : A3DTess3DData) (i i' : Nat) (au au' : List Nat) (ni ni' : List Int)
    (hsz : u32 (t.m_psFaceTessData (u32 i)).m_uiSizesTriangulatedSize ≠ 0)
    (hsz' : u32 (t'.m_psFaceTessData (u32 i')).m_uiSizesTriangulatedSize ≠ 0) :
    (∀ T,
      u16 (t.m_psFaceTessData (u32 i)).m_usUsedEntitiesFlags = K.kA3DTessFaceDataTriangle →
      u16 (t'.m_psFaceTessData (u32 i')).m_usUsedEntitiesFlags
        = K.kA3DTessFaceDataTriangleOneNormal →
      rd (t.m_psFaceTessData (u32 i)).m_puiSizesTriangulated 0 = T →
      rd (t'.m_psFaceTessData (u32 i')).m_puiSizesTriangulated 0 = T →
      (∀ k, k < 3 * T →
        vtx t.m_puiTriangulatedIndexes
            (u32 (t.m_psFaceTessData (u32 i)).m_uiStartTriangulated) k
          = vtxT1 t'.m_puiTriangulatedIndexes
            (u32 (t'.m_psFaceTessData (u32 i')).m_uiStartTriangulated) k) →
      ∃ a : List Nat,
        (IndicesPerFaceAsTriangles K t i au ni).2.auIndices = au ++ a
        ∧ (IndicesPerFaceAsTriangles K t' i' au' ni').2.auIndices = au' ++ a
        ∧ (IndicesPerFaceAsTriangles K t' i' au' ni').2.normal_indices =
          ni' ++ (List.range T).flatMap fun j =>
            List.replicate 3 (toInt32 (rd t'.m_puiTriangulatedIndexes
              (u32 (t'.m_psFaceTessData (u32 i')).m_uiStartTriangulated + 4 * j))))
    ∧ (∀ N,
      u16 (t.m_psFaceTessData (u32 i)).m_usUsedEntitiesFlags = K.kA3DTessFaceDataTriangleFan →
      u16 (t'.m_psFaceTessData (u32 i')).m_usUsedEntitiesFlags
        = K.kA3DTessFaceDataTriangleFanOneNormal →
      rd (t.m_psFaceTessData (u32 i)).m_puiSizesTriangulated 0 = 1 →
      rd (t'.m_psFaceTessData (u32 i')).m_puiSizesTriangulated 0 = 1 →
      rd (t.m_psFaceTessData (u32 i)).m_puiSizesTriangulated 1 = N →
      rd (t'.m_psFaceTessData (u32 i')).m_puiSizesTriangulated 1
        &&& K.kA3DTessFaceDataNormalMask = N →
      (∀ k, k < fanCount N + 2 →
        vtx t.m_puiTriangulatedIndexes
            (u32 (t.m_psFaceTessData (u32 i)).m_uiStartTriangulated) k
          = vtx1 t'.m_puiTriangulatedIndexes
            (u32 (t'.m_psFaceTessData (u32 i')).m_uiStartTriangulated) k) →
      ∃ a : List Nat,
        (IndicesPerFaceAsTriangles K t i au ni).2.auIndices = au ++ a
        ∧ (IndicesPerFaceAsTriangles K t' i' au' ni').2.auIndices = au' ++ a
        ∧ (IndicesPerFaceAsTriangles K t' i' au' ni').2.normal_indices =
          ni' ++ List.replicate a.length (nrm1 t'.m_puiTriangulatedIndexes
            (u32 (t'.m_psFaceTessData (u32 i')).m_uiStartTriangulated)))
    ∧ (∀ N,
      u16 (t.m_psFaceTessData (u32 i)).m_usUsedEntitiesFlags
        = K.kA3DTessFaceDataTriangleStripe →
      u16 (t'.m_psFaceTessData (u32 i')).m_usUsedEntitiesFlags
        = K.kA3DTessFaceDataTriangleStripeOneNormal →
      rd (t.m_psFaceTessData (u32 i)).m_puiSizesTriangulated 0 = 1 →
      rd (t'.m_psFaceTessData (u32 i')).m_puiSizesTriangulated 0 = 1 →
      rd (t.m_psFaceTessData (u32 i)).m_puiSizesTriangulated 1 = N →
      rd (t'.m_psFaceTessData (u32 i')).m_puiSizesTriangulated 1
        &&& K.kA3DTessFaceDataNormalMask = N →
      (∀ k, k < stripeCount N + 2 →
        vtx t.m_puiTriangulatedIndexes
            (u32 (t.m_psFaceTessData (u32 i)).m_uiStartTriangulated) k
          = vtx1 t'.m_puiTriangulatedIndexes
            (u32 (t'.m_psFaceTessData (u32 i')).m_uiStartTriangulated) k) →
      ∃ a : List Nat,
        (IndicesPerFaceAsTriangles K t i au ni).2.auIndices = au ++ a
        ∧ (IndicesPerFaceAsTriangles K t' i' au' ni').2.auIndices = au' ++ a
        ∧ (IndicesPerFaceAsTriangles K t' i' au' ni').2.normal_indices =
          ni' ++ List.replicate a.length (nrm1 t'.m_puiTriangulatedIndexes
            (u32 (t'.m_psFaceTessData (u32 i')).m_uiStartTriangulated))) := by
  refine ⟨?_, ?_, ?_⟩
  · intro T hf hf' h0 h0' hpts
    obtain ⟨ha, -⟩ := IndicesPerFaceAsTriangles_triangles hK t i au ni hsz hf
    obtain ⟨ha', hn'⟩ := IndicesPerFaceAsTriangles_trianglesOneNormal hK t' i' au' ni' hsz' hf'
    rw [h0] at ha
    rw [h0'] at ha' hn'
    refine ⟨_, ha, ?_, ?_⟩
    · rw [ha', plainTriangles_congr _ _ T hpts]
    · rw [hn', plainTriangles_nrmT1]
  · intro N hf hf' h0 h0' h1 h1' hpts
    obtain ⟨ha, -⟩ := IndicesPerFaceAsTriangles_oneFan hK t i au ni hsz hf h0
    obtain ⟨ha', hn'⟩ := IndicesPerFaceAsTriangles_oneFanOneNormal hK t' i' au' ni' hsz' hf' h0'
    rw [h1] at ha
    rw [h1'] at ha' hn'
    refine ⟨_, ha, ?_, ?_⟩
    · rw [ha', fanTriangles_congr _ _ _ hpts]
    · rw [hn', fanTriangles_const, length_fanTriangles]
  · intro N hf hf' h0 h0' h1 h1' hpts
    obtain ⟨ha, -⟩ := IndicesPerFaceAsTriangles_oneStripe hK t i au ni hsz hf h0
    obtain ⟨ha', hn'⟩ :=
      IndicesPerFaceAsTriangles_oneStripeOneNormal hK t' i' au' ni' hsz' hf' h0'
    rw [h1] at ha
    rw [h1'] at ha' hn'
    refine ⟨_, ha, ?_, ?_⟩
    · rw [ha', stripeTriangles_congr _ _ _ hpts]
    · rw [hn', stripeTriangles_const_replicate, length_stripeTriangles]

/-- Witness for C6: two triangles, a fan of 5 points and a strip of 5 points,
each in its base and in its one-normal encoding; the one-normal strip sets the
`kA3DTessFaceDataNormalSingle` bit in its size word. -/
theorem oneNormal_same_vertices_witness :
    (∃ a : List Nat,
      (IndicesPerFaceAsTriangles sdkFlags
          (recordOf (faceOf 0x0001 [2] 0) [10, 0, 11, 1, 12, 2, 13, 3, 14, 4, 15, 5])
          0 [] []).2.auIndices = [] ++ a
      ∧ (IndicesPerFaceAsTriangles sdkFlags
          (recordOf (faceOf 0x0010 [2] 0) [20, 0, 1, 2, 21, 3, 4, 5]) 0 [9] [9]).2.auIndices
        = [9] ++ a
      ∧ (IndicesPerFaceAsTriangles sdkFlags
          (recordOf (faceOf 0x0010 [2] 0) [20, 0, 1, 2, 21, 3, 4, 5]) 0 [9] [9]).2.normal_indices
        = [9] ++ (List.range 2).flatMap fun j =>
            List.replicate 3 (toInt32 (rd
              (recordOf (faceOf 0x0010 [2] 0) [20, 0, 1, 2, 21, 3, 4, 5]).m_puiTriangulatedIndexes
              (u32 ((recordOf (faceOf 0x0010 [2] 0)
                [20, 0, 1, 2, 21, 3, 4, 5]).m_psFaceTessData (u32 0)).m_uiStartTriangulated
                + 4 * j))))
    ∧ (∃ a : List Nat,
      (IndicesPerFaceAsTriangles sdkFlags
          (recordOf (faceOf 0x0002 [1, 5] 0) [10, 0, 11, 1, 12, 2, 13, 3, 14, 4])
          0 [] []).2.auIndices = [] ++ a
      ∧ (IndicesPerFaceAsTriangles sdkFlags
          (recordOf (faceOf 0x0020 [1, 5] 0) [20, 0, 1, 2, 3, 4]) 0 [] []).2.auIndices = [] ++ a
      ∧ (IndicesPerFaceAsTriangles sdkFlags
          (recordOf (faceOf 0x0020 [1, 5] 0) [20, 0, 1, 2, 3, 4]) 0 [] []).2.normal_indices
        = [] ++ List.replicate a.length (nrm1
            (recordOf (faceOf 0x0020 [1, 5] 0) [20, 0, 1, 2, 3, 4]).m_puiTriangulatedIndexes
            (u32 ((recordOf (faceOf 0x0020 [1, 5] 0)
              [20, 0, 1, 2, 3, 4]).m_psFaceTessData (u32 0)).m_uiStartTriangulated)))
    ∧ (∃ a : List Nat,
      (IndicesPerFaceAsTriangles sdkFlags
          (recordOf (faceOf 0x0004 [1, 5] 0) [10, 0, 11, 1, 12, 2, 13, 3, 14, 4])
          0 [] []).2.auIndices = [] ++ a
      ∧ (IndicesPerFaceAsTriangles sdkFlags
          (recordOf (faceOf 0x0040 [1, 0x40000005] 0) [20, 0, 1, 2, 3, 4])
          0 [] []).2.auIndices = [] ++ a
      ∧ (IndicesPerFaceAsTriangles sdkFlags
          (recordOf (faceOf 0x0040 [1, 0x40000005] 0) [20, 0, 1, 2, 3, 4])
          0 [] []).2.normal_indices
        = [] ++ List.replicate a.length (nrm1
            (recordOf (faceOf 0x0040 [1, 0x40000005] 0)
              [20, 0, 1, 2, 3, 4]).m_puiTriangulatedIndexes
            (u32 ((recordOf (faceOf 0x0040 [1, 0x40000005] 0)
              [20, 0, 1, 2, 3, 4]).m_psFaceTessData (u32 0)).m_uiStartTriangulated))) :=
  ⟨(oneNormal_same_vertices sdkFlags sdkFlags_separate
      (recordOf (faceOf 0x0001 [2] 0) [10, 0, 11, 1, 12, 2, 13, 3, 14, 4, 15, 5])
      (recordOf (faceOf 0x0010 [2] 0) [20, 0, 1, 2, 21, 3, 4, 5]) 0 0 [] [9] [] [9]
      (by decide) (by decide)).1 2 (by decide) (by decide) (by decide) (by decide) (by decide),
    (oneNormal_same_vertices sdkFlags sdkFlags_separate
      (recordOf (faceOf 0x0002 [1, 5] 0) [10, 0, 11, 1, 12, 2, 13, 3, 14, 4])
      (recordOf (faceOf 0x0020 [1, 5] 0) [20, 0, 1, 2, 3, 4]) 0 0 [] [] [] []
      (by decide) (by decide)).2.1 5 (by decide) (by decide) (by decide) (by decide)
      (by decide) (by decide) (by decide),
    (oneNormal_same_vertices sdkFlags sdkFlags_separate
      (recordOf (faceOf 0x0004 [1, 5] 0) [10, 0, 11, 1, 12, 2, 13, 3, 14, 4])
      (recordOf (faceOf 0x0040 [1, 0x40000005] 0) [20, 0, 1, 2, 3, 4]) 0 0 [] [] [] []
      (by decide) (by decide)).2.2 5 (by decide) (by decide) (by decide) (by decide)
      (by decide) (by decide) (by decide)⟩

/-! ## C7: textured variants -/

/-- C7 (as stated) fails twice. A face whose only flag is the textured-triangle
flag (one texture word per corner) is decoded, here into the triangle `(0, 1, 2)`,
and the decoder returns `A3D_SUCCESS`; and a face with the textured-fan flag but no size block returns
`A3D_SUCCESS` as well. -/
theorem texturedTriangle_decoded_not_rejected :
    (hasFlag (u16 0x0100) sdkFlags.kA3DTessFaceDataTriangleTextured = true
      ∧ (IndicesPerFaceAsTriangles sdkFlags
          (recordOf { faceOf 0x0100 [1] 0 with m_uiTextureCoordIndexesSize := 1 }
            [10, 20, 0, 11, 21, 1, 12, 22, 2]) 0 [] []).1
        = A3DStatus.A3D_SUCCESS
      ∧ (IndicesPerFaceAsTriangles sdkFlags
          (recordOf { faceOf 0x0100 [1] 0 with m_uiTextureCoordIndexesSize := 1 }
            [10, 20, 0, 11, 21, 1, 12, 22, 2]) 0 [] []).2.auIndices
        = [0, 1, 2])
    ∧ (hasFlag (u16 0x0200) sdkFlags.kA3DTessFaceDataTriangleFanTextured = true
      ∧ (IndicesPerFaceAsTriangles sdkFlags (recordOf (faceOf 0x0200 [] 0) []) 0 [] []).1
        = A3DStatus.A3D_SUCCESS) := by
  decide

/-- C7 (amended): for every face record with at least one size block whose flag
word has the textured-fan, textured-strip, textured one-normal triangle, textured
one-normal fan or textured one-normal strip bit set, `IndicesPerFaceAsTriangles`
returns `A3D_ERROR`. -/
theorem rejected_textured_returns_error (K : TessFlagValues) (t : A3DTess3DData) (i : Nat)
    (au : List Nat) (ni : List Int)
    (hsz : u32 (t.m_psFaceTessData (u32 i)).m_uiSizesTriangulatedSize ≠ 0)
    (htex :
      hasFlag (u16 (t.m_psFaceTessData (u32 i)).m_usUsedEntitiesFlags)
          K.kA3DTessFaceDataTriangleFanTextured = true
      ∨ hasFlag (u16 (t.m_psFaceTessData (u32 i)).m_usUsedEntitiesFlags)
          K.kA3DTessFaceDataTriangleStripeTextured = true
      ∨ hasFlag (u16 (t.m_psFaceTessData (u32 i)).m_usUsedEntitiesFlags)
          K.kA3DTessFaceDataTriangleOneNormalTextured = true
      ∨ hasFlag (u16 (t.m_psFaceTessData (u32 i)).m_usUsedEntitiesFlags)
          K.kA3DTessFaceDataTriangleFanOneNormalTextured = true
      ∨ hasFlag (u16 (t.m_psFaceTessData (u32 i)).m_usUsedEntitiesFlags)
          K.kA3DTessFaceDataTriangleStripeOneNormalTextured = true) :
    (IndicesPerFaceAsTriangles K t i au ni).1 = A3DStatus.A3D_ERROR := by
  apply status_ne_success
  intro hs
  have h := ((IndicesPerFaceAsTriangles_success_iff K t i au ni hsz).1 hs).1
  simp only [rejectedTextured, Bool.or_eq_false_iff] at h
  obtain ⟨⟨⟨⟨h1, h2⟩, h3⟩, h4⟩, h5⟩ := h
  rcases htex with h | h | h | h | h <;> simp_all

/-- Witness for C7 (amended): a face with a plain-triangle block and the
textured-strip flag. -/
theorem rejected_textured_returns_error_witness :
    (u32 ((recordOf (faceOf 0x0401 [1, 1, 3] 0) [9, 0, 9, 1, 9, 2]).m_psFaceTessData
        (u32 0)).m_uiSizesTriangulatedSize ≠ 0
      ∧ hasFlag (u16 ((recordOf (faceOf 0x0401 [1, 1, 3] 0) [9, 0, 9, 1, 9, 2]).m_psFaceTessData
          (u32 0)).m_usUsedEntitiesFlags) sdkFlags.kA3DTessFaceDataTriangleStripeTextured = true)
    ∧ (IndicesPerFaceAsTriangles sdkFlags
        (recordOf (faceOf 0x0401 [1, 1, 3] 0) [9, 0, 9, 1, 9, 2]) 0 [] []).1
      = A3DStatus.A3D_ERROR :=
  ⟨⟨by decide, by decide⟩,
    rejected_textured_returns_error sdkFlags
      (recordOf (faceOf 0x0401 [1, 1, 3] 0) [9, 0, 9, 1, 9, 2]) 0 [] [] (by decide)
      (Or.inr (Or.inl (by decide)))⟩

/-! ## C8: unknown flag bits -/

/-- C8 (as stated) fails: bit 15 of this face's flag word belongs to none of the
twelve variant flags, the face has no size block, and the decoder returns
`A3D_SUCCESS`. -/
theorem unknownFlag_without_sizes_succeeds :
    (u16 (faceOf 0x8000 [] 0).m_usUsedEntitiesFlags).testBit 15 = true
    ∧ (∀ k ∈ sdkFlags.variantFlags, k.testBit 15 = false)
    ∧ (IndicesPerFaceAsTriangles sdkFlags (recordOf (faceOf 0x8000 [] 0) []) 0 [] []).1
        = A3DStatus.A3D_SUCCESS := by
  decide

/-- C8 (amended): for every face record with at least one size block whose 16-bit
flag word has a bit set that belongs to none of the twelve variant flags,
`IndicesPerFaceAsTriangles` returns `A3D_ERROR`, never `A3D_SUCCESS`. -/
theorem unknown_flag_returns_error (K : TessFlagValues) (t : A3DTess3DData) (i : Nat)
    (au : List Nat) (ni : List Int)
    (hsz : u32 (t.m_psFaceTessData (u32 i)).m_uiSizesTriangulatedSize ≠ 0)
    (b : Nat)
    (hb : (u16 (t.m_psFaceTessData (u32 i)).m_usUsedEntitiesFlags).testBit b = true)
    (hk : ∀ k ∈ K.variantFlags, k.testBit b = false) :
    (IndicesPerFaceAsTriangles K t i au ni).1 = A3DStatus.A3D_ERROR
    ∧ (IndicesPerFaceAsTriangles K t i au ni).1 ≠ A3DStatus.A3D_SUCCESS := by
  have hne : (IndicesPerFaceAsTriangles K t i au ni).1 ≠ A3DStatus.A3D_SUCCESS := by
    intro hs
    have h := ((IndicesPerFaceAsTriangles_success_iff K t i au ni hsz).1 hs).2.1
    rw [IndicesPerFaceAsTriangles_snd, if_neg hsz, decodeBlocks_flags] at h
    have hbit := testBit_remainingFlags K (u16_lt (t.m_psFaceTessData (u32 i)).m_usUsedEntitiesFlags)
      (u16 (t.m_psFaceTessData (u32 i)).m_usUsedEntitiesFlags) b hk
    simp only [initialState] at h
    rw [h, hb] at hbit
    simp at hbit
  exact ⟨status_ne_success hne, hne⟩

/-- Witness for C8 (amended): a plain-triangle face whose flag word also has bit 3. -/
theorem unknown_flag_returns_error_witness :
    (u32 ((recordOf (faceOf 0x0009 [1] 0) [9, 0, 9, 1, 9, 2]).m_psFaceTessData
        (u32 0)).m_uiSizesTriangulatedSize ≠ 0
      ∧ (u16 ((recordOf (faceOf 0x0009 [1] 0) [9, 0, 9, 1, 9, 2]).m_psFaceTessData
          (u32 0)).m_usUsedEntitiesFlags).testBit 3 = true
      ∧ ∀ k ∈ sdkFlags.variantFlags, k.testBit 3 = false)
    ∧ ((IndicesPerFaceAsTriangles sdkFlags
          (recordOf (faceOf 0x0009 [1] 0) [9, 0, 9, 1, 9, 2]) 0 [] []).1 = A3DStatus.A3D_ERROR
      ∧ (IndicesPerFaceAsTriangles sdkFlags
          (recordOf (faceOf 0x0009 [1] 0) [9, 0, 9, 1, 9, 2]) 0 [] []).1
        ≠ A3DStatus.A3D_SUCCESS) :=
  ⟨⟨by decide, by decide, by decide⟩,
    unknown_flag_returns_error sdkFlags (recordOf (faceOf 0x0009 [1] 0) [9, 0, 9, 1, 9, 2]) 0 [] []
      (by decide) 3 (by decide) (by decide)⟩

/-! ## C9: the decoder only appends -/

/-- C9: for every input and whatever status is returned, the contents the two
containers had before the call are a prefix of their contents after it; a face
with no size block leaves both containers unchanged. -/
theorem IndicesPerFaceAsTriangles_only_appends (K : TessFlagValues) (t : A3DTess3DData)
    (i : Nat) (au : List Nat) (ni : List Int) :
    au <+: (IndicesPerFaceAsTriangles K t i au ni).2.auIndices
    ∧ ni <+: (IndicesPerFaceAsTriangles K t i au ni).2.normal_indices
    ∧ (u32 (t.m_psFaceTessData (u32 i)).m_uiSizesTriangulatedSize = 0 →
        (IndicesPerFaceAsTriangles K t i au ni).2.auIndices = au
        ∧ (IndicesPerFaceAsTriangles K t i au ni).2.normal_indices = ni) := by
  obtain ⟨a, n, ha, hn, -⟩ := IndicesPerFaceAsTriangles_grows K t i au ni
  refine ⟨⟨a, ha.symm⟩, ⟨n, hn.symm⟩, fun h0 => ?_⟩
  rw [IndicesPerFaceAsTriangles_snd, if_pos h0]
  exact ⟨rfl, rfl⟩

/-- Witness for C9: a face without size blocks, called with non-empty containers. -/
theorem IndicesPerFaceAsTriangles_only_appends_witness :
    u32 ((recordOf (faceOf 0x0001 [] 0) [9, 0, 9, 1, 9, 2]).m_psFaceTessData
        (u32 0)).m_uiSizesTriangulatedSize = 0
    ∧ ([4, 5, 6] <+: (IndicesPerFaceAsTriangles sdkFlags
          (recordOf (faceOf 0x0001 [] 0) [9, 0, 9, 1, 9, 2]) 0 [4, 5, 6] [1, 1, 1]).2.auIndices
      ∧ [1, 1, 1] <+: (IndicesPerFaceAsTriangles sdkFlags
          (recordOf (faceOf 0x0001 [] 0) [9, 0, 9, 1, 9, 2]) 0 [4, 5, 6] [1, 1, 1]).2.normal_indices
      ∧ (IndicesPerFaceAsTriangles sdkFlags
          (recordOf (faceOf 0x0001 [] 0) [9, 0, 9, 1, 9, 2]) 0 [4, 5, 6] [1, 1, 1]).2.auIndices
        = [4, 5, 6]
      ∧ (IndicesPerFaceAsTriangles sdkFlags
          (recordOf (faceOf 0x0001 [] 0) [9, 0, 9, 1, 9, 2]) 0 [4, 5, 6] [1, 1, 1]).2.normal_indices
        = [1, 1, 1]) :=
  have h := IndicesPerFaceAsTriangles_only_appends sdkFlags
    (recordOf (faceOf 0x0001 [] 0) [9, 0, 9, 1, 9, 2]) 0 [4, 5, 6] [1, 1, 1]
  ⟨by decide, h.1, h.2.1, h.2.2 (by decide)⟩

/-! ## C10: associativity of `MultiplyMatrix` -/

/-- C10: over exact arithmetic (any commutative ring of scalars) `MultiplyMatrix` is
associative: combining the first two of three chained transforms and then the
third gives the same sixteen elements as combining the last two first. -/
theorem MultiplyMatrix_assoc {R : Type} [CommRing R] (A B C : PTTransformMatrix R) :
    MultiplyMatrix (MultiplyMatrix A B) C = MultiplyMatrix A (MultiplyMatrix B C) := by
  ext <;> simp only [MultiplyMatrix] <;> ring


/-! ## Lemmas on the layouts of the sixteen elements -/

theorem rowMajor_MultiplyMatrix {R : Type} [CommRing R] (P L : PTTransformMatrix R) :
    rowMajor (MultiplyMatrix P L) = rowMajor L * rowMajor P := by
  ext i j
  fin_cases i <;> fin_cases j <;>
    simp [rowMajor, MultiplyMatrix, Matrix.mul_apply, Fin.sum_univ_four] <;> ring

theorem columnMajor_MultiplyMatrix {R : Type} [CommRing R] (P L : PTTransformMatrix R) :
    columnMajor (MultiplyMatrix P L) = columnMajor P * columnMajor L := by
  ext i j
  fin_cases i <;> fin_cases j <;>
    simp [columnMajor, MultiplyMatrix, Matrix.mul_apply, Fin.sum_univ_four]

theorem columnMajor_eq_transpose {R : Type} (m : PTTransformMatrix R) :
    columnMajor m = (rowMajor m).transpose := by
  ext i j
  fin_cases i <;> fin_cases j <;> rfl

/-- With the mirror bit set the row-major local matrix is the one built without it
with its third row (elements 8..11) multiplied by `-1`. -/
theorem rowMajor_localMatrix_mirror {R : Type} [CommRing R] (k : Nat)
    (d : A3DMiscCartesianTransformationData R)
    (hm : hasFlag (d.m_ucBehaviour % 256) k = true) (b : Nat)
    (hb : hasFlag (b % 256) k = false) :
    rowMajor (localMatrix k d) =
      (rowMajor (localMatrix k { d with m_ucBehaviour := b })).updateRow 2
        ((-1 : R) • (rowMajor (localMatrix k { d with m_ucBehaviour := b })) 2) := by
  ext i j
  fin_cases i <;> fin_cases j <;>
    simp [rowMajor, localMatrix, hm, hb, Matrix.updateRow_apply]

theorem det_localMatrix_mirror {R : Type} [CommRing R] (k : Nat)
    (d : A3DMiscCartesianTransformationData R)
    (hm : hasFlag (d.m_ucBehaviour % 256) k = true) (b : Nat)
    (hb : hasFlag (b % 256) k = false) :
    (rowMajor (localMatrix k d)).det =
      - (rowMajor (localMatrix k { d with m_ucBehaviour := b })).det := by
  rw [rowMajor_localMatrix_mirror k d hm b hb, Matrix.det_updateRow_smul,
    Matrix.updateRow_eq_self]
  ring

theorem det_localMatrix_identityBasis {R : Type} [CommRing R] (k : Nat)
    (O : A3DVector3dData R) (b : Nat) (hb : hasFlag (b % 256) k = false) :
    (rowMajor (localMatrix k
      { m_sOrigin := O, m_sXVector := ⟨1, 0, 0⟩, m_sYVector := ⟨0, 1, 0⟩,
        m_sScale := ⟨1, 1, 1⟩, m_ucBehaviour := b })).det = 1 := by
  rw [Matrix.det_of_lowerTriangular]
  · simp [Fin.prod_univ_four, rowMajor, localMatrix, hb, CrossProduct]
  · intro i j hij
    have h' : i < j := OrderDual.toDual_lt_toDual.1 hij
    fin_cases i <;> fin_cases j <;>
      first
        | exact absurd h' (by decide)
        | simp [rowMajor, localMatrix, hb, CrossProduct]

/-! ## C11: what `MultiplyMatrix` computes in the two layouts -/

/-- C11 (counterexample): read in row-major layout (row `r`, column `c` at index
`4r + c`), `MultiplyMatrix P L` is not the product `P × L`. For `P` the identity with
element 1 set to one and `L` the identity with element 4 set to one, entry (0, 0) of
`P × L` is 2 while element 0 of `MultiplyMatrix P L` is 1. -/
theorem MultiplyMatrix_rowMajor_not_parent_times_local :
    rowMajor (MultiplyMatrix shearAt1 shearAt4) ≠ rowMajor shearAt1 * rowMajor shearAt4 := by
  intro h
  have h00 := congrFun (congrFun h 0) 0
  simp [rowMajor, MultiplyMatrix, Matrix.mul_apply, Fin.sum_univ_four, shearAt1, shearAt4,
    identityMatrix] at h00

/-- C11 (amended): for all 16-element arrays `P` (parent) and `L` (local), over exact
arithmetic, `MultiplyMatrix P L` is the standard 4x4 product `P × L` when the arrays are
read in column-major layout (row `r`, column `c` at index `4c + r`); read in row-major
layout (index `4r + c`) it is the product `L × P`. -/
theorem MultiplyMatrix_is_columnMajor_product {R : Type} [CommRing R]
    (P L : PTTransformMatrix R) :
    columnMajor (MultiplyMatrix P L) = columnMajor P * columnMajor L
    ∧ rowMajor (MultiplyMatrix P L) = rowMajor L * rowMajor P :=
  ⟨columnMajor_MultiplyMatrix P L, rowMajor_MultiplyMatrix P L⟩

/-! ## C12: the mirror flag flips the sign of the determinant -/

/-- C12: for every origin `O`, X axis, Y axis and scale `S`, over exact arithmetic, the
local matrix `stTransform` builds from a behaviour byte with the mirror bit set has the
negative of the determinant of the matrix built from a behaviour byte without it; with
`X = (1,0,0)`, `Y = (0,1,0)` and unit scale the two determinants are `-1` and `+1`. The
determinant is that of the sixteen elements read as a 4x4 matrix (either layout: the two
are transposes of each other), and `stTransform` returns the product of the parent matrix
with this local matrix. -/
theorem mirror_flips_determinant {R : Type} [CommRing R] (k : Nat)
    (O X Y S : A3DVector3dData R) (mirrored plain : Nat)
    (hm : hasFlag (mirrored % 256) k = true) (hp : hasFlag (plain % 256) k = false) :
    (∀ (getStatus : Status) (transform localTransform : PTTransformMatrix R),
      getStatus = Status.A3D_SUCCESS →
      (stTransform k ⟨getStatus, ⟨O, X, Y, S, mirrored⟩⟩ transform localTransform).2
        = MultiplyMatrix transform (localMatrix k ⟨O, X, Y, S, mirrored⟩))
    ∧ (rowMajor (localMatrix k ⟨O, X, Y, S, mirrored⟩)).det
        = - (rowMajor (localMatrix k ⟨O, X, Y, S, plain⟩)).det
    ∧ (columnMajor (localMatrix k ⟨O, X, Y, S, mirrored⟩)).det
        = - (columnMajor (localMatrix k ⟨O, X, Y, S, plain⟩)).det
    ∧ (rowMajor (localMatrix k ⟨O, ⟨1, 0, 0⟩, ⟨0, 1, 0⟩, ⟨1, 1, 1⟩, mirrored⟩)).det = -1
    ∧ (rowMajor (localMatrix k ⟨O, ⟨1, 0, 0⟩, ⟨0, 1, 0⟩, ⟨1, 1, 1⟩, plain⟩)).det = 1 := by
  have hdet := det_localMatrix_mirror k ⟨O, X, Y, S, mirrored⟩ hm plain hp
  refine ⟨?_, hdet, ?_, ?_, det_localMatrix_identityBasis k O plain hp⟩
  · intro getStatus transform localTransform hs
    simp [stTransform, hs]
  · rw [columnMajor_eq_transpose, columnMajor_eq_transpose, Matrix.det_transpose,
      Matrix.det_transpose]
    exact hdet
  · rw [det_localMatrix_mirror k ⟨O, ⟨1, 0, 0⟩, ⟨0, 1, 0⟩, ⟨1, 1, 1⟩, mirrored⟩ hm plain hp]
    exact congrArg Neg.neg (det_localMatrix_identityBasis k O plain hp)

theorem mirror_flips_determinant_witness :
    hasFlag (0x04 % 256) 0x04 = true ∧ hasFlag (0x01 % 256) 0x04 = false
    ∧ (rowMajor (localMatrix 0x04
        (⟨⟨5, 6, 7⟩, ⟨1, 2, 0⟩, ⟨0, 1, 3⟩, ⟨2, 1, 1⟩, 0x04⟩ :
          A3DMiscCartesianTransformationData ℤ))).det
      = - (rowMajor (localMatrix 0x04
        (⟨⟨5, 6, 7⟩, ⟨1, 2, 0⟩, ⟨0, 1, 3⟩, ⟨2, 1, 1⟩, 0x01⟩ :
          A3DMiscCartesianTransformationData ℤ))).det :=
  ⟨by decide, by decide,
    (mirror_flips_determinant 0x04 ⟨5, 6, 7⟩ ⟨1, 2, 0⟩ ⟨0, 1, 3⟩ ⟨2, 1, 1⟩ 0x04 0x01
      (by decide) (by decide)).2.1⟩

/-! ## Lemmas on maps kept as lists of pairs -/

theorem lookup_eq_none_iff_not_mem_keys {ν : Type} (m : List (Nat × ν)) (k : Nat) :
    m.lookup k = none ↔ k ∉ keys m := by
  induction m with
  | nil => simp [keys]
  | cons p m ih =>
    obtain ⟨a, v⟩ := p
    by_cases h : k = a
    · subst h
      simp [keys, List.lookup]
    · have h' : (k == a) = false := by simpa using h
      simp only [List.lookup, h', keys, List.map_cons, List.mem_cons, not_or] at ih ⊢
      rw [ih]
      exact ⟨fun hm => ⟨h, hm⟩, fun hm => hm.2⟩

theorem mem_of_lookup_eq_some {ν : Type} (m : List (Nat × ν)) (k : Nat) (v : ν)
    (h : m.lookup k = some v) : (k, v) ∈ m := by
  induction m with
  | nil => simp at h
  | cons p m ih =>
    obtain ⟨a, w⟩ := p
    by_cases hk : k = a
    · subst hk
      simp [List.lookup] at h
      simp [h]
    · have h' : (k == a) = false := by simpa using hk
      simp only [List.lookup, h'] at h
      exact List.mem_cons_of_mem _ (ih h)

theorem lookup_append_of_not_mem {ν : Type} (m : List (Nat × ν)) (k : Nat) (v : ν)
    (h : k ∉ keys m) : (m ++ [(k, v)]).lookup k = some v := by
  induction m with
  | nil => simp [List.lookup]
  | cons p m ih =>
    obtain ⟨a, w⟩ := p
    simp only [keys, List.map_cons, List.mem_cons, not_or] at h
    have h' : (k == a) = false := by simpa using h.1
    simp only [List.cons_append, List.lookup, h']
    exact ih h.2

/-! ## Lemmas on the colour quantisation -/

theorem nearest255_eq_floor (x : ℚ) (h0 : 0 ≤ x) (h1 : x ≤ 1) :
    (nearest255 x : ℤ) = ⌊x * 255 + 1 / 2⌋ ∧ nearest255 x ≤ 255 := by
  have hlo : (0 : ℤ) ≤ ⌊x * 255 + 1 / 2⌋ := Int.floor_nonneg.2 (by linarith)
  have hhi : ⌊x * 255 + 1 / 2⌋ < 256 := Int.floor_lt.2 (by push_cast; linarith)
  have hn : (⌊x * 255 + 1 / 2⌋.toNat : ℤ) = ⌊x * 255 + 1 / 2⌋ := Int.toNat_of_nonneg hlo
  have hlt : ⌊x * 255 + 1 / 2⌋.toNat < 256 := by omega
  have hu : nearest255 x = ⌊x * 255 + 1 / 2⌋.toNat := by
    unfold nearest255
    exact u32_of_lt (by omega)
  rw [hu]
  exact ⟨hn, by omega⟩

theorem nearest255_eq_round (x : ℚ) (h0 : 0 ≤ x) (h1 : x ≤ 1) :
    nearest255 x = (round (255 * x)).toNat := by
  have h := (nearest255_eq_floor x h0 h1).1
  rw [round_eq, mul_comm (255 : ℚ) x, ← h]
  simp

theorem nearest255_of_near (x : ℚ) (k : Nat) (hk : k < 4294967296)
    (h : |x - (k : ℚ) / 255| < 1 / 510) : nearest255 x = k := by
  rw [abs_lt] at h
  have hf : ⌊x * 255 + 1 / 2⌋ = (k : ℤ) := by
    rw [Int.floor_eq_iff]
    constructor
    · push_cast; linarith [h.1]
    · push_cast; linarith [h.2]
  unfold nearest255
  rw [hf, Int.toNat_natCast]
  exact u32_of_lt hk

theorem nearest255_ne_of_far (x y : ℚ) (hx0 : 0 ≤ x) (hx1 : x ≤ 1) (hy0 : 0 ≤ y) (hy1 : y ≤ 1)
    (h : 1 / 255 ≤ |x - y|) : nearest255 x ≠ nearest255 y := by
  intro he
  have hfx := (nearest255_eq_floor x hx0 hx1).1
  have hfy := (nearest255_eq_floor y hy0 hy1).1
  have hfl : ⌊x * 255 + 1 / 2⌋ = ⌊y * 255 + 1 / 2⌋ := by rw [← hfx, ← hfy, he]
  have hd := Int.abs_sub_lt_one_of_floor_eq_floor hfl
  have : |x - y| * 255 < 1 := by
    have e : x * 255 + 1 / 2 - (y * 255 + 1 / 2) = (x - y) * 255 := by ring
    rw [e, abs_mul] at hd
    simpa using hd
  linarith

theorem paletteIndex_inj (r g b r' g' b' : ℚ)
    (hr : nearest255 r ≤ 255) (hg : nearest255 g ≤ 255)
    (hr' : nearest255 r' ≤ 255) (hg' : nearest255 g' ≤ 255)
    (h : paletteIndex r g b = paletteIndex r' g' b') :
    nearest255 r = nearest255 r' ∧ nearest255 g = nearest255 g' ∧ nearest255 b = nearest255 b' := by
  simp only [paletteIndex, Nat.shiftLeft_eq] at h
  omega

/-! ## Lemmas on `LookupRenderStyleByColor` -/

theorem LookupRenderStyleByColor_hit {R : Type} (r g b : ℚ) (pgOpts : BridgeState R)
    (newStyle style : Handle)
    (h : pgOpts.pgOpts.m_style_palette.lookup (paletteIndex r g b) = some style) :
    LookupRenderStyleByColor r g b pgOpts newStyle = (style, pgOpts) := by
  simp only [LookupRenderStyleByColor, h]

theorem LookupRenderStyleByColor_miss {R : Type} (r g b : ℚ) (pgOpts : BridgeState R)
    (newStyle : Handle)
    (h : pgOpts.pgOpts.m_style_palette.lookup (paletteIndex r g b) = none) :
    LookupRenderStyleByColor r g b pgOpts newStyle =
      (newStyle,
        { pgOpts := { pgOpts.pgOpts with
            m_style_palette :=
              pgOpts.pgOpts.m_style_palette ++ [(paletteIndex r g b, newStyle)] }
          engineCalls := pgOpts.engineCalls ++ [EngineCall.PFRenderStyleCreate newStyle] }) := by
  simp only [LookupRenderStyleByColor, h, BridgeState.call]

/-- One lookup keeps the palette keys distinct and adds at most the requested key. -/
theorem LookupRenderStyleByColor_keys {R : Type} (r g b : ℚ) (pgOpts : BridgeState R)
    (newStyle : Handle) (hn : (keys pgOpts.pgOpts.m_style_palette).Nodup) :
    (keys (LookupRenderStyleByColor r g b pgOpts newStyle).2.pgOpts.m_style_palette).Nodup
    ∧ ∀ k ∈ keys (LookupRenderStyleByColor r g b pgOpts newStyle).2.pgOpts.m_style_palette,
        k ∈ keys pgOpts.pgOpts.m_style_palette ∨ k = paletteIndex r g b := by
  cases h : pgOpts.pgOpts.m_style_palette.lookup (paletteIndex r g b) with
  | some style =>
    rw [LookupRenderStyleByColor_hit r g b pgOpts newStyle style h]
    exact ⟨hn, fun k hk => Or.inl hk⟩
  | none =>
    rw [LookupRenderStyleByColor_miss r g b pgOpts newStyle h]
    have hk := (lookup_eq_none_iff_not_mem_keys _ _).1 h
    simp only [keys, List.map_append, List.map_cons, List.map_nil] at hn hk ⊢
    refine ⟨?_, ?_⟩
    · rw [List.nodup_append]
      refine ⟨hn, List.nodup_singleton _, ?_⟩
      intro a ha hb
      rw [List.mem_singleton] at hb
      exact hk (hb ▸ ha)
    · intro k hk'
      rw [List.mem_append, List.mem_singleton] at hk'
      exact hk'

theorem lookupAll_keys {R : Type} (requests : List StyleRequest) :
    ∀ (pgOpts : BridgeState R), (keys pgOpts.pgOpts.m_style_palette).Nodup →
      (keys (lookupAll requests pgOpts).pgOpts.m_style_palette).Nodup
      ∧ ∀ k ∈ keys (lookupAll requests pgOpts).pgOpts.m_style_palette,
          k ∈ keys pgOpts.pgOpts.m_style_palette ∨ k ∈ requests.map StyleRequest.index := by
  induction requests with
  | nil => intro pgOpts hn; exact ⟨hn, fun k hk => Or.inl hk⟩
  | cons q requests ih =>
    intro pgOpts hn
    have h1 := LookupRenderStyleByColor_keys q.r q.g q.b pgOpts q.newStyle hn
    have h2 := ih (LookupRenderStyleByColor q.r q.g q.b pgOpts q.newStyle).2 h1.1
    simp only [lookupAll, List.foldl_cons] at h2 ⊢
    refine ⟨h2.1, fun k hk => ?_⟩
    rcases h2.2 k hk with h | h
    · rcases h1.2 k h with h' | h'
      · exact Or.inl h'
      · exact Or.inr (by rw [h']; exact List.mem_map_of_mem _ (List.mem_cons_self _ _))
    · exact Or.inr (by
        rw [List.map_cons]
        exact List.mem_cons_of_mem _ h)

theorem lookupAll_length_le {R : Type} (requests : List StyleRequest) (pgOpts : BridgeState R)
    (hn : (keys pgOpts.pgOpts.m_style_palette).Nodup) :
    (lookupAll requests pgOpts).pgOpts.m_style_palette.length
      ≤ pgOpts.pgOpts.m_style_palette.length
        + (requests.map StyleRequest.index).toFinset.card := by
  have h := lookupAll_keys requests pgOpts hn
  have hc : (keys (lookupAll requests pgOpts).pgOpts.m_style_palette).toFinset.card
      = (lookupAll requests pgOpts).pgOpts.m_style_palette.length := by
    rw [List.toFinset_card_of_nodup h.1, keys, List.length_map]
  have hs : (keys (lookupAll requests pgOpts).pgOpts.m_style_palette).toFinset
      ⊆ (keys pgOpts.pgOpts.m_style_palette).toFinset
        ∪ (requests.map StyleRequest.index).toFinset := by
    intro k hk
    rw [List.mem_toFinset] at hk
    rw [Finset.mem_union, List.mem_toFinset, List.mem_toFinset]
    exact h.2 k hk
  have h0 : (keys pgOpts.pgOpts.m_style_palette).toFinset.card
      = pgOpts.pgOpts.m_style_palette.length := by
    rw [List.toFinset_card_of_nodup hn, keys, List.length_map]
  calc (lookupAll requests pgOpts).pgOpts.m_style_palette.length
      = (keys (lookupAll requests pgOpts).pgOpts.m_style_palette).toFinset.card := hc.symm
    _ ≤ ((keys pgOpts.pgOpts.m_style_palette).toFinset
          ∪ (requests.map StyleRequest.index).toFinset).card := Finset.card_le_card hs
    _ ≤ _ := by rw [← h0]; exact Finset.card_union_le _ _

/-! ## C13: the style palette is a memo table on the packed key -/

/-- C13: `LookupRenderStyleByColor` is memoised on the packed key. For channels in
`[0, 1]` the key is `round(255 r) + round(255 g) * 2^8 + round(255 b) * 2^16` with each
term below `2^8`. A lookup whose key is in the palette returns the stored handle and
leaves the whole state unchanged; a lookup whose key is absent returns the new style,
appends exactly one entry for that key, and the key is found afterwards. Hence, over any
sequence of lookups on an aggregate whose palette keys are distinct, the keys stay
distinct and the palette grows by at most the number of distinct keys requested. -/
theorem LookupRenderStyleByColor_memoized {R : Type} (r g b : ℚ) (pgOpts : BridgeState R)
    (newStyle : Handle) :
    (0 ≤ r ∧ r ≤ 1 → 0 ≤ g ∧ g ≤ 1 → 0 ≤ b ∧ b ≤ 1 →
      paletteIndex r g b = (round (255 * r)).toNat + (round (255 * g)).toNat * 2 ^ 8
        + (round (255 * b)).toNat * 2 ^ 16
      ∧ (round (255 * r)).toNat < 2 ^ 8 ∧ (round (255 * g)).toNat < 2 ^ 8
      ∧ (round (255 * b)).toNat < 2 ^ 8)
    ∧ (∀ style, pgOpts.pgOpts.m_style_palette.lookup (paletteIndex r g b) = some style →
        LookupRenderStyleByColor r g b pgOpts newStyle = (style, pgOpts))
    ∧ (pgOpts.pgOpts.m_style_palette.lookup (paletteIndex r g b) = none →
        (LookupRenderStyleByColor r g b pgOpts newStyle).1 = newStyle
        ∧ (LookupRenderStyleByColor r g b pgOpts newStyle).2.pgOpts.m_style_palette
            = pgOpts.pgOpts.m_style_palette ++ [(paletteIndex r g b, newStyle)]
        ∧ (LookupRenderStyleByColor r g b pgOpts newStyle).2.pgOpts.m_style_palette.length
            = pgOpts.pgOpts.m_style_palette.length + 1
        ∧ (LookupRenderStyleByColor r g b pgOpts newStyle).2.pgOpts.m_style_palette.lookup
            (paletteIndex r g b) = some newStyle)
    ∧ (∀ requests : List StyleRequest, (keys pgOpts.pgOpts.m_style_palette).Nodup →
        (keys (lookupAll requests pgOpts).pgOpts.m_style_palette).Nodup
        ∧ (lookupAll requests pgOpts).pgOpts.m_style_palette.length
            ≤ pgOpts.pgOpts.m_style_palette.length
              + (requests.map StyleRequest.index).toFinset.card) := by
  refine ⟨?_, ?_, ?_, ?_⟩
  · intro hr hg hb
    have er := nearest255_eq_round r hr.1 hr.2
    have eg := nearest255_eq_round g hg.1 hg.2
    have eb := nearest255_eq_round b hb.1 hb.2
    have lr := (nearest255_eq_floor r hr.1 hr.2).2
    have lg := (nearest255_eq_floor g hg.1 hg.2).2
    have lb := (nearest255_eq_floor b hb.1 hb.2).2
    rw [← er, ← eg, ← eb]
    clear er eg eb
    simp only [paletteIndex, Nat.shiftLeft_eq]
    refine ⟨trivial, ?_, ?_, ?_⟩ <;> omega
  · intro style h
    exact LookupRenderStyleByColor_hit r g b pgOpts newStyle style h
  · intro h
    rw [LookupRenderStyleByColor_miss r g b pgOpts newStyle h]
    refine ⟨rfl, rfl, by simp, ?_⟩
    exact lookup_append_of_not_mem _ _ _ ((lookup_eq_none_iff_not_mem_keys _ _).1 h)
  · intro requests hn
    exact ⟨(lookupAll_keys requests pgOpts hn).1, lookupAll_length_le requests pgOpts hn⟩

theorem LookupRenderStyleByColor_memoized_witness :
    (keys (BridgeState.fresh ℤ 1 2).pgOpts.m_style_palette).Nodup
    ∧ (lookupAll [⟨1, 0, 0, 901⟩, ⟨1 / 2, 0, 0, 902⟩, ⟨1, 0, 0, 903⟩]
        (BridgeState.fresh ℤ 1 2)).pgOpts.m_style_palette.length
      ≤ (BridgeState.fresh ℤ 1 2).pgOpts.m_style_palette.length
        + (([⟨1, 0, 0, 901⟩, ⟨1 / 2, 0, 0, 902⟩, ⟨1, 0, 0, 903⟩] :
            List StyleRequest).map StyleRequest.index).toFinset.card :=
  ⟨List.nodup_nil,
    ((LookupRenderStyleByColor_memoized 0 0 0 (BridgeState.fresh ℤ 1 2) 0).2.2.2
      [⟨1, 0, 0, 901⟩, ⟨1 / 2, 0, 0, 902⟩, ⟨1, 0, 0, 903⟩] List.nodup_nil).2⟩

theorem lookup_append_of_ne {ν : Type} (m : List (Nat × ν)) (k a : Nat) (v : ν) (h : k ≠ a) :
    (m ++ [(a, v)]).lookup k = m.lookup k := by
  induction m with
  | nil =>
    have h' : (k == a) = false := by simpa using h
    simp [List.lookup, h']
  | cons p m ih =>
    obtain ⟨c, w⟩ := p
    by_cases hc : k = c
    · subst hc
      simp [List.lookup]
    · have h' : (k == c) = false := by simpa using hc
      simp only [List.cons_append, List.lookup, h']
      exact ih

theorem mem_values_of_lookup {ν : Type} (m : List (Nat × ν)) (k : Nat) (v : ν)
    (h : m.lookup k = some v) : v ∈ values m :=
  List.mem_map_of_mem Prod.snd (mem_of_lookup_eq_some m k v h)

/-- Two lookups with the same key return the same style. -/
theorem lookupTwice_same {R : Type} (p q : StyleRequest) (pgOpts : BridgeState R)
    (h : p.index = q.index) :
    (lookupTwice p q pgOpts).1 = (lookupTwice p q pgOpts).2 := by
  simp only [StyleRequest.index] at h
  cases hp : pgOpts.pgOpts.m_style_palette.lookup (paletteIndex p.r p.g p.b) with
  | some style =>
    have hq : pgOpts.pgOpts.m_style_palette.lookup (paletteIndex q.r q.g q.b) = some style := by
      rw [← h]; exact hp
    simp only [lookupTwice, LookupRenderStyleByColor, hp, hq]
  | none =>
    have hk := (lookup_eq_none_iff_not_mem_keys _ _).1 hp
    have hq : (pgOpts.pgOpts.m_style_palette
        ++ [(paletteIndex p.r p.g p.b, p.newStyle)]).lookup (paletteIndex q.r q.g q.b)
        = some p.newStyle := by
      rw [← h]; exact lookup_append_of_not_mem _ _ p.newStyle hk
    simp only [lookupTwice, LookupRenderStyleByColor, BridgeState.call, hp, hq]

/-- Two lookups with different keys return different styles when the engine gives each
new style a handle of its own. -/
theorem lookupTwice_different {R : Type} (p q : StyleRequest) (pgOpts : BridgeState R)
    (h : p.index ≠ q.index)
    (hn : (values pgOpts.pgOpts.m_style_palette).Nodup)
    (hp' : p.newStyle ∉ values pgOpts.pgOpts.m_style_palette)
    (hq' : q.newStyle ∉ values pgOpts.pgOpts.m_style_palette)
    (hpq : p.newStyle ≠ q.newStyle) :
    (lookupTwice p q pgOpts).1 ≠ (lookupTwice p q pgOpts).2 := by
  simp only [StyleRequest.index] at h
  have hne : paletteIndex q.r q.g q.b ≠ paletteIndex p.r p.g p.b := fun e => h e.symm
  cases hp : pgOpts.pgOpts.m_style_palette.lookup (paletteIndex p.r p.g p.b) with
  | some style =>
    cases hq : pgOpts.pgOpts.m_style_palette.lookup (paletteIndex q.r q.g q.b) with
    | some style' =>
      simp only [lookupTwice, LookupRenderStyleByColor, hp, hq]
      intro he
      have e := List.inj_on_of_nodup_map hn (mem_of_lookup_eq_some _ _ _ hp)
        (mem_of_lookup_eq_some _ _ _ hq) he
      exact h (Prod.mk.inj e).1
    | none =>
      simp only [lookupTwice, LookupRenderStyleByColor, hp, hq]
      intro he
      have hm := mem_values_of_lookup _ _ _ hp
      rw [he] at hm
      exact hq' hm
  | none =>
    cases hq : pgOpts.pgOpts.m_style_palette.lookup (paletteIndex q.r q.g q.b) with
    | some style' =>
      have hq2 : (pgOpts.pgOpts.m_style_palette
          ++ [(paletteIndex p.r p.g p.b, p.newStyle)]).lookup (paletteIndex q.r q.g q.b)
          = some style' := by
        rw [lookup_append_of_ne _ _ _ _ hne]; exact hq
      simp only [lookupTwice, LookupRenderStyleByColor, BridgeState.call, hp, hq2]
      intro he
      have hm := mem_values_of_lookup _ _ _ hq
      rw [← he] at hm
      exact hp' hm
    | none =>
      have hq2 : (pgOpts.pgOpts.m_style_palette
          ++ [(paletteIndex p.r p.g p.b, p.newStyle)]).lookup (paletteIndex q.r q.g q.b)
          = none := by
        rw [lookup_append_of_ne _ _ _ _ hne]; exact hq
      simp only [lookupTwice, LookupRenderStyleByColor, BridgeState.call, hp, hq2]
      exact hpq

/-! ## C14: which colours share a style -/

/-- C14 (counterexample): on a fresh aggregate, the colours `(1/1024, 0, 0)` and
`(3/1024, 0, 0)` differ by less than 1/510 in every channel and resolve to different
style handles (keys 0 and 1), and the colours `(5/2048, 0, 0)` and `(5/1024, 0, 0)`
differ by more than 1/510 in the red channel and resolve to the same handle (key 1). -/
theorem threshold_510_does_not_decide_style :
    (|(1 / 1024 : ℚ) - 3 / 1024| < 1 / 510
      ∧ (lookupTwice ⟨1 / 1024, 0, 0, 901⟩ ⟨3 / 1024, 0, 0, 902⟩ (BridgeState.fresh ℤ 1 2)).1
        ≠ (lookupTwice ⟨1 / 1024, 0, 0, 901⟩ ⟨3 / 1024, 0, 0, 902⟩ (BridgeState.fresh ℤ 1 2)).2)
    ∧ (1 / 510 < |(5 / 2048 : ℚ) - 5 / 1024|
      ∧ (lookupTwice ⟨5 / 2048, 0, 0, 901⟩ ⟨5 / 1024, 0, 0, 902⟩ (BridgeState.fresh ℤ 1 2)).1
        = (lookupTwice ⟨5 / 2048, 0, 0, 901⟩ ⟨5 / 1024, 0, 0, 902⟩ (BridgeState.fresh ℤ 1 2)).2) := by
  refine ⟨⟨?_, by decide!⟩, ?_, by decide!⟩
  · rw [abs_lt]; constructor <;> norm_num
  · rw [lt_abs]; right; norm_num

/-- C14 (amended): for two lookups made one after the other on one result aggregate,
two colours with the same packed key resolve to the same cached style handle, which is
the case when in every channel both lie less than 1/510 from the same multiple `k/255`
(`k ≤ 255`); two colours with different keys resolve to different handles, provided the
handles in the palette are distinct and the engine gives each style it creates a handle
of its own, which is the case when the channels lie in `[0, 1]` and differ by at least
1/255 in some channel. -/
theorem style_shared_iff_same_key {R : Type} (p q : StyleRequest) (pgOpts : BridgeState R) :
    (p.index = q.index → (lookupTwice p q pgOpts).1 = (lookupTwice p q pgOpts).2)
    ∧ (p.index ≠ q.index →
        (values pgOpts.pgOpts.m_style_palette).Nodup →
        p.newStyle ∉ values pgOpts.pgOpts.m_style_palette →
        q.newStyle ∉ values pgOpts.pgOpts.m_style_palette →
        p.newStyle ≠ q.newStyle →
        (lookupTwice p q pgOpts).1 ≠ (lookupTwice p q pgOpts).2)
    ∧ (∀ kR kG kB : Nat, kR ≤ 255 → kG ≤ 255 → kB ≤ 255 →
        |p.r - (kR : ℚ) / 255| < 1 / 510 → |q.r - (kR : ℚ) / 255| < 1 / 510 →
        |p.g - (kG : ℚ) / 255| < 1 / 510 → |q.g - (kG : ℚ) / 255| < 1 / 510 →
        |p.b - (kB : ℚ) / 255| < 1 / 510 → |q.b - (kB : ℚ) / 255| < 1 / 510 →
        p.index = q.index)
    ∧ ((0 ≤ p.r ∧ p.r ≤ 1) ∧ (0 ≤ p.g ∧ p.g ≤ 1) ∧ (0 ≤ p.b ∧ p.b ≤ 1) →
        (0 ≤ q.r ∧ q.r ≤ 1) ∧ (0 ≤ q.g ∧ q.g ≤ 1) ∧ (0 ≤ q.b ∧ q.b ≤ 1) →
        1 / 255 ≤ |p.r - q.r| ∨ 1 / 255 ≤ |p.g - q.g| ∨ 1 / 255 ≤ |p.b - q.b| →
        p.index ≠ q.index) := by
  refine ⟨lookupTwice_same p q pgOpts, lookupTwice_different p q pgOpts, ?_, ?_⟩
  · intro kR kG kB hR hG hB h1 h2 h3 h4 h5 h6
    simp only [StyleRequest.index, paletteIndex]
    rw [nearest255_of_near p.r kR (by omega) h1, nearest255_of_near q.r kR (by omega) h2,
      nearest255_of_near p.g kG (by omega) h3, nearest255_of_near q.g kG (by omega) h4,
      nearest255_of_near p.b kB (by omega) h5, nearest255_of_near q.b kB (by omega) h6]
  · intro hp hq hd he
    have e := paletteIndex_inj p.r p.g p.b q.r q.g q.b
      (nearest255_eq_floor _ hp.1.1 hp.1.2).2 (nearest255_eq_floor _ hp.2.1.1 hp.2.1.2).2
      (nearest255_eq_floor _ hq.1.1 hq.1.2).2 (nearest255_eq_floor _ hq.2.1.1 hq.2.1.2).2 he
    rcases hd with hd | hd | hd
    · exact nearest255_ne_of_far _ _ hp.1.1 hp.1.2 hq.1.1 hq.1.2 hd e.1
    · exact nearest255_ne_of_far _ _ hp.2.1.1 hp.2.1.2 hq.2.1.1 hq.2.1.2 hd e.2.1
    · exact nearest255_ne_of_far _ _ hp.2.2.1 hp.2.2.2 hq.2.2.1 hq.2.2.2 hd e.2.2

theorem style_shared_iff_same_key_witness :
    (⟨1, 0, 0, 901⟩ : StyleRequest).index ≠ (⟨0, 0, 0, 902⟩ : StyleRequest).index
    ∧ (lookupTwice ⟨1, 0, 0, 901⟩ ⟨0, 0, 0, 902⟩ (BridgeState.fresh ℤ 1 2)).1
      ≠ (lookupTwice ⟨1, 0, 0, 901⟩ ⟨0, 0, 0, 902⟩ (BridgeState.fresh ℤ 1 2)).2 :=
  ⟨by decide!,
    (style_shared_iff_same_key ⟨1, 0, 0, 901⟩ ⟨0, 0, 0, 902⟩ (BridgeState.fresh ℤ 1 2)).2.1
      (by decide!) List.nodup_nil (by simp [values, BridgeState.fresh])
      (by simp [values, BridgeState.fresh]) (by decide)⟩

/-! ## The traversal as a sequence of leaf visits -/

theorem runVisits_append {R : Type} [Ring R] (C : SdkConstants) (assemblyPath : List Handle)
    (transform : PTTransformMatrix R) (a b : List (LeafVisit R)) :
    ∀ s : BridgeState R, runVisits C assemblyPath transform (a ++ b) s
      = (runVisits C assemblyPath transform a s).bind (runVisits C assemblyPath transform b) := by
  induction a with
  | nil => intro s; rfl
  | cons v a ih =>
    intro s
    simp only [List.cons_append, runVisits]
    cases traverseLeaf C v.pRepItem v.poly v.leaf (assemblyPath ++ chainOf v.route)
        (transformAlong C v.route transform) s with
    | none => rfl
    | some r => exact ih r.2

theorem runVisits_under {R : Type} [Ring R] (C : SdkConstants) (assemblyPath : List Handle)
    (transform : PTTransformMatrix R) (hop : Hop R) (vs : List (LeafVisit R)) :
    ∀ s : BridgeState R,
      runVisits C assemblyPath transform (vs.map (LeafVisit.under hop)) s
        = runVisits C (assemblyPath ++ hop.chain) (hop.transform C transform) vs s := by
  induction vs with
  | nil => intro s; rfl
  | cons v vs ih =>
    intro s
    simp only [List.map_cons, runVisits, LeafVisit.under, chainOf, List.flatMap_cons,
      transformAlong, List.foldl_cons, List.append_assoc]
    cases traverseLeaf C v.pRepItem v.poly v.leaf
        (assemblyPath ++ (hop.chain ++ v.route.flatMap Hop.chain))
        (List.foldl (Hop.transform C) (Hop.transform C transform hop) v.route) s with
    | none => rfl
    | some r => exact ih r.2

mutual
theorem traverseRepItem_state {R : Type} [Ring R] (C : SdkConstants) :
    ∀ (ri : RepItem R) (assemblyPath : List Handle) (transform : PTTransformMatrix R)
      (s : BridgeState R),
      (traverseRepItem C ri assemblyPath transform s).map (fun r => r.2.1)
        = runVisits C assemblyPath transform ri.visits s
  | RepItem.set pRepItem getStatus m_ppRepItems, assemblyPath, transform, s => by
    by_cases h : getStatus = Status.A3D_SUCCESS
    · have ih := traverseSetItems_state C m_ppRepItems assemblyPath transform getStatus s
      rw [traverseRepItem, RepItem.visits, if_pos h, if_pos h, runVisits_under]
      simp only [Hop.chain, Hop.transform, List.append_nil]
      rw [← ih]
      cases traverseSetItems C m_ppRepItems assemblyPath transform getStatus s <;> rfl
    · rw [traverseRepItem, RepItem.visits, if_neg h, if_neg h]
      rfl
  | RepItem.brep pRepItem poly leaf, assemblyPath, transform, s => by
    rw [traverseRepItem, RepItem.visits]
    simp only [runVisits, chainOf, List.flatMap_nil, List.append_nil, transformAlong,
      List.foldl_nil]
    cases traverseLeaf C pRepItem poly leaf assemblyPath transform s <;> rfl
  | RepItem.other _ _, assemblyPath, transform, s => by
    rw [traverseRepItem, RepItem.visits]
    rfl
theorem traverseSetItems_state {R : Type} [Ring R] (C : SdkConstants) :
    ∀ (items : RepItems R) (assemblyPath : List Handle) (transform : PTTransformMatrix R)
      (iRet : Status) (s : BridgeState R),
      (traverseSetItems C items assemblyPath transform iRet s).map (fun r => r.2)
        = runVisits C assemblyPath transform items.visits s
  | RepItems.nil, assemblyPath, transform, iRet, s => by
    rw [traverseSetItems, RepItems.visits]
    rfl
  | RepItems.cons head tail, assemblyPath, transform, iRet, s => by
    have ih1 := traverseRepItem_state C head assemblyPath transform s
    rw [traverseSetItems, RepItems.visits, runVisits_append, ← ih1]
    cases h : traverseRepItem C head assemblyPath transform s with
    | none => rfl
    | some r =>
      simp only [Option.map_some', Option.some_bind]
      exact traverseSetItems_state C tail assemblyPath transform r.1 r.2.1
end

theorem traversePartItems_state {R : Type} [Ring R] (C : SdkConstants) :
    ∀ (items : RepItems R) (assemblyPath : List Handle) (transform : PTTransformMatrix R)
      (s : BridgeState R),
      traversePartItems C items assemblyPath transform s
        = runVisits C assemblyPath transform items.visits s
  | RepItems.nil, assemblyPath, transform, s => by
    rw [traversePartItems, RepItems.visits]
    rfl
  | RepItems.cons head tail, assemblyPath, transform, s => by
    have ih1 := traverseRepItem_state C head assemblyPath transform s
    rw [traversePartItems, RepItems.visits, runVisits_append, ← ih1]
    cases h : traverseRepItem C head assemblyPath transform s with
    | none => rfl
    | some r =>
      simp only [Option.map_some', Option.some_bind]
      exact traversePartItems_state C tail assemblyPath transform r.2.1

theorem stTraversePartDef_state {R : Type} [Ring R] (C : SdkConstants) (pPart : PartDefinition R)
    (assemblyPath : List Handle) (transform : PTTransformMatrix R) (s : BridgeState R) :
    (stTraversePartDef C pPart assemblyPath transform s).map (fun r => r.2.1)
      = runVisits C assemblyPath transform pPart.visits s := by
  by_cases h : pPart.getStatus = Status.A3D_SUCCESS
  · simp only [stTraversePartDef, PartDefinition.visits, if_pos h, runVisits_under, Hop.chain,
      Hop.transform]
    rw [← traversePartItems_state]
    cases traversePartItems C pPart.m_ppRepItems (assemblyPath ++ [pPart.pPart]) transform s <;>
      rfl
  · simp only [stTraversePartDef, PartDefinition.visits, if_neg h]
    rfl


theorem stTraversePOccurrence_mk {R : Type} [Ring R] (C : SdkConstants) (p : Handle)
    (getStatus : Status) (m_pLocation : Option (Location R))
    (m_pPrototype m_pExternalData : OccurrenceRef R) (m_ppPOccurrences : Occurrences R)
    (m_pPart : Option (PartDefinition R)) (assemblyPath : List Handle)
    (transform : PTTransformMatrix R) (isPrototype : Bool) (s : BridgeState R) :
    stTraversePOccurrence C
        (Occurrence.mk p getStatus m_pLocation m_pPrototype m_pExternalData m_ppPOccurrences
          m_pPart) assemblyPath transform isPrototype s
      = if getStatus = Status.A3D_SUCCESS then
          match (match m_pPrototype with
            | OccurrenceRef.ptr prototype =>
              (stTraversePOccurrence C prototype
                (if !isPrototype then assemblyPath ++ [p] else assemblyPath)
                (locate C getStatus m_pLocation transform).2 true s).map fun (r : Status × BridgeState R × List Handle) => r.2.1
            | OccurrenceRef.null =>
              match m_pExternalData with
              | OccurrenceRef.ptr externalData =>
                (stTraversePOccurrence C externalData
                  (if !isPrototype then assemblyPath ++ [p] else assemblyPath)
                  (locate C getStatus m_pLocation transform).2 true s).map fun (r : Status × BridgeState R × List Handle) => r.2.1
              | OccurrenceRef.null =>
                traverseOccurrences C m_ppPOccurrences
                  (if !isPrototype then assemblyPath ++ [p] else assemblyPath)
                  (locate C getStatus m_pLocation transform).2 s) with
          | none => none
          | some s1 =>
            match (match m_pPart with
              | some pPart =>
                (stTraversePartDef C pPart
                  (if !isPrototype then assemblyPath ++ [p] else assemblyPath)
                  (locate C getStatus m_pLocation transform).2 s1).map fun (r : Status × BridgeState R × List Handle) => r.2.1
              | none => some s1) with
            | none => none
            | some s2 =>
              some ((locate C getStatus m_pLocation transform).1, s2,
                if !isPrototype then
                  (if !isPrototype then assemblyPath ++ [p] else assemblyPath).dropLast
                else (if !isPrototype then assemblyPath ++ [p] else assemblyPath))
        else some (getStatus, s, assemblyPath) := by
  cases m_pPrototype <;> cases m_pExternalData <;> cases m_pPart <;> rfl

theorem traverseOccurrences_cons {R : Type} [Ring R] (C : SdkConstants)
    (head : Occurrence R) (tail : Occurrences R) (assemblyPath : List Handle)
    (transform : PTTransformMatrix R) (s : BridgeState R) :
    traverseOccurrences C (Occurrences.cons head tail) assemblyPath transform s
      = match stTraversePOccurrence C head assemblyPath transform false s with
        | none => none
        | some (_, pgOpts, _) => traverseOccurrences C tail assemblyPath transform pgOpts := by
  rfl
theorem Occurrence.visits_mk {R : Type} (p : Handle)
    (getStatus : Status) (m_pLocation : Option (Location R))
    (m_pPrototype m_pExternalData : OccurrenceRef R) (m_ppPOccurrences : Occurrences R)
    (m_pPart : Option (PartDefinition R)) (isPrototype : Bool) :
    Occurrence.visits (Occurrence.mk p getStatus m_pLocation m_pPrototype m_pExternalData
        m_ppPOccurrences m_pPart) isPrototype
      = if getStatus = Status.A3D_SUCCESS then
      ((match m_pPrototype with
        | OccurrenceRef.ptr prototype => Occurrence.visits prototype true
        | OccurrenceRef.null =>
          match m_pExternalData with
          | OccurrenceRef.ptr externalData => Occurrence.visits externalData true
          | OccurrenceRef.null => Occurrences.visits m_ppPOccurrences)
        ++ (match m_pPart with
          | some pPart => PartDefinition.visits pPart
          | none => [])).map
        (LeafVisit.under
          (if isPrototype then Hop.link p m_pLocation
           else Hop.occurrence p m_pLocation))
    else [] := by
  cases m_pPrototype <;> cases m_pExternalData <;> cases m_pPart <;> rfl

theorem runVisits_then_part {R : Type} [Ring R] (C : SdkConstants) (assemblyPath : List Handle)
    (transform : PTTransformMatrix R) (s : BridgeState R) (nested : Option (BridgeState R))
    (vs : List (LeafVisit R))
    (m_pPart : Option (PartDefinition R)) (iRet : Status) (pathOut : List Handle) :
    nested = runVisits C assemblyPath transform vs s →
    Option.map (fun (r : Status × BridgeState R × List Handle) => r.2.1)
      (match nested with
        | none => none
        | some s1 =>
          match (match m_pPart with
            | some pPart =>
              (stTraversePartDef C pPart assemblyPath transform s1).map
                fun (r : Status × BridgeState R × List Handle) => r.2.1
            | none => some s1) with
          | none => none
          | some s2 => some (iRet, s2, pathOut))
      = (runVisits C assemblyPath transform vs s).bind
          (runVisits C assemblyPath transform
            (match m_pPart with
              | some pPart => pPart.visits
              | none => [])) := by
  intro hn
  rw [← hn]
  cases nested with
  | none => rfl
  | some s1 =>
    cases m_pPart with
    | none => rfl
    | some pPart =>
      simp only [Option.some_bind]
      rw [← stTraversePartDef_state]
      cases stTraversePartDef C pPart assemblyPath transform s1 <;> rfl

mutual
theorem stTraversePOccurrence_state {R : Type} [Ring R] (C : SdkConstants) :
    ∀ (pOccurrence : Occurrence R) (assemblyPath : List Handle)
      (transform : PTTransformMatrix R) (isPrototype : Bool) (s : BridgeState R),
      (stTraversePOccurrence C pOccurrence assemblyPath transform isPrototype s).map
          (fun r => r.2.1)
        = runVisits C assemblyPath transform (pOccurrence.visits isPrototype) s
  | Occurrence.mk p getStatus m_pLocation m_pPrototype m_pExternalData m_ppPOccurrences m_pPart,
      assemblyPath, transform, isPrototype, s => by
    by_cases h : getStatus = Status.A3D_SUCCESS
    · rw [stTraversePOccurrence_mk, Occurrence.visits_mk, if_pos h, if_pos h, runVisits_under,
        runVisits_append]
      have hpath : (if (!isPrototype) = true then assemblyPath ++ [p] else assemblyPath)
          = assemblyPath ++ (if isPrototype = true then Hop.link p m_pLocation
              else Hop.occurrence p m_pLocation).chain := by
        cases isPrototype <;> simp [Hop.chain]
      have htr : (locate C getStatus m_pLocation transform).2
          = Hop.transform C transform (if isPrototype = true then Hop.link p m_pLocation
              else Hop.occurrence p m_pLocation) := by
        subst h
        cases isPrototype <;> simp [Hop.transform]
      simp only [hpath, htr]
      generalize assemblyPath ++ (if isPrototype = true then Hop.link p m_pLocation
              else Hop.occurrence p m_pLocation).chain = path'
      generalize Hop.transform C transform (if isPrototype = true then Hop.link p m_pLocation
              else Hop.occurrence p m_pLocation) = transform'
      have hnested : (match m_pPrototype with
          | OccurrenceRef.ptr prototype =>
            (stTraversePOccurrence C prototype path' transform' true s).map
              fun (r : Status × BridgeState R × List Handle) => r.2.1
          | OccurrenceRef.null =>
            match m_pExternalData with
            | OccurrenceRef.ptr externalData =>
              (stTraversePOccurrence C externalData path' transform' true s).map
                fun (r : Status × BridgeState R × List Handle) => r.2.1
            | OccurrenceRef.null => traverseOccurrences C m_ppPOccurrences path' transform' s)
          = runVisits C path' transform'
              (match m_pPrototype with
                | OccurrenceRef.ptr prototype => Occurrence.visits prototype true
                | OccurrenceRef.null =>
                  match m_pExternalData with
                  | OccurrenceRef.ptr externalData => Occurrence.visits externalData true
                  | OccurrenceRef.null => Occurrences.visits m_ppPOccurrences) s :=
        match m_pPrototype, m_pExternalData with
        | OccurrenceRef.ptr prototype, _ =>
          stTraversePOccurrence_state C prototype path' transform' true s
        | OccurrenceRef.null, OccurrenceRef.ptr externalData =>
          stTraversePOccurrence_state C externalData path' transform' true s
        | OccurrenceRef.null, OccurrenceRef.null =>
          traverseOccurrences_state C m_ppPOccurrences path' transform' s
      exact runVisits_then_part C path' transform' s _ _ m_pPart _ _ hnested
    · rw [stTraversePOccurrence_mk, Occurrence.visits_mk, if_neg h, if_neg h]
      rfl
theorem traverseOccurrences_state {R : Type} [Ring R] (C : SdkConstants) :
    ∀ (pOccurrences : Occurrences R) (assemblyPath : List Handle)
      (transform : PTTransformMatrix R) (s : BridgeState R),
      traverseOccurrences C pOccurrences assemblyPath transform s
        = runVisits C assemblyPath transform pOccurrences.visits s
  | Occurrences.nil, assemblyPath, transform, s => rfl
  | Occurrences.cons head tail, assemblyPath, transform, s => by
    have ih1 := stTraversePOccurrence_state C head assemblyPath transform false s
    have hv : (Occurrences.cons head tail).visits = head.visits false ++ tail.visits := rfl
    rw [traverseOccurrences_cons, hv, runVisits_append, ← ih1]
    cases h : stTraversePOccurrence C head assemblyPath transform false s with
    | none => rfl
    | some r =>
      simp only [Option.map_some', Option.some_bind]
      exact traverseOccurrences_state C tail assemblyPath transform r.2.1
end

theorem A3DModelCreatePGWorld_state {R : Type} [Ring R] (C : SdkConstants)
    (pModelFile : ModelFile R) (transform : PTTransformMatrix R) (s : BridgeState R) :
    (A3DModelCreatePGWorld C pModelFile transform s).map (fun r => r.2.1)
      = runVisits C [] transform pModelFile.visits s := by
  by_cases h : pModelFile.getStatus = Status.A3D_SUCCESS
  · simp only [A3DModelCreatePGWorld, ModelFile.visits, if_pos h]
    rw [← traverseOccurrences_state]
    cases traverseOccurrences C pModelFile.m_ppPOccurrences [] transform s <;> rfl
  · simp only [A3DModelCreatePGWorld, ModelFile.visits, if_neg h]
    rfl

/-! ## What one leaf visit changes -/

theorem solidsBuilt_call {R : Type} (s : BridgeState R) (c : EngineCall R) :
    (s.call c).solidsBuilt = s.solidsBuilt + (if c.isSolidCreate then 1 else 0) := by
  simp only [BridgeState.call, BridgeState.solidsBuilt, List.countP_append, List.countP_cons,
    List.countP_nil, Nat.zero_add]

theorem placements_call {R : Type} (s : BridgeState R) (c : EngineCall R) :
    (s.call c).placements = s.placements + (if c.isWorldAdd then 1 else 0) := by
  simp only [BridgeState.call, BridgeState.placements, List.countP_append, List.countP_cons,
    List.countP_nil, Nat.zero_add]

theorem solidsBuilt_calls {R : Type} (s : BridgeState R) (cs : List (EngineCall R))
    (h : ∀ c ∈ cs, c.isSolidCreate = false) : (s.calls cs).solidsBuilt = s.solidsBuilt := by
  have h0 : cs.countP EngineCall.isSolidCreate = 0 :=
    List.countP_eq_zero.2 fun c hc => by rw [h c hc]; exact Bool.false_ne_true
  simp only [BridgeState.calls, BridgeState.solidsBuilt, List.countP_append, h0, Nat.add_zero]

theorem placements_calls {R : Type} (s : BridgeState R) (cs : List (EngineCall R))
    (h : ∀ c ∈ cs, c.isWorldAdd = false) : (s.calls cs).placements = s.placements := by
  have h0 : cs.countP EngineCall.isWorldAdd = 0 :=
    List.countP_eq_zero.2 fun c hc => by rw [h c hc]; exact Bool.false_ne_true
  simp only [BridgeState.calls, BridgeState.placements, List.countP_append, h0, Nat.add_zero]

/-- The loop over the faces leaves the result aggregate alone and makes no call to the
mesh builder or to `PFWorldAddEntity`. -/
theorem groupFaces_frame {R : Type} (m_iTopoFaceCount : Int) (uFaceSize : Nat)
    (groups : List Handle) (logging_function : A3D_log_func) :
    ∀ (faces : List (Handle × Int)) (s : BridgeState R)
      (r : Status × Option (List Handle) × BridgeState R),
      groupFaces m_iTopoFaceCount uFaceSize groups logging_function faces s = some r →
      r.2.2.pgOpts = s.pgOpts ∧ r.2.2.solidsBuilt = s.solidsBuilt
        ∧ r.2.2.placements = s.placements := by
  intro faces
  induction faces with
  | nil =>
    intro s r h
    simp only [groupFaces, Option.some.injEq] at h
    subst h
    exact ⟨rfl, rfl, rfl⟩
  | cons f faces ih =>
    intro s r h
    obtain ⟨face, app_surface_index⟩ := f
    simp only [groupFaces] at h
    split at h
    · cases logging_function with
      | nullptr => simp at h
      | callback =>
        simp only [Option.some.injEq] at h
        subst h
        refine ⟨rfl, ?_, ?_⟩
        · exact solidsBuilt_calls _ _ (by
            intro c hc
            obtain ⟨t, -, rfl⟩ := List.mem_map.1 hc
            rfl)
        · exact placements_calls _ _ (by
            intro c hc
            obtain ⟨t, -, rfl⟩ := List.mem_map.1 hc
            rfl)
    · have h' := ih _ r h
      refine ⟨h'.1, ?_, ?_⟩
      · rw [h'.2.1, solidsBuilt_call]; rfl
      · rw [h'.2.2, placements_call]; rfl

/-- What the solid builder changes when it returns for a B-rep item: the solid is the
one the engine wrote, the mesh builder ran once, and the identity map, the instance
list, the style palette and the path map are as before. -/
theorem A3DRiRepresentationItemCreatePTSolid_frame {R : Type} (K : TessFlagValues)
    (pRepItem : Handle) (poly : Bool) (leaf : Leaf R) (solid : Handle) (s : BridgeState R)
    (logging_function : A3D_log_func) (r : Status × Handle × BridgeState R)
    (h : A3DRiRepresentationItemCreatePTSolid K (RepItem.brep pRepItem poly leaf) solid s
      logging_function = some r) :
    r.2.1 = leaf.mesh.solid
    ∧ r.2.2.pgOpts.m_parts = s.pgOpts.m_parts
    ∧ r.2.2.pgOpts.m_entities = s.pgOpts.m_entities
    ∧ r.2.2.pgOpts.m_style_palette = s.pgOpts.m_style_palette
    ∧ r.2.2.pgOpts.m_paths = s.pgOpts.m_paths
    ∧ r.2.2.solidsBuilt = s.solidsBuilt + 1
    ∧ r.2.2.placements = s.placements := by
  simp only [A3DRiRepresentationItemCreatePTSolid] at h
  split at h
  · split at h
    · simp at h
    · rename_i _ iRet groups opts hres
      simp only [Option.some.injEq] at h
      subst h
      obtain ⟨h1, h2, h3⟩ := groupFaces_frame _ _ _ _ _ _ _ hres
      have h1' : opts.pgOpts = s.pgOpts := h1
      have h2' : opts.solidsBuilt = s.solidsBuilt + 1 := by
        refine Eq.trans h2 ?_
        rw [solidsBuilt_calls _ _ (by
          intro c hc
          obtain ⟨t, -, rfl⟩ := List.mem_map.1 hc
          rfl), solidsBuilt_call]
        rfl
      have h3' : opts.placements = s.placements := by
        refine Eq.trans h3 ?_
        rw [placements_calls _ _ (by
          intro c hc
          obtain ⟨t, -, rfl⟩ := List.mem_map.1 hc
          rfl), placements_call]
        rfl
      refine ⟨rfl, ?_, ?_, ?_, ?_, h2', h3'⟩
      · show opts.pgOpts.m_parts = _
        rw [h1']
      · show opts.pgOpts.m_entities = _
        rw [h1']
      · show opts.pgOpts.m_style_palette = _
        rw [h1']
      · show opts.pgOpts.m_paths = _
        rw [h1']
  · simp only [Option.some.injEq] at h
    subst h
    refine ⟨rfl, rfl, rfl, rfl, rfl, ?_, ?_⟩
    · rw [solidsBuilt_call]; rfl
    · rw [placements_call]; rfl

/-- The lookup changes the palette as `mapInsert` does and leaves the rest of the
aggregate alone. -/
theorem LookupRenderStyleByColor_pgOpts {R : Type} (r g b : ℚ) (s : BridgeState R)
    (newStyle : Handle) :
    (LookupRenderStyleByColor r g b s newStyle).2.pgOpts
      = { s.pgOpts with
          m_style_palette := mapInsert s.pgOpts.m_style_palette (paletteIndex r g b) newStyle } := by
  cases h : s.pgOpts.m_style_palette.lookup (paletteIndex r g b) with
  | some style => simp only [LookupRenderStyleByColor, h, mapInsert, Option.isSome_some, if_true]
  | none =>
    simp only [LookupRenderStyleByColor, h, mapInsert, Option.isSome_none, Bool.false_eq_true,
      if_false, BridgeState.call]

/-- The lookup makes at most one engine call, a `PFRenderStyleCreate`. -/
theorem LookupRenderStyleByColor_engineCalls {R : Type} (r g b : ℚ) (s : BridgeState R)
    (newStyle : Handle) :
    (LookupRenderStyleByColor r g b s newStyle).2.engineCalls
      = s.engineCalls
        ++ (if (s.pgOpts.m_style_palette.lookup (paletteIndex r g b)).isSome then []
            else [EngineCall.PFRenderStyleCreate newStyle]) := by
  cases h : s.pgOpts.m_style_palette.lookup (paletteIndex r g b) with
  | some style =>
    simp only [LookupRenderStyleByColor, h, Option.isSome_some, if_true, List.append_nil]
  | none =>
    simp only [LookupRenderStyleByColor, h, Option.isSome_none, Bool.false_eq_true, if_false,
      BridgeState.call]

/-- What the placement step changes: `PFWorldAddEntity` is called once and the mesh
builder is not; when the call succeeds the world entity is appended to the instance
list, its path is entered in the path map and its colour key in the palette. -/
theorem placeSolid_effect {R : Type} (leaf : Leaf R) (assemblyPath : List Handle)
    (localTransform : PTTransformMatrix R) (solid : Handle) (s : BridgeState R) :
    (placeSolid leaf assemblyPath localTransform solid s).pgOpts.m_parts = s.pgOpts.m_parts
    ∧ (placeSolid leaf assemblyPath localTransform solid s).pgOpts.m_entities
        = s.pgOpts.m_entities
          ++ (if leaf.placement.status = PTStatus.PV_STATUS_OK then
              [leaf.placement.worldEntity] else [])
    ∧ (placeSolid leaf assemblyPath localTransform solid s).pgOpts.m_paths
        = (if leaf.placement.status = PTStatus.PV_STATUS_OK then
            mapInsert s.pgOpts.m_paths leaf.placement.worldEntity assemblyPath
          else s.pgOpts.m_paths)
    ∧ (placeSolid leaf assemblyPath localTransform solid s).pgOpts.m_style_palette
        = (if leaf.placement.status = PTStatus.PV_STATUS_OK then
            mapInsert s.pgOpts.m_style_palette (paletteIndex leaf.r leaf.g leaf.b)
              leaf.placement.newStyle
          else s.pgOpts.m_style_palette)
    ∧ (placeSolid leaf assemblyPath localTransform solid s).solidsBuilt = s.solidsBuilt
    ∧ (placeSolid leaf assemblyPath localTransform solid s).placements = s.placements + 1 := by
  by_cases hs : leaf.placement.status = PTStatus.PV_STATUS_OK
  · simp only [placeSolid, if_pos hs, BridgeState.call, LookupRenderStyleByColor_pgOpts,
      LookupRenderStyleByColor_engineCalls, BridgeState.solidsBuilt, BridgeState.placements,
      List.countP_append, List.countP_cons, List.countP_nil, EngineCall.isSolidCreate,
      EngineCall.isWorldAdd, true_and]
    generalize (List.lookup (paletteIndex leaf.r leaf.g leaf.b) s.pgOpts.m_style_palette).isSome
      = hit
    cases hit <;> simp [EngineCall.isSolidCreate, EngineCall.isWorldAdd]
  · simp only [placeSolid, if_neg hs, List.append_nil, BridgeState.call,
      BridgeState.solidsBuilt, BridgeState.placements, List.countP_append, List.countP_cons,
      List.countP_nil, EngineCall.isSolidCreate, EngineCall.isWorldAdd, true_and]
    simp

/-- What one leaf visit changes when it returns: the item is entered in the identity map
unless it is there, the mesh builder runs exactly when it was not there,
`PFWorldAddEntity` is called once, and when that call succeeds the world entity is
appended to the instance list, its path is entered in the path map and its colour key in
the palette. -/
theorem traverseLeaf_effect {R : Type} [Ring R] (C : SdkConstants) (pRepItem : Handle)
    (poly : Bool) (leaf : Leaf R) (assemblyPath : List Handle)
    (transform : PTTransformMatrix R) (s : BridgeState R) (r : Status × BridgeState R)
    (h : traverseLeaf C pRepItem poly leaf assemblyPath transform s = some r) :
    r.2.pgOpts.m_parts = mapInsert s.pgOpts.m_parts pRepItem leaf.mesh.solid
    ∧ r.2.pgOpts.m_entities = s.pgOpts.m_entities
        ++ (if leaf.placement.status = PTStatus.PV_STATUS_OK then [leaf.placement.worldEntity]
            else [])
    ∧ r.2.pgOpts.m_paths
        = (if leaf.placement.status = PTStatus.PV_STATUS_OK then
            mapInsert s.pgOpts.m_paths leaf.placement.worldEntity assemblyPath
          else s.pgOpts.m_paths)
    ∧ r.2.pgOpts.m_style_palette
        = (if leaf.placement.status = PTStatus.PV_STATUS_OK then
            mapInsert s.pgOpts.m_style_palette (paletteIndex leaf.r leaf.g leaf.b)
              leaf.placement.newStyle
          else s.pgOpts.m_style_palette)
    ∧ r.2.solidsBuilt = s.solidsBuilt
        + (if (s.pgOpts.m_parts.lookup pRepItem).isSome then 0 else 1)
    ∧ r.2.placements = s.placements + 1 := by
  simp only [traverseLeaf] at h
  cases hl : s.pgOpts.m_parts.lookup pRepItem with
  | some solid =>
    simp only [hl, Option.some.injEq] at h
    subst h
    obtain ⟨e1, e2, e3, e4, e5, e6⟩ := placeSolid_effect leaf assemblyPath
      (match leaf.m_pCoordinateSystem with
        | some sCoordSysData =>
          stTransform C.kA3DTransformationMirror sCoordSysData.m_pTransformation transform
            transform
        | none => (leaf.getStatus, transform)).2 solid s
    refine ⟨?_, e2, e3, e4, ?_, e6⟩
    · rw [mapInsert, hl]; exact e1
    · rw [Option.isSome_some, if_pos rfl]; exact e5
  | none =>
    simp only [hl] at h
    cases hb : A3DRiRepresentationItemCreatePTSolid C.tess (RepItem.brep pRepItem poly leaf) 0 s
        A3D_log_func.nullptr with
    | none => simp [hb] at h
    | some built =>
      obtain ⟨iRet, solid, s1⟩ := built
      simp only [hb, Option.some.injEq] at h
      subst h
      obtain ⟨b1, b2, b3, b4, b5, b6, b7⟩ :=
        A3DRiRepresentationItemCreatePTSolid_frame _ _ _ _ _ _ _ _ hb
      obtain ⟨e1, e2, e3, e4, e5, e6⟩ := placeSolid_effect leaf assemblyPath
        (match leaf.m_pCoordinateSystem with
          | some sCoordSysData =>
            stTransform C.kA3DTransformationMirror sCoordSysData.m_pTransformation transform
              transform
          | none => (leaf.getStatus, transform)).2 solid
        { s1 with
          pgOpts := { s1.pgOpts with m_parts := mapInsert s1.pgOpts.m_parts pRepItem solid } }
      have b1' : solid = leaf.mesh.solid := b1
      have b2' : s1.pgOpts.m_parts = s.pgOpts.m_parts := b2
      have b3' : s1.pgOpts.m_entities = s.pgOpts.m_entities := b3
      have b4' : s1.pgOpts.m_style_palette = s.pgOpts.m_style_palette := b4
      have b5' : s1.pgOpts.m_paths = s.pgOpts.m_paths := b5
      have b6' : s1.solidsBuilt = s.solidsBuilt + 1 := b6
      have b7' : s1.placements = s.placements := b7
      refine ⟨?_, ?_, ?_, ?_, ?_, ?_⟩
      · refine Eq.trans e1 ?_
        show mapInsert s1.pgOpts.m_parts pRepItem solid = _
        rw [b2', b1']
      · refine Eq.trans e2 ?_
        show s1.pgOpts.m_entities ++ _ = _
        rw [b3']
      · refine Eq.trans e3 ?_
        show (if _ then mapInsert s1.pgOpts.m_paths _ _ else s1.pgOpts.m_paths) = _
        rw [b5']
      · refine Eq.trans e4 ?_
        show (if _ then mapInsert s1.pgOpts.m_style_palette _ _ else s1.pgOpts.m_style_palette)
          = _
        rw [b4']
      · refine Eq.trans e5 ?_
        rw [Option.isSome_none, if_neg Bool.false_ne_true]
        exact b6'
      · refine Eq.trans e6 ?_
        show s1.placements + 1 = _
        rw [b7']

/-- The loop over the faces fails to return exactly when no logger is supplied and some
face carries a tag outside the range of the groups. -/
theorem groupFaces_eq_none_iff {R : Type} (m_iTopoFaceCount : Int) (uFaceSize : Nat)
    (groups : List Handle) (logging_function : A3D_log_func) :
    ∀ (faces : List (Handle × Int)) (s : BridgeState R),
      groupFaces m_iTopoFaceCount uFaceSize groups logging_function faces s = none
        ↔ logging_function = A3D_log_func.nullptr
          ∧ ∃ f ∈ faces, f.2 - m_iTopoFaceCount < 0
              ∨ f.2 - m_iTopoFaceCount ≥ (groups.length : Int) := by
  intro faces
  induction faces with
  | nil =>
    intro s
    simp [groupFaces]
  | cons f faces ih =>
    intro s
    obtain ⟨face, app_surface_index⟩ := f
    simp only [groupFaces]
    split
    · rename_i hbad
      cases logging_function with
      | nullptr =>
        simp only [true_and]
        exact ⟨fun _ => ⟨(face, app_surface_index), List.mem_cons_self _ _, hbad⟩, fun _ => trivial⟩
      | callback => simp
    · rename_i hok
      rw [ih]
      constructor
      · rintro ⟨hl, g, hg, hb⟩
        exact ⟨hl, g, List.mem_cons_of_mem _ hg, hb⟩
      · rintro ⟨hl, g, hg, hb⟩
        rcases List.mem_cons.1 hg with e | e
        · rw [e] at hb
          exact absurd hb hok
        · exact ⟨hl, g, e, hb⟩

/-- The solid builder fails to return for a B-rep item exactly when no logger is
supplied, the engine built the solid, and one of its faces carries a tag that, after the
running face count is subtracted, is below 0 or at least the number of groups. -/
theorem A3DRiRepresentationItemCreatePTSolid_eq_none_iff {R : Type} (K : TessFlagValues)
    (pRepItem : Handle) (poly : Bool) (leaf : Leaf R) (solid : Handle) (s : BridgeState R)
    (logging_function : A3D_log_func) :
    A3DRiRepresentationItemCreatePTSolid K (RepItem.brep pRepItem poly leaf) solid s
        logging_function = none
      ↔ logging_function = A3D_log_func.nullptr
        ∧ leaf.mesh.status = PTStatus.PV_STATUS_OK
        ∧ ∃ f ∈ leaf.mesh.faces, f.2 - s.pgOpts.m_iTopoFaceCount < 0
            ∨ f.2 - s.pgOpts.m_iTopoFaceCount
              ≥ ((if u32 leaf.sTessData.m_uiFaceTessSize < 2147483648 then
                    u32 leaf.sTessData.m_uiFaceTessSize else 0 : Nat) : Int) := by
  simp only [A3DRiRepresentationItemCreatePTSolid]
  split
  · rename_i hs
    split
    · rename_i hnone
      rw [groupFaces_eq_none_iff] at hnone
      simp only [List.length_map, List.length_range] at hnone
      simp only [true_iff]
      exact ⟨hnone.1, hs, hnone.2⟩
    · rename_i iRet groups opts hsome
      refine ⟨fun h => Option.noConfusion h, ?_⟩
      intro hcon
      have hne := (groupFaces_eq_none_iff _ _ _ _ _ _).not.1
        (by rw [hsome]; exact Option.some_ne_none _)
      simp only [List.length_map, List.length_range] at hne
      exact (hne ⟨hcon.1, hcon.2.2⟩).elim
  · rename_i hs
    refine ⟨fun h => Option.noConfusion h, ?_⟩
    intro hcon
    exact absurd hcon.2.1 hs

/-- A leaf visit fails to return exactly when the item is not yet in the identity map
and its solid builder, called without a logger, meets a face with an invalid tag. -/
theorem traverseLeaf_eq_none_iff {R : Type} [Ring R] (C : SdkConstants) (pRepItem : Handle)
    (poly : Bool) (leaf : Leaf R) (assemblyPath : List Handle)
    (transform : PTTransformMatrix R) (s : BridgeState R) :
    traverseLeaf C pRepItem poly leaf assemblyPath transform s = none
      ↔ s.pgOpts.m_parts.lookup pRepItem = none
        ∧ leaf.mesh.status = PTStatus.PV_STATUS_OK
        ∧ ∃ f ∈ leaf.mesh.faces, f.2 - s.pgOpts.m_iTopoFaceCount < 0
            ∨ f.2 - s.pgOpts.m_iTopoFaceCount
              ≥ ((if u32 leaf.sTessData.m_uiFaceTessSize < 2147483648 then
                    u32 leaf.sTessData.m_uiFaceTessSize else 0 : Nat) : Int) := by
  have hb := A3DRiRepresentationItemCreatePTSolid_eq_none_iff C.tess pRepItem poly leaf 0 s
    A3D_log_func.nullptr
  simp only [traverseLeaf]
  cases hl : s.pgOpts.m_parts.lookup pRepItem with
  | some solid =>
    simp only []
    exact ⟨fun h => Option.noConfusion h, fun h => Option.noConfusion h.1⟩
  | none =>
    simp only [true_and]
    cases hc : A3DRiRepresentationItemCreatePTSolid C.tess (RepItem.brep pRepItem poly leaf) 0
        s A3D_log_func.nullptr with
    | none =>
      simp only [true_iff]
      exact ((hb.1 hc).2)
    | some built =>
      simp only []
      refine ⟨fun h => Option.noConfusion h, fun h => ?_⟩
      rw [hb.2 ⟨rfl, h⟩] at hc
      exact Option.noConfusion hc

/-! ## Lemmas on `mapInsert` and `insertAll` -/

theorem mapInsert_of_mem {ν : Type} (m : List (Nat × ν)) (k : Nat) (v : ν) (h : k ∈ keys m) :
    mapInsert m k v = m := by
  have hs : (m.lookup k).isSome = true := by
    cases hl : m.lookup k with
    | none => exact absurd h ((lookup_eq_none_iff_not_mem_keys m k).1 hl)
    | some w => rfl
  simp only [mapInsert, hs, if_true]

theorem mapInsert_of_not_mem {ν : Type} (m : List (Nat × ν)) (k : Nat) (v : ν)
    (h : k ∉ keys m) : mapInsert m k v = m ++ [(k, v)] := by
  have hs : m.lookup k = none := (lookup_eq_none_iff_not_mem_keys m k).2 h
  simp only [mapInsert, hs, Option.isSome_none, Bool.false_eq_true, if_false]

theorem keys_mapInsert {ν : Type} (m : List (Nat × ν)) (k : Nat) (v : ν) :
    keys (mapInsert m k v) = if k ∈ keys m then keys m else keys m ++ [k] := by
  by_cases h : k ∈ keys m
  · rw [mapInsert_of_mem m k v h, if_pos h]
  · rw [mapInsert_of_not_mem m k v h, if_neg h]
    simp [keys]

theorem length_mapInsert {ν : Type} (m : List (Nat × ν)) (k : Nat) (v : ν) :
    (mapInsert m k v).length = m.length + (if (m.lookup k).isSome then 0 else 1) := by
  unfold mapInsert
  split <;> simp

theorem nodup_keys_mapInsert {ν : Type} (m : List (Nat × ν)) (k : Nat) (v : ν)
    (h : (keys m).Nodup) : (keys (mapInsert m k v)).Nodup := by
  rw [keys_mapInsert]
  split
  · exact h
  · rename_i hk
    rw [List.nodup_append]
    refine ⟨h, List.nodup_singleton _, ?_⟩
    intro a ha hb
    rw [List.mem_singleton] at hb
    exact hk (hb ▸ ha)

theorem insertAll_cons {ν : Type} (m : List (Nat × ν)) (e : Nat × ν) (es : List (Nat × ν)) :
    insertAll m (e :: es) = insertAll (mapInsert m e.1 e.2) es := rfl

theorem insertAll_append {ν : Type} (m : List (Nat × ν)) (a b : List (Nat × ν)) :
    insertAll m (a ++ b) = insertAll (insertAll m a) b := by
  simp only [insertAll, List.foldl_append]

theorem nodup_keys_insertAll {ν : Type} (es : List (Nat × ν)) :
    ∀ m : List (Nat × ν), (keys m).Nodup → (keys (insertAll m es)).Nodup := by
  induction es with
  | nil => intro m h; exact h
  | cons e es ih => intro m h; exact ih _ (nodup_keys_mapInsert m e.1 e.2 h)

theorem mem_keys_insertAll {ν : Type} (es : List (Nat × ν)) :
    ∀ (m : List (Nat × ν)) (k : Nat),
      k ∈ keys (insertAll m es) ↔ k ∈ keys m ∨ k ∈ keys es := by
  induction es with
  | nil => intro m k; simp [insertAll, keys]
  | cons e es ih =>
    intro m k
    rw [insertAll_cons, ih, keys_mapInsert]
    have hk : keys (e :: es) = e.1 :: keys es := rfl
    rw [hk, List.mem_cons]
    split
    · rename_i he
      constructor
      · rintro (h | h)
        · exact Or.inl h
        · exact Or.inr (Or.inr h)
      · rintro (h | h | h)
        · exact Or.inl h
        · exact Or.inl (h ▸ he)
        · exact Or.inr h
    · rw [List.mem_append, List.mem_singleton]
      tauto

theorem length_insertAll_le {ν : Type} (m es : List (Nat × ν)) (h : (keys m).Nodup) :
    (insertAll m es).length ≤ m.length + (keys es).toFinset.card := by
  have hn := nodup_keys_insertAll es m h
  have hc : (keys (insertAll m es)).toFinset.card = (insertAll m es).length := by
    rw [List.toFinset_card_of_nodup hn, keys, List.length_map]
  have h0 : (keys m).toFinset.card = m.length := by
    rw [List.toFinset_card_of_nodup h, keys, List.length_map]
  have hs : (keys (insertAll m es)).toFinset ⊆ (keys m).toFinset ∪ (keys es).toFinset := by
    intro k hk
    rw [List.mem_toFinset] at hk
    rw [Finset.mem_union, List.mem_toFinset, List.mem_toFinset]
    exact (mem_keys_insertAll es m k).1 hk
  calc (insertAll m es).length = (keys (insertAll m es)).toFinset.card := hc.symm
    _ ≤ ((keys m).toFinset ∪ (keys es).toFinset).card := Finset.card_le_card hs
    _ ≤ _ := by rw [← h0]; exact Finset.card_union_le _ _

/-- Entries with distinct keys that are not in the map are all added, in order. -/
theorem insertAll_fresh {ν : Type} (es : List (Nat × ν)) :
    ∀ m : List (Nat × ν), (keys es).Nodup → (∀ k ∈ keys es, k ∉ keys m) →
      insertAll m es = m ++ es := by
  induction es with
  | nil => intro m _ _; simp [insertAll]
  | cons e es ih =>
    intro m hn hf
    have hk : keys (e :: es) = e.1 :: keys es := rfl
    rw [hk, List.nodup_cons] at hn
    rw [hk] at hf
    have he : e.1 ∉ keys m := hf e.1 (List.mem_cons_self _ _)
    rw [insertAll_cons, mapInsert_of_not_mem m e.1 e.2 he, ih _ hn.2]
    · simp
    · intro k hk' hm
      simp only [keys, List.map_append, List.map_cons, List.map_nil, List.mem_append,
        List.mem_singleton] at hm
      rcases hm with hm | hm
      · exact hf k (List.mem_cons_of_mem _ hk') hm
      · exact hn.1 (hm ▸ hk')

theorem lookup_append_of_some {ν : Type} (l es : List (Nat × ν)) (k : Nat) (v : ν)
    (h : l.lookup k = some v) : (l ++ es).lookup k = some v := by
  induction l with
  | nil => simp [List.lookup] at h
  | cons p l ih =>
    obtain ⟨c, w⟩ := p
    by_cases hc : k = c
    · have hb : (k == c) = true := by simpa using hc
      simp only [List.cons_append, List.lookup, hb] at h ⊢
      exact h
    · have hb : (k == c) = false := by simpa using hc
      simp only [List.cons_append, List.lookup, hb] at h ⊢
      exact ih h

theorem lookup_append_fresh {ν : Type} (es : List (Nat × ν)) :
    ∀ (m : List (Nat × ν)), (keys es).Nodup → (∀ k ∈ keys es, k ∉ keys m) →
      ∀ e ∈ es, (m ++ es).lookup e.1 = some e.2 := by
  induction es with
  | nil => intro m _ _ e he; simp at he
  | cons a es ih =>
    intro m hn hf e he
    have hk : keys (a :: es) = a.1 :: keys es := rfl
    rw [hk, List.nodup_cons] at hn
    rw [hk] at hf
    have ha : a.1 ∉ keys m := hf a.1 (List.mem_cons_self _ _)
    have hsplit : m ++ a :: es = (m ++ [(a.1, a.2)]) ++ es := by simp
    rw [hsplit]
    rcases List.mem_cons.1 he with h | h
    · subst h
      exact lookup_append_of_some _ es e.1 e.2 (lookup_append_of_not_mem m e.1 e.2 ha)
    · refine ih _ hn.2 ?_ e h
      intro k hk' hm
      simp only [keys, List.map_append, List.map_cons, List.map_nil, List.mem_append,
        List.mem_singleton] at hm
      rcases hm with hm | hm
      · exact hf k (List.mem_cons_of_mem _ hk') hm
      · exact hn.1 (hm ▸ hk')

/-! ## What a sequence of leaf visits changes -/

theorem placedVisits_cons {R : Type} (v : LeafVisit R) (vs : List (LeafVisit R)) :
    placedVisits (v :: vs)
      = if v.leaf.placement.status = PTStatus.PV_STATUS_OK then v :: placedVisits vs
        else placedVisits vs := by
  by_cases h : v.leaf.placement.status = PTStatus.PV_STATUS_OK
  · simp [placedVisits, LeafVisit.placed, h]
  · simp [placedVisits, LeafVisit.placed, h]

/-- A sequence of leaf visits that returns leaves the maps as `insertAll` describes:
every visited item is handed to the identity map, every placed world entity is appended
to the instance list and handed to the path map with the path of its route, and its
colour key is handed to the palette. The mesh builder runs once per entry added to the
identity map and `PFWorldAddEntity` is called once per visit. -/
theorem runVisits_effect {R : Type} [Ring R] (C : SdkConstants) (assemblyPath : List Handle)
    (transform : PTTransformMatrix R) (vs : List (LeafVisit R)) :
    ∀ (s r : BridgeState R), runVisits C assemblyPath transform vs s = some r →
      r.pgOpts.m_parts = insertAll s.pgOpts.m_parts (partEntries vs)
      ∧ r.pgOpts.m_entities = s.pgOpts.m_entities ++ placedEntities vs
      ∧ r.pgOpts.m_paths = insertAll s.pgOpts.m_paths (pathEntries assemblyPath vs)
      ∧ r.pgOpts.m_style_palette = insertAll s.pgOpts.m_style_palette (styleEntries vs)
      ∧ r.solidsBuilt + s.pgOpts.m_parts.length = s.solidsBuilt + r.pgOpts.m_parts.length
      ∧ r.placements = s.placements + vs.length := by
  induction vs with
  | nil =>
    intro s r h
    simp only [runVisits, Option.some.injEq] at h
    subst h
    simp [insertAll, partEntries, placedEntities, pathEntries, styleEntries, placedVisits,
      Nat.add_comm]
  | cons v vs ih =>
    intro s r h
    simp only [runVisits] at h
    cases hl : traverseLeaf C v.pRepItem v.poly v.leaf (assemblyPath ++ chainOf v.route)
        (transformAlong C v.route transform) s with
    | none => simp [hl] at h
    | some r1 =>
      simp only [hl] at h
      obtain ⟨e1, e2, e3, e4, e5, e6⟩ := traverseLeaf_effect _ _ _ _ _ _ _ _ hl
      obtain ⟨i1, i2, i3, i4, i5, i6⟩ := ih r1.2 r h
      have hlen := length_mapInsert s.pgOpts.m_parts v.pRepItem v.leaf.mesh.solid
      rw [← e1] at hlen
      refine ⟨?_, ?_, ?_, ?_, ?_, ?_⟩
      · rw [i1, e1]; rfl
      · rw [i2, e2, List.append_assoc]
        congr 1
        simp only [placedEntities, placedVisits_cons]
        split <;> simp
      · rw [i3, e3]
        simp only [pathEntries, placedVisits_cons]
        split <;> simp [insertAll_cons]
      · rw [i4, e4]
        simp only [styleEntries, placedVisits_cons]
        split <;> simp [insertAll_cons]
      · omega
      · rw [i6, e6, List.length_cons]; omega

/-- What `A3DModelCreatePGWorld` leaves in the aggregate when it returns, in terms of the
leaf visits of the model. -/
theorem A3DModelCreatePGWorld_effect {R : Type} [Ring R] (C : SdkConstants)
    (pModelFile : ModelFile R) (transform : PTTransformMatrix R) (s : BridgeState R)
    (r : Status × BridgeState R × List Handle)
    (h : A3DModelCreatePGWorld C pModelFile transform s = some r) :
    r.2.1.pgOpts.m_parts = insertAll s.pgOpts.m_parts (partEntries pModelFile.visits)
    ∧ r.2.1.pgOpts.m_entities = s.pgOpts.m_entities ++ placedEntities pModelFile.visits
    ∧ r.2.1.pgOpts.m_paths = insertAll s.pgOpts.m_paths (pathEntries [] pModelFile.visits)
    ∧ r.2.1.pgOpts.m_style_palette
        = insertAll s.pgOpts.m_style_palette (styleEntries pModelFile.visits)
    ∧ r.2.1.solidsBuilt + s.pgOpts.m_parts.length
        = s.solidsBuilt + r.2.1.pgOpts.m_parts.length
    ∧ r.2.1.placements = s.placements + pModelFile.visits.length := by
  have hs := A3DModelCreatePGWorld_state C pModelFile transform s
  rw [h] at hs
  exact runVisits_effect C [] transform pModelFile.visits s r.2.1 hs.symm

theorem keys_partEntries {R : Type} (vs : List (LeafVisit R)) :
    keys (partEntries vs) = visitedItems vs := by
  simp [keys, partEntries, visitedItems]

theorem keys_pathEntries {R : Type} (assemblyPath : List Handle) (vs : List (LeafVisit R)) :
    keys (pathEntries assemblyPath vs) = placedEntities vs := by
  simp [keys, pathEntries, placedEntities]

theorem sharedLeafModel_visits {R : Type} (o1 p1 o2 p2 item : Handle) (poly : Bool)
    (first second : Leaf R) :
    (sharedLeafModel o1 p1 o2 p2 item poly first second).visits
      = [{ route := [Hop.occurrence o1 none, Hop.part p1], pRepItem := item, poly := poly,
           leaf := first },
         { route := [Hop.occurrence o2 none, Hop.part p2], pRepItem := item, poly := poly,
           leaf := second }] := by
  rfl

/-! ## C15: one solid per item identity, one placement per visit -/

/-- C15: when `A3DModelCreatePGWorld` returns, the identity-to-solid map is the old one
with every visited leaf item handed to `insert`, so an item already there is not entered
again; the keys stay distinct and the map grows by at most the number of distinct item
identities visited; the mesh builder `PFSolidCreateFromMesh` ran exactly once per entry
added, and `PFWorldAddEntity` was called exactly once per visit of a leaf, the world
entities of the calls the engine accepted being appended to the instance list. In
particular, for two root occurrences whose parts reference the same leaf item, on a
fresh aggregate: one map entry, one run of the builder, two calls of `PFWorldAddEntity`,
and two recorded instances when the engine accepts both. -/
theorem solid_built_once_per_item {R : Type} [Ring R] (C : SdkConstants)
    (transform : PTTransformMatrix R) (r : Status × BridgeState R × List Handle) :
    (∀ (pModelFile : ModelFile R) (s : BridgeState R),
      A3DModelCreatePGWorld C pModelFile transform s = some r →
      r.2.1.pgOpts.m_parts = insertAll s.pgOpts.m_parts (partEntries pModelFile.visits)
      ∧ ((keys s.pgOpts.m_parts).Nodup →
          (keys r.2.1.pgOpts.m_parts).Nodup
          ∧ r.2.1.pgOpts.m_parts.length
              ≤ s.pgOpts.m_parts.length + (visitedItems pModelFile.visits).toFinset.card)
      ∧ r.2.1.solidsBuilt + s.pgOpts.m_parts.length
          = s.solidsBuilt + r.2.1.pgOpts.m_parts.length
      ∧ r.2.1.placements = s.placements + pModelFile.visits.length
      ∧ r.2.1.pgOpts.m_entities = s.pgOpts.m_entities ++ placedEntities pModelFile.visits)
    ∧ (∀ (o1 p1 o2 p2 item : Handle) (poly : Bool) (first second : Leaf R)
        (m_Environment m_World : Handle),
      A3DModelCreatePGWorld C (sharedLeafModel o1 p1 o2 p2 item poly first second) transform
          (BridgeState.fresh R m_Environment m_World) = some r →
      r.2.1.pgOpts.m_parts = [(item, first.mesh.solid)]
      ∧ r.2.1.solidsBuilt = 1
      ∧ r.2.1.placements = 2
      ∧ (first.placement.status = PTStatus.PV_STATUS_OK →
          second.placement.status = PTStatus.PV_STATUS_OK →
          r.2.1.pgOpts.m_entities
            = [first.placement.worldEntity, second.placement.worldEntity])) := by
  constructor
  · intro pModelFile s h
    obtain ⟨e1, e2, -, -, e5, e6⟩ := A3DModelCreatePGWorld_effect C pModelFile transform s r h
    refine ⟨e1, ?_, e5, e6, e2⟩
    intro hn
    rw [e1]
    refine ⟨nodup_keys_insertAll _ _ hn, ?_⟩
    have := length_insertAll_le s.pgOpts.m_parts (partEntries pModelFile.visits) hn
    rw [keys_partEntries] at this
    exact this
  · intro o1 p1 o2 p2 item poly first second m_Environment m_World h
    obtain ⟨e1, e2, -, -, e5, e6⟩ := A3DModelCreatePGWorld_effect C _ transform _ r h
    rw [sharedLeafModel_visits] at e1 e2 e6
    have hparts : r.2.1.pgOpts.m_parts = [(item, first.mesh.solid)] := by
      rw [e1]
      simp [BridgeState.fresh, insertAll, partEntries, mapInsert, List.lookup]
    refine ⟨hparts, ?_, ?_, ?_⟩
    · rw [hparts] at e5
      simpa [BridgeState.fresh, BridgeState.solidsBuilt] using e5
    · simpa [BridgeState.fresh, BridgeState.placements] using e6
    · intro h1 h2
      rw [e2]
      simp [BridgeState.fresh, placedEntities, placedVisits, LeafVisit.placed, h1, h2]

theorem solid_built_once_per_item_witness :
    A3DModelCreatePGWorld sdkConstants
        (sharedLeafModel 1 10 2 20 100 true
          (leafOf triangleTess 1 0 0 500 [(700, 0)] 801 901)
          (leafOf triangleTess 1 0 0 500 [(700, 0)] 802 902)) identityMatrix
        (BridgeState.fresh ℤ 1 2) = some sharedTriangleResult
    ∧ sharedTriangleResult.2.1.pgOpts.m_parts = [(100, 500)]
    ∧ sharedTriangleResult.2.1.solidsBuilt = 1
    ∧ sharedTriangleResult.2.1.placements = 2
    ∧ sharedTriangleResult.2.1.pgOpts.m_entities = [801, 802] :=
  have h := (solid_built_once_per_item sdkConstants identityMatrix sharedTriangleResult).2
    1 10 2 20 100 true (leafOf triangleTess 1 0 0 500 [(700, 0)] 801 901)
    (leafOf triangleTess 1 0 0 500 [(700, 0)] 802 902) 1 2 (by decide!)
  ⟨by decide!, h.1, h.2.1, h.2.2.1, h.2.2.2 (by decide) (by decide)⟩

/-! ## The shape of a route -/

mutual
theorem visits_route_repItem {R : Type} :
    ∀ (ri : RepItem R), ∀ v ∈ ri.visits, ∀ h ∈ v.route, h.isSet = true
  | RepItem.set pRepItem getStatus m_ppRepItems => by
    intro v hv h hh
    rw [RepItem.visits] at hv
    split at hv
    · obtain ⟨w, hw, rfl⟩ := List.mem_map.1 hv
      rcases List.mem_cons.1 hh with e | e
      · rw [e]; rfl
      · exact visits_route_repItems m_ppRepItems w hw h e
    · simp at hv
  | RepItem.brep pRepItem poly leaf => by
    intro v hv h hh
    rw [RepItem.visits, List.mem_singleton] at hv
    rw [hv] at hh
    simp at hh
  | RepItem.other _ _ => by
    intro v hv
    rw [RepItem.visits] at hv
    simp at hv
theorem visits_route_repItems {R : Type} :
    ∀ (items : RepItems R), ∀ v ∈ items.visits, ∀ h ∈ v.route, h.isSet = true
  | RepItems.nil => by
    intro v hv
    rw [RepItems.visits] at hv
    simp at hv
  | RepItems.cons head tail => by
    intro v hv
    rw [RepItems.visits, List.mem_append] at hv
    rcases hv with hv | hv
    · exact visits_route_repItem head v hv
    · exact visits_route_repItems tail v hv
end

theorem RouteShape.under {R : Type} (hop : Hop R) (hh : hop.isOccurrence = true)
    (route : List (Hop R)) (h : RouteShape route) : RouteShape (hop :: route) := by
  obtain ⟨os, pPart, sets, e, ho, hs⟩ := h
  refine ⟨hop :: os, pPart, sets, by rw [e]; rfl, ?_, hs⟩
  intro x hx
  rcases List.mem_cons.1 hx with e' | e'
  · rw [e']; exact hh
  · exact ho x e'

theorem visits_route_part {R : Type} (pPart : PartDefinition R) :
    ∀ v ∈ pPart.visits, RouteShape v.route := by
  intro v hv
  rw [PartDefinition.visits] at hv
  split at hv
  · obtain ⟨w, hw, rfl⟩ := List.mem_map.1 hv
    exact ⟨[], pPart.pPart, w.route, rfl, by simp,
      visits_route_repItems pPart.m_ppRepItems w hw⟩
  · simp at hv

mutual
theorem visits_route_occurrence {R : Type} :
    ∀ (pOccurrence : Occurrence R) (isPrototype : Bool),
      ∀ v ∈ pOccurrence.visits isPrototype, RouteShape v.route
  | Occurrence.mk p getStatus m_pLocation m_pPrototype m_pExternalData m_ppPOccurrences m_pPart,
      isPrototype => by
    intro v hv
    rw [Occurrence.visits_mk] at hv
    split at hv
    · obtain ⟨w, hw, rfl⟩ := List.mem_map.1 hv
      refine RouteShape.under _ (by cases isPrototype <;> rfl) _ ?_
      rcases List.mem_append.1 hw with hw | hw
      · exact
          match m_pPrototype, m_pExternalData, hw with
          | OccurrenceRef.ptr prototype, _, hw => visits_route_occurrence prototype true w hw
          | OccurrenceRef.null, OccurrenceRef.ptr externalData, hw =>
            visits_route_occurrence externalData true w hw
          | OccurrenceRef.null, OccurrenceRef.null, hw =>
            visits_route_occurrences m_ppPOccurrences w hw
      · cases m_pPart with
        | none => simp at hw
        | some pPart => exact visits_route_part pPart w hw
    · simp at hv
theorem visits_route_occurrences {R : Type} :
    ∀ (pOccurrences : Occurrences R), ∀ v ∈ pOccurrences.visits, RouteShape v.route
  | Occurrences.nil => by
    intro v hv
    have e : (Occurrences.nil : Occurrences R).visits = [] := rfl
    rw [e] at hv
    simp at hv
  | Occurrences.cons head tail => by
    intro v hv
    have e : (Occurrences.cons head tail).visits = head.visits false ++ tail.visits := rfl
    rw [e, List.mem_append] at hv
    rcases hv with hv | hv
    · exact visits_route_occurrence head false v hv
    · exact visits_route_occurrences tail v hv
end

theorem visits_route_model {R : Type} (pModelFile : ModelFile R) :
    ∀ v ∈ pModelFile.visits, RouteShape v.route := by
  intro v hv
  rw [ModelFile.visits] at hv
  split at hv
  · exact visits_route_occurrences _ v hv
  · simp at hv

theorem chainOf_occurrences {R : Type} (os : List (Hop R))
    (h : ∀ x ∈ os, x.isOccurrence = true) : chainOf os = os.filterMap Hop.entered := by
  induction os with
  | nil => rfl
  | cons x os ih =>
    have ih' := ih fun y hy => h y (List.mem_cons_of_mem _ hy)
    have hx := h x (List.mem_cons_self _ _)
    simp only [chainOf, List.flatMap_cons] at ih' ⊢
    rw [ih']
    cases x <;> simp_all [Hop.chain, Hop.entered, Hop.isOccurrence]

theorem chainOf_sets {R : Type} (sets : List (Hop R)) (h : ∀ x ∈ sets, x.isSet = true) :
    chainOf sets = [] := by
  induction sets with
  | nil => rfl
  | cons x sets ih =>
    have ih' := ih fun y hy => h y (List.mem_cons_of_mem _ hy)
    have hx := h x (List.mem_cons_self _ _)
    simp only [chainOf, List.flatMap_cons] at ih' ⊢
    rw [ih']
    cases x <;> simp_all [Hop.chain, Hop.isSet]

theorem chainOf_shape {R : Type} (os sets : List (Hop R)) (pPart : Handle)
    (ho : ∀ x ∈ os, x.isOccurrence = true) (hs : ∀ x ∈ sets, x.isSet = true) :
    chainOf (os ++ Hop.part pPart :: sets) = os.filterMap Hop.entered ++ [pPart] := by
  have h1 := chainOf_occurrences os ho
  have h2 := chainOf_sets sets hs
  simp only [chainOf, List.flatMap_append, List.flatMap_cons] at h1 h2 ⊢
  rw [h1, h2]
  simp [Hop.chain]

/-! ## C16: the recorded path is the chain of non-prototype occurrences and the part -/

/-- C16: when `A3DModelCreatePGWorld` returns, the world instances it recorded are those
of the leaf visits the engine accepted, in order, and each is handed to the path map
with the assembly path of its route: the route of a visit is a run of product
occurrences from a root occurrence down, then the part definition that holds the leaf,
then the sets passed inside it, and its assembly path is the occurrences entered as
non-prototype occurrences, in order, followed by that part definition (an occurrence
reached through a prototype or external-data link adds nothing, a set adds nothing).
When the engine gives every placed instance a world entity of its own that is not yet
in the path map, the path found for each instance is that of its visit. -/
theorem recorded_path_is_route_chain {R : Type} [Ring R] (C : SdkConstants)
    (pModelFile : ModelFile R) (transform : PTTransformMatrix R) (s : BridgeState R)
    (r : Status × BridgeState R × List Handle)
    (h : A3DModelCreatePGWorld C pModelFile transform s = some r) :
    r.2.1.pgOpts.m_entities = s.pgOpts.m_entities ++ placedEntities pModelFile.visits
    ∧ r.2.1.pgOpts.m_paths
        = insertAll s.pgOpts.m_paths
            ((placedVisits pModelFile.visits).map fun v =>
              (v.leaf.placement.worldEntity, chainOf v.route))
    ∧ ((placedEntities pModelFile.visits).Nodup →
        (∀ e ∈ placedEntities pModelFile.visits, e ∉ keys s.pgOpts.m_paths) →
        ∀ v ∈ placedVisits pModelFile.visits,
          r.2.1.pgOpts.m_paths.lookup v.leaf.placement.worldEntity = some (chainOf v.route))
    ∧ (∀ v ∈ pModelFile.visits,
        ∃ (os : List (Hop R)) (pPart : Handle) (sets : List (Hop R)),
          v.route = os ++ Hop.part pPart :: sets
          ∧ (∀ x ∈ os, x.isOccurrence = true) ∧ (∀ x ∈ sets, x.isSet = true)
          ∧ chainOf v.route = os.filterMap Hop.entered ++ [pPart]) := by
  obtain ⟨-, e2, e3, -, -, -⟩ := A3DModelCreatePGWorld_effect C pModelFile transform s r h
  have hp : pathEntries [] pModelFile.visits
      = (placedVisits pModelFile.visits).map fun v =>
          (v.leaf.placement.worldEntity, chainOf v.route) := by
    simp [pathEntries]
  rw [hp] at e3
  refine ⟨e2, e3, ?_, ?_⟩
  · intro hn hf v hv
    have hk : keys ((placedVisits pModelFile.visits).map fun v =>
        (v.leaf.placement.worldEntity, chainOf v.route)) = placedEntities pModelFile.visits := by
      rw [← hp, keys_pathEntries]
    rw [e3, insertAll_fresh _ _ (by rw [hk]; exact hn) (by rw [hk]; exact hf)]
    exact lookup_append_fresh _ _ (by rw [hk]; exact hn) (by rw [hk]; exact hf)
      (v.leaf.placement.worldEntity, chainOf v.route)
      (List.mem_map.2 ⟨v, hv, rfl⟩)
  · intro v hv
    obtain ⟨os, pPart, sets, e, ho, hs⟩ := visits_route_model pModelFile v hv
    exact ⟨os, pPart, sets, e, ho, hs, by rw [e]; exact chainOf_shape os sets pPart ho hs⟩

theorem recorded_path_is_route_chain_witness :
    A3DModelCreatePGWorld sdkConstants sharedTriangleModel identityMatrix
        (BridgeState.fresh ℤ 1 2) = some sharedTriangleResult
    ∧ sharedTriangleResult.2.1.pgOpts.m_entities = [801, 802]
    ∧ sharedTriangleResult.2.1.pgOpts.m_paths = [(801, [1, 10]), (802, [2, 20])] :=
  have h := recorded_path_is_route_chain sdkConstants sharedTriangleModel identityMatrix
    (BridgeState.fresh ℤ 1 2) sharedTriangleResult (by decide!)
  ⟨by decide!, h.1.trans (by decide!), h.2.1.trans (by decide!)⟩

/-! ## C17: every push on the assembly path is matched by a pop -/

/-- C17: whatever the SDK getters and the engine answer, when a traversal function
returns, its own copy of the assembly path (it receives the path by value) holds what it
held at entry: `traverseRepItem` and `traverseSet` never change it, `stTraversePartDef`
pops the part it pushed, `stTraversePOccurrence` pops the occurrence it pushed when it
is not a prototype, and the accumulator of `A3DModelCreatePGWorld` is empty. -/
theorem assemblyPath_restored {R : Type} [Ring R] (C : SdkConstants)
    (assemblyPath : List Handle) (transform : PTTransformMatrix R) (pgOpts : BridgeState R)
    (r : Status × BridgeState R × List Handle) :
    (∀ pRepItem : RepItem R,
      traverseRepItem C pRepItem assemblyPath transform pgOpts = some r → r.2.2 = assemblyPath)
    ∧ (∀ (getStatus : Status) (m_ppRepItems : RepItems R),
      traverseSet C getStatus m_ppRepItems assemblyPath transform pgOpts = some r →
        r.2.2 = assemblyPath)
    ∧ (∀ pPart : PartDefinition R,
      stTraversePartDef C pPart assemblyPath transform pgOpts = some r → r.2.2 = assemblyPath)
    ∧ (∀ (pOccurrence : Occurrence R) (isPrototype : Bool),
      stTraversePOccurrence C pOccurrence assemblyPath transform isPrototype pgOpts = some r →
        r.2.2 = assemblyPath)
    ∧ (∀ pModelFile : ModelFile R,
      A3DModelCreatePGWorld C pModelFile transform pgOpts = some r → r.2.2 = []) := by
  have hset : ∀ (getStatus : Status) (m_ppRepItems : RepItems R),
      traverseSet C getStatus m_ppRepItems assemblyPath transform pgOpts = some r →
        r.2.2 = assemblyPath := by
    intro getStatus m_ppRepItems h
    simp only [traverseSet] at h
    split at h
    · split at h
      · simp at h
      · simp only [Option.some.injEq] at h
        rw [← h]
    · simp only [Option.some.injEq] at h
      rw [← h]
  refine ⟨?_, hset, ?_, ?_, ?_⟩
  · intro pRepItem h
    cases pRepItem with
    | set p getStatus m_ppRepItems =>
      exact hset getStatus m_ppRepItems (by rw [← h]; rfl)
    | brep p poly leaf =>
      rw [traverseRepItem] at h
      split at h
      · simp at h
      · simp only [Option.some.injEq] at h
        rw [← h]
    | other p eType =>
      rw [traverseRepItem] at h
      simp only [Option.some.injEq] at h
      rw [← h]
  · intro pPart h
    simp only [stTraversePartDef] at h
    split at h
    · split at h
      · simp at h
      · simp only [Option.some.injEq] at h
        rw [← h]
        exact List.dropLast_concat
    · simp only [Option.some.injEq] at h
      rw [← h]
      exact List.dropLast_concat
  · intro pOccurrence isPrototype h
    obtain ⟨p, getStatus, m_pLocation, m_pPrototype, m_pExternalData, m_ppPOccurrences,
      m_pPart⟩ := pOccurrence
    rw [stTraversePOccurrence_mk] at h
    split at h
    · split at h
      · simp at h
      · split at h
        · simp at h
        · simp only [Option.some.injEq] at h
          rw [← h]
          cases isPrototype
          · exact List.dropLast_concat
          · rfl
    · simp only [Option.some.injEq] at h
      rw [← h]
  · intro pModelFile h
    simp only [A3DModelCreatePGWorld] at h
    split at h
    · split at h
      · simp at h
      · simp only [Option.some.injEq] at h
        rw [← h]
    · simp only [Option.some.injEq] at h
      rw [← h]

theorem assemblyPath_restored_witness :
    A3DModelCreatePGWorld sdkConstants sharedTriangleModel identityMatrix
        (BridgeState.fresh ℤ 1 2) = some sharedTriangleResult
    ∧ sharedTriangleResult.2.2 = [] :=
  ⟨by decide!,
    (assemblyPath_restored sdkConstants [] identityMatrix (BridgeState.fresh ℤ 1 2)
      sharedTriangleResult).2.2.2.2 sharedTriangleModel (by decide!)⟩

/-! ## C18: a set of two items with one tessellation and two colours -/

/-- Two visits of different items, both placed with different world entities, on a fresh
aggregate: two cached solids, two instances, two paths, and one style per palette key. -/
theorem runVisits_two {R : Type} [Ring R] (C : SdkConstants) (assemblyPath : List Handle)
    (transform : PTTransformMatrix R) (v1 v2 : LeafVisit R) (m_Environment m_World : Handle)
    (r : BridgeState R)
    (h : runVisits C assemblyPath transform [v1, v2]
      (BridgeState.fresh R m_Environment m_World) = some r)
    (hi : v1.pRepItem ≠ v2.pRepItem)
    (h1 : v1.leaf.placement.status = PTStatus.PV_STATUS_OK)
    (h2 : v2.leaf.placement.status = PTStatus.PV_STATUS_OK)
    (he : v1.leaf.placement.worldEntity ≠ v2.leaf.placement.worldEntity) :
    r.pgOpts.m_parts = [(v1.pRepItem, v1.leaf.mesh.solid), (v2.pRepItem, v2.leaf.mesh.solid)]
    ∧ r.solidsBuilt = 2
    ∧ r.pgOpts.m_entities = [v1.leaf.placement.worldEntity, v2.leaf.placement.worldEntity]
    ∧ r.pgOpts.m_style_palette
        = (if paletteIndex v1.leaf.r v1.leaf.g v1.leaf.b
              = paletteIndex v2.leaf.r v2.leaf.g v2.leaf.b then
            [(paletteIndex v1.leaf.r v1.leaf.g v1.leaf.b, v1.leaf.placement.newStyle)]
          else
            [(paletteIndex v1.leaf.r v1.leaf.g v1.leaf.b, v1.leaf.placement.newStyle),
             (paletteIndex v2.leaf.r v2.leaf.g v2.leaf.b, v2.leaf.placement.newStyle)])
    ∧ r.pgOpts.m_paths
        = [(v1.leaf.placement.worldEntity, assemblyPath ++ chainOf v1.route),
           (v2.leaf.placement.worldEntity, assemblyPath ++ chainOf v2.route)] := by
  obtain ⟨e1, e2, e3, e4, e5, -⟩ := runVisits_effect C assemblyPath transform [v1, v2] _ r h
  have hi' : (v2.pRepItem == v1.pRepItem) = false := by
    simpa using fun e => hi e.symm
  have he' : (v2.leaf.placement.worldEntity == v1.leaf.placement.worldEntity) = false := by
    simpa using fun e => he e.symm
  have hparts : r.pgOpts.m_parts
      = [(v1.pRepItem, v1.leaf.mesh.solid), (v2.pRepItem, v2.leaf.mesh.solid)] := by
    rw [e1]
    simp [BridgeState.fresh, insertAll, partEntries, mapInsert, List.lookup, hi']
  refine ⟨hparts, ?_, ?_, ?_, ?_⟩
  · rw [hparts] at e5
    simpa [BridgeState.fresh, BridgeState.solidsBuilt] using e5
  · rw [e2]
    simp [BridgeState.fresh, placedEntities, placedVisits, LeafVisit.placed, h1, h2]
  · rw [e4]
    by_cases hc : paletteIndex v1.leaf.r v1.leaf.g v1.leaf.b
        = paletteIndex v2.leaf.r v2.leaf.g v2.leaf.b
    · rw [if_pos hc]
      simp [BridgeState.fresh, styleEntries, placedVisits, LeafVisit.placed, h1, h2, insertAll,
        mapInsert, List.lookup, hc]
    · rw [if_neg hc]
      have hc' : (paletteIndex v2.leaf.r v2.leaf.g v2.leaf.b
          == paletteIndex v1.leaf.r v1.leaf.g v1.leaf.b) = false := by
        simpa using fun e => hc e.symm
      simp [BridgeState.fresh, styleEntries, placedVisits, LeafVisit.placed, h1, h2, insertAll,
        mapInsert, List.lookup, hc']
  · rw [e3]
    simp [BridgeState.fresh, pathEntries, placedVisits, LeafVisit.placed, h1, h2, insertAll,
      mapInsert, List.lookup, he']

/-- C18 (counterexample): a model with one root occurrence `1` whose part `10` holds one
set of two poly B-rep items with the same tessellation, one red and one blue: the
traversal leaves 2 cached solids (not 1), 2 world instances, 2 style entries and two
paths of length 2 (the occurrence and the part), not of length 1 or 0. With the colours
`(0, 0, 0)` and `(1/1024, 0, 0)`, which differ and have the same palette key, the same
model leaves 1 style entry, not 2. -/
theorem two_items_give_two_solids :
    A3DModelCreatePGWorld sdkConstants (singlePartModel 1 10 twoColourSet) identityMatrix
        (BridgeState.fresh ℤ 1 2) = some twoColourModelResult
    ∧ twoColourModelResult.2.1.summary = (2, 2, 2, [2, 2])
    ∧ twoColourModelResult.2.1.summary ≠ (1, 2, 2, [1, 1])
    ∧ twoColourModelResult.2.1.summary ≠ (1, 2, 2, [0, 0])
    ∧ ((0 : ℚ), (0 : ℚ), (0 : ℚ)) ≠ (1 / 1024, 0, 0)
    ∧ paletteIndex 0 0 0 = paletteIndex (1 / 1024) 0 0
    ∧ A3DModelCreatePGWorld sdkConstants (singlePartModel 1 10 nearColourSet) identityMatrix
        (BridgeState.fresh ℤ 1 2) = some nearColourModelResult
    ∧ nearColourModelResult.2.1.summary = (2, 2, 1, [2, 2]) := by
  refine ⟨by decide!, by decide!, by decide!, by decide!, by decide!, by decide!, by decide!,
    by decide!⟩

/-- C18 (amended): a set of two poly B-rep items with different identities (whatever
their tessellations and colours), both placed by the engine with different world
entities, traversed on a fresh aggregate, yields 2 cached solids, built by 2 runs of the
mesh builder, 2 world instances, a path map with 2 entries, and one style entry per
palette key of the two colours: 2 entries when the keys differ, 1 when the two colours
have the same key. Each path holds the occurrence and the part definition above the set:
two elements when the set is in the part of a root occurrence of a model handed to
`A3DModelCreatePGWorld`, one when `stTraversePartDef` is started on the part with an
empty path, none when `traverseSet` is started on the set with an empty path. -/
theorem set_of_two_items {R : Type} [Ring R] (C : SdkConstants)
    (transform : PTTransformMatrix R) (pOccurrence pPart pSet item1 item2 : Handle)
    (leaf1 leaf2 : Leaf R) (m_Environment m_World : Handle)
    (r : Status × BridgeState R × List Handle)
    (hi : item1 ≠ item2)
    (h1 : leaf1.placement.status = PTStatus.PV_STATUS_OK)
    (h2 : leaf2.placement.status = PTStatus.PV_STATUS_OK)
    (he : leaf1.placement.worldEntity ≠ leaf2.placement.worldEntity) :
    (A3DModelCreatePGWorld C
        (singlePartModel pOccurrence pPart (setOfTwo pSet item1 item2 leaf1 leaf2)) transform
        (BridgeState.fresh R m_Environment m_World) = some r
      ∨ stTraversePartDef C (partOf pPart (setOfTwo pSet item1 item2 leaf1 leaf2)) [] transform
        (BridgeState.fresh R m_Environment m_World) = some r
      ∨ traverseSet C Status.A3D_SUCCESS
        (RepItems.cons (RepItem.brep item1 true leaf1)
          (RepItems.cons (RepItem.brep item2 true leaf2) RepItems.nil)) [] transform
        (BridgeState.fresh R m_Environment m_World) = some r →
      r.2.1.pgOpts.m_parts = [(item1, leaf1.mesh.solid), (item2, leaf2.mesh.solid)]
      ∧ r.2.1.solidsBuilt = 2
      ∧ r.2.1.pgOpts.m_entities = [leaf1.placement.worldEntity, leaf2.placement.worldEntity]
      ∧ r.2.1.pgOpts.m_style_palette
          = (if paletteIndex leaf1.r leaf1.g leaf1.b = paletteIndex leaf2.r leaf2.g leaf2.b then
              [(paletteIndex leaf1.r leaf1.g leaf1.b, leaf1.placement.newStyle)]
            else
              [(paletteIndex leaf1.r leaf1.g leaf1.b, leaf1.placement.newStyle),
               (paletteIndex leaf2.r leaf2.g leaf2.b, leaf2.placement.newStyle)])
      ∧ r.2.1.pgOpts.m_paths.map (fun e => e.1)
          = [leaf1.placement.worldEntity, leaf2.placement.worldEntity])
    ∧ (A3DModelCreatePGWorld C
        (singlePartModel pOccurrence pPart (setOfTwo pSet item1 item2 leaf1 leaf2)) transform
        (BridgeState.fresh R m_Environment m_World) = some r →
      r.2.1.pgOpts.m_paths.map (fun e => e.2) = [[pOccurrence, pPart], [pOccurrence, pPart]])
    ∧ (stTraversePartDef C (partOf pPart (setOfTwo pSet item1 item2 leaf1 leaf2)) [] transform
        (BridgeState.fresh R m_Environment m_World) = some r →
      r.2.1.pgOpts.m_paths.map (fun e => e.2) = [[pPart], [pPart]])
    ∧ (traverseSet C Status.A3D_SUCCESS
        (RepItems.cons (RepItem.brep item1 true leaf1)
          (RepItems.cons (RepItem.brep item2 true leaf2) RepItems.nil)) [] transform
        (BridgeState.fresh R m_Environment m_World) = some r →
      r.2.1.pgOpts.m_paths.map (fun e => e.2) = [[], []]) := by
  have model : A3DModelCreatePGWorld C
        (singlePartModel pOccurrence pPart (setOfTwo pSet item1 item2 leaf1 leaf2)) transform
        (BridgeState.fresh R m_Environment m_World) = some r →
      runVisits C [] transform
        [{ route := [Hop.occurrence pOccurrence none, Hop.part pPart, Hop.set pSet],
           pRepItem := item1, poly := true, leaf := leaf1 },
         { route := [Hop.occurrence pOccurrence none, Hop.part pPart, Hop.set pSet],
           pRepItem := item2, poly := true, leaf := leaf2 }]
        (BridgeState.fresh R m_Environment m_World) = some r.2.1 := by
    intro h
    have hs := A3DModelCreatePGWorld_state C
      (singlePartModel pOccurrence pPart (setOfTwo pSet item1 item2 leaf1 leaf2)) transform
      (BridgeState.fresh R m_Environment m_World)
    rw [h] at hs
    exact hs.symm
  have part : stTraversePartDef C (partOf pPart (setOfTwo pSet item1 item2 leaf1 leaf2)) []
        transform (BridgeState.fresh R m_Environment m_World) = some r →
      runVisits C [] transform
        [{ route := [Hop.part pPart, Hop.set pSet], pRepItem := item1, poly := true,
           leaf := leaf1 },
         { route := [Hop.part pPart, Hop.set pSet], pRepItem := item2, poly := true,
           leaf := leaf2 }]
        (BridgeState.fresh R m_Environment m_World) = some r.2.1 := by
    intro h
    have hs := stTraversePartDef_state C (partOf pPart (setOfTwo pSet item1 item2 leaf1 leaf2))
      [] transform (BridgeState.fresh R m_Environment m_World)
    rw [h] at hs
    exact hs.symm
  have set : traverseSet C Status.A3D_SUCCESS
        (RepItems.cons (RepItem.brep item1 true leaf1)
          (RepItems.cons (RepItem.brep item2 true leaf2) RepItems.nil)) [] transform
        (BridgeState.fresh R m_Environment m_World) = some r →
      runVisits C [] transform
        [{ route := [Hop.set pSet], pRepItem := item1, poly := true, leaf := leaf1 },
         { route := [Hop.set pSet], pRepItem := item2, poly := true, leaf := leaf2 }]
        (BridgeState.fresh R m_Environment m_World) = some r.2.1 := by
    intro h
    have hs := traverseRepItem_state C (setOfTwo pSet item1 item2 leaf1 leaf2)
      [] transform (BridgeState.fresh R m_Environment m_World)
    have ht : traverseRepItem C (setOfTwo pSet item1 item2 leaf1 leaf2) [] transform
        (BridgeState.fresh R m_Environment m_World) = some r := by
      rw [← h]; rfl
    rw [ht] at hs
    exact hs.symm
  refine ⟨?_, ?_, ?_, ?_⟩
  · rintro (h | h | h)
    · obtain ⟨a, b, c, d, e⟩ := runVisits_two C [] transform _ _ _ _ _ (model h) hi h1 h2 he
      exact ⟨a, b, c, d, by rw [e]; rfl⟩
    · obtain ⟨a, b, c, d, e⟩ := runVisits_two C [] transform _ _ _ _ _ (part h) hi h1 h2 he
      exact ⟨a, b, c, d, by rw [e]; rfl⟩
    · obtain ⟨a, b, c, d, e⟩ := runVisits_two C [] transform _ _ _ _ _ (set h) hi h1 h2 he
      exact ⟨a, b, c, d, by rw [e]; rfl⟩
  · intro h
    obtain ⟨-, -, -, -, e⟩ := runVisits_two C [] transform _ _ _ _ _ (model h) hi h1 h2 he
    rw [e]; rfl
  · intro h
    obtain ⟨-, -, -, -, e⟩ := runVisits_two C [] transform _ _ _ _ _ (part h) hi h1 h2 he
    rw [e]; rfl
  · intro h
    obtain ⟨-, -, -, -, e⟩ := runVisits_two C [] transform _ _ _ _ _ (set h) hi h1 h2 he
    rw [e]; rfl

/-- Witness for C18 (amended): the red and the blue item leave two style entries, the
black item and the item of colour `(1/1024, 0, 0)` one. -/
theorem set_of_two_items_witness :
    A3DModelCreatePGWorld sdkConstants (singlePartModel 1 10 twoColourSet) identityMatrix
        (BridgeState.fresh ℤ 1 2) = some twoColourModelResult
    ∧ twoColourModelResult.2.1.pgOpts.m_parts = [(100, 500), (101, 501)]
    ∧ twoColourModelResult.2.1.pgOpts.m_paths.map (fun e => e.2) = [[1, 10], [1, 10]]
    ∧ twoColourModelResult.2.1.pgOpts.m_style_palette = [(255, 901), (16711680, 902)]
    ∧ A3DModelCreatePGWorld sdkConstants (singlePartModel 1 10 nearColourSet) identityMatrix
        (BridgeState.fresh ℤ 1 2) = some nearColourModelResult
    ∧ nearColourModelResult.2.1.pgOpts.m_parts = [(100, 500), (101, 501)]
    ∧ nearColourModelResult.2.1.pgOpts.m_style_palette = [(0, 901)] :=
  have h := set_of_two_items sdkConstants identityMatrix 1 10 50 100 101
    (leafOf triangleTess 1 0 0 500 [(700, 0)] 801 901)
    (leafOf triangleTess 0 0 1 501 [(701, 1)] 802 902) 1 2 twoColourModelResult
    (by decide) (by decide) (by decide) (by decide)
  have h' := set_of_two_items sdkConstants identityMatrix 1 10 50 100 101
    (leafOf triangleTess 0 0 0 500 [(700, 0)] 801 901)
    (leafOf triangleTess (1 / 1024) 0 0 501 [(701, 1)] 802 902) 1 2 nearColourModelResult
    (by decide) (by decide) (by decide) (by decide)
  ⟨by decide!, (h.1 (Or.inl (by decide!))).1, h.2.1 (by decide!), by decide!, by decide!,
    (h'.1 (Or.inl (by decide!))).1, by decide!⟩

/-! ## C19: a decoder error does not stop the solid builder -/

/-- C19 (the code at the failing input): for a leaf item with one face whose flag word
`0x0009` holds the unknown bit `0x0008`, `IndicesPerFaceAsTriangles` returns `A3D_ERROR`
after it has appended one triangle; `A3DRiRepresentationItemCreatePTSolid` discards that
status (line 561), hands the triangle `(0, 1, 2)` decoded so far to
`PFSolidCreateFromMesh` and returns `A3D_SUCCESS` with the solid entered in the
solid-to-group map. -/
theorem decoder_error_is_discarded :
    (IndicesPerFaceAsTriangles sdkFlags unknownFlagTess 0 [] []).1 = A3DStatus.A3D_ERROR
    ∧ (A3DRiRepresentationItemCreatePTSolid sdkFlags unknownFlagItem 0
        (BridgeState.fresh ℤ 1 2) A3D_log_func.nullptr).map (fun r => r.1)
      = some Status.A3D_SUCCESS
    ∧ (A3DRiRepresentationItemCreatePTSolid sdkFlags unknownFlagItem 0
        (BridgeState.fresh ℤ 1 2) A3D_log_func.nullptr).map (fun r => r.2.2.meshes)
      = some [(1, [0, 1, 2], [3, 3, 3], [0])]
    ∧ (A3DRiRepresentationItemCreatePTSolid sdkFlags unknownFlagItem 0
        (BridgeState.fresh ℤ 1 2) A3D_log_func.nullptr).map
          (fun r => r.2.2.pgOpts.m_surface_groups)
      = some [(500, some [600])] := by
  refine ⟨by decide, by decide, by decide, by decide⟩

/-! ## C20: an invalid provenance tag with no logger -/

/-- C20 (the code at the failing input): a first solid with one face is built, so the
running face count is 1; the second solid has a face whose app-surface property is 0,
which is `-1` after the offset is subtracted. With the default `nullptr` logger the call
does not return: line 620 calls the logger, before any group is destroyed, and the same
happens when the two items are traversed by `stTraversePartDef`, since `traverseRepItem`
passes no logger. With a logger the call returns `A3D_LOAD_INVALID_FILE_FORMAT`, the
group created for the second solid is destroyed and the solid is entered with a `NULL`
group list. -/
theorem invalid_tag_calls_absent_logger :
    (buildTaggedThenUntagged A3D_log_func.nullptr).isNone = true
    ∧ (stTraversePartDef sdkConstants taggedThenUntaggedPart [] identityMatrix
        (BridgeState.fresh ℤ 1 2)).isNone = true
    ∧ (buildTaggedThenUntagged A3D_log_func.callback).map (fun r => r.1)
        = some Status.A3D_LOAD_INVALID_FILE_FORMAT
    ∧ (buildTaggedThenUntagged A3D_log_func.callback).map (fun r => r.2.2.groupsCreated)
        = some [600, 601]
    ∧ (buildTaggedThenUntagged A3D_log_func.callback).map (fun r => r.2.2.groupsDestroyed)
        = some [601]
    ∧ (buildTaggedThenUntagged A3D_log_func.callback).map
        (fun r => r.2.2.pgOpts.m_surface_groups)
        = some [(500, some [600]), (501, none)] := by
  refine ⟨by decide!, by decide!, by decide!, by decide!, by decide!, by decide!⟩

/-! ## C21: what `A3DModelCreatePGWorld` returns -/

/-- The value `A3DModelCreatePGWorld` returns is the status of `A3DAsmModelFileGet`,
whatever the traversal met. -/
theorem A3DModelCreatePGWorld_fst {R : Type} [Ring R] (C : SdkConstants)
    (pModelFile : ModelFile R) (transform : PTTransformMatrix R) (s : BridgeState R)
    (r : Status × BridgeState R × List Handle)
    (h : A3DModelCreatePGWorld C pModelFile transform s = some r) :
    r.1 = pModelFile.getStatus := by
  simp only [A3DModelCreatePGWorld] at h
  split at h
  · split at h
    · simp at h
    · simp only [Option.some.injEq] at h
      subst h
      rfl
  · simp only [Option.some.injEq] at h
    subst h
    rfl

/-- C21 (the code at the failing inputs): for a model whose part holds an item of an
unsupported type, `traverseRepItem` answers `A3D_NOT_IMPLEMENTED`, `stTraversePartDef`
discards it (line 932) and `A3DModelCreatePGWorld` returns `A3D_SUCCESS`, not
`A3D_PG_INVALID_RI`; for a model whose leaf the mesh builder refuses it returns
`A3D_SUCCESS` as well, not `A3D_PG_ERROR`, and no group list is recorded for the solid;
for one whose leaf `PFWorldAddEntity` refuses it returns `A3D_SUCCESS` too, and no world
instance is recorded. The statuses of the calls of lines 1059, 996-1012 and 932 are never
read. -/
theorem nested_failures_not_returned :
    (traverseRepItem sdkConstants (RepItem.other 100 77) [1, 10] identityMatrix
        (BridgeState.fresh ℤ 1 2)).map (fun r => r.1) = some Status.A3D_NOT_IMPLEMENTED
    ∧ (A3DModelCreatePGWorld sdkConstants unsupportedItemModel identityMatrix
        (BridgeState.fresh ℤ 1 2)).map (fun r => r.1) = some Status.A3D_SUCCESS
    ∧ (A3DModelCreatePGWorld sdkConstants failedMeshModel identityMatrix
        (BridgeState.fresh ℤ 1 2)).map (fun r => r.1) = some Status.A3D_SUCCESS
    ∧ (A3DModelCreatePGWorld sdkConstants failedMeshModel identityMatrix
        (BridgeState.fresh ℤ 1 2)).map (fun r => r.2.1.pgOpts.m_surface_groups) = some []
    ∧ (A3DModelCreatePGWorld sdkConstants failedPlacementModel identityMatrix
        (BridgeState.fresh ℤ 1 2)).map (fun r => r.1) = some Status.A3D_SUCCESS
    ∧ (A3DModelCreatePGWorld sdkConstants failedPlacementModel identityMatrix
        (BridgeState.fresh ℤ 1 2)).map (fun r => r.2.1.pgOpts.m_entities) = some [] := by
  refine ⟨by decide!, by decide!, by decide!, by decide!, by decide!, by decide!⟩

/-! ## C22: what `A3DRiRepresentationItemCreatePTSolid` returns -/

/-- C22 (the code at the failing input): when `PFSolidCreateFromMesh` answers an error, the
solid builder returns `A3D_SUCCESS`, not `A3D_PG_ERROR`, and leaves the aggregate as it
was (line 594 asks whether a failure should be returned). For an item that is neither a
B-rep nor a poly B-rep model it returns `A3D_PG_INVALID_RI` with `*solid` and the
aggregate untouched, and for an item whose solid is built it returns `A3D_SUCCESS`, as
documented. -/
theorem mesh_failure_returns_success :
    (A3DRiRepresentationItemCreatePTSolid sdkFlags (RepItem.brep 100 true failedMeshLeaf) 0
        (BridgeState.fresh ℤ 1 2) A3D_log_func.callback).map (fun r => r.1)
      = some Status.A3D_SUCCESS
    ∧ (A3DRiRepresentationItemCreatePTSolid sdkFlags (RepItem.brep 100 true failedMeshLeaf) 0
        (BridgeState.fresh ℤ 1 2) A3D_log_func.callback).map (fun r => r.2.2.pgOpts)
      = some (BridgeState.fresh ℤ 1 2).pgOpts
    ∧ (A3DRiRepresentationItemCreatePTSolid sdkFlags (RepItem.brep 100 true failedMeshLeaf) 0
        (BridgeState.fresh ℤ 1 2) A3D_log_func.callback).map (fun r => r.2.2.meshes)
      = some [(1, [0, 1, 2], [3, 3, 3], [0])]
    ∧ A3DRiRepresentationItemCreatePTSolid sdkFlags (RepItem.other 100 77) 9
        (BridgeState.fresh ℤ 1 2) A3D_log_func.callback
      = some (Status.A3D_PG_INVALID_RI, 9, BridgeState.fresh ℤ 1 2)
    ∧ A3DRiRepresentationItemCreatePTSolid sdkFlags twoColourSet 9
        (BridgeState.fresh ℤ 1 2) A3D_log_func.callback
      = some (Status.A3D_PG_INVALID_RI, 9, BridgeState.fresh ℤ 1 2)
    ∧ (A3DRiRepresentationItemCreatePTSolid sdkFlags taggedItem 0
        (BridgeState.fresh ℤ 1 2) A3D_log_func.callback).map (fun r => (r.1, r.2.1))
      = some (Status.A3D_SUCCESS, 500) := by
  refine ⟨by decide!, by decide!, by decide!, by decide!, by decide!, by decide!⟩

/-! ## Teardown -/

/-- The loop over the group lists does not return exactly when some list is `NULL`. -/
theorem destroySurfaceGroups_eq_none_iff {R : Type} :
    ∀ (entries : List (Handle × Option (List Handle))) (s : BridgeState R),
      destroySurfaceGroups entries s = none ↔ ∃ i ∈ entries, i.2 = none := by
  intro entries
  induction entries with
  | nil => intro s; simp [destroySurfaceGroups]
  | cons i entries ih =>
    intro s
    obtain ⟨solid, groups⟩ := i
    cases groups with
    | none => simp [destroySurfaceGroups]
    | some groups => simp [destroySurfaceGroups, ih]

/-- When no group list is `NULL`, the loop destroys the groups of every list, in order. -/
theorem destroySurfaceGroups_of_present {R : Type} :
    ∀ (entries : List (Handle × Option (List Handle))) (s : BridgeState R),
      (∀ i ∈ entries, i.2 ≠ none) →
      destroySurfaceGroups entries s
        = some (s.calls
            (entries.flatMap fun i => (i.2.getD []).map EngineCall.PFEntityGroupDestroy)) := by
  intro entries
  induction entries with
  | nil => intro s _; simp [destroySurfaceGroups, BridgeState.calls]
  | cons i entries ih =>
    intro s h
    obtain ⟨solid, groups⟩ := i
    cases groups with
    | none => exact absurd rfl (h (solid, none) (List.mem_cons_self _ _))
    | some groups =>
      rw [destroySurfaceGroups, ih _ (fun j hj => h j (List.mem_cons_of_mem _ hj))]
      simp [BridgeState.calls, List.append_assoc]

/-- `A3DDestroyBridgeData` does not return exactly when some group list is `NULL`. -/
theorem A3DDestroyBridgeData_eq_none_iff {R : Type} (s : BridgeState R) :
    A3DDestroyBridgeData s = none ↔ ∃ i ∈ s.pgOpts.m_surface_groups, i.2 = none := by
  rw [← destroySurfaceGroups_eq_none_iff s.pgOpts.m_surface_groups
    (A3DDestroyBridgeStylesData
      (A3DDestroyBridgeEntitiesData (A3DDestroyBridgePartsData s).2).2).2]
  simp only [A3DDestroyBridgeData, A3DDestroyBridgeSurfaceGroupsData]
  have hg : (A3DDestroyBridgeStylesData
      (A3DDestroyBridgeEntitiesData (A3DDestroyBridgePartsData s).2).2).2.pgOpts.m_surface_groups
      = s.pgOpts.m_surface_groups := rfl
  rw [hg]
  cases destroySurfaceGroups s.pgOpts.m_surface_groups
      (A3DDestroyBridgeStylesData
        (A3DDestroyBridgeEntitiesData (A3DDestroyBridgePartsData s).2).2).2 with
  | none => simp
  | some t => simp

/-- When no group list is `NULL`, `A3DDestroyBridgeData` returns `A3D_SUCCESS`: it destroys
the styles of the palette and the groups of the group lists, destroys no solid and
removes no world entity, empties the five containers and leaves the handles of the
environment and the world and the running face count as they were. -/
theorem A3DDestroyBridgeData_of_present {R : Type} (s : BridgeState R)
    (h : ∀ i ∈ s.pgOpts.m_surface_groups, i.2 ≠ none) :
    A3DDestroyBridgeData s
      = some (Status.A3D_SUCCESS,
          { pgOpts :=
              { m_Environment := s.pgOpts.m_Environment, m_World := s.pgOpts.m_World,
                m_parts := [], m_entities := [], m_style_palette := [],
                m_surface_groups := [], m_paths := [],
                m_iTopoFaceCount := s.pgOpts.m_iTopoFaceCount }
            engineCalls := s.engineCalls
              ++ (s.pgOpts.m_style_palette.map fun i => EngineCall.PFRenderStyleDestroy i.2)
              ++ (s.pgOpts.m_surface_groups.flatMap fun i =>
                    (i.2.getD []).map EngineCall.PFEntityGroupDestroy) }) := by
  have hg : (A3DDestroyBridgeStylesData
      (A3DDestroyBridgeEntitiesData (A3DDestroyBridgePartsData s).2).2).2.pgOpts.m_surface_groups
      = s.pgOpts.m_surface_groups := rfl
  simp only [A3DDestroyBridgeData, A3DDestroyBridgeSurfaceGroupsData]
  rw [hg, destroySurfaceGroups_of_present _ _ h]
  rfl

/-! ## C23: `A3DDestroyBridgeData` and a discarded group list -/

/-- C23 (the code at the failing input): after an invalid provenance tag the solid builder
enters the solid `501` with a `NULL` group list (lines 622-628 and 641); on that aggregate
`A3DDestroyBridgeSurfaceGroupsData` reads `groups->size()` through the `NULL` pointer
(line 1136) after it has destroyed the group of the first solid, so that neither it nor
`A3DDestroyBridgeData` returns. On the aggregate of `sharedTriangleModel`, which holds no
`NULL` list, `A3DDestroyBridgeData` returns `A3D_SUCCESS`, empties the five containers,
destroys the style and the group and no solid or world entity, and leaves the two handles
and the running face count as they were. -/
theorem teardown_reads_discarded_group_list :
    discardedGroupsData.pgOpts.m_surface_groups = [(500, some [600]), (501, none)]
    ∧ (A3DDestroyBridgeSurfaceGroupsData discardedGroupsData).isNone = true
    ∧ (A3DDestroyBridgeData discardedGroupsData).isNone = true
    ∧ (A3DDestroyBridgeData sharedTriangleData).map (fun r => r.1)
      = some Status.A3D_SUCCESS
    ∧ (A3DDestroyBridgeData sharedTriangleData).map (fun r => r.2.pgOpts)
      = some { m_Environment := 1, m_World := 2, m_parts := [], m_entities := [],
               m_style_palette := [], m_surface_groups := [], m_paths := [],
               m_iTopoFaceCount := 1 }
    ∧ (sharedTriangleData.pgOpts.m_Environment, sharedTriangleData.pgOpts.m_World,
        sharedTriangleData.pgOpts.m_iTopoFaceCount) = (1, 2, 1)
    ∧ (A3DDestroyBridgeData sharedTriangleData).map
        (fun r => (r.2.solidsDestroyed, r.2.entitiesRemoved, r.2.stylesDestroyed,
          r.2.groupsDestroyed))
      = some ([], [], [901], [600]) := by
  refine ⟨by decide!, by decide!, by decide!, by decide!, by decide!, by decide!, by decide!⟩

/-! ## C24: the order of the teardown operations -/

/-- C24 (as stated) fails: on the aggregate of `sharedTriangleModel`, which holds the solid
`500` and the world entities `801` and `802`, the order `A3DDestroyBridgeData`,
`A3DDestroyBridgeSolids`, `A3DDestroyBridgeWorldEntities` is one of the orders of the three
operations, all three return, and no solid is destroyed and no world entity removed:
`A3DDestroyBridgeData` has emptied the identity map and the instance list the other two
read. -/
theorem teardown_order_matters :
    List.Perm [TeardownOp.data, TeardownOp.solids, TeardownOp.worldEntities]
      [TeardownOp.solids, TeardownOp.worldEntities, TeardownOp.data]
    ∧ sharedTriangleData.pgOpts.m_parts = [(100, 500)]
    ∧ sharedTriangleData.pgOpts.m_entities = [801, 802]
    ∧ runTeardown [TeardownOp.data, TeardownOp.solids, TeardownOp.worldEntities]
        sharedTriangleData = some dataFirstTeardown
    ∧ dataFirstTeardown.solidsDestroyed = []
    ∧ dataFirstTeardown.entitiesRemoved = []
    ∧ ¬ TearsDown [TeardownOp.data, TeardownOp.solids, TeardownOp.worldEntities]
        sharedTriangleData := by
  have hrun : runTeardown [TeardownOp.data, TeardownOp.solids, TeardownOp.worldEntities]
      sharedTriangleData = some dataFirstTeardown := by decide!
  refine ⟨by decide, by decide!, by decide!, hrun, by decide!, by decide!, ?_⟩
  rintro ⟨r, calls, hr, hcalls, hrel, -⟩
  rw [hrun, Option.some.injEq] at hr
  subst hr
  have hmem : EngineCall.PFSolidDestroy 500 ∈ dataFirstTeardown.engineCalls := by
    rw [hcalls]
    exact List.mem_append_right _ (hrel.1 (100, 500) (by decide!))
  revert hmem
  decide!

/-- C24 (amended): when `A3DDestroyBridgeSolids` and `A3DDestroyBridgeWorldEntities` are
called, in either order, before `A3DDestroyBridgeData` on an aggregate that holds no
`NULL` group list, all three return and together they destroy every solid of the identity
map, remove every world entity of the instance list, destroy every style of the palette
and every group of every group list, and leave the five containers, the path records
among them, empty. -/
theorem teardown_releases_when_data_last {R : Type} (s : BridgeState R)
    (h : ∀ i ∈ s.pgOpts.m_surface_groups, i.2 ≠ none) :
    TearsDown [TeardownOp.solids, TeardownOp.worldEntities, TeardownOp.data] s
    ∧ TearsDown [TeardownOp.worldEntities, TeardownOp.solids, TeardownOp.data] s := by
  have hrel : ∀ A B : List (EngineCall R),
      (A = (s.pgOpts.m_parts.map fun i => EngineCall.PFSolidDestroy i.2)
          ++ s.pgOpts.m_entities.map EngineCall.PFWorldRemoveEntity
        ∨ A = s.pgOpts.m_entities.map EngineCall.PFWorldRemoveEntity
          ++ (s.pgOpts.m_parts.map fun i => EngineCall.PFSolidDestroy i.2)) →
      B = A ++ ((s.pgOpts.m_style_palette.map fun i => EngineCall.PFRenderStyleDestroy i.2)
          ++ (s.pgOpts.m_surface_groups.flatMap fun i =>
                (i.2.getD []).map EngineCall.PFEntityGroupDestroy)) →
      ReleaseAll s.pgOpts B := by
    intro A B hA hB
    subst hB
    refine ⟨?_, ?_, ?_, ?_⟩
    · intro i hi
      refine List.mem_append_left _ ?_
      rcases hA with rfl | rfl
      · exact List.mem_append_left _ (List.mem_map.2 ⟨i, hi, rfl⟩)
      · exact List.mem_append_right _ (List.mem_map.2 ⟨i, hi, rfl⟩)
    · intro e he
      refine List.mem_append_left _ ?_
      rcases hA with rfl | rfl
      · exact List.mem_append_right _ (List.mem_map.2 ⟨e, he, rfl⟩)
      · exact List.mem_append_left _ (List.mem_map.2 ⟨e, he, rfl⟩)
    · intro i hi
      exact List.mem_append_right _ (List.mem_append_left _ (List.mem_map.2 ⟨i, hi, rfl⟩))
    · intro i hi groups hg group hgroup
      refine List.mem_append_right _ (List.mem_append_right _ ?_)
      refine List.mem_flatMap.2 ⟨i, hi, ?_⟩
      rw [hg]
      exact List.mem_map.2 ⟨group, hgroup, rfl⟩
  constructor
  · have h1 : ∀ i ∈ (A3DDestroyBridgeWorldEntities
        (A3DDestroyBridgeSolids s).2).2.pgOpts.m_surface_groups, i.2 ≠ none := h
    unfold TearsDown
    refine ⟨{ pgOpts :=
                { m_Environment := s.pgOpts.m_Environment, m_World := s.pgOpts.m_World,
                  m_parts := [], m_entities := [], m_style_palette := [],
                  m_surface_groups := [], m_paths := [],
                  m_iTopoFaceCount := s.pgOpts.m_iTopoFaceCount }
              engineCalls := s.engineCalls
                ++ (s.pgOpts.m_parts.map fun i => EngineCall.PFSolidDestroy i.2)
                ++ s.pgOpts.m_entities.map EngineCall.PFWorldRemoveEntity
                ++ (s.pgOpts.m_style_palette.map fun i => EngineCall.PFRenderStyleDestroy i.2)
                ++ (s.pgOpts.m_surface_groups.flatMap fun i =>
                      (i.2.getD []).map EngineCall.PFEntityGroupDestroy) },
      (s.pgOpts.m_parts.map fun i => EngineCall.PFSolidDestroy i.2)
        ++ s.pgOpts.m_entities.map EngineCall.PFWorldRemoveEntity
        ++ ((s.pgOpts.m_style_palette.map fun i => EngineCall.PFRenderStyleDestroy i.2)
          ++ (s.pgOpts.m_surface_groups.flatMap fun i =>
                (i.2.getD []).map EngineCall.PFEntityGroupDestroy)),
      ?_, ?_, hrel _ _ (Or.inl rfl) rfl, ⟨rfl, rfl, rfl, rfl, rfl⟩⟩
    · simp only [runTeardown, TeardownOp.run, A3DDestroyBridgeData_of_present _ h1,
        Option.map_some']
      rfl
    · simp only [List.append_assoc]
  · have h1 : ∀ i ∈ (A3DDestroyBridgeSolids
        (A3DDestroyBridgeWorldEntities s).2).2.pgOpts.m_surface_groups, i.2 ≠ none := h
    unfold TearsDown
    refine ⟨{ pgOpts :=
                { m_Environment := s.pgOpts.m_Environment, m_World := s.pgOpts.m_World,
                  m_parts := [], m_entities := [], m_style_palette := [],
                  m_surface_groups := [], m_paths := [],
                  m_iTopoFaceCount := s.pgOpts.m_iTopoFaceCount }
              engineCalls := s.engineCalls
                ++ s.pgOpts.m_entities.map EngineCall.PFWorldRemoveEntity
                ++ (s.pgOpts.m_parts.map fun i => EngineCall.PFSolidDestroy i.2)
                ++ (s.pgOpts.m_style_palette.map fun i => EngineCall.PFRenderStyleDestroy i.2)
                ++ (s.pgOpts.m_surface_groups.flatMap fun i =>
                      (i.2.getD []).map EngineCall.PFEntityGroupDestroy) },
      s.pgOpts.m_entities.map EngineCall.PFWorldRemoveEntity
        ++ (s.pgOpts.m_parts.map fun i => EngineCall.PFSolidDestroy i.2)
        ++ ((s.pgOpts.m_style_palette.map fun i => EngineCall.PFRenderStyleDestroy i.2)
          ++ (s.pgOpts.m_surface_groups.flatMap fun i =>
                (i.2.getD []).map EngineCall.PFEntityGroupDestroy)),
      ?_, ?_, hrel _ _ (Or.inr rfl) rfl, ⟨rfl, rfl, rfl, rfl, rfl⟩⟩
    · simp only [runTeardown, TeardownOp.run, A3DDestroyBridgeData_of_present _ h1,
        Option.map_some']
      rfl
    · simp only [List.append_assoc]

/-- Witness for C24 (amended): the aggregate of `sharedTriangleModel`, whose solid `500`
has the group list `[600]`. -/
theorem teardown_releases_when_data_last_witness :
    (∀ i ∈ sharedTriangleData.pgOpts.m_surface_groups, i.2 ≠ none)
    ∧ TearsDown [TeardownOp.solids, TeardownOp.worldEntities, TeardownOp.data]
        sharedTriangleData
    ∧ TearsDown [TeardownOp.worldEntities, TeardownOp.solids, TeardownOp.data]
        sharedTriangleData
    ∧ (runTeardown [TeardownOp.solids, TeardownOp.worldEntities, TeardownOp.data]
        sharedTriangleData).map
          (fun r => (r.solidsDestroyed, r.entitiesRemoved, r.stylesDestroyed,
            r.groupsDestroyed))
      = some ([500], [801, 802], [901], [600]) :=
  have h := teardown_releases_when_data_last sharedTriangleData (by decide!)
  ⟨by decide!, h.1, h.2, by decide!⟩

/-! ## C25: no logger supplied -/

/-- C25 (the code at the failing input): the helpers `CHECK_A3DSTATUS`, `CHECK_PTSTATUS`
and `log` test the logger and deliver nothing when it is `nullptr`, but line 620 calls it
without a test. `A3DModelCreatePGWorld`, called without a logger on a model whose part
holds `taggedItem` and then `untaggedItem`, reaches that line through `traverseRepItem`
(line 865 passes no logger) for the second item, whose face tag `0` is below the running
face count `1`, and does not return. -/
theorem absent_logger_reached_from_traversal :
    (∀ status, CHECK_A3DSTATUS status A3D_log_func.nullptr = some 0)
    ∧ (∀ status, CHECK_PTSTATUS status A3D_log_func.nullptr = some 0)
    ∧ log A3D_log_func.nullptr = some 0
    ∧ A3D_log_func.nullptr.invoke = none
    ∧ (A3DModelCreatePGWorld sdkConstants taggedThenUntaggedModel identityMatrix
        (BridgeState.fresh ℤ 1 2)).isNone = true
    ∧ ((traverseRepItem sdkConstants taggedItem [1, 10] identityMatrix
        (BridgeState.fresh ℤ 1 2)).map
          (fun r => (r.1, r.2.1.pgOpts.m_iTopoFaceCount,
            (traverseRepItem sdkConstants untaggedItem [1, 10] identityMatrix r.2.1).isNone)))
      = some (Status.A3D_SUCCESS, 1, true) := by
  refine ⟨fun _ => rfl, fun _ => rfl, rfl, rfl, by decide!, by decide!⟩

/-! ## C26: corners of a strip -/

theorem stripeTriangles_triple {α : Type} (pt : Nat → α) (cnt k : Nat) (h : k < cnt) :
    ((stripeTriangles pt cnt).drop (3 * k)).take 3
      = (if k % 2 = 0 then [pt (k + 1), pt (k + 2), pt k]
          else [pt (k + 1), pt k, pt (k + 2)]) := by
  unfold stripeTriangles
  rw [flatMap_triple _ (fun j => by split <;> rfl) cnt k h]
  by_cases hk : k % 2 = 0 <;> simp [hk]

theorem stripeTriangleAt_triple {α : Type} (pt : Nat → α) (cnt k : Nat) (h : k < cnt) :
    StripeTriangleAt pt k (((stripeTriangles pt cnt).drop (3 * k)).take 3) := by
  rw [stripeTriangles_triple pt cnt k h]
  unfold StripeTriangleAt stripeCornersDescribed
  by_cases hk : k % 2 = 0
  · simp only [hk, if_true]
    refine ⟨trivial, ⟨2, rfl⟩, ?_⟩
    exact (List.IsRotated.perm ⟨2, rfl⟩)
  · simp only [hk, if_false]
    refine ⟨trivial, ⟨0, rfl⟩, ?_⟩
    exact List.Perm.swap _ _ _

theorem stripeTriangles_const_triple {α : Type} (a : α) (cnt k : Nat) (h : k < cnt) :
    ((stripeTriangles (fun _ => a) cnt).drop (3 * k)).take 3 = [a, a, a] := by
  rw [stripeTriangles_triple _ cnt k h]
  simp

/-- C26: for every strip of `N ≥ 3` points, plain or one-normal, the `k`-th triangle the
decoder appends (`k = 0..N-3`) is made of the points `k`, `k+1`, `k+2`; its corner
order is a cyclic rotation of `(k, k+1, k+2)` when `k` is even and is `(k+1, k, k+2)`
when `k` is odd (`StripeTriangleAt`). In a plain strip the normal indices follow the
same corners; in a one-normal strip all three are the shared normal. Parts 1 and 2 are
for a face holding one strip, through `IndicesPerFaceAsTriangles`; parts 3 and 4 are
for any strip of any face, through the body of the loop over the strips, started in
any state. -/
theorem strip_triangle_corners (K : TessFlagValues) (N k : Nat) (hN : 3 ≤ N)
    (hk : k ≤ N - 3) :
    (∀ (t : A3DTess3DData) (i : Nat) (au : List Nat) (ni : List Int), K.Separate →
      u32 (t.m_psFaceTessData (u32 i)).m_uiSizesTriangulatedSize ≠ 0 →
      u16 (t.m_psFaceTessData (u32 i)).m_usUsedEntitiesFlags
        = K.kA3DTessFaceDataTriangleStripe →
      rd (t.m_psFaceTessData (u32 i)).m_puiSizesTriangulated 0 = 1 →
      rd (t.m_psFaceTessData (u32 i)).m_puiSizesTriangulated 1 = N →
      StripeTriangleAt
          (vtx t.m_puiTriangulatedIndexes
            (u32 (t.m_psFaceTessData (u32 i)).m_uiStartTriangulated)) k
          (((IndicesPerFaceAsTriangles K t i au ni).2.auIndices.drop
            (au.length + 3 * k)).take 3)
      ∧ StripeTriangleAt
          (nrm t.m_puiTriangulatedIndexes
            (u32 (t.m_psFaceTessData (u32 i)).m_uiStartTriangulated)) k
          (((IndicesPerFaceAsTriangles K t i au ni).2.normal_indices.drop
            (ni.length + 3 * k)).take 3))
    ∧ (∀ (t : A3DTess3DData) (i : Nat) (au : List Nat) (ni : List Int), K.Separate →
      u32 (t.m_psFaceTessData (u32 i)).m_uiSizesTriangulatedSize ≠ 0 →
      u16 (t.m_psFaceTessData (u32 i)).m_usUsedEntitiesFlags
        = K.kA3DTessFaceDataTriangleStripeOneNormal →
      rd (t.m_psFaceTessData (u32 i)).m_puiSizesTriangulated 0 = 1 →
      rd (t.m_psFaceTessData (u32 i)).m_puiSizesTriangulated 1
        &&& K.kA3DTessFaceDataNormalMask = N →
      StripeTriangleAt
          (vtx1 t.m_puiTriangulatedIndexes
            (u32 (t.m_psFaceTessData (u32 i)).m_uiStartTriangulated)) k
          (((IndicesPerFaceAsTriangles K t i au ni).2.auIndices.drop
            (au.length + 3 * k)).take 3)
      ∧ ((IndicesPerFaceAsTriangles K t i au ni).2.normal_indices.drop
            (ni.length + 3 * k)).take 3
          = [nrm1 t.m_puiTriangulatedIndexes
                (u32 (t.m_psFaceTessData (u32 i)).m_uiStartTriangulated),
              nrm1 t.m_puiTriangulatedIndexes
                (u32 (t.m_psFaceTessData (u32 i)).m_uiStartTriangulated),
              nrm1 t.m_puiTriangulatedIndexes
                (u32 (t.m_psFaceTessData (u32 i)).m_uiStartTriangulated)])
    ∧ (∀ (f : A3DTessFaceData) (buf : Nat → Nat) (s : DecodeState),
      rd f.m_puiSizesTriangulated s.uiCurrentSize = N →
      StripeTriangleAt (vtx buf s.puiTriangulatedIndexes) k
          (((stripeBody f buf s).auIndices.drop (s.auIndices.length + 3 * k)).take 3)
      ∧ StripeTriangleAt (nrm buf s.puiTriangulatedIndexes) k
          (((stripeBody f buf s).normal_indices.drop
            (s.normal_indices.length + 3 * k)).take 3))
    ∧ (∀ (f : A3DTessFaceData) (buf : Nat → Nat) (s : DecodeState),
      rd f.m_puiSizesTriangulated s.uiCurrentSize &&& K.kA3DTessFaceDataNormalMask = N →
      StripeTriangleAt (vtx1 buf s.puiTriangulatedIndexes) k
          (((stripeOneNormalBody K f buf s).auIndices.drop
            (s.auIndices.length + 3 * k)).take 3)
      ∧ ((stripeOneNormalBody K f buf s).normal_indices.drop
            (s.normal_indices.length + 3 * k)).take 3
          = [nrm1 buf s.puiTriangulatedIndexes, nrm1 buf s.puiTriangulatedIndexes,
              nrm1 buf s.puiTriangulatedIndexes]) := by
  have hk' : k < N - 2 := by omega
  constructor
  · intro t i au ni hK hsz hf h0 h1
    obtain ⟨ha, hn⟩ := IndicesPerFaceAsTriangles_oneStripe hK t i au ni hsz hf h0
    have hlt : N < 4294967296 := h1 ▸ rd_lt _ _
    rw [ha, hn, h1, stripeCount_eq (by omega) hlt, drop_append_add, drop_append_add]
    exact ⟨stripeTriangleAt_triple _ _ _ hk', stripeTriangleAt_triple _ _ _ hk'⟩
  constructor
  · intro t i au ni hK hsz hf h0 h1
    obtain ⟨ha, hn⟩ := IndicesPerFaceAsTriangles_oneStripeOneNormal hK t i au ni hsz hf h0
    have hlt : N < 4294967296 :=
      h1 ▸ Nat.lt_of_le_of_lt Nat.and_le_left (rd_lt _ _)
    rw [ha, hn, h1, stripeCount_eq (by omega) hlt, drop_append_add, drop_append_add]
    exact ⟨stripeTriangleAt_triple _ _ _ hk', stripeTriangles_const_triple _ _ _ hk'⟩
  constructor
  · intro f buf s h1
    have hlt : N < 4294967296 := h1 ▸ rd_lt _ _
    rw [stripeBody_eq, h1, stripeCount_eq (by omega) hlt]
    simp only
    rw [drop_append_add, drop_append_add]
    exact ⟨stripeTriangleAt_triple _ _ _ hk', stripeTriangleAt_triple _ _ _ hk'⟩
  · intro f buf s h1
    have hlt : N < 4294967296 :=
      h1 ▸ Nat.lt_of_le_of_lt Nat.and_le_left (rd_lt _ _)
    rw [stripeOneNormalBody_eq, h1, stripeCount_eq (by omega) hlt]
    simp only
    rw [drop_append_add, drop_append_add]
    exact ⟨stripeTriangleAt_triple _ _ _ hk', stripeTriangles_const_triple _ _ _ hk'⟩

/-- Witness for C26: in the strip whose five points carry the vertex indices 0..4 and
the normal indices 10..14, the triangle of index 1 is `(2, 1, 3)`, a swap of
`(1, 2, 3)`, and the triangle of index 2 of the one-normal strip over the same
vertices is `(3, 4, 2)`, a rotation of `(2, 3, 4)`. -/
theorem strip_triangle_corners_witness :
    (StripeTriangleAt
        (vtx (recordOf (faceOf 0x0004 [1, 5] 0)
          [10, 0, 11, 1, 12, 2, 13, 3, 14, 4]).m_puiTriangulatedIndexes (u32 0)) 1
        (((IndicesPerFaceAsTriangles sdkFlags
          (recordOf (faceOf 0x0004 [1, 5] 0) [10, 0, 11, 1, 12, 2, 13, 3, 14, 4])
          0 [7] [8]).2.auIndices.drop ([7].length + 3 * 1)).take 3)
      ∧ ((IndicesPerFaceAsTriangles sdkFlags
          (recordOf (faceOf 0x0004 [1, 5] 0) [10, 0, 11, 1, 12, 2, 13, 3, 14, 4])
          0 [7] [8]).2.auIndices.drop ([7].length + 3 * 1)).take 3 = [2, 1, 3])
    ∧ (StripeTriangleAt
        (vtx1 (recordOf (faceOf 0x0040 [1, 5] 0)
          [10, 0, 1, 2, 3, 4]).m_puiTriangulatedIndexes (u32 0)) 2
        (((IndicesPerFaceAsTriangles sdkFlags
          (recordOf (faceOf 0x0040 [1, 5] 0) [10, 0, 1, 2, 3, 4])
          0 [] []).2.auIndices.drop (([] : List Nat).length + 3 * 2)).take 3)
      ∧ ((IndicesPerFaceAsTriangles sdkFlags
          (recordOf (faceOf 0x0040 [1, 5] 0) [10, 0, 1, 2, 3, 4])
          0 [] []).2.auIndices.drop (([] : List Nat).length + 3 * 2)).take 3 = [3, 4, 2]) :=
  ⟨⟨((strip_triangle_corners sdkFlags 5 1 (by decide) (by decide)).1
      (recordOf (faceOf 0x0004 [1, 5] 0) [10, 0, 11, 1, 12, 2, 13, 3, 14, 4]) 0 [7] [8]
      sdkFlags_separate (by decide) (by decide) (by decide) (by decide)).1, by decide⟩,
   ⟨((strip_triangle_corners sdkFlags 5 2 (by decide) (by decide)).2.1
      (recordOf (faceOf 0x0040 [1, 5] 0) [10, 0, 1, 2, 3, 4]) 0 [] []
      sdkFlags_separate (by decide) (by decide) (by decide) (by decide)).1, by decide⟩⟩

/-! ## Assignments to a memory of doubles -/

/-- A sequence of assignments, each to the cell `w.1` of the value `w.2` computed from the
memory as the assignments before it left it. -/
theorem writes_outside {R : Type} (W : Nat → Prop)
    (ws : List (Nat × ((Nat → R) → R))) (hW : ∀ w ∈ ws, W w.1) :
    ∀ (mem : Nat → R) (a : Nat), ¬ W a →
      ws.foldl (fun m w => Function.update m w.1 (w.2 m)) mem a = mem a := by
  induction ws with
  | nil => intro mem a _; rfl
  | cons w ws ih =>
    intro mem a ha
    rw [List.foldl_cons, ih (fun v hv => hW v (List.mem_cons_of_mem _ hv)) _ a ha]
    have hne : a ≠ w.1 := fun h => ha (h ▸ hW w (List.mem_cons_self _ _))
    exact Function.update_noteq hne _ _

theorem writes_inside {R : Type} (W : Nat → Prop)
    (ws : List (Nat × ((Nat → R) → R))) (hW : ∀ w ∈ ws, W w.1)
    (hdep : ∀ w ∈ ws, ∀ m m' : Nat → R, (∀ a, ¬ W a → m a = m' a) → w.2 m = w.2 m')
    (hnd : (ws.map Prod.fst).Nodup) :
    ∀ (mem : Nat → R), ∀ w ∈ ws,
      ws.foldl (fun m w => Function.update m w.1 (w.2 m)) mem w.1 = w.2 mem := by
  induction ws with
  | nil => intro mem w hw; cases hw
  | cons v ws ih =>
    intro mem w hw
    rw [List.map_cons, List.nodup_cons] at hnd
    rw [List.foldl_cons]
    rcases List.mem_cons.1 hw with rfl | hw'
    · -- the first assignment; the later ones write other cells
      have hlater : ∀ (vs : List (Nat × ((Nat → R) → R))) (m : Nat → R),
          w.1 ∉ vs.map Prod.fst →
          vs.foldl (fun m w => Function.update m w.1 (w.2 m)) m w.1 = m w.1 := by
        intro vs
        induction vs with
        | nil => intro m _; rfl
        | cons u vs ihv =>
          intro m hm
          rw [List.map_cons, List.mem_cons, not_or] at hm
          rw [List.foldl_cons, ihv _ hm.2]
          exact Function.update_noteq hm.1 _ _
      rw [hlater ws _ hnd.1, Function.update_same]
    · rw [ih (fun u hu => hW u (List.mem_cons_of_mem _ hu))
        (fun u hu => hdep u (List.mem_cons_of_mem _ hu)) hnd.2 _ w hw']
      apply hdep w hw
      intro a ha
      have hne : a ≠ v.1 := fun h => ha (h ▸ hW v (List.mem_cons_self _ _))
      exact Function.update_noteq hne _ _

theorem MultiplyMatrixAt_eq_foldl {R : Type} [Add R] [Mul R] (mem : Nat → R)
    (padFather pdThisMatrix pdResult : Nat) :
    MultiplyMatrixAt mem padFather pdThisMatrix pdResult
      = (MultiplyMatrix.assignments padFather pdThisMatrix pdResult).foldl
          (fun m w => Function.update m w.1 (w.2 m)) mem :=
  rfl

theorem assignments_inside {R : Type} [Add R] [Mul R] (padFather pdThisMatrix pdResult : Nat) :
    ∀ w ∈ (MultiplyMatrix.assignments padFather pdThisMatrix pdResult :
        List (Nat × ((Nat → R) → R))),
      pdResult ≤ w.1 ∧ w.1 < pdResult + 16 := by
  intro w hw
  simp only [MultiplyMatrix.assignments, List.mem_cons, List.mem_singleton,
    List.not_mem_nil, or_false] at hw
  rcases hw with h | h | h | h | h | h | h | h | h | h | h | h | h | h | h | h <;>
    subst h <;> constructor <;> simp

theorem assignments_nodup {R : Type} [Add R] [Mul R] (padFather pdThisMatrix pdResult : Nat) :
    ((MultiplyMatrix.assignments padFather pdThisMatrix pdResult :
        List (Nat × ((Nat → R) → R))).map Prod.fst).Nodup := by
  simp [MultiplyMatrix.assignments]

theorem assignments_read_inputs {R : Type} [Add R] [Mul R]
    (padFather pdThisMatrix pdResult : Nat) (h1 : Apart padFather pdResult)
    (h2 : Apart pdThisMatrix pdResult) :
    ∀ w ∈ (MultiplyMatrix.assignments padFather pdThisMatrix pdResult :
        List (Nat × ((Nat → R) → R))),
      ∀ m m' : Nat → R, (∀ a, ¬ (pdResult ≤ a ∧ a < pdResult + 16) → m a = m' a) →
        w.2 m = w.2 m' := by
  intro w hw m m' h
  unfold Apart at h1 h2
  have hf : ∀ k, k < 16 → m (padFather + k) = m' (padFather + k) :=
    fun k hk => h _ (by omega)
  have ht : ∀ k, k < 16 → m (pdThisMatrix + k) = m' (pdThisMatrix + k) :=
    fun k hk => h _ (by omega)
  simp only [MultiplyMatrix.assignments, List.mem_cons, List.mem_singleton,
    List.not_mem_nil, or_false] at hw
  rcases hw with e | e | e | e | e | e | e | e | e | e | e | e | e | e | e | e <;>
    subst e <;>
    simp only [hf _ (by decide : (0 : Nat) < 16), hf _ (by decide : (1 : Nat) < 16),
      hf _ (by decide : (2 : Nat) < 16), hf _ (by decide : (3 : Nat) < 16),
      hf _ (by decide : (4 : Nat) < 16), hf _ (by decide : (5 : Nat) < 16),
      hf _ (by decide : (6 : Nat) < 16), hf _ (by decide : (7 : Nat) < 16),
      hf _ (by decide : (8 : Nat) < 16), hf _ (by decide : (9 : Nat) < 16),
      hf _ (by decide : (10 : Nat) < 16), hf _ (by decide : (11 : Nat) < 16),
      hf _ (by decide : (12 : Nat) < 16), hf _ (by decide : (13 : Nat) < 16),
      hf _ (by decide : (14 : Nat) < 16), hf _ (by decide : (15 : Nat) < 16),
      ht _ (by decide : (0 : Nat) < 16), ht _ (by decide : (1 : Nat) < 16),
      ht _ (by decide : (2 : Nat) < 16), ht _ (by decide : (3 : Nat) < 16),
      ht _ (by decide : (4 : Nat) < 16), ht _ (by decide : (5 : Nat) < 16),
      ht _ (by decide : (6 : Nat) < 16), ht _ (by decide : (7 : Nat) < 16),
      ht _ (by decide : (8 : Nat) < 16), ht _ (by decide : (9 : Nat) < 16),
      ht _ (by decide : (10 : Nat) < 16), ht _ (by decide : (11 : Nat) < 16),
      ht _ (by decide : (12 : Nat) < 16), ht _ (by decide : (13 : Nat) < 16),
      ht _ (by decide : (14 : Nat) < 16), ht _ (by decide : (15 : Nat) < 16)]

/-- `MultiplyMatrix` writes the sixteen cells of `pdResult` and no other cell; when
`pdResult` shares no cell with the two inputs, the cells written hold the matrix the
value-level `MultiplyMatrix` computes from the inputs. -/
theorem MultiplyMatrixAt_spec {R : Type} [Add R] [Mul R] (mem : Nat → R)
    (padFather pdThisMatrix pdResult : Nat) :
    (∀ a, ¬ (pdResult ≤ a ∧ a < pdResult + 16) →
      MultiplyMatrixAt mem padFather pdThisMatrix pdResult a = mem a)
    ∧ (Apart padFather pdResult → Apart pdThisMatrix pdResult →
      matrixAt (MultiplyMatrixAt mem padFather pdThisMatrix pdResult) pdResult
        = MultiplyMatrix (matrixAt mem padFather) (matrixAt mem pdThisMatrix)) := by
  constructor
  · intro a ha
    rw [MultiplyMatrixAt_eq_foldl]
    exact writes_outside (fun a => pdResult ≤ a ∧ a < pdResult + 16) _
      (assignments_inside padFather pdThisMatrix pdResult) mem a ha
  · intro h1 h2
    have key := writes_inside (fun a => pdResult ≤ a ∧ a < pdResult + 16) _
      (assignments_inside padFather pdThisMatrix pdResult)
      (assignments_read_inputs padFather pdThisMatrix pdResult h1 h2)
      (assignments_nodup padFather pdThisMatrix pdResult) mem
    rw [← MultiplyMatrixAt_eq_foldl] at key
    simp only [MultiplyMatrix.assignments, List.mem_cons, List.mem_singleton,
      List.not_mem_nil, or_false, forall_eq_or_imp, forall_eq] at key
    obtain ⟨k0, k1, k2, k3, k4, k5, k6, k7, k8, k9, k10, k11, k12, k13, k14, k15⟩ := key
    ext <;> simp only [matrixAt, MultiplyMatrix] <;> assumption

/-- The local array `m` of `stTransform` once it is filled (line 796) holds the matrix
`localMatrix`, and no cell outside `m` has changed. -/
theorem stTransformAt_spec {R : Type} [Ring R] (kA3DTransformationMirror : Nat)
    (pTransformation : Transformation R) (mem : Nat → R) (transform localTransform m : Nat)
    (h1 : Apart transform localTransform) (h2 : Apart m localTransform)
    (h3 : Apart transform m) :
    (stTransformAt kA3DTransformationMirror pTransformation mem transform localTransform m).1
      = (stTransform kA3DTransformationMirror pTransformation (matrixAt mem transform)
          (matrixAt mem localTransform)).1
    ∧ matrixAt (stTransformAt kA3DTransformationMirror pTransformation mem transform
          localTransform m).2 localTransform
      = (stTransform kA3DTransformationMirror pTransformation (matrixAt mem transform)
          (matrixAt mem localTransform)).2
    ∧ matrixAt (stTransformAt kA3DTransformationMirror pTransformation mem transform
          localTransform m).2 transform
      = matrixAt mem transform
    ∧ ∀ a, ¬ (localTransform ≤ a ∧ a < localTransform + 16) → ¬ (m ≤ a ∧ a < m + 16) →
        (stTransformAt kA3DTransformationMirror pTransformation mem transform
          localTransform m).2 a = mem a := by
  by_cases hs : pTransformation.getStatus = Status.A3D_SUCCESS
  · simp only [stTransformAt, stTransform, if_pos hs]
    -- the memory when `MultiplyMatrix` is called
    generalize hfill :
      (Function.update (Function.update (Function.update (Function.update (Function.update
        (Function.update (Function.update (Function.update (Function.update (Function.update
        (Function.update (Function.update (Function.update (memsetZero16 mem m)
          (m + 12) pTransformation.data.m_sOrigin.m_dX)
          (m + 13) pTransformation.data.m_sOrigin.m_dY)
          (m + 14) pTransformation.data.m_sOrigin.m_dZ)
          (m + 0) (pTransformation.data.m_sXVector.m_dX * pTransformation.data.m_sScale.m_dX))
          (m + 1) (pTransformation.data.m_sXVector.m_dY * pTransformation.data.m_sScale.m_dX))
          (m + 2) (pTransformation.data.m_sXVector.m_dZ * pTransformation.data.m_sScale.m_dX))
          (m + 4) (pTransformation.data.m_sYVector.m_dX * pTransformation.data.m_sScale.m_dY))
          (m + 5) (pTransformation.data.m_sYVector.m_dY * pTransformation.data.m_sScale.m_dY))
          (m + 6) (pTransformation.data.m_sYVector.m_dZ * pTransformation.data.m_sScale.m_dY))
          (m + 8) _) (m + 9) _) (m + 10) _) (m + 15) 1) = filled
    have hm : matrixAt filled m = localMatrix kA3DTransformationMirror pTransformation.data := by
      subst hfill
      ext <;> simp [matrixAt, localMatrix, Function.update_apply, memsetZero16]
    have hout : ∀ a, ¬ (m ≤ a ∧ a < m + 16) → filled a = mem a := by
      intro a ha
      subst hfill
      have hne : ∀ k, k < 16 → a ≠ m + k := fun k hk h => ha (by omega)
      simp only [Function.update_apply, memsetZero16, if_neg ha, if_neg (hne _ (by decide : (0 : Nat) < 16)),
        if_neg (hne _ (by decide : (1 : Nat) < 16)), if_neg (hne _ (by decide : (2 : Nat) < 16)),
        if_neg (hne _ (by decide : (4 : Nat) < 16)), if_neg (hne _ (by decide : (5 : Nat) < 16)),
        if_neg (hne _ (by decide : (6 : Nat) < 16)), if_neg (hne _ (by decide : (8 : Nat) < 16)),
        if_neg (hne _ (by decide : (9 : Nat) < 16)), if_neg (hne _ (by decide : (10 : Nat) < 16)),
        if_neg (hne _ (by decide : (12 : Nat) < 16)), if_neg (hne _ (by decide : (13 : Nat) < 16)),
        if_neg (hne _ (by decide : (14 : Nat) < 16)), if_neg (hne _ (by decide : (15 : Nat) < 16))]
    have hmat : ∀ p, Apart p m → matrixAt filled p = matrixAt mem p := by
      intro p hp
      unfold Apart at hp
      ext <;> simp only [matrixAt] <;> exact hout _ (by omega)
    obtain ⟨o, e⟩ := MultiplyMatrixAt_spec filled transform m localTransform
    refine ⟨trivial, ?_, ?_, ?_⟩
    · rw [e h1 h2, hm, hmat _ h3]
    · unfold Apart at h1
      ext <;> simp only [matrixAt] <;>
        (rw [o _ (by omega)]; exact hout _ (by unfold Apart at h3; omega))
    · intro a ha hb
      rw [o a ha]
      exact hout a hb
  · simp only [stTransformAt, stTransform, if_neg hs]
    exact ⟨trivial, trivial, trivial, fun _ _ _ => trivial⟩

/-! ## C27: the local matrix of `stTransform` -/

/-- C27: when the transformation data can be read, the local matrix `stTransform` builds
from the origin `O`, the axes `X` and `Y`, the scale `S` and the behaviour byte has the
elements 0..2 = `X` times `S.x`, 4..6 = `Y` times `S.y`, 8..10 = `CrossProduct(X, Y)`
times `S.z`, negated exactly when the mirror bit of the behaviour byte is set, 12..14 =
`O`, the elements 3, 7 and 11 are zero and element 15 is one; the matrix written to
`localTransform` is `MultiplyMatrix(transform, local)`. On the memory of doubles, with the
caller's two arrays and the local array `m` sharing no cell, the sixteen cells of
`localTransform` hold that product on return and the sixteen cells of the parent matrix
`transform` hold what they held at entry. -/
theorem stTransform_builds_local_matrix {R : Type} [Ring R] (kA3DTransformationMirror : Nat)
    (pTransformation : Transformation R) (transform localTransform : PTTransformMatrix R)
    (mem : Nat → R) (pTransform pLocalTransform m : Nat)
    (hs : pTransformation.getStatus = Status.A3D_SUCCESS)
    (h1 : Apart pTransform pLocalTransform) (h2 : Apart m pLocalTransform)
    (h3 : Apart pTransform m) :
    ((localMatrix kA3DTransformationMirror pTransformation.data).d0
        = pTransformation.data.m_sXVector.m_dX * pTransformation.data.m_sScale.m_dX
      ∧ (localMatrix kA3DTransformationMirror pTransformation.data).d1
        = pTransformation.data.m_sXVector.m_dY * pTransformation.data.m_sScale.m_dX
      ∧ (localMatrix kA3DTransformationMirror pTransformation.data).d2
        = pTransformation.data.m_sXVector.m_dZ * pTransformation.data.m_sScale.m_dX)
    ∧ ((localMatrix kA3DTransformationMirror pTransformation.data).d4
        = pTransformation.data.m_sYVector.m_dX * pTransformation.data.m_sScale.m_dY
      ∧ (localMatrix kA3DTransformationMirror pTransformation.data).d5
        = pTransformation.data.m_sYVector.m_dY * pTransformation.data.m_sScale.m_dY
      ∧ (localMatrix kA3DTransformationMirror pTransformation.data).d6
        = pTransformation.data.m_sYVector.m_dZ * pTransformation.data.m_sScale.m_dY)
    ∧ (hasFlag (pTransformation.data.m_ucBehaviour % 256) kA3DTransformationMirror = false →
      (localMatrix kA3DTransformationMirror pTransformation.data).d8
        = (CrossProduct pTransformation.data.m_sXVector pTransformation.data.m_sYVector).m_dX
          * pTransformation.data.m_sScale.m_dZ
      ∧ (localMatrix kA3DTransformationMirror pTransformation.data).d9
        = (CrossProduct pTransformation.data.m_sXVector pTransformation.data.m_sYVector).m_dY
          * pTransformation.data.m_sScale.m_dZ
      ∧ (localMatrix kA3DTransformationMirror pTransformation.data).d10
        = (CrossProduct pTransformation.data.m_sXVector pTransformation.data.m_sYVector).m_dZ
          * pTransformation.data.m_sScale.m_dZ)
    ∧ (hasFlag (pTransformation.data.m_ucBehaviour % 256) kA3DTransformationMirror = true →
      (localMatrix kA3DTransformationMirror pTransformation.data).d8
        = -((CrossProduct pTransformation.data.m_sXVector pTransformation.data.m_sYVector).m_dX
          * pTransformation.data.m_sScale.m_dZ)
      ∧ (localMatrix kA3DTransformationMirror pTransformation.data).d9
        = -((CrossProduct pTransformation.data.m_sXVector pTransformation.data.m_sYVector).m_dY
          * pTransformation.data.m_sScale.m_dZ)
      ∧ (localMatrix kA3DTransformationMirror pTransformation.data).d10
        = -((CrossProduct pTransformation.data.m_sXVector pTransformation.data.m_sYVector).m_dZ
          * pTransformation.data.m_sScale.m_dZ))
    ∧ ((localMatrix kA3DTransformationMirror pTransformation.data).d12
        = pTransformation.data.m_sOrigin.m_dX
      ∧ (localMatrix kA3DTransformationMirror pTransformation.data).d13
        = pTransformation.data.m_sOrigin.m_dY
      ∧ (localMatrix kA3DTransformationMirror pTransformation.data).d14
        = pTransformation.data.m_sOrigin.m_dZ)
    ∧ ((localMatrix kA3DTransformationMirror pTransformation.data).d3 = 0
      ∧ (localMatrix kA3DTransformationMirror pTransformation.data).d7 = 0
      ∧ (localMatrix kA3DTransformationMirror pTransformation.data).d11 = 0
      ∧ (localMatrix kA3DTransformationMirror pTransformation.data).d15 = 1)
    ∧ stTransform kA3DTransformationMirror pTransformation transform localTransform
        = (Status.A3D_SUCCESS,
            MultiplyMatrix transform
              (localMatrix kA3DTransformationMirror pTransformation.data))
    ∧ matrixAt (stTransformAt kA3DTransformationMirror pTransformation mem pTransform
          pLocalTransform m).2 pLocalTransform
        = MultiplyMatrix (matrixAt mem pTransform)
            (localMatrix kA3DTransformationMirror pTransformation.data)
    ∧ matrixAt (stTransformAt kA3DTransformationMirror pTransformation mem pTransform
          pLocalTransform m).2 pTransform
        = matrixAt mem pTransform := by
  obtain ⟨-, e2, e3, -⟩ := stTransformAt_spec kA3DTransformationMirror pTransformation mem
    pTransform pLocalTransform m h1 h2 h3
  have est : ∀ T L : PTTransformMatrix R,
      stTransform kA3DTransformationMirror pTransformation T L
        = (Status.A3D_SUCCESS,
            MultiplyMatrix T (localMatrix kA3DTransformationMirror pTransformation.data)) := by
    intro T L
    simp only [stTransform, hs, if_true]
  refine ⟨⟨rfl, rfl, rfl⟩, ⟨rfl, rfl, rfl⟩, ?_, ?_, ⟨rfl, rfl, rfl⟩, ⟨rfl, rfl, rfl, rfl⟩,
    est _ _, ?_, e3⟩
  · intro hf
    simp [localMatrix, hf]
  · intro hf
    simp [localMatrix, hf]
  · rw [e2, est]

/-- Witness for C27: origin `(1, 2, 3)`, unit axes `X` and `Y`, scale `(2, 3, 4)` and the
mirror bit set; the parent is `shearAt4`, stored in the cells 0..15, `localTransform` is
at 16 and the local array at 32. The product has `-4` at index 10 and the parent's cell
4 still holds `1`. -/
theorem stTransform_builds_local_matrix_witness :
    (stTransform 4 (scaledPlacement 4) shearAt4 shearAt4
        = (Status.A3D_SUCCESS, MultiplyMatrix shearAt4 (localMatrix 4 (scaledPlacement 4).data))
      ∧ matrixAt (stTransformAt 4 (scaledPlacement 4) shearMemory 0 16 32).2 16
        = MultiplyMatrix (matrixAt shearMemory 0) (localMatrix 4 (scaledPlacement 4).data)
      ∧ matrixAt (stTransformAt 4 (scaledPlacement 4) shearMemory 0 16 32).2 0
        = matrixAt shearMemory 0)
    ∧ (localMatrix 4 (scaledPlacement 4).data).d10 = -4
    ∧ matrixAt shearMemory 0 = shearAt4
    ∧ (stTransform 4 (scaledPlacement 4) shearAt4 shearAt4).2
        = { d0 := 2, d1 := 0, d2 := 0, d3 := 0, d4 := 3, d5 := 3, d6 := 0, d7 := 0,
            d8 := 0, d9 := 0, d10 := -4, d11 := 0, d12 := 3, d13 := 2, d14 := 3, d15 := 1 } :=
  ⟨(stTransform_builds_local_matrix 4 (scaledPlacement 4) shearAt4 shearAt4 shearMemory 0 16 32
      rfl (by decide) (by decide) (by decide)).2.2.2.2.2.2, by decide, by decide, by decide⟩

/-! ## The engine calls of one leaf visit -/

/-- The loop over the faces makes group calls only. -/
theorem groupFaces_calls {R : Type} (m_iTopoFaceCount : Int) (uFaceSize : Nat)
    (groups : List Handle) (logging_function : A3D_log_func) :
    ∀ (faces : List (Handle × Int)) (s : BridgeState R)
      (r : Status × Option (List Handle) × BridgeState R),
      groupFaces m_iTopoFaceCount uFaceSize groups logging_function faces s = some r →
      ∃ cs : List (EngineCall R), r.2.2.engineCalls = s.engineCalls ++ cs
        ∧ ∀ c ∈ cs, c.isGroupCall = true := by
  intro faces
  induction faces with
  | nil =>
    intro s r h
    simp only [groupFaces, Option.some.injEq] at h
    subst h
    exact ⟨[], (List.append_nil _).symm, fun c hc => (by cases hc)⟩
  | cons f faces ih =>
    intro s r h
    obtain ⟨face, app_surface_index⟩ := f
    simp only [groupFaces] at h
    split at h
    · cases logging_function with
      | nullptr => simp at h
      | callback =>
        simp only [Option.some.injEq] at h
        subst h
        refine ⟨_, rfl, ?_⟩
        intro c hc
        obtain ⟨t, -, rfl⟩ := List.mem_map.1 hc
        rfl
    · obtain ⟨cs, e, hcs⟩ := ih _ r h
      refine ⟨EngineCall.PFEntityGroupAddEntity
        (groups.getD (app_surface_index - m_iTopoFaceCount).toNat 0) face :: cs, ?_, ?_⟩
      · rw [e]
        simp [BridgeState.call]
      · intro c hc
        rcases List.mem_cons.1 hc with rfl | hc'
        · rfl
        · exact hcs c hc'

/-- The calls of the solid builder for a B-rep item: the mesh builder is called once, with
the mesh of the tessellation at the running face count, and group calls follow when the
mesh builder succeeds. The running face count grows by the face count of the tessellation
exactly when the mesh builder succeeds, and a failure of the mesh builder is returned as
`A3D_SUCCESS` with the aggregate as it was. -/
theorem A3DRiRepresentationItemCreatePTSolid_calls {R : Type} (K : TessFlagValues)
    (pRepItem : Handle) (poly : Bool) (leaf : Leaf R) (solid : Handle) (s : BridgeState R)
    (logging_function : A3D_log_func) (r : Status × Handle × BridgeState R)
    (h : A3DRiRepresentationItemCreatePTSolid K (RepItem.brep pRepItem poly leaf) solid s
      logging_function = some r) :
    (∃ cs : List (EngineCall R),
      r.2.2.engineCalls
        = s.engineCalls ++ meshCall K leaf s.pgOpts.m_iTopoFaceCount :: cs
      ∧ (∀ c ∈ cs, c.isGroupCall = true)
      ∧ (leaf.mesh.status ≠ PTStatus.PV_STATUS_OK → cs = []))
    ∧ r.2.2.pgOpts.m_iTopoFaceCount
        = s.pgOpts.m_iTopoFaceCount
          + (if leaf.mesh.status = PTStatus.PV_STATUS_OK then
              ((u32 leaf.sTessData.m_uiFaceTessSize : Nat) : Int) else 0)
    ∧ (leaf.mesh.status ≠ PTStatus.PV_STATUS_OK →
        r.1 = Status.A3D_SUCCESS ∧ r.2.2.pgOpts = s.pgOpts) := by
  simp only [A3DRiRepresentationItemCreatePTSolid] at h
  split at h
  · rename_i hok
    split at h
    · simp at h
    · rename_i _ iRet groups opts hres
      simp only [Option.some.injEq] at h
      subst h
      obtain ⟨cs, e, hcs⟩ := groupFaces_calls _ _ _ _ _ _ _ hres
      obtain ⟨hp, -, -⟩ := groupFaces_frame _ _ _ _ _ _ _ hres
      have hp' : opts.pgOpts = s.pgOpts := hp
      refine ⟨⟨(List.map EngineCall.PFEntityGroupCreate
        (List.map leaf.mesh.group
          (List.range
            (if u32 leaf.sTessData.m_uiFaceTessSize < 2147483648 then
              u32 leaf.sTessData.m_uiFaceTessSize else 0)))) ++ cs, ?_, ?_, ?_⟩, ?_, ?_⟩
      · show opts.engineCalls = _
        have e' : opts.engineCalls = _ := e
        rw [e']
        simp [BridgeState.call, BridgeState.calls, meshCall, meshBuffers]
      · intro c hc
        rcases List.mem_append.1 hc with hc' | hc'
        · obtain ⟨t, -, rfl⟩ := List.mem_map.1 hc'
          rfl
        · exact hcs c hc'
      · intro hne
        exact absurd hok hne
      · show opts.pgOpts.m_iTopoFaceCount + _ = _
        rw [hp', if_pos hok]
      · intro hne
        exact absurd hok hne
  · rename_i hne
    simp only [Option.some.injEq] at h
    subst h
    refine ⟨⟨[], ?_, fun c hc => (by cases hc), fun _ => rfl⟩, ?_, fun _ => ⟨rfl, rfl⟩⟩
    · simp [BridgeState.call, meshCall, meshBuffers]
    · show s.pgOpts.m_iTopoFaceCount = _
      rw [if_neg hne, Int.add_zero]

/-- The calls of the placement step. -/
theorem placeSolid_calls {R : Type} (leaf : Leaf R) (assemblyPath : List Handle)
    (localTransform : PTTransformMatrix R) (solid : Handle) (s : BridgeState R) :
    (placeSolid leaf assemblyPath localTransform solid s).engineCalls
      = s.engineCalls ++ placementCalls leaf localTransform solid s.pgOpts.m_style_palette := by
  by_cases hs : leaf.placement.status = PTStatus.PV_STATUS_OK
  · simp only [placeSolid, if_pos hs, placementCalls, BridgeState.call,
      LookupRenderStyleByColor]
    cases hl : s.pgOpts.m_style_palette.lookup (paletteIndex leaf.r leaf.g leaf.b) with
    | none => simp [BridgeState.call]
    | some style => simp
  · simp only [placeSolid, if_neg hs, placementCalls, BridgeState.call]

/-- The placement step leaves the running face count alone. -/
theorem placeSolid_count {R : Type} (leaf : Leaf R) (assemblyPath : List Handle)
    (localTransform : PTTransformMatrix R) (solid : Handle) (s : BridgeState R) :
    (placeSolid leaf assemblyPath localTransform solid s).pgOpts.m_iTopoFaceCount
      = s.pgOpts.m_iTopoFaceCount := by
  by_cases hs : leaf.placement.status = PTStatus.PV_STATUS_OK
  · simp only [placeSolid, if_pos hs, LookupRenderStyleByColor_pgOpts, BridgeState.call]
  · simp only [placeSolid, if_neg hs, BridgeState.call]

theorem MultiplyMatrix_identity {R : Type} [Ring R] (T : PTTransformMatrix R) :
    MultiplyMatrix T (PTTransformMatrix.identity R) = T := by
  ext <;> simp [MultiplyMatrix, PTTransformMatrix.identity]

theorem identity_MultiplyMatrix {R : Type} [Ring R] (T : PTTransformMatrix R) :
    MultiplyMatrix (PTTransformMatrix.identity R) T = T := by
  ext <;> simp [MultiplyMatrix, PTTransformMatrix.identity]

/-- The matrix `locate` leaves in `localTransform` is the incoming matrix times the
contribution of the location. -/
theorem locate_snd {R : Type} [Ring R] (C : SdkConstants) (iRet : Status)
    (m_pLocation : Option (Location R)) (transform : PTTransformMatrix R) :
    (locate C iRet m_pLocation transform).2
      = MultiplyMatrix transform (contributionOf C m_pLocation) := by
  cases m_pLocation with
  | none => simp only [locate, contributionOf, MultiplyMatrix_identity]
  | some l =>
    cases l with
    | kA3DTypeMiscCartesianTransformation typeStatus t =>
      by_cases hs : t.getStatus = Status.A3D_SUCCESS
      · simp only [locate, contributionOf, stTransform, hs, if_true]
      · simp only [locate, contributionOf, stTransform, hs, if_false, MultiplyMatrix_identity]
    | kA3DTypeMiscGeneralTransformation typeStatus =>
      simp only [locate, contributionOf, MultiplyMatrix_identity]
    | unknown typeStatus eType => simp only [locate, contributionOf, MultiplyMatrix_identity]

theorem Hop.transform_eq {R : Type} [Ring R] (C : SdkConstants)
    (transform : PTTransformMatrix R) (hop : Hop R) :
    Hop.transform C transform hop = orderedProduct transform (hop.contributions C) := by
  cases hop with
  | occurrence p l => simp only [Hop.transform, Hop.contributions, orderedProduct, locate_snd,
      List.foldl_cons, List.foldl_nil]
  | link p l => simp only [Hop.transform, Hop.contributions, orderedProduct, locate_snd,
      List.foldl_cons, List.foldl_nil]
  | part p => rfl
  | set p => rfl

/-- The transform at the end of a route is the ordered product of the contributions of
its nodes. -/
theorem transformAlong_eq {R : Type} [Ring R] (C : SdkConstants) (route : List (Hop R)) :
    ∀ transform : PTTransformMatrix R,
      transformAlong C route transform
        = orderedProduct transform (route.flatMap (Hop.contributions C)) := by
  induction route with
  | nil => intro transform; rfl
  | cons hop route ih =>
    intro transform
    have h := ih (Hop.transform C transform hop)
    simp only [transformAlong, List.foldl_cons] at h ⊢
    rw [h, Hop.transform_eq]
    simp only [orderedProduct, List.flatMap_cons, List.foldl_append]

/-- The matrix the leaf case of `traverseRepItem` hands to `PFWorldEntitySetTransform`. -/
theorem leaf_localTransform {R : Type} [Ring R] (C : SdkConstants)
    (m_pCoordinateSystem : Option (CoordinateSystem R)) (getStatus : Status)
    (transform : PTTransformMatrix R) :
    (match m_pCoordinateSystem with
      | some sCoordSysData =>
        stTransform C.kA3DTransformationMirror sCoordSysData.m_pTransformation transform
          transform
      | none => (getStatus, transform)).2
      = orderedProduct transform
          (match m_pCoordinateSystem with
            | some sCoordSysData =>
              if sCoordSysData.m_pTransformation.getStatus = Status.A3D_SUCCESS then
                [localMatrix C.kA3DTransformationMirror sCoordSysData.m_pTransformation.data]
              else []
            | none => []) := by
  cases m_pCoordinateSystem with
  | none => rfl
  | some cs =>
    by_cases hs : cs.m_pTransformation.getStatus = Status.A3D_SUCCESS
    · simp only [orderedProduct, stTransform, hs, if_true, List.foldl_cons, List.foldl_nil]
    · simp only [orderedProduct, stTransform, hs, if_false, List.foldl_nil]

/-- The leaf case of `traverseRepItem` for an item found in the identity map. -/
theorem traverseLeaf_of_found {R : Type} [Ring R] (C : SdkConstants) (pRepItem : Handle)
    (poly : Bool) (leaf : Leaf R) (assemblyPath : List Handle)
    (transform : PTTransformMatrix R) (s : BridgeState R) (solid : Handle)
    (hl : s.pgOpts.m_parts.lookup pRepItem = some solid) :
    (traverseLeaf C pRepItem poly leaf assemblyPath transform s).map Prod.snd
      = some (placeSolid leaf assemblyPath (orderedProduct transform (leaf.contributions C))
          solid s) := by
  simp only [traverseLeaf, hl, Option.map_some']
  exact congrArg (fun T => some (placeSolid leaf assemblyPath T solid s))
    (leaf_localTransform C leaf.m_pCoordinateSystem leaf.getStatus transform)

/-- The leaf case of `traverseRepItem` for an item not in the identity map. -/
theorem traverseLeaf_of_new {R : Type} [Ring R] (C : SdkConstants) (pRepItem : Handle)
    (poly : Bool) (leaf : Leaf R) (assemblyPath : List Handle)
    (transform : PTTransformMatrix R) (s : BridgeState R)
    (hl : s.pgOpts.m_parts.lookup pRepItem = none) :
    traverseLeaf C pRepItem poly leaf assemblyPath transform s
      = (A3DRiRepresentationItemCreatePTSolid C.tess (RepItem.brep pRepItem poly leaf) 0 s
          A3D_log_func.nullptr).map fun built =>
        (built.1,
          placeSolid leaf assemblyPath (orderedProduct transform (leaf.contributions C))
            built.2.1
            { built.2.2 with
              pgOpts := { built.2.2.pgOpts with
                m_parts := mapInsert built.2.2.pgOpts.m_parts pRepItem built.2.1 } }) := by
  simp only [traverseLeaf, hl]
  have e := leaf_localTransform C leaf.m_pCoordinateSystem leaf.getStatus transform
  cases A3DRiRepresentationItemCreatePTSolid C.tess (RepItem.brep pRepItem poly leaf) 0 s
      A3D_log_func.nullptr with
  | none => rfl
  | some built =>
    obtain ⟨iRet, solid, s1⟩ := built
    simp only [Option.map_some']
    exact congrArg (fun T => some (iRet, placeSolid leaf assemblyPath T solid _)) e

/-- The engine calls of one leaf visit that returns: those of the solid builder when the
item is not in the identity map, then those of the placement step, with the transform of
the leaf; and the running face count after the visit. -/
theorem traverseLeaf_calls {R : Type} [Ring R] (C : SdkConstants) (pRepItem : Handle)
    (poly : Bool) (leaf : Leaf R) (assemblyPath : List Handle)
    (transform : PTTransformMatrix R) (s : BridgeState R) (r : Status × BridgeState R)
    (h : traverseLeaf C pRepItem poly leaf assemblyPath transform s = some r) :
    ∃ (pre : List (EngineCall R)) (solid : Handle),
      r.2.engineCalls = s.engineCalls ++ pre
        ++ placementCalls leaf (orderedProduct transform (leaf.contributions C)) solid
            s.pgOpts.m_style_palette
      ∧ (∀ c ∈ pre, c.isGroupCall = true ∨ c = meshCall C.tess leaf s.pgOpts.m_iTopoFaceCount)
      ∧ ((s.pgOpts.m_parts.lookup pRepItem).isSome = true → pre = [])
      ∧ r.2.pgOpts.m_iTopoFaceCount
        = s.pgOpts.m_iTopoFaceCount
          + (if (s.pgOpts.m_parts.lookup pRepItem).isSome = false
                ∧ leaf.mesh.status = PTStatus.PV_STATUS_OK then
              ((u32 leaf.sTessData.m_uiFaceTessSize : Nat) : Int) else 0) := by
  cases hl : s.pgOpts.m_parts.lookup pRepItem with
  | some solid =>
    have e := traverseLeaf_of_found C pRepItem poly leaf assemblyPath transform s solid hl
    rw [h, Option.map_some', Option.some.injEq] at e
    rw [e]
    refine ⟨[], solid, ?_, fun c hc => (by cases hc), fun _ => rfl, ?_⟩
    · rw [List.append_nil]; exact placeSolid_calls _ _ _ _ _
    · simp only [placeSolid_count, Option.isSome_some, Bool.true_eq_false, false_and, if_false,
        Int.add_zero]
  | none =>
    rw [traverseLeaf_of_new C pRepItem poly leaf assemblyPath transform s hl] at h
    cases hb : A3DRiRepresentationItemCreatePTSolid C.tess (RepItem.brep pRepItem poly leaf) 0 s
        A3D_log_func.nullptr with
    | none => simp [hb] at h
    | some built =>
      obtain ⟨iRet, solid, s1⟩ := built
      simp only [hb, Option.map_some', Option.some.injEq] at h
      subst h
      obtain ⟨⟨cs, e, hcs, -⟩, hcount, -⟩ :=
        A3DRiRepresentationItemCreatePTSolid_calls _ _ _ _ _ _ _ _ hb
      obtain ⟨-, -, -, b4, -, -, -⟩ :=
        A3DRiRepresentationItemCreatePTSolid_frame _ _ _ _ _ _ _ _ hb
      have e' : s1.engineCalls = _ := e
      have b4' : s1.pgOpts.m_style_palette = s.pgOpts.m_style_palette := b4
      have hcount' : s1.pgOpts.m_iTopoFaceCount = _ := hcount
      refine ⟨meshCall C.tess leaf s.pgOpts.m_iTopoFaceCount :: cs, solid, ?_, ?_, ?_, ?_⟩
      · refine Eq.trans (placeSolid_calls _ _ _ _ _) ?_
        show s1.engineCalls ++ placementCalls _ _ _ s1.pgOpts.m_style_palette = _
        rw [e', b4', List.append_assoc]
      · intro c hc
        rcases List.mem_cons.1 hc with rfl | hc'
        · exact Or.inr rfl
        · exact Or.inl (hcs c hc')
      · intro hsome
        simp at hsome
      · refine Eq.trans (placeSolid_count _ _ _ _ _) ?_
        show s1.pgOpts.m_iTopoFaceCount = _
        rw [hcount']
        simp

theorem transformsSet_placementCalls {R : Type} (leaf : Leaf R)
    (localTransform : PTTransformMatrix R) (solid : Handle)
    (m_style_palette : List (Nat × Handle)) :
    (placementCalls leaf localTransform solid m_style_palette).filterMap
        EngineCall.transformSet
      = if leaf.placement.status = PTStatus.PV_STATUS_OK then
          [(leaf.placement.worldEntity, localTransform)] else [] := by
  by_cases hs : leaf.placement.status = PTStatus.PV_STATUS_OK
  · simp only [placementCalls, if_pos hs]
    cases m_style_palette.lookup (paletteIndex leaf.r leaf.g leaf.b) <;>
      simp [EngineCall.transformSet]
  · simp [placementCalls, if_neg hs, EngineCall.transformSet]

/-- The transform one leaf visit sets: none when the engine refuses the world entity, else
the ordered product of the incoming matrix and the contribution of the leaf. -/
theorem traverseLeaf_transformsSet {R : Type} [Ring R] (C : SdkConstants) (pRepItem : Handle)
    (poly : Bool) (leaf : Leaf R) (assemblyPath : List Handle)
    (transform : PTTransformMatrix R) (s : BridgeState R) (r : Status × BridgeState R)
    (h : traverseLeaf C pRepItem poly leaf assemblyPath transform s = some r) :
    r.2.transformsSet = s.transformsSet
      ++ (if leaf.placement.status = PTStatus.PV_STATUS_OK then
          [(leaf.placement.worldEntity, orderedProduct transform (leaf.contributions C))]
          else []) := by
  obtain ⟨pre, solid, e, hpre, -, -⟩ := traverseLeaf_calls C _ _ _ _ _ _ _ h
  have hnone : pre.filterMap EngineCall.transformSet = [] := by
    rw [List.filterMap_eq_nil_iff]
    intro c hc
    rcases hpre c hc with hg | rfl
    · cases c <;> first | rfl | cases hg
    · rfl
  simp only [BridgeState.transformsSet, e, List.filterMap_append, hnone, List.append_nil,
    transformsSet_placementCalls]

/-- The transforms a sequence of leaf visits sets: one per placed visit, in order, each
the transform described for its route and leaf. -/
theorem runVisits_transformsSet {R : Type} [Ring R] (C : SdkConstants)
    (assemblyPath : List Handle) (transform : PTTransformMatrix R) (vs : List (LeafVisit R)) :
    ∀ (s r : BridgeState R), runVisits C assemblyPath transform vs s = some r →
      r.transformsSet = s.transformsSet
        ++ (placedVisits vs).map fun v =>
            (v.leaf.placement.worldEntity, v.describedTransform C transform) := by
  induction vs with
  | nil =>
    intro s r h
    simp only [runVisits, Option.some.injEq] at h
    subst h
    simp [placedVisits]
  | cons v vs ih =>
    intro s r h
    simp only [runVisits] at h
    cases hl : traverseLeaf C v.pRepItem v.poly v.leaf (assemblyPath ++ chainOf v.route)
        (transformAlong C v.route transform) s with
    | none => simp [hl] at h
    | some r1 =>
      simp only [hl] at h
      rw [ih r1.2 r h, traverseLeaf_transformsSet C _ _ _ _ _ _ _ hl, List.append_assoc]
      congr 1
      rw [placedVisits_cons, transformAlong_eq]
      have hd : orderedProduct (orderedProduct transform (v.route.flatMap (Hop.contributions C)))
          (v.leaf.contributions C) = v.describedTransform C transform := by
        simp only [LeafVisit.describedTransform, orderedProduct, List.foldl_append]
      rw [hd]
      split <;> simp

/-! ## C28: the transform of a placed world instance -/

/-- C28: when `A3DModelCreatePGWorld` returns, `PFWorldEntitySetTransform` has been called
once for every world instance placed, in the order of the instance list, and the matrix
handed over is the ordered product, by `MultiplyMatrix` and root first, of the matrix the
traversal starts with (the one `PMInitTransformMatrix` writes), of the contributions of
all occurrences on the route of the visit, entered as root, child, prototype or external
data alike, and of the local matrix of the leaf's coordinate system when it has one: an
occurrence contributes the local matrix of its cartesian location and the identity when
it has no location or its location is not cartesian (`contributionOf`). Started from the
identity, the product is that of the contributions alone. The transform of a visit is a
function of its own route and leaf: nothing an earlier visit or a sibling subtree did
enters it, since every node multiplies into a matrix of its own and reads its parent's
only (see `stTransformAt_spec` for the cells `stTransform` writes). -/
theorem placed_transform_is_route_product {R : Type} [Ring R] (C : SdkConstants)
    (pModelFile : ModelFile R) (transform : PTTransformMatrix R) (s : BridgeState R)
    (r : Status × BridgeState R × List Handle)
    (h : A3DModelCreatePGWorld C pModelFile transform s = some r) :
    r.2.1.transformsSet
      = s.transformsSet
        ++ (placedVisits pModelFile.visits).map (fun v =>
            (v.leaf.placement.worldEntity,
              orderedProduct transform
                (v.route.flatMap (Hop.contributions C) ++ v.leaf.contributions C)))
    ∧ r.2.1.pgOpts.m_entities
      = s.pgOpts.m_entities
        ++ (placedVisits pModelFile.visits).map (fun v => v.leaf.placement.worldEntity)
    ∧ (∀ (L : PTTransformMatrix R) (Ls : List (PTTransformMatrix R)),
        orderedProduct (PTTransformMatrix.identity R) (L :: Ls) = orderedProduct L Ls)
    ∧ (∀ (T L : PTTransformMatrix R) (Ls : List (PTTransformMatrix R)),
        orderedProduct T (Ls ++ [L]) = MultiplyMatrix (orderedProduct T Ls) L) := by
  have hs := A3DModelCreatePGWorld_state C pModelFile transform s
  rw [h] at hs
  have ht := runVisits_transformsSet C [] transform pModelFile.visits s r.2.1 hs.symm
  obtain ⟨-, he, -⟩ := A3DModelCreatePGWorld_effect C pModelFile transform s r h
  refine ⟨ht, he, ?_, ?_⟩
  · intro L Ls
    simp only [orderedProduct, List.foldl_cons, identity_MultiplyMatrix]
  · intro T L Ls
    simp only [orderedProduct, List.foldl_append, List.foldl_cons, List.foldl_nil]

/-- Witness for C28: the root occurrence `1` has a cartesian location (scale `(2, 3, 4)`,
origin `(1, 2, 3)`), its prototype `3` a general location, and the leaf a coordinate
system with the same data and the mirror bit set. The world entity `801` gets the product
of the first local matrix, the identity and the second local matrix. -/
theorem placed_transform_is_route_product_witness :
    A3DModelCreatePGWorld sdkConstants locatedModel (PTTransformMatrix.identity ℤ)
        (BridgeState.fresh ℤ 1 2) = some locatedModelResult
    ∧ locatedModelResult.2.1.transformsSet
      = (BridgeState.fresh ℤ 1 2).transformsSet
        ++ (placedVisits locatedModel.visits).map (fun v =>
            (v.leaf.placement.worldEntity,
              orderedProduct (PTTransformMatrix.identity ℤ)
                (v.route.flatMap (Hop.contributions sdkConstants)
                  ++ v.leaf.contributions sdkConstants)))
    ∧ (locatedModel.visits.map (fun v =>
          v.route.flatMap (Hop.contributions sdkConstants)
            ++ v.leaf.contributions sdkConstants))
      = [[localMatrix 4 (scaledPlacement 0).data, PTTransformMatrix.identity ℤ,
          localMatrix 4 (scaledPlacement 4).data]]
    ∧ locatedModelResult.2.1.transformsSet
      = [(801, { d0 := 4, d1 := 0, d2 := 0, d3 := 0, d4 := 0, d5 := 9, d6 := 0, d7 := 0,
                 d8 := 0, d9 := 0, d10 := -16, d11 := 0, d12 := 3, d13 := 8, d14 := 15,
                 d15 := 1 })] :=
  ⟨by decide!,
    (placed_transform_is_route_product sdkConstants locatedModel
      (PTTransformMatrix.identity ℤ) (BridgeState.fresh ℤ 1 2) locatedModelResult
      (by decide!)).1,
    by decide!, by decide!⟩

/-! ## The decoder appends whole triangles -/

theorem forLoop_mod3 (body : Nat → DecodeState → DecodeState)
    (h : ∀ (i : Nat) (s : DecodeState),
      (body i s).auIndices.length % 3 = s.auIndices.length % 3) (n i : Nat)
    (s : DecodeState) :
    (forLoop body i n s).auIndices.length % 3 = s.auIndices.length % 3 :=
  forLoop_invariant (fun t => t.auIndices.length % 3 = s.auIndices.length % 3) body
    (fun i t ht => (h i t).trans ht) n i s rfl

theorem triangleBody_mod3 (buf : Nat → Nat) (s : DecodeState) :
    (triangleBody buf s).auIndices.length % 3 = s.auIndices.length % 3 := by
  rw [triangleBody_eq]
  simp [length_plainTriangles]

theorem fanBody_mod3 (f : A3DTessFaceData) (buf : Nat → Nat) (s : DecodeState) :
    (fanBody f buf s).auIndices.length % 3 = s.auIndices.length % 3 := by
  rw [fanBody_eq]
  simp [length_fanTriangles]

theorem stripeBody_mod3 (f : A3DTessFaceData) (buf : Nat → Nat) (s : DecodeState) :
    (stripeBody f buf s).auIndices.length % 3 = s.auIndices.length % 3 := by
  rw [stripeBody_eq]
  simp [length_stripeTriangles]

theorem triangleOneNormalBody_mod3 (buf : Nat → Nat) (s : DecodeState) :
    (triangleOneNormalBody buf s).auIndices.length % 3 = s.auIndices.length % 3 := by
  rw [triangleOneNormalBody_eq]
  simp [length_plainTriangles]

theorem fanOneNormalBody_mod3 (K : TessFlagValues) (f : A3DTessFaceData) (buf : Nat → Nat)
    (s : DecodeState) :
    (fanOneNormalBody K f buf s).auIndices.length % 3 = s.auIndices.length % 3 := by
  rw [fanOneNormalBody_eq]
  simp [length_fanTriangles]

theorem stripeOneNormalBody_mod3 (K : TessFlagValues) (f : A3DTessFaceData)
    (buf : Nat → Nat) (s : DecodeState) :
    (stripeOneNormalBody K f buf s).auIndices.length % 3 = s.auIndices.length % 3 := by
  rw [stripeOneNormalBody_eq]
  simp [length_stripeTriangles]

theorem triangleTexturedBody_mod3 (f : A3DTessFaceData) (buf : Nat → Nat)
    (s : DecodeState) :
    (triangleTexturedBody f buf s).auIndices.length % 3 = s.auIndices.length % 3 := by
  simp [triangleTexturedBody, forLoop, triangleTexturedCorner, DecodeState.copyNormal,
    DecodeState.copyIndex, DecodeState.advance, COPY__one]

theorem strip_nextSize_auIndices (s : DecodeState) (k : Nat) :
    (s.strip k).nextSize.auIndices = s.auIndices := by
  simp [DecodeState.strip, DecodeState.nextSize]

theorem decodeBlocks_mod3 (K : TessFlagValues) (f : A3DTessFaceData) (buf : Nat → Nat)
    (s : DecodeState) :
    (decodeBlocks K f buf s).auIndices.length % 3 = s.auIndices.length % 3 := by
  have h1 : ∀ t, (triangleBlock K f buf t).auIndices.length % 3 = t.auIndices.length % 3 := by
    intro t
    unfold triangleBlock
    split
    · simp only
      rw [forLoop_mod3 _ (fun _ u => triangleBody_mod3 buf u), strip_nextSize_auIndices]
    · rfl
  have h2 : ∀ t, (fanBlock K f buf t).auIndices.length % 3 = t.auIndices.length % 3 := by
    intro t
    unfold fanBlock
    split
    · simp only
      rw [forLoop_mod3 _ (fun _ u => fanBody_mod3 f buf u), strip_nextSize_auIndices]
    · rfl
  have h3 : ∀ t, (stripeBlock K f buf t).auIndices.length % 3 = t.auIndices.length % 3 := by
    intro t
    unfold stripeBlock
    split
    · simp only
      rw [forLoop_mod3 _ (fun _ u => stripeBody_mod3 f buf u), strip_nextSize_auIndices]
    · rfl
  have h4 : ∀ t, (triangleOneNormalBlock K f buf t).auIndices.length % 3
      = t.auIndices.length % 3 := by
    intro t
    unfold triangleOneNormalBlock
    split
    · simp only
      rw [forLoop_mod3 _ (fun _ u => triangleOneNormalBody_mod3 buf u),
        strip_nextSize_auIndices]
    · rfl
  have h5 : ∀ t, (fanOneNormalBlock K f buf t).auIndices.length % 3
      = t.auIndices.length % 3 := by
    intro t
    unfold fanOneNormalBlock
    split
    · simp only
      rw [forLoop_mod3 _ (fun _ u => fanOneNormalBody_mod3 K f buf u),
        strip_nextSize_auIndices]
    · rfl
  have h6 : ∀ t, (stripeOneNormalBlock K f buf t).auIndices.length % 3
      = t.auIndices.length % 3 := by
    intro t
    unfold stripeOneNormalBlock
    split
    · simp only
      rw [forLoop_mod3 _ (fun _ u => stripeOneNormalBody_mod3 K f buf u),
        strip_nextSize_auIndices]
    · rfl
  have h7 : ∀ t, (triangleTexturedBlock K f buf t).auIndices.length % 3
      = t.auIndices.length % 3 := by
    intro t
    unfold triangleTexturedBlock
    split
    · simp only
      rw [forLoop_mod3 _ (fun _ u => triangleTexturedBody_mod3 f buf u),
        strip_nextSize_auIndices]
    · rfl
  unfold decodeBlocks
  simp only
  rw [h7, h6, h5, h4, h3, h2, h1]

/-- Whatever status it returns, the decoder keeps what the vertex-index container held and
appends a whole number of triangles to it. -/
theorem IndicesPerFaceAsTriangles_appends_triangles (K : TessFlagValues) (t : A3DTess3DData)
    (i : Nat) (au : List Nat) (ni : List Int) :
    ∃ a : List Nat, (IndicesPerFaceAsTriangles K t i au ni).2.auIndices = au ++ a
      ∧ a.length % 3 = 0 := by
  obtain ⟨a, n, ha, -, -⟩ := IndicesPerFaceAsTriangles_grows K t i au ni
  have ha' : (IndicesPerFaceAsTriangles K t i au ni).2.auIndices = au ++ a := ha
  refine ⟨a, ha', ?_⟩
  have hm : (IndicesPerFaceAsTriangles K t i au ni).2.auIndices.length % 3
      = au.length % 3 := by
    rw [IndicesPerFaceAsTriangles_snd]
    split
    · rfl
    · rw [decodeBlocks_mod3]
      rfl
  rw [ha', List.length_append] at hm
  omega

/-! ## The provenance tags of the mesh -/

theorem facesDecoded_succ (K : TessFlagValues) (sTessData : A3DTess3DData)
    (m_iTopoFaceCount : Int) (n : Nat) :
    facesDecoded K sTessData m_iTopoFaceCount (n + 1)
      = decodeFace K sTessData m_iTopoFaceCount n
          (facesDecoded K sTessData m_iTopoFaceCount n) := by
  simp only [facesDecoded, forLoop_succ_last, Nat.zero_add]

theorem meshBuffers_eq_facesDecoded (K : TessFlagValues) (sTessData : A3DTess3DData)
    (m_iTopoFaceCount : Int) :
    meshBuffers K sTessData m_iTopoFaceCount
      = facesDecoded K sTessData m_iTopoFaceCount (u32 sTessData.m_uiFaceTessSize) :=
  rfl

/-- After `n` faces the tag vector has one entry per decoded triangle, the triangles
decoded from the face `f` carry the tag `m_iTopoFaceCount + f`, and every tag lies in
the range of the `n` faces. -/
theorem facesDecoded_tags (K : TessFlagValues) (sTessData : A3DTess3DData)
    (m_iTopoFaceCount : Int) (n : Nat) :
    (facesDecoded K sTessData m_iTopoFaceCount n).auIndices.length
        = 3 * (facesDecoded K sTessData m_iTopoFaceCount n).faceAppSurface.length
    ∧ (∀ f j, f < n →
        (facesDecoded K sTessData m_iTopoFaceCount f).auIndices.length ≤ 3 * j →
        3 * j < (facesDecoded K sTessData m_iTopoFaceCount (f + 1)).auIndices.length →
        (facesDecoded K sTessData m_iTopoFaceCount n).faceAppSurface[j]?
          = some (m_iTopoFaceCount + (f : Int)))
    ∧ (∀ tag ∈ (facesDecoded K sTessData m_iTopoFaceCount n).faceAppSurface,
        m_iTopoFaceCount ≤ tag ∧ tag < m_iTopoFaceCount + (n : Int)) := by
  induction n with
  | zero =>
    refine ⟨rfl, fun f j hf => absurd hf (Nat.not_lt_zero f), fun tag ht => ?_⟩
    simp [facesDecoded, forLoop] at ht
  | succ n ih =>
    obtain ⟨ia, ib, ic⟩ := ih
    obtain ⟨a, ha, hm⟩ := IndicesPerFaceAsTriangles_appends_triangles K sTessData n
      (facesDecoded K sTessData m_iTopoFaceCount n).auIndices
      (facesDecoded K sTessData m_iTopoFaceCount n).normal_indices
    have hau : (facesDecoded K sTessData m_iTopoFaceCount (n + 1)).auIndices
        = (facesDecoded K sTessData m_iTopoFaceCount n).auIndices ++ a := by
      rw [facesDecoded_succ]
      exact ha
    have hcnt : ((facesDecoded K sTessData m_iTopoFaceCount n).auIndices ++ a).length / 3
        - (facesDecoded K sTessData m_iTopoFaceCount n).faceAppSurface.length
        = a.length / 3 := by
      rw [List.length_append, ia]
      omega
    have hfas : (facesDecoded K sTessData m_iTopoFaceCount (n + 1)).faceAppSurface
        = (facesDecoded K sTessData m_iTopoFaceCount n).faceAppSurface
          ++ List.replicate (a.length / 3) (m_iTopoFaceCount + (n : Int)) := by
      rw [facesDecoded_succ]
      simp only [decodeFace]
      rw [ha, hcnt]
    refine ⟨?_, ?_, ?_⟩
    · rw [hau, hfas, List.length_append, List.length_append, List.length_replicate, ia]
      omega
    · intro f j hf h1 h2
      rw [hfas]
      by_cases hfn : f < n
      · have hj := ib f j hfn h1 h2
        have hlt : j < (facesDecoded K sTessData m_iTopoFaceCount n).faceAppSurface.length := by
          by_contra hnot
          rw [List.getElem?_eq_none (by omega)] at hj
          cases hj
        rw [List.getElem?_append_left hlt]
        exact hj
      · have hfe : f = n := by omega
        subst hfe
        rw [ia] at h1
        rw [hau, List.length_append, ia] at h2
        rw [List.getElem?_append_right (by omega), List.getElem?_replicate,
          if_pos (by omega)]
    · intro tag ht
      rw [hfas, List.mem_append] at ht
      rcases ht with ht | ht
      · obtain ⟨h1, h2⟩ := ic tag ht
        refine ⟨h1, ?_⟩
        push_cast
        omega
      · rw [List.eq_of_mem_replicate ht]
        refine ⟨?_, ?_⟩
        · omega
        · push_cast
          omega

theorem meshes_append_group_calls {R : Type} (s : BridgeState R) (r : BridgeState R)
    (nTriangles : Nat) (indices : List Nat) (normal_indices : List Int)
    (app_surfaces : List Int) (status : PTStatus) (solid : Handle) (cs : List (EngineCall R))
    (e : r.engineCalls = s.engineCalls
      ++ EngineCall.PFSolidCreateFromMesh nTriangles indices normal_indices app_surfaces status
          solid :: cs)
    (hcs : ∀ c ∈ cs, c.isGroupCall = true) :
    r.meshes = s.meshes ++ [(nTriangles, indices, normal_indices, app_surfaces)] := by
  have hnone : (BridgeState.mk s.pgOpts cs).meshes = [] := by
    unfold BridgeState.meshes
    rw [List.filterMap_eq_nil_iff]
    intro c hc
    have hg := hcs c hc
    cases c <;> first | rfl | cases hg
  unfold BridgeState.meshes at hnone ⊢
  rw [e, List.filterMap_append, List.filterMap_cons]
  simp only at hnone ⊢
  rw [hnone]

/-- The running face count after one leaf visit that returns is not below the count
before. -/
theorem traverseLeaf_count_le {R : Type} [Ring R] (C : SdkConstants) (pRepItem : Handle)
    (poly : Bool) (leaf : Leaf R) (assemblyPath : List Handle)
    (transform : PTTransformMatrix R) (s : BridgeState R) (r : Status × BridgeState R)
    (h : traverseLeaf C pRepItem poly leaf assemblyPath transform s = some r) :
    s.pgOpts.m_iTopoFaceCount ≤ r.2.pgOpts.m_iTopoFaceCount := by
  obtain ⟨pre, solid, -, -, -, hc⟩ := traverseLeaf_calls C _ _ _ _ _ _ _ h
  rw [hc]
  split
  · have : (0 : Int) ≤ ((u32 leaf.sTessData.m_uiFaceTessSize : Nat) : Int) :=
      Int.ofNat_nonneg _
    omega
  · omega

theorem runVisits_count_le {R : Type} [Ring R] (C : SdkConstants)
    (assemblyPath : List Handle) (transform : PTTransformMatrix R) (vs : List (LeafVisit R)) :
    ∀ (s r : BridgeState R), runVisits C assemblyPath transform vs s = some r →
      s.pgOpts.m_iTopoFaceCount ≤ r.pgOpts.m_iTopoFaceCount := by
  induction vs with
  | nil =>
    intro s r h
    simp only [runVisits, Option.some.injEq] at h
    subst h
    exact Int.le_refl _
  | cons v vs ih =>
    intro s r h
    simp only [runVisits] at h
    cases hl : traverseLeaf C v.pRepItem v.poly v.leaf (assemblyPath ++ chainOf v.route)
        (transformAlong C v.route transform) s with
    | none => simp [hl] at h
    | some r1 =>
      simp only [hl] at h
      exact Int.le_trans (traverseLeaf_count_le C _ _ _ _ _ _ _ hl) (ih r1.2 r h)

/-! ## C29: provenance tags and the running face count -/

/-- C29: when `A3DRiRepresentationItemCreatePTSolid` returns for a B-rep item, the mesh
builder was handed one mesh, whose tag list has one entry per triangle (three vertex
indices each); the triangles decoded from the source face `f`, those the iteration `f` of
the loop of lines 559-565 appended, carry the tag `m_iTopoFaceCount + f` with the running
face count at entry, and every tag lies in the range of the leaf's faces. The running
count has grown by the leaf's face count when the mesh builder succeeded and is unchanged
when it failed, so it has not decreased; a traversal by `A3DModelCreatePGWorld` does not
decrease it either, and an item of another type leaves the aggregate as it is. When the
mesh builder succeeded, every tag of this mesh is below every tag of a mesh built at a
running count that is not below the one on return. -/
theorem provenance_tags_follow_face_count {R : Type} [Ring R] (K : TessFlagValues)
    (pRepItem : Handle) (poly : Bool) (leaf : Leaf R) (solid : Handle) (s : BridgeState R)
    (logging_function : A3D_log_func) (r : Status × Handle × BridgeState R)
    (h : A3DRiRepresentationItemCreatePTSolid K (RepItem.brep pRepItem poly leaf) solid s
      logging_function = some r) :
    r.2.2.meshes
      = s.meshes
        ++ [(u32 (((meshBuffers K leaf.sTessData s.pgOpts.m_iTopoFaceCount).auIndices.map
                fun i => i / 3).length / 3),
            (meshBuffers K leaf.sTessData s.pgOpts.m_iTopoFaceCount).auIndices.map
              (fun i => i / 3),
            (meshBuffers K leaf.sTessData s.pgOpts.m_iTopoFaceCount).normal_indices.map
              (fun i => Int.tdiv i 3),
            (meshBuffers K leaf.sTessData s.pgOpts.m_iTopoFaceCount).faceAppSurface)]
    ∧ 3 * (meshBuffers K leaf.sTessData s.pgOpts.m_iTopoFaceCount).faceAppSurface.length
      = ((meshBuffers K leaf.sTessData s.pgOpts.m_iTopoFaceCount).auIndices.map
          (fun i => i / 3)).length
    ∧ (∀ f j, f < u32 leaf.sTessData.m_uiFaceTessSize →
        (facesDecoded K leaf.sTessData s.pgOpts.m_iTopoFaceCount f).auIndices.length ≤ 3 * j →
        3 * j
          < (facesDecoded K leaf.sTessData s.pgOpts.m_iTopoFaceCount (f + 1)).auIndices.length →
        (meshBuffers K leaf.sTessData s.pgOpts.m_iTopoFaceCount).faceAppSurface[j]?
          = some (s.pgOpts.m_iTopoFaceCount + (f : Int)))
    ∧ (∀ f, (facesDecoded K leaf.sTessData s.pgOpts.m_iTopoFaceCount (f + 1)).auIndices
        = (IndicesPerFaceAsTriangles K leaf.sTessData f
            (facesDecoded K leaf.sTessData s.pgOpts.m_iTopoFaceCount f).auIndices
            (facesDecoded K leaf.sTessData s.pgOpts.m_iTopoFaceCount f).normal_indices
          ).2.auIndices)
    ∧ (∀ tag ∈ (meshBuffers K leaf.sTessData s.pgOpts.m_iTopoFaceCount).faceAppSurface,
        s.pgOpts.m_iTopoFaceCount ≤ tag
        ∧ tag < s.pgOpts.m_iTopoFaceCount + ((u32 leaf.sTessData.m_uiFaceTessSize : Nat) : Int))
    ∧ r.2.2.pgOpts.m_iTopoFaceCount
      = s.pgOpts.m_iTopoFaceCount
        + (if leaf.mesh.status = PTStatus.PV_STATUS_OK then
            ((u32 leaf.sTessData.m_uiFaceTessSize : Nat) : Int) else 0)
    ∧ s.pgOpts.m_iTopoFaceCount ≤ r.2.2.pgOpts.m_iTopoFaceCount
    ∧ (leaf.mesh.status = PTStatus.PV_STATUS_OK →
        ∀ (sTessData2 : A3DTess3DData) (m_iTopoFaceCount2 : Int),
          r.2.2.pgOpts.m_iTopoFaceCount ≤ m_iTopoFaceCount2 →
          ∀ tag1 ∈ (meshBuffers K leaf.sTessData s.pgOpts.m_iTopoFaceCount).faceAppSurface,
          ∀ tag2 ∈ (meshBuffers K sTessData2 m_iTopoFaceCount2).faceAppSurface, tag1 < tag2)
    ∧ (∀ (C : SdkConstants) (pModelFile : ModelFile R) (transform : PTTransformMatrix R)
        (s0 : BridgeState R) (r0 : Status × BridgeState R × List Handle),
        A3DModelCreatePGWorld C pModelFile transform s0 = some r0 →
        s0.pgOpts.m_iTopoFaceCount ≤ r0.2.1.pgOpts.m_iTopoFaceCount)
    ∧ (∀ (item : Handle) (eType : Nat),
        A3DRiRepresentationItemCreatePTSolid K (RepItem.other item eType) solid s
          logging_function = some (Status.A3D_PG_INVALID_RI, solid, s)) := by
  obtain ⟨⟨cs, e, hcs, -⟩, hcount, -⟩ :=
    A3DRiRepresentationItemCreatePTSolid_calls K pRepItem poly leaf solid s logging_function r h
  obtain ⟨ta, tb, tc⟩ := facesDecoded_tags K leaf.sTessData s.pgOpts.m_iTopoFaceCount
    (u32 leaf.sTessData.m_uiFaceTessSize)
  have hnn : (0 : Int) ≤ ((u32 leaf.sTessData.m_uiFaceTessSize : Nat) : Int) :=
    Int.ofNat_nonneg _
  refine ⟨?_, ?_, ?_, ?_, ?_, hcount, ?_, ?_, ?_, ?_⟩
  · exact meshes_append_group_calls s r.2.2 _ _ _ _ _ _ cs e hcs
  · rw [List.length_map, meshBuffers_eq_facesDecoded]
    exact ta.symm
  · intro f j hf h1 h2
    rw [meshBuffers_eq_facesDecoded]
    exact tb f j hf h1 h2
  · intro f
    rw [facesDecoded_succ]
    rfl
  · intro tag ht
    rw [meshBuffers_eq_facesDecoded] at ht
    exact tc tag ht
  · rw [hcount]
    split <;> omega
  · intro hok sTessData2 m_iTopoFaceCount2 hle tag1 h1 tag2 h2
    rw [meshBuffers_eq_facesDecoded] at h1 h2
    obtain ⟨-, hlt⟩ := tc tag1 h1
    obtain ⟨hge, -⟩ := (facesDecoded_tags K sTessData2 m_iTopoFaceCount2
      (u32 sTessData2.m_uiFaceTessSize)).2.2 tag2 h2
    rw [hcount, if_pos hok] at hle
    omega
  · intro C pModelFile transform s0 r0 h0
    have hs := A3DModelCreatePGWorld_state C pModelFile transform s0
    rw [h0] at hs
    exact runVisits_count_le C [] transform pModelFile.visits s0 r0.2.1 hs.symm
  · intro item eType
    rfl

/-- Witness for C29: an item with two faces of one triangle each, built on an aggregate
whose running face count is 5: the mesh has two triangles tagged 5 and 6, and the count
is 7 on return. -/
theorem provenance_tags_follow_face_count_witness :
    A3DRiRepresentationItemCreatePTSolid sdkFlags twoFaceItem 0 countFive
        A3D_log_func.nullptr = some twoFaceBuilt
    ∧ twoFaceBuilt.2.2.meshes
      = countFive.meshes
        ++ [(u32 (((meshBuffers sdkFlags twoFaceTess 5).auIndices.map
                fun i => i / 3).length / 3),
            (meshBuffers sdkFlags twoFaceTess 5).auIndices.map (fun i => i / 3),
            (meshBuffers sdkFlags twoFaceTess 5).normal_indices.map (fun i => Int.tdiv i 3),
            (meshBuffers sdkFlags twoFaceTess 5).faceAppSurface)]
    ∧ twoFaceBuilt.2.2.meshes = [(2, [0, 1, 2, 3, 4, 5], [3, 3, 3, 3, 3, 3], [5, 6])]
    ∧ twoFaceBuilt.2.2.pgOpts.m_iTopoFaceCount = 7 :=
  ⟨by decide!,
    (provenance_tags_follow_face_count sdkFlags 100 true
      (leafOf twoFaceTess 1 0 0 500 [(700, 5), (701, 6)] 801 901) 0 countFive
      A3D_log_func.nullptr twoFaceBuilt (by decide!)).1,
    by decide!, by decide!⟩

/-! ## C30: blocks declaring fewer than three points -/

/-- C30 fails on the code for a declared point count of 0 (fans and strips) and of 1
(strips): the loop bound `uiNbPoint - 1` or `uiNbPoint - 2` wraps around in `A3DUns32`,
so the loop runs `2^32 - 2` times (`2^32 - 1` for a strip of one point) and appends
that many triangles, read far beyond the block. The faces below hold one block each,
over empty containers; the length of the vertex-index container after decoding is
three times the number of triangles. For the counts that do not wrap (fans of 1 or 2
points, strips of 2 points) nothing is appended, as claimed. -/
theorem short_block_bound_wraps :
    fanCount 0 = 4294967294 ∧ stripeCount 0 = 4294967294 ∧ stripeCount 1 = 4294967295
    ∧ (IndicesPerFaceAsTriangles sdkFlags (recordOf (faceOf 0x0002 [1, 0] 0) []) 0 [] []
        ).2.auIndices.length = 3 * 4294967294
    ∧ (IndicesPerFaceAsTriangles sdkFlags (recordOf (faceOf 0x0004 [1, 0] 0) []) 0 [] []
        ).2.auIndices.length = 3 * 4294967294
    ∧ (IndicesPerFaceAsTriangles sdkFlags (recordOf (faceOf 0x0004 [1, 1] 0) [10, 0]) 0 [] []
        ).2.auIndices.length = 3 * 4294967295
    ∧ (IndicesPerFaceAsTriangles sdkFlags (recordOf (faceOf 0x0020 [1, 0] 0) []) 0 [] []
        ).2.auIndices.length = 3 * 4294967294
    ∧ (IndicesPerFaceAsTriangles sdkFlags (recordOf (faceOf 0x0040 [1, 0] 0) []) 0 [] []
        ).2.auIndices.length = 3 * 4294967294
    ∧ (IndicesPerFaceAsTriangles sdkFlags (recordOf (faceOf 0x0040 [1, 1] 0) [10, 0]) 0 [] []
        ).2.auIndices.length = 3 * 4294967295
    ∧ (IndicesPerFaceAsTriangles sdkFlags (recordOf (faceOf 0x0002 [1, 1] 0) [10, 0]) 0 [] []
        ).2.auIndices = []
    ∧ (IndicesPerFaceAsTriangles sdkFlags
        (recordOf (faceOf 0x0002 [1, 2] 0) [10, 0, 11, 1]) 0 [] []).2.auIndices = []
    ∧ (IndicesPerFaceAsTriangles sdkFlags
        (recordOf (faceOf 0x0004 [1, 2] 0) [10, 0, 11, 1]) 0 [] []).2.auIndices = []
    ∧ (IndicesPerFaceAsTriangles sdkFlags
        (recordOf (faceOf 0x0020 [1, 2] 0) [10, 0, 1]) 0 [] []).2.auIndices = []
    ∧ (IndicesPerFaceAsTriangles sdkFlags
        (recordOf (faceOf 0x0040 [1, 2] 0) [10, 0, 1]) 0 [] []).2.auIndices = [] := by
  have e0 : fanCount 0 = 4294967294 := by decide
  have e1 : stripeCount 0 = 4294967294 := by decide
  have e2 : stripeCount 1 = 4294967295 := by decide
  refine ⟨e0, e1, e2, ?_, ?_, ?_, ?_, ?_, ?_, by decide, by decide, by decide, by decide,
    by decide⟩
  · rw [(IndicesPerFaceAsTriangles_oneFan sdkFlags_separate _ 0 [] [] (by decide)
      (by decide) (by decide)).1, List.nil_append, length_fanTriangles]
    exact congrArg (3 * ·) e0
  · rw [(IndicesPerFaceAsTriangles_oneStripe sdkFlags_separate _ 0 [] [] (by decide)
      (by decide) (by decide)).1, List.nil_append, length_stripeTriangles]
    exact congrArg (3 * ·) e1
  · rw [(IndicesPerFaceAsTriangles_oneStripe sdkFlags_separate _ 0 [] [] (by decide)
      (by decide) (by decide)).1, List.nil_append, length_stripeTriangles]
    exact congrArg (3 * ·) e2
  · rw [(IndicesPerFaceAsTriangles_oneFanOneNormal sdkFlags_separate _ 0 [] [] (by decide)
      (by decide) (by decide)).1, List.nil_append, length_fanTriangles]
    exact congrArg (3 * ·) e0
  · rw [(IndicesPerFaceAsTriangles_oneStripeOneNormal sdkFlags_separate _ 0 [] [] (by decide)
      (by decide) (by decide)).1, List.nil_append, length_stripeTriangles]
    exact congrArg (3 * ·) e1
  · rw [(IndicesPerFaceAsTriangles_oneStripeOneNormal sdkFlags_separate _ 0 [] [] (by decide)
      (by decide) (by decide)).1, List.nil_append, length_stripeTriangles]
    exact congrArg (3 * ·) e2

end ExchangePolygonicaBridge
